import Mathlib

/-!
# OpenXR mock runtime: sessions, paths, action bindings, spaces and views

A shallow embedding of the parts of `MockRuntime` (`mock_runtime.cpp`,
`mock_runtime.h`, `mock_runtime_interaction_profiles.cpp`), of
`MockInputState` (`mock_input_state.cpp`) and of the driver extension
(`mock_driver_extension.cpp`) that own the session lifecycle, the event queue,
the path tables, the interaction profile catalogue, the action sets and
actions with their bindings to input sources, the spaces, the view
configurations and the forced return codes, followed by the properties proved
about them.

Conventions of the embedding:

* a C string (`const char*`, `std::string`) is the list of its characters
  before the terminating NUL, so `strlen` is `List.length`;
* a pointer into a C string is the index of the character it points at;
* `XrPath`, `XrSession` and `size_t` are 64-bit unsigned integers, carried as
  `Nat` with an explicit `% 2 ^ 64` wherever the source can wrap;
* a method of `MockRuntime` takes the runtime as its first argument and
  returns the runtime it leaves behind next to its C++ result;
* an output parameter is returned as `Option`: `none` when the call did not
  write through the pointer;
* a pointer to an element of a `std::vector` member is the index of the
  element, `none` when null;
* a finite `float` is the rational number it denotes, and a product, a sum
  and a conversion round their exact result to the nearest float;
* a `std::map` is the list of its entries in key order;
* a call of a method that changes the runtime is a `RuntimeCall`, and
  `runCalls` is the runtime after a sequence of such calls.
-/

namespace OpenXRMock

set_option autoImplicit false

/-! ## Protocol types (declared in `openxr.h`) -/

/-- Modelled from the spec: the enumeration `XrSessionState` of `openxr.h`,
which is not part of the sources; the nine states the spec lists in its
section 4.2, in the numeric order of the protocol header. -/
inductive XrSessionState where
  | XR_SESSION_STATE_UNKNOWN
  | XR_SESSION_STATE_IDLE
  | XR_SESSION_STATE_READY
  | XR_SESSION_STATE_SYNCHRONIZED
  | XR_SESSION_STATE_VISIBLE
  | XR_SESSION_STATE_FOCUSED
  | XR_SESSION_STATE_STOPPING
  | XR_SESSION_STATE_LOSS_PENDING
  | XR_SESSION_STATE_EXITING
  deriving DecidableEq, Repr

/-- Modelled from the spec: the result codes of `XrResult` (`openxr.h`) that
the embedded functions return. -/
inductive XrResult where
  | XR_SUCCESS
  | XR_EVENT_UNAVAILABLE
  | XR_ERROR_VALIDATION_FAILURE
  | XR_ERROR_HANDLE_INVALID
  | XR_ERROR_PATH_FORMAT_INVALID
  | XR_ERROR_SESSION_NOT_RUNNING
  | XR_ERROR_PATH_UNSUPPORTED
  | XR_ERROR_ACTION_TYPE_MISMATCH
  | XR_ERROR_ACTIONSET_NOT_ATTACHED
  | XR_ERROR_ACTIONSETS_ALREADY_ATTACHED
  | XR_ERROR_NAME_INVALID
  | XR_ERROR_LOCALIZED_NAME_INVALID
  | XR_ERROR_NAME_DUPLICATED
  | XR_ERROR_LOCALIZED_NAME_DUPLICATED
  | XR_ERROR_LIMIT_REACHED
  | XR_ERROR_SIZE_INSUFFICIENT
  | XR_SESSION_NOT_FOCUSED
  | XR_ERROR_VIEW_CONFIGURATION_TYPE_UNSUPPORTED
  | XR_ERROR_REFERENCE_SPACE_UNSUPPORTED
  | XR_ERROR_FUNCTION_UNSUPPORTED
  | XR_ERROR_PATH_INVALID
  deriving DecidableEq, Repr

/-- Modelled from the spec: the enumeration `XrActionType` of `openxr.h`, the
five action types the spec lists for `createAction`. -/
inductive XrActionType where
  | XR_ACTION_TYPE_BOOLEAN_INPUT
  | XR_ACTION_TYPE_FLOAT_INPUT
  | XR_ACTION_TYPE_VECTOR2F_INPUT
  | XR_ACTION_TYPE_POSE_INPUT
  | XR_ACTION_TYPE_VIBRATION_OUTPUT
  deriving DecidableEq, Repr

/-- Modelled from the spec: the values of `XrStructureType` (`openxr.h`) that
the embedded functions compare the `type` member of an argument structure
with; `XR_TYPE_UNKNOWN` stands for every other value. -/
inductive XrStructureType where
  | XR_TYPE_UNKNOWN
  | XR_TYPE_ACTION_STATE_BOOLEAN
  | XR_TYPE_ACTION_STATE_FLOAT
  | XR_TYPE_ACTION_STATE_VECTOR2F
  | XR_TYPE_ACTION_STATE_POSE
  | XR_TYPE_ACTION_STATE_GET_INFO
  | XR_TYPE_INTERACTION_PROFILE_SUGGESTED_BINDING
  | XR_TYPE_SESSION_ACTION_SETS_ATTACH_INFO
  | XR_TYPE_ACTIONS_SYNC_INFO
  | XR_TYPE_BOUND_SOURCES_FOR_ACTION_ENUMERATE_INFO
  | XR_TYPE_REFERENCE_SPACE_CREATE_INFO
  | XR_TYPE_ACTION_SPACE_CREATE_INFO
  | XR_TYPE_VIEW_CONFIGURATION_VIEW
  deriving DecidableEq, Repr

open XrSessionState XrResult XrActionType XrStructureType

/-- A C string: its characters up to the terminator. -/
abbrev CString := List Char

/-- The handle type `XrPath` (`uint64_t`). -/
abbrev XrPath := Nat

/-- The handle type `XrSession`. -/
abbrev XrSession := Nat

/-- The handle type `XrAction`. -/
abbrev XrAction := Nat

/-- The handle type `XrActionSet`. -/
abbrev XrActionSet := Nat

/-- The type `XrBool32` (`uint32_t`): zero is false, every other value true. -/
abbrev XrBool32 := Nat

/-- The C type `float` (IEEE 754 binary32). A finite value is carried as the
rational number it denotes; a stored value is always finite here, so a NaN or
an infinity that a caller passes in is outside the embedding. Copies,
comparisons and the absolute value are exact on these numbers. A product, a
sum and a conversion from an integer are not the operations of `ℚ`: they
round the exact result to the nearest float (`CFloat.round`), and a product
or a sum can leave the finite range (`FloatResult`). -/
abbrev CFloat := ℚ

namespace CFloat

/-- The number of binary digits of `n`, counted in at most `fuel` steps. -/
def bitLengthAux : Nat → Nat → Nat
  | 0, _ => 0
  | fuel + 1, n => if n = 0 then 0 else bitLengthAux fuel (n / 2) + 1

/-- The number of binary digits of a natural number: 0 for 0, and `k + 1` for
a number from `2 ^ k` up to `2 ^ (k + 1) - 1`. -/
def bitLength (n : Nat) : Nat := bitLengthAux n n

/-- The exponent `q` of the spacing `2 ^ q` of the floats around the positive
rational `a / b`: with `e` the integer for which `2 ^ e ≤ a / b < 2 ^ (e + 1)`,
which is the difference of the digit counts or one less, the significand has
24 binary digits, so `q = e - 23`, and below the smallest normal number
`2 ^ -126` the spacing stays that of the subnormal numbers, `2 ^ -149`. -/
def quantum (a b : Nat) : Int :=
  let e0 : Int := (bitLength a : Int) - (bitLength b : Int)
  let e : Int := if b * 2 ^ e0.toNat ≤ a * 2 ^ (-e0).toNat then e0 else e0 - 1
  max e (-126) - 23

/-- The multiple of the spacing `2 ^ q` nearest to the rational `a / b`, which
is not negative: `a / b` is `lower + rest / d` spacings, and it is rounded up
when the fraction is above one half, or is one half and `lower` is odd (round
to nearest, ties to even). The exponent is not bounded above here. -/
def roundMagnitude (a b : Nat) : ℚ :=
  if a = 0 ∨ b = 0 then 0
  else
    let q := quantum a b
    let n := a * 2 ^ (-q).toNat
    let d := b * 2 ^ q.toNat
    let lower := n / d
    let rest := n % d
    let m := if 2 * rest > d ∨ (2 * rest = d ∧ lower % 2 = 1) then lower + 1 else lower
    (m : ℚ) * 2 ^ q

/-- The rounding of an exact result to the `float` format in the default
rounding mode, to nearest with ties to even, without the test for overflow:
the result is a float or has a magnitude of at least `2 ^ 128`. -/
def round (q : ℚ) : ℚ :=
  if q < 0 then -roundMagnitude q.num.natAbs q.den else roundMagnitude q.num.natAbs q.den

end CFloat

/-- The value of an expression of type `float`: a finite float, an infinity
or a NaN. -/
inductive FloatResult where
  | finite (value : ℚ)
  | posInf
  | negInf
  | nan
  deriving DecidableEq, Repr

namespace FloatResult

/-- The float result for an exact result `q` of an operation on finite
operands: `q` rounded, and an infinity when the rounded magnitude is beyond
the largest float, `2 ^ 128 - 2 ^ 104`. -/
def ofExact (q : ℚ) : FloatResult :=
  if CFloat.round q ≥ 2 ^ 128 then posInf
  else if CFloat.round q ≤ -2 ^ 128 then negInf
  else finite (CFloat.round q)

/-- The operator `+` on `float`. -/
def add : FloatResult → FloatResult → FloatResult
  | finite a, finite b => ofExact (a + b)
  | nan, _ => nan
  | _, nan => nan
  | posInf, negInf => nan
  | negInf, posInf => nan
  | posInf, _ => posInf
  | _, posInf => posInf
  | negInf, _ => negInf
  | _, negInf => negInf

/-- The operator `>` on `float`: false when an operand is a NaN. -/
def gt : FloatResult → FloatResult → Bool
  | nan, _ => false
  | _, nan => false
  | finite a, finite b => decide (a > b)
  | posInf, posInf => false
  | posInf, _ => true
  | _, posInf => false
  | negInf, _ => false
  | _, negInf => true

end FloatResult

/-- The operator `*` on two finite values of type `float`. Every operation is
rounded to `float` by itself, as in a build that evaluates `float` expressions
in `float` and does not fuse a product with a sum. -/
def CFloat.mul (x y : CFloat) : FloatResult := FloatResult.ofExact (x * y)

/-- The structure `XrVector2f` of `openxr.h`. -/
structure XrVector2f where
  x : CFloat
  y : CFloat
  deriving DecidableEq, Repr

/-- The structure `XrQuaternionf` of `openxr.h`. -/
structure XrQuaternionf where
  x : CFloat
  y : CFloat
  z : CFloat
  w : CFloat
  deriving DecidableEq, Repr

/-- The structure `XrVector3f` of `openxr.h`. -/
structure XrVector3f where
  x : CFloat
  y : CFloat
  z : CFloat
  deriving DecidableEq, Repr

/-- The structure `XrPosef` of `openxr.h`. -/
structure XrPosef where
  orientation : XrQuaternionf
  position : XrVector3f
  deriving DecidableEq, Repr

/-- The structure `XrFovf` of `openxr.h`. -/
structure XrFovf where
  angleLeft : CFloat
  angleRight : CFloat
  angleUp : CFloat
  angleDown : CFloat
  deriving DecidableEq, Repr

/-- The structure `XrExtent2Df` of `openxr.h`. -/
structure XrExtent2Df where
  width : CFloat
  height : CFloat
  deriving DecidableEq, Repr

/-- The handle type `XrSpace`. -/
abbrev XrSpace := Nat

/-- The flag word `XrSpaceLocationFlags` (`XrFlags64`). -/
abbrev XrSpaceLocationFlags := Nat

/-- The flag word `XrViewStateFlags` (`XrFlags64`). -/
abbrev XrViewStateFlags := Nat

/-- The enumeration `XrViewConfigurationType`, by its integer value. -/
abbrev XrViewConfigurationType := Nat

/-- The enumeration `XrReferenceSpaceType`, by its integer value. -/
abbrev XrReferenceSpaceType := Nat

/-- The enumeration `XrEnvironmentBlendMode`, by its integer value. -/
abbrev XrEnvironmentBlendMode := Nat

/-- The value a value-initialised `XrPosef()` holds: every member zero. -/
def XrPosef.zero : XrPosef :=
  { orientation := { x := 0, y := 0, z := 0, w := 0 }, position := { x := 0, y := 0, z := 0 } }

/-- The identity pose `{{0, 0, 0, 1}, {0, 0, 0}}`. -/
def XrPosef.identity : XrPosef :=
  { orientation := { x := 0, y := 0, z := 0, w := 1 }, position := { x := 0, y := 0, z := 0 } }

/-- The structure `XrViewConfigurationView` of `openxr.h`. -/
structure XrViewConfigurationView where
  type : XrStructureType
  recommendedImageRectWidth : Nat
  maxImageRectWidth : Nat
  recommendedImageRectHeight : Nat
  maxImageRectHeight : Nat
  recommendedSwapchainSampleCount : Nat
  maxSwapchainSampleCount : Nat
  deriving DecidableEq, Repr

/-- The constant `XR_VIEW_CONFIGURATION_TYPE_PRIMARY_MONO` of `openxr.h`. -/
def XR_VIEW_CONFIGURATION_TYPE_PRIMARY_MONO : XrViewConfigurationType := 1

/-- The constant `XR_VIEW_CONFIGURATION_TYPE_PRIMARY_STEREO` of `openxr.h`. -/
def XR_VIEW_CONFIGURATION_TYPE_PRIMARY_STEREO : XrViewConfigurationType := 2

/-- The bit `XR_SPACE_LOCATION_ORIENTATION_VALID_BIT` of `openxr.h`. -/
def XR_SPACE_LOCATION_ORIENTATION_VALID_BIT : XrSpaceLocationFlags := 0x00000001

/-- The bit `XR_SPACE_LOCATION_POSITION_VALID_BIT` of `openxr.h`. -/
def XR_SPACE_LOCATION_POSITION_VALID_BIT : XrSpaceLocationFlags := 0x00000002

/-- The bit `XR_SPACE_LOCATION_ORIENTATION_TRACKED_BIT` of `openxr.h`. -/
def XR_SPACE_LOCATION_ORIENTATION_TRACKED_BIT : XrSpaceLocationFlags := 0x00000004

/-- The bit `XR_SPACE_LOCATION_POSITION_TRACKED_BIT` of `openxr.h`. -/
def XR_SPACE_LOCATION_POSITION_TRACKED_BIT : XrSpaceLocationFlags := 0x00000008

/-- The bit `XR_VIEW_STATE_ORIENTATION_VALID_BIT` of `openxr.h`. -/
def XR_VIEW_STATE_ORIENTATION_VALID_BIT : XrViewStateFlags := 0x00000001

/-- The bit `XR_VIEW_STATE_POSITION_VALID_BIT` of `openxr.h`. -/
def XR_VIEW_STATE_POSITION_VALID_BIT : XrViewStateFlags := 0x00000002

/-- The bit `XR_VIEW_STATE_ORIENTATION_TRACKED_BIT` of `openxr.h`. -/
def XR_VIEW_STATE_ORIENTATION_TRACKED_BIT : XrViewStateFlags := 0x00000004

/-- The bit `XR_VIEW_STATE_POSITION_TRACKED_BIT` of `openxr.h`. -/
def XR_VIEW_STATE_POSITION_TRACKED_BIT : XrViewStateFlags := 0x00000008

/-- The constant `XR_ENVIRONMENT_BLEND_MODE_OPAQUE` of `openxr.h`. -/
def XR_ENVIRONMENT_BLEND_MODE_OPAQUE : XrEnvironmentBlendMode := 1

/-- The constant `XR_REFERENCE_SPACE_TYPE_VIEW` of `openxr.h`. -/
def XR_REFERENCE_SPACE_TYPE_VIEW : XrReferenceSpaceType := 1

/-- The constant `XR_REFERENCE_SPACE_TYPE_LOCAL` of `openxr.h`. -/
def XR_REFERENCE_SPACE_TYPE_LOCAL : XrReferenceSpaceType := 2

/-- The constant `XR_REFERENCE_SPACE_TYPE_STAGE` of `openxr.h`. -/
def XR_REFERENCE_SPACE_TYPE_STAGE : XrReferenceSpaceType := 3

/-- The constant `XR_REFERENCE_SPACE_TYPE_UNBOUNDED_MSFT` of `openxr.h`. -/
def XR_REFERENCE_SPACE_TYPE_UNBOUNDED_MSFT : XrReferenceSpaceType := 1000038000

/-- The constant `XR_MAX_ACTION_SET_NAME_SIZE` of `openxr.h`. -/
def XR_MAX_ACTION_SET_NAME_SIZE : Nat := 64

/-- The constant `XR_MAX_LOCALIZED_ACTION_SET_NAME_SIZE` of `openxr.h`. -/
def XR_MAX_LOCALIZED_ACTION_SET_NAME_SIZE : Nat := 128

/-- The constant `XR_MAX_ACTION_NAME_SIZE` of `openxr.h`. -/
def XR_MAX_ACTION_NAME_SIZE : Nat := 64

/-- The constant `XR_MAX_LOCALIZED_ACTION_NAME_SIZE` of `openxr.h`. -/
def XR_MAX_LOCALIZED_ACTION_NAME_SIZE : Nat := 128

/-- The constant `XR_NULL_PATH` of `openxr.h`. -/
def XR_NULL_PATH : XrPath := 0

/-- The constant `XR_NULL_HANDLE` of `openxr.h`. -/
def XR_NULL_HANDLE : Nat := 0

/-- Modelled from the spec: the constant `XR_MAX_PATH_LENGTH` of `openxr.h`,
the protocol-defined maximum length of a path string, terminator included. -/
def XR_MAX_PATH_LENGTH : Nat := 256

/-- An entry of `eventQueue` (`XrEventDataBuffer`), by the event structure the
runtime writes into the freshly emplaced buffer; each constructor carries the
fields that the enqueuing function assigns. -/
inductive XrEventDataBuffer where
  /-- Event `XR_TYPE_EVENT_DATA_SESSION_STATE_CHANGED`, from `ChangeSessionState`. -/
  | sessionStateChanged (session : XrSession) (state : XrSessionState)
  /-- Event `XR_TYPE_EVENT_DATA_INTERACTION_PROFILE_CHANGED`, from `BeginSession`. -/
  | interactionProfileChanged (session : XrSession)
  /-- Event `XR_TYPE_EVENT_DATA_REFERENCE_SPACE_CHANGE_PENDING`. -/
  | referenceSpaceChangePending (session : XrSession) (referenceSpaceType : Nat)
  /-- Event `XR_TYPE_EVENT_DATA_INSTANCE_LOSS_PENDING`. -/
  | instanceLossPending (lossTime : Int)
  /-- Event `XR_TYPE_EVENT_DATA_VISIBILITY_MASK_CHANGED_KHR`. -/
  | visibilityMaskChangedKHR (session : XrSession) (viewConfigurationType : Nat)
      (viewIndex : Nat)
  deriving DecidableEq, Repr

/-! ## Input states, actions and interaction profiles -/

/-- The class `MockInputState` (`mock_input_state.h`). The members of the
union `value` are carried as separate fields; every accessor reads the member
that belongs to `type`. The two members of `locationValue` start as the zero
bytes of a value-initialised element. -/
structure MockInputState where
  interactionProfile : XrPath
  path : XrPath
  type : XrActionType
  boolValue : XrBool32
  floatValue : CFloat
  vectorValue : XrVector2f
  locationSpace : XrSpace := 0
  locationPose : XrPosef := XrPosef.zero
  deriving DecidableEq, Repr

namespace MockInputState

/-- Method `MockInputState::IsType`. -/
def IsType (st : MockInputState) (actionType : XrActionType) : Bool :=
  st.type == actionType

/-- Method `MockInputState::IsCompatibleType`. -/
def IsCompatibleType (st : MockInputState) (actionType : XrActionType) : Bool :=
  match st.type with
  | XR_ACTION_TYPE_BOOLEAN_INPUT | XR_ACTION_TYPE_FLOAT_INPUT =>
    actionType == XR_ACTION_TYPE_FLOAT_INPUT || actionType == XR_ACTION_TYPE_BOOLEAN_INPUT
  | _ => st.IsType actionType

/-- Method `MockInputState::GetFloat`; `(float)value.boolValue` converts the
unsigned 32-bit integer to the nearest float, which is the integer itself
below `2 ^ 24` and never leaves the finite range. -/
def GetFloat (st : MockInputState) : CFloat :=
  match st.type with
  | XR_ACTION_TYPE_BOOLEAN_INPUT => CFloat.round (st.boolValue : ℚ)
  | XR_ACTION_TYPE_FLOAT_INPUT => st.floatValue
  | _ => 0

/-- Method `MockInputState::GetBoolean`. -/
def GetBoolean (st : MockInputState) : XrBool32 :=
  match st.type with
  | XR_ACTION_TYPE_BOOLEAN_INPUT => st.boolValue
  | XR_ACTION_TYPE_FLOAT_INPUT => if st.floatValue ≠ 0 then 1 else 0
  | _ => 0

/-- Method `MockInputState::GetVector2`. -/
def GetVector2 (st : MockInputState) : XrVector2f :=
  if st.type = XR_ACTION_TYPE_VECTOR2F_INPUT then st.vectorValue else { x := 0, y := 0 }

/-- Method `MockInputState::GetLocationSpace`. -/
def GetLocationSpace (st : MockInputState) : XrSpace :=
  if st.type = XR_ACTION_TYPE_POSE_INPUT then st.locationSpace else 0

/-- Method `MockInputState::GetLocationPose`. -/
def GetLocationPose (st : MockInputState) : XrPosef :=
  if st.type = XR_ACTION_TYPE_POSE_INPUT then st.locationPose else XrPosef.zero

/-- Method `MockInputState::CopyValue`. -/
def CopyValue (st state : MockInputState) : MockInputState :=
  match st.type with
  | XR_ACTION_TYPE_BOOLEAN_INPUT => { st with boolValue := state.GetBoolean }
  | XR_ACTION_TYPE_FLOAT_INPUT => { st with floatValue := state.GetFloat }
  | XR_ACTION_TYPE_VECTOR2F_INPUT => { st with vectorValue := state.GetVector2 }
  | XR_ACTION_TYPE_POSE_INPUT =>
    { st with locationSpace := state.GetLocationSpace, locationPose := state.GetLocationPose }
  | _ => st

end MockInputState

/-- The structure `MockRuntime::MockAction`. A binding, in the source a pointer
to an element of `inputStates`, is the index of that element. -/
structure MockAction where
  action : XrAction
  path : XrPath
  name : CString
  localizedName : CString
  type : XrActionType
  bindings : List Nat
  userPaths : List XrPath
  isDestroyed : Bool
  deriving DecidableEq, Repr

/-- The structure `MockRuntime::MockActionSet`. -/
structure MockActionSet where
  actionSet : XrActionSet
  attached : Bool
  name : CString
  localizedName : CString
  actions : List MockAction
  isDestroyed : Bool
  deriving DecidableEq, Repr

/-- The structure `MockRuntime::MockInteractionInputSource`. -/
structure MockInteractionInputSource where
  path : XrPath
  actionType : XrActionType
  deriving DecidableEq, Repr

/-- The structure `MockRuntime::MockInteractionProfile`. -/
structure MockInteractionProfile where
  path : XrPath
  userPaths : List XrPath
  inputSources : List MockInteractionInputSource
  deriving DecidableEq, Repr

/-- The structure `XrActionStateGetInfo` of `openxr.h`, by the members the
runtime reads. -/
structure XrActionStateGetInfo where
  type : XrStructureType
  action : XrAction
  subactionPath : XrPath
  deriving DecidableEq, Repr

/-- The structure `XrActionSuggestedBinding` of `openxr.h`. -/
structure XrActionSuggestedBinding where
  action : XrAction
  binding : XrPath
  deriving DecidableEq, Repr

/-- The structure `XrInteractionProfileSuggestedBinding` of `openxr.h`, by the
members the runtime reads. `suggestedBindings` is the array pointer, `none`
when null; the runtime reads its first `countSuggestedBindings` elements. -/
structure XrInteractionProfileSuggestedBinding where
  type : XrStructureType
  interactionProfile : XrPath
  countSuggestedBindings : Nat
  suggestedBindings : Option (List XrActionSuggestedBinding)
  deriving DecidableEq, Repr

/-- The structure `MockRuntime::MockSpace`. -/
structure MockSpace where
  pose : XrPosef
  isDestroyed : Bool
  action : XrAction
  subActionPath : XrPath
  deriving DecidableEq, Repr

/-- The structure `MockRuntime::MockView`. -/
structure MockView where
  configuration : XrViewConfigurationView
  pose : XrPosef
  fov : XrFovf
  deriving DecidableEq, Repr

/-- The structure `MockRuntime::MockViewConfiguration`. -/
structure MockViewConfiguration where
  stateFlags : XrViewStateFlags
  views : List MockView
  primary : Bool
  enabled : Bool
  active : Bool
  deriving DecidableEq, Repr

/-- The create flag `MR_CREATE_CONFORMANCE_AUTOMATION_EXT` (`mock_runtime.h`). -/
def MR_CREATE_CONFORMANCE_AUTOMATION_EXT : Nat := 0x00000004

/-- The create flag `MR_CREATE_MSFT_SECONDARY_VIEW_CONFIGURATION_EXT`
(`mock_runtime.h`). -/
def MR_CREATE_MSFT_SECONDARY_VIEW_CONFIGURATION_EXT : Nat := 0x00000080

/-! ## The runtime object -/

/-- The data members of `class MockRuntime` (`mock_runtime.h`) that the
session state machine, the path interner and the action binding engine read
or write. `eventQueue` is the `std::queue`: its front is the head of the list
and `emplace` appends behind the last entry. `activeInteractionProfile`, in
the source a pointer to an element of `interactionProfiles`, is the index of
that element, `none` when null. `viewConfigurations` and `extentMap` are the
`std::map`s, as the list of their entries in key order with one entry per key,
and `functionResultMap` is the `std::unordered_map`, as a list with one entry
per key. The constructor leaves `instanceIsLost` and the two layer counters
uninitialised; they are carried from `false` and zero. -/
structure MockRuntime where
  interactionProfiles : List MockInteractionProfile
  createFlags : Nat
  eventQueue : List XrEventDataBuffer
  session : XrSession
  currentState : XrSessionState
  isRunning : Bool
  exitSessionRequested : Bool
  actionSetsAttached : Bool
  componentPathStrings : List CString
  userPathStrings : List CString
  actionSets : List MockActionSet
  inputStates : List MockInputState
  activeInteractionProfile : Option Nat
  spaces : List MockSpace
  spacePoseOverriden : Bool
  spacePose : XrPosef
  spaceLocationFlags : XrSpaceLocationFlags
  viewConfigurations : List (XrViewConfigurationType × MockViewConfiguration)
  blendMode : XrEnvironmentBlendMode
  extentMap : List (XrReferenceSpaceType × XrExtent2Df)
  instanceIsLost : Bool
  primaryLayersRendered : Int
  secondaryLayersRendered : Int
  functionResultMap : List (CString × XrResult)
  endFrameCallback : Option Nat
  deriving DecidableEq, Repr

namespace MockRuntime

/-- The local `defaultStateFlags` of the constructor. -/
def defaultStateFlags : XrViewStateFlags :=
  XR_VIEW_STATE_ORIENTATION_TRACKED_BIT ||| XR_VIEW_STATE_ORIENTATION_VALID_BIT |||
    XR_VIEW_STATE_POSITION_TRACKED_BIT ||| XR_VIEW_STATE_POSITION_VALID_BIT

/-- The local `defaultViewConfig` of the constructor. -/
def defaultViewConfig : XrViewConfigurationView :=
  { type := XR_TYPE_VIEW_CONFIGURATION_VIEW
    recommendedImageRectWidth := 1512
    maxImageRectWidth := 1512 * 2
    recommendedImageRectHeight := 1680
    maxImageRectHeight := 1680 * 2
    recommendedSwapchainSampleCount := 1
    maxSwapchainSampleCount := 1 }

/-- The local `stereoViewConfig` of the constructor: the two eyes of the
primary stereo view configuration. A literal such as `-0.011f` is the float
nearest to the decimal number written. -/
def stereoViewConfig : MockViewConfiguration :=
  { primary := true
    enabled := true
    active := true
    stateFlags := defaultStateFlags
    views :=
      [{ configuration := defaultViewConfig
         pose := { orientation := { x := 0, y := 0, z := 0, w := 1 },
                   position := { x := CFloat.round (-11 / 1000), y := 0, z := 0 } }
         fov := { angleLeft := CFloat.round (-995535672 / 1000000000),
                  angleRight := CFloat.round (811128199 / 1000000000),
                  angleUp := CFloat.round (954059243 / 1000000000),
                  angleDown := CFloat.round (-954661012 / 1000000000) } },
       { configuration := defaultViewConfig
         pose := { orientation := { x := 0, y := 0, z := 0, w := 1 },
                   position := { x := CFloat.round (11 / 1000), y := 0, z := 0 } }
         fov := { angleLeft := CFloat.round (-812360585 / 1000000000),
                  angleRight := CFloat.round (995566666 / 1000000000),
                  angleUp := CFloat.round (955580175 / 1000000000),
                  angleDown := CFloat.round (-953877985 / 1000000000) } }] }

/-- The member initialisation of the constructor `MockRuntime::MockRuntime`,
for a runtime created with no create flag: no session, state unknown, empty
event queue, flags cleared, no active interaction profile, no space-pose
override, the primary stereo view configuration and the four built-in user
paths. The component-path table, the profiles and the input
states are the empty ones the constructor holds before
`InitializeInteractionProfiles` interns and loads the catalogue. -/
def ctor : MockRuntime where
  interactionProfiles := []
  createFlags := 0
  actionSets := []
  inputStates := []
  activeInteractionProfile := none
  spaces := []
  spacePoseOverriden := false
  spacePose := XrPosef.identity
  spaceLocationFlags :=
    XR_SPACE_LOCATION_ORIENTATION_VALID_BIT ||| XR_SPACE_LOCATION_POSITION_VALID_BIT |||
      XR_SPACE_LOCATION_ORIENTATION_TRACKED_BIT ||| XR_SPACE_LOCATION_POSITION_TRACKED_BIT
  viewConfigurations := [(XR_VIEW_CONFIGURATION_TYPE_PRIMARY_STEREO, stereoViewConfig)]
  blendMode := XR_ENVIRONMENT_BLEND_MODE_OPAQUE
  extentMap := []
  instanceIsLost := false
  primaryLayersRendered := 0
  secondaryLayersRendered := 0
  functionResultMap := []
  endFrameCallback := none
  eventQueue := []
  session := XR_NULL_HANDLE
  currentState := XR_SESSION_STATE_UNKNOWN
  isRunning := false
  exitSessionRequested := false
  actionSetsAttached := false
  componentPathStrings := []
  userPathStrings :=
    ["/user/hand/left".toList, "/user/hand/right".toList, "/user/head".toList,
      "/user/gamepad".toList]

/-- Method `MockRuntime::GetSession`. -/
def GetSession (rt : MockRuntime) : XrSession := rt.session

/-- Method `MockRuntime::IsSessionState`. -/
def IsSessionState (rt : MockRuntime) (state : XrSessionState) : Bool :=
  rt.currentState == state

/-- Method `MockRuntime::IsSessionRunning`. -/
def IsSessionRunning (rt : MockRuntime) : Bool := rt.isRunning

/-- Method `MockRuntime::ChangeSessionState`: nothing when the state is already
`state`; otherwise the state is assigned and a session-state-changed event
for the current session handle is emplaced at the back of the queue. -/
def ChangeSessionState (rt : MockRuntime) (state : XrSessionState) : MockRuntime :=
  if rt.currentState = state then rt
  else
    { rt with
      currentState := state
      eventQueue := rt.eventQueue ++ [XrEventDataBuffer.sessionStateChanged rt.session state] }

/-- Method `MockRuntime::ChangeSessionStateFrom`: the change is made only when the
runtime is in `fromState`; the Boolean says whether it was. -/
def ChangeSessionStateFrom (rt : MockRuntime) (fromState toState : XrSessionState) :
    Bool × MockRuntime :=
  if !rt.IsSessionState fromState then (false, rt)
  else (true, rt.ChangeSessionState toState)

/-- Method `MockRuntime::CreateSession`; the create info is not read. -/
def CreateSession (rt : MockRuntime) : XrResult × MockRuntime :=
  let rt1 := { rt with session := 3 }
  let rt2 := rt1.ChangeSessionState XR_SESSION_STATE_IDLE
  let rt3 := (rt2.ChangeSessionStateFrom XR_SESSION_STATE_IDLE XR_SESSION_STATE_READY).2
  (XR_SUCCESS, rt3)

/-- Method `MockRuntime::GetNextEvent`. `eventData` tells whether the buffer
pointer of the caller is non-null; the second component is the event copied
into it. -/
def GetNextEvent (rt : MockRuntime) (eventData : Bool) :
    XrResult × Option XrEventDataBuffer × MockRuntime :=
  if !eventData then (XR_ERROR_HANDLE_INVALID, none, rt)
  else
    match rt.eventQueue with
    | front :: rest => (XR_SUCCESS, some front, { rt with eventQueue := rest })
    | [] => (XR_EVENT_UNAVAILABLE, none, rt)

/-- Method `MockRuntime::IsStateTransitionValid`. -/
def IsStateTransitionValid (rt : MockRuntime) (newState : XrSessionState) : Bool :=
  if newState = XR_SESSION_STATE_LOSS_PENDING then true
  else
    match rt.currentState with
    | XR_SESSION_STATE_IDLE =>
      newState == XR_SESSION_STATE_READY || newState == XR_SESSION_STATE_EXITING
    | XR_SESSION_STATE_READY => newState == XR_SESSION_STATE_SYNCHRONIZED
    | XR_SESSION_STATE_SYNCHRONIZED =>
      newState == XR_SESSION_STATE_STOPPING || newState == XR_SESSION_STATE_VISIBLE
    | XR_SESSION_STATE_VISIBLE =>
      newState == XR_SESSION_STATE_SYNCHRONIZED || newState == XR_SESSION_STATE_FOCUSED
    | XR_SESSION_STATE_FOCUSED => newState == XR_SESSION_STATE_VISIBLE
    | XR_SESSION_STATE_STOPPING => newState == XR_SESSION_STATE_IDLE
    | XR_SESSION_STATE_LOSS_PENDING => newState == XR_SESSION_STATE_LOSS_PENDING
    | XR_SESSION_STATE_EXITING => newState == XR_SESSION_STATE_IDLE
    | _ => false

/-- Method `MockRuntime::BeginSession`. The begin info is read only by
`MSFTSecondaryViewConfiguration_BeginSession`, a member function whose body is
not among the sources; it is taken to work on its own member
`secondaryViewConfigurationStates` only, and `msftResult` is the result it
returns. -/
def BeginSession (rt : MockRuntime) (msftResult : XrResult) : XrResult × MockRuntime :=
  let rt0 := { rt with isRunning := true }
  let rt1 := (rt0.ChangeSessionStateFrom XR_SESSION_STATE_READY XR_SESSION_STATE_SYNCHRONIZED).2
  let rt2 := (rt1.ChangeSessionStateFrom XR_SESSION_STATE_SYNCHRONIZED XR_SESSION_STATE_VISIBLE).2
  let rt3 := (rt2.ChangeSessionStateFrom XR_SESSION_STATE_VISIBLE XR_SESSION_STATE_FOCUSED).2
  let rt4 :=
    if rt3.activeInteractionProfile ≠ none then
      { rt3 with
        eventQueue := rt3.eventQueue ++ [XrEventDataBuffer.interactionProfileChanged rt3.session] }
    else rt3
  if rt4.createFlags &&& MR_CREATE_MSFT_SECONDARY_VIEW_CONFIGURATION_EXT ≠ 0 then
    (msftResult, rt4)
  else (XR_SUCCESS, rt4)

/-- Method `MockRuntime::EndSession`. -/
def EndSession (rt : MockRuntime) : XrResult × MockRuntime :=
  let rt0 := { rt with isRunning := false }
  let rt1 := (rt0.ChangeSessionStateFrom XR_SESSION_STATE_STOPPING XR_SESSION_STATE_IDLE).2
  if rt1.exitSessionRequested then
    let rt2 := { rt1 with exitSessionRequested := false }
    (XR_SUCCESS,
      (rt2.ChangeSessionStateFrom XR_SESSION_STATE_IDLE XR_SESSION_STATE_EXITING).2)
  else (XR_SUCCESS, rt1)

/-- Method `MockRuntime::RequestExitSession`. -/
def RequestExitSession (rt : MockRuntime) : XrResult × MockRuntime :=
  if !rt.IsSessionRunning then (XR_ERROR_SESSION_NOT_RUNNING, rt)
  else
    let rt1 := (rt.ChangeSessionStateFrom XR_SESSION_STATE_FOCUSED XR_SESSION_STATE_VISIBLE).2
    let rt2 :=
      (rt1.ChangeSessionStateFrom XR_SESSION_STATE_VISIBLE XR_SESSION_STATE_SYNCHRONIZED).2
    let rt3 :=
      (rt2.ChangeSessionStateFrom XR_SESSION_STATE_SYNCHRONIZED XR_SESSION_STATE_STOPPING).2
    (XR_SUCCESS, { rt3 with exitSessionRequested := true })

/-! ### Path interner -/

/-- The test of the branch "non-period valid characters" of `ValidatePath`:
a digit, a lowercase letter, `-` or `_`. -/
def isNonPeriodChar (ch : Char) : Bool :=
  (decide ('0' ≤ ch) && decide (ch ≤ '9')) || (decide ('a' ≤ ch) && decide (ch ≤ 'z')) ||
    ch == '-' || ch == '_'

/-- The `for` loop of `ValidatePath`. The first argument is the string from
`c` on; `c`, `p`, `nonperiod` and `slash` are the four pointers, as indices
into the path. `none` is the `return XR_ERROR_PATH_FORMAT_INVALID` inside the
loop, `some` the pointers with which the loop ends at the terminator. -/
def ValidatePath.loop : List Char → Nat → Nat → Nat → Nat → Option (Nat × Nat × Nat × Nat)
  | [], c, p, nonperiod, slash => some (c, p, nonperiod, slash)
  | ch :: rest, c, p, nonperiod, slash =>
    if ch = '/' ∧ nonperiod = slash then none
    else if isNonPeriodChar ch then ValidatePath.loop rest (c + 1) (p + 1) c slash
    else if ch = '.' then ValidatePath.loop rest (c + 1) (p + 1) nonperiod slash
    else if ch = '/' then ValidatePath.loop rest (c + 1) (p + 1) c c
    else none

/-- Method `MockRuntime::ValidatePath`; it reads no member of the runtime. The last
test compares the pointer difference `c - p + 1` with `XR_MAX_PATH_LENGTH`. -/
def ValidatePath (path : CString) : XrResult :=
  if path.head? ≠ some '/' then XR_ERROR_PATH_FORMAT_INVALID
  else
    match ValidatePath.loop (path.drop 1) 1 0 0 0 with
    | none => XR_ERROR_PATH_FORMAT_INVALID
    | some (c, p, nonperiod, slash) =>
      if path[p]? = some '/' then XR_ERROR_PATH_FORMAT_INVALID
      else if nonperiod = slash then XR_ERROR_PATH_FORMAT_INVALID
      else if (c : Int) - (p : Int) + 1 > (XR_MAX_PATH_LENGTH : Int) then
        XR_ERROR_PATH_FORMAT_INVALID
      else XR_SUCCESS

/-- The first loop of `StringToPath`, over `userPathStrings` from index `i`:
at the first entry that `strncmp` finds at the start of `pathString`, the
handle gets the entry's 1-based index and `pathString` moves past the entry.
Returns the handle `result` and the remaining `pathString`. -/
def StringToPath.userLoop (pathString : CString) : List CString → Nat → XrPath × CString
  | [], _ => (XR_NULL_PATH, pathString)
  | userPathString :: more, i =>
    if userPathString.isPrefixOf pathString then
      (XR_NULL_PATH ||| ((i + 1) % 2 ^ 64), pathString.drop userPathString.length)
    else StringToPath.userLoop pathString more (i + 1)

/-- The second loop of `StringToPath`, over `componentPathStrings` from index
`i`: the index of the first entry that `strcmp` finds equal to `pathString`. -/
def StringToPath.componentLoop (pathString : CString) : List CString → Nat → Option Nat
  | [], _ => none
  | componentPathString :: more, i =>
    if pathString = componentPathString then some i
    else StringToPath.componentLoop pathString more (i + 1)

/-- Method `XrResult MockRuntime::StringToPath(const char*, XrPath*)`. The middle
component is the value written to `*path`. -/
def StringToPath (rt : MockRuntime) (pathString : CString) :
    XrResult × Option XrPath × MockRuntime :=
  if ValidatePath pathString ≠ XR_SUCCESS then (ValidatePath pathString, none, rt)
  else if pathString.length ≥ XR_MAX_PATH_LENGTH then
    (XR_ERROR_PATH_FORMAT_INVALID, some XR_NULL_PATH, rt)
  else
    let user := StringToPath.userLoop pathString rt.userPathStrings 0
    let result := user.1
    let pathString := user.2
    if pathString.head? = some '/' then
      match StringToPath.componentLoop pathString rt.componentPathStrings 0 with
      | some i => (XR_SUCCESS, some (result ||| (((i + 1) <<< 32) % 2 ^ 64)), rt)
      | none =>
        let rt1 := { rt with componentPathStrings := rt.componentPathStrings ++ [pathString] }
        (XR_SUCCESS, some (result ||| ((rt1.componentPathStrings.length <<< 32) % 2 ^ 64)), rt1)
    else (XR_SUCCESS, some result, rt)

/-- Method `XrPath MockRuntime::StringToPath(const char*)`: the handle, or the null
path when the two-argument form fails. -/
def StringToPathOrNull (rt : MockRuntime) (pathString : CString) : XrPath × MockRuntime :=
  match rt.StringToPath pathString with
  | (XR_SUCCESS, some path, rt1) => (path, rt1)
  | (XR_SUCCESS, none, rt1) => (XR_NULL_PATH, rt1)
  | (_, _, rt1) => (XR_NULL_PATH, rt1)

/-- Method `std::string MockRuntime::PathToString(XrPath) const`. The two indices are
`size_t` values, so the subtraction of one wraps around at zero. -/
def PathToString (rt : MockRuntime) (path : XrPath) : CString :=
  let userPath := ((path &&& 0xFFFFFFFF) + (2 ^ 64 - 1)) % 2 ^ 64
  let componentPath := ((path >>> 32) + (2 ^ 64 - 1)) % 2 ^ 64
  if userPath < rt.userPathStrings.length ∧ componentPath < rt.componentPathStrings.length then
    rt.userPathStrings.getD userPath [] ++ rt.componentPathStrings.getD componentPath []
  else if userPath < rt.userPathStrings.length then rt.userPathStrings.getD userPath []
  else if componentPath < rt.componentPathStrings.length then
    rt.componentPathStrings.getD componentPath []
  else []

/-- Method `MockRuntime::AppendPath`. -/
def AppendPath (rt : MockRuntime) (path : XrPath) (append : CString) : XrPath × MockRuntime :=
  let current := rt.PathToString path
  if current.length = 0 then (XR_NULL_PATH, rt)
  else rt.StringToPathOrNull (current ++ append)

/-! ### Action binding engine: reading action states -/

/-- Method `MockRuntime::GetUserPath`. -/
def GetUserPath (_rt : MockRuntime) (path : XrPath) : XrPath :=
  path &&& 0x00000000FFFFFFFF

/-- The input state a binding points to. Every binding is a pointer that
`GetMockInputState` returned, the address of an element of `inputStates`, and
`inputStates` does not change once the constructor has filled it; the
all-zero state stands in for an index that names no element. -/
def inputStateAt (rt : MockRuntime) (binding : Nat) : MockInputState :=
  rt.inputStates.getD binding
    { interactionProfile := 0, path := 0, type := XR_ACTION_TYPE_BOOLEAN_INPUT,
      boolValue := 0, floatValue := 0, vectorValue := { x := 0, y := 0 } }

/-- Method `MockRuntime::GetMockActionSet(XrAction)`: the index of the action
set in `actionSets` and the set, `none` for the null pointer. The index is a
`size_t`, so the subtraction of one wraps around at zero. -/
def GetMockActionSetOfAction (rt : MockRuntime) (action : XrAction) :
    Option (Nat × MockActionSet) :=
  let actionSetIndex := ((action &&& 0xFFFF) + (2 ^ 64 - 1)) % 2 ^ 64
  match rt.actionSets[actionSetIndex]? with
  | none => none
  | some mockActionSet => some (actionSetIndex, mockActionSet)

/-- Method `MockRuntime::GetMockAction`: the indices of the action set and of
the action in it, and the action; `none` for the null pointer. -/
def GetMockAction (rt : MockRuntime) (action : XrAction) :
    Option (Nat × Nat × MockAction) :=
  match rt.GetMockActionSetOfAction action with
  | none => none
  | some (actionSetIndex, mockActionSet) =>
    let actionIndex := ((action >>> 32) + (2 ^ 64 - 1)) % 2 ^ 64
    match mockActionSet.actions[actionIndex]? with
    | none => none
    | some mockAction =>
      if mockAction.action ≠ action then none
      else some (actionSetIndex, actionIndex, mockAction)

/-- Method `MockRuntime::IsActionAttached`. -/
def IsActionAttached (rt : MockRuntime) (action : XrAction) : Bool :=
  if !rt.actionSetsAttached then false
  else
    match rt.GetMockActionSetOfAction action with
    | none => false
    | some (_, mockActionSet) => mockActionSet.attached

/-- The loop of `GetActionStateFloat` over the bindings, with the running
`value`; `none` is `return XR_ERROR_ACTION_TYPE_MISMATCH`. The source calls
`abs` unqualified on a `float` and declares no `abs` of its own: the call is
read as the overload `float abs(float)` that the standard library headers of
the build supply, the absolute value, as the comment in the loop says ("the
input with the largest absolute value"). A build whose headers leave only
`int abs(int)` of the C library visible would truncate the argument first;
such a build is outside the embedding. The comparison of two floats is
exact. -/
def GetActionStateFloat.loop (rt : MockRuntime) (subactionPath : XrPath) :
    List Nat → CFloat → Option CFloat
  | [], value => some value
  | binding :: rest, value =>
    if subactionPath ≠ XR_NULL_PATH ∧
        rt.GetUserPath (rt.inputStateAt binding).path ≠ subactionPath then
      GetActionStateFloat.loop rt subactionPath rest value
    else if !(rt.inputStateAt binding).IsCompatibleType XR_ACTION_TYPE_FLOAT_INPUT then none
    else
      let bindingValue := (rt.inputStateAt binding).GetFloat
      if |bindingValue| > |value| then GetActionStateFloat.loop rt subactionPath rest bindingValue
      else GetActionStateFloat.loop rt subactionPath rest value

/-- Method `MockRuntime::GetActionStateFloat`. `getInfo` is the structure the
first pointer points to, `state` the `type` member of the structure behind
the second pointer, each `none` for a null pointer; the second component of
the result is the value written to `state->currentState`. -/
def GetActionStateFloat (rt : MockRuntime) (getInfo : Option XrActionStateGetInfo)
    (state : Option XrStructureType) : XrResult × Option CFloat :=
  match getInfo with
  | none => (XR_ERROR_VALIDATION_FAILURE, none)
  | some getInfo =>
    if getInfo.type ≠ XR_TYPE_ACTION_STATE_GET_INFO then (XR_ERROR_VALIDATION_FAILURE, none)
    else
      match state with
      | none => (XR_ERROR_VALIDATION_FAILURE, none)
      | some stateType =>
        if stateType ≠ XR_TYPE_ACTION_STATE_FLOAT then (XR_ERROR_VALIDATION_FAILURE, none)
        else
          match rt.GetMockAction getInfo.action with
          | none => (XR_ERROR_HANDLE_INVALID, none)
          | some (_, _, mockAction) =>
            if !rt.IsActionAttached mockAction.action then
              (XR_ERROR_ACTIONSET_NOT_ATTACHED, none)
            else
              match GetActionStateFloat.loop rt getInfo.subactionPath mockAction.bindings 0 with
              | none => (XR_ERROR_ACTION_TYPE_MISMATCH, none)
              | some value => (XR_SUCCESS, some value)

/-- The loop of `GetActionStateBoolean` over the bindings, with the running
`value`; `none` is `return XR_ERROR_ACTION_TYPE_MISMATCH`. -/
def GetActionStateBoolean.loop (rt : MockRuntime) (subactionPath : XrPath) :
    List Nat → Bool → Option Bool
  | [], value => some value
  | binding :: rest, value =>
    if subactionPath = XR_NULL_PATH ∨
        rt.GetUserPath (rt.inputStateAt binding).path = subactionPath then
      if !(rt.inputStateAt binding).IsCompatibleType XR_ACTION_TYPE_BOOLEAN_INPUT then none
      else
        GetActionStateBoolean.loop rt subactionPath rest
          (value || decide ((rt.inputStateAt binding).GetBoolean ≠ 0))
    else GetActionStateBoolean.loop rt subactionPath rest value

/-- Method `MockRuntime::GetActionStateBoolean`; the state pointer is not
tested. The second component of the result is the `XrBool32` written to
`state->currentState`. -/
def GetActionStateBoolean (rt : MockRuntime) (getInfo : Option XrActionStateGetInfo) :
    XrResult × Option XrBool32 :=
  match getInfo with
  | none => (XR_ERROR_VALIDATION_FAILURE, none)
  | some getInfo =>
    if getInfo.type ≠ XR_TYPE_ACTION_STATE_GET_INFO then (XR_ERROR_VALIDATION_FAILURE, none)
    else
      match rt.GetMockAction getInfo.action with
      | none => (XR_ERROR_HANDLE_INVALID, none)
      | some (_, _, mockAction) =>
        if !rt.IsActionAttached mockAction.action then (XR_ERROR_ACTIONSET_NOT_ATTACHED, none)
        else
          match GetActionStateBoolean.loop rt getInfo.subactionPath mockAction.bindings false with
          | none => (XR_ERROR_ACTION_TYPE_MISMATCH, none)
          | some value => (XR_SUCCESS, some (if value then 1 else 0))

/-- The loop of `GetActionStateVector2f` over the bindings, with the running
`value` and `valueLength`; `none` is `return XR_ERROR_ACTION_TYPE_MISMATCH`.
The two products and the sum of `bindingValueLength` are operations on
`float`, each rounded, and `valueLength` holds their result. -/
def GetActionStateVector2f.loop (rt : MockRuntime) (subactionPath : XrPath) :
    List Nat → XrVector2f → FloatResult → Option XrVector2f
  | [], value, _ => some value
  | binding :: rest, value, valueLength =>
    if subactionPath = XR_NULL_PATH ∨
        rt.GetUserPath (rt.inputStateAt binding).path = subactionPath then
      if !(rt.inputStateAt binding).IsCompatibleType XR_ACTION_TYPE_VECTOR2F_INPUT then none
      else
        let bindingValue := (rt.inputStateAt binding).GetVector2
        let bindingValueLength :=
          (CFloat.mul bindingValue.x bindingValue.x).add
            (CFloat.mul bindingValue.y bindingValue.y)
        if bindingValueLength.gt valueLength then
          GetActionStateVector2f.loop rt subactionPath rest bindingValue bindingValueLength
        else GetActionStateVector2f.loop rt subactionPath rest value valueLength
    else GetActionStateVector2f.loop rt subactionPath rest value valueLength

/-- Method `MockRuntime::GetActionStateVector2f`; the state pointer is not
tested. The second component of the result is the vector written to
`state->currentState`. -/
def GetActionStateVector2f (rt : MockRuntime) (getInfo : Option XrActionStateGetInfo) :
    XrResult × Option XrVector2f :=
  match getInfo with
  | none => (XR_ERROR_VALIDATION_FAILURE, none)
  | some getInfo =>
    if getInfo.type ≠ XR_TYPE_ACTION_STATE_GET_INFO then (XR_ERROR_VALIDATION_FAILURE, none)
    else
      match rt.GetMockAction getInfo.action with
      | none => (XR_ERROR_HANDLE_INVALID, none)
      | some (_, _, mockAction) =>
        if !rt.IsActionAttached mockAction.action then (XR_ERROR_ACTIONSET_NOT_ATTACHED, none)
        else
          match GetActionStateVector2f.loop rt getInfo.subactionPath mockAction.bindings
              { x := 0, y := 0 } (FloatResult.finite 0) with
          | none => (XR_ERROR_ACTION_TYPE_MISMATCH, none)
          | some value => (XR_SUCCESS, some value)

end MockRuntime

/-! ## The interaction profile catalogue -/

/-- The structure `MockInputSourcePath` (`mock_runtime_interaction_profiles.cpp`). -/
structure MockInputSourcePath where
  path : CString
  type : XrActionType
  deriving DecidableEq, Repr

/-- The structure `MockInteractionProfileDef`
(`mock_runtime_interaction_profiles.cpp`). -/
structure MockInteractionProfileDef where
  name : CString
  userPaths : List CString
  inputSources : List MockInputSourcePath
  deriving DecidableEq, Repr

/-- The table `s_InteractionProfiles`: the nine supported profiles with their
user paths and typed input sources, in the order of the source. -/
def s_InteractionProfiles : List MockInteractionProfileDef :=
  [{ name := "/interaction_profiles/khr/simple_controller".toList,
      userPaths := ["/user/hand/left".toList, "/user/hand/right".toList],
      inputSources :=
        [{ path := "/user/hand/left/input/select/click".toList,
           type := XR_ACTION_TYPE_BOOLEAN_INPUT },
         { path := "/user/hand/left/input/menu/click".toList,
           type := XR_ACTION_TYPE_BOOLEAN_INPUT },
         { path := "/user/hand/left/input/grip/pose".toList,
           type := XR_ACTION_TYPE_POSE_INPUT },
         { path := "/user/hand/left/input/aim/pose".toList,
           type := XR_ACTION_TYPE_POSE_INPUT },
         { path := "/user/hand/left/output/haptic".toList,
           type := XR_ACTION_TYPE_VIBRATION_OUTPUT },
         { path := "/user/hand/right/input/select/click".toList,
           type := XR_ACTION_TYPE_BOOLEAN_INPUT },
         { path := "/user/hand/right/input/menu/click".toList,
           type := XR_ACTION_TYPE_BOOLEAN_INPUT },
         { path := "/user/hand/right/input/grip/pose".toList,
           type := XR_ACTION_TYPE_POSE_INPUT },
         { path := "/user/hand/right/input/aim/pose".toList,
           type := XR_ACTION_TYPE_POSE_INPUT },
         { path := "/user/hand/right/output/haptic".toList,
           type := XR_ACTION_TYPE_VIBRATION_OUTPUT }] },
   { name := "/interaction_profiles/microsoft/motion_controller".toList,
      userPaths := ["/user/hand/left".toList, "/user/hand/right".toList],
      inputSources :=
        [{ path := "/user/hand/left/input/menu/click".toList,
           type := XR_ACTION_TYPE_BOOLEAN_INPUT },
         { path := "/user/hand/left/input/squeeze/click".toList,
           type := XR_ACTION_TYPE_BOOLEAN_INPUT },
         { path := "/user/hand/left/input/trigger/value".toList,
           type := XR_ACTION_TYPE_FLOAT_INPUT },
         { path := "/user/hand/left/input/thumbstick/x".toList,
           type := XR_ACTION_TYPE_FLOAT_INPUT },
         { path := "/user/hand/left/input/thumbstick/y".toList,
           type := XR_ACTION_TYPE_FLOAT_INPUT },
         { path := "/user/hand/left/input/thumbstick/click".toList,
           type := XR_ACTION_TYPE_BOOLEAN_INPUT },
         { path := "/user/hand/left/input/thumbstick".toList,
           type := XR_ACTION_TYPE_VECTOR2F_INPUT },
         { path := "/user/hand/left/input/trackpad/x".toList,
           type := XR_ACTION_TYPE_FLOAT_INPUT },
         { path := "/user/hand/left/input/trackpad/y".toList,
           type := XR_ACTION_TYPE_FLOAT_INPUT },
         { path := "/user/hand/left/input/trackpad".toList,
           type := XR_ACTION_TYPE_VECTOR2F_INPUT },
         { path := "/user/hand/left/input/trackpad/click".toList,
           type := XR_ACTION_TYPE_BOOLEAN_INPUT },
         { path := "/user/hand/left/input/trackpad/touch".toList,
           type := XR_ACTION_TYPE_BOOLEAN_INPUT },
         { path := "/user/hand/left/input/grip/pose".toList,
           type := XR_ACTION_TYPE_POSE_INPUT },
         { path := "/user/hand/left/input/aim/pose".toList,
           type := XR_ACTION_TYPE_POSE_INPUT },
         { path := "/user/hand/left/output/haptic".toList,
           type := XR_ACTION_TYPE_VIBRATION_OUTPUT },
         { path := "/user/hand/right/input/menu/click".toList,
           type := XR_ACTION_TYPE_BOOLEAN_INPUT },
         { path := "/user/hand/right/input/squeeze/click".toList,
           type := XR_ACTION_TYPE_BOOLEAN_INPUT },
         { path := "/user/hand/right/input/trigger/value".toList,
           type := XR_ACTION_TYPE_FLOAT_INPUT },
         { path := "/user/hand/right/input/thumbstick/x".toList,
           type := XR_ACTION_TYPE_FLOAT_INPUT },
         { path := "/user/hand/right/input/thumbstick/y".toList,
           type := XR_ACTION_TYPE_FLOAT_INPUT },
         { path := "/user/hand/right/input/thumbstick/click".toList,
           type := XR_ACTION_TYPE_BOOLEAN_INPUT },
         { path := "/user/hand/right/input/thumbstick".toList,
           type := XR_ACTION_TYPE_VECTOR2F_INPUT },
         { path := "/user/hand/right/input/trackpad/x".toList,
           type := XR_ACTION_TYPE_FLOAT_INPUT },
         { path := "/user/hand/right/input/trackpad/y".toList,
           type := XR_ACTION_TYPE_FLOAT_INPUT },
         { path := "/user/hand/right/input/trackpad".toList,
           type := XR_ACTION_TYPE_VECTOR2F_INPUT },
         { path := "/user/hand/right/input/trackpad/click".toList,
           type := XR_ACTION_TYPE_BOOLEAN_INPUT },
         { path := "/user/hand/right/input/trackpad/touch".toList,
           type := XR_ACTION_TYPE_BOOLEAN_INPUT },
         { path := "/user/hand/right/input/grip/pose".toList,
           type := XR_ACTION_TYPE_POSE_INPUT },
         { path := "/user/hand/right/input/aim/pose".toList,
           type := XR_ACTION_TYPE_POSE_INPUT },
         { path := "/user/hand/right/output/haptic".toList,
           type := XR_ACTION_TYPE_VIBRATION_OUTPUT }] },
   { name := "/interaction_profiles/google/daydream_controller".toList,
      userPaths := ["/user/hand/left".toList, "/user/hand/right".toList],
      inputSources :=
        [{ path := "/user/hand/left/input/select/click".toList,
           type := XR_ACTION_TYPE_BOOLEAN_INPUT },
         { path := "/user/hand/left/input/trackpad/x".toList,
           type := XR_ACTION_TYPE_FLOAT_INPUT },
         { path := "/user/hand/left/input/trackpad/y".toList,
           type := XR_ACTION_TYPE_FLOAT_INPUT },
         { path := "/user/hand/left/input/trackpad/click".toList,
           type := XR_ACTION_TYPE_BOOLEAN_INPUT },
         { path := "/user/hand/left/input/trackpad/touch".toList,
           type := XR_ACTION_TYPE_BOOLEAN_INPUT },
         { path := "/user/hand/left/input/trackpad".toList,
           type := XR_ACTION_TYPE_VECTOR2F_INPUT },
         { path := "/user/hand/left/input/grip/pose".toList,
           type := XR_ACTION_TYPE_POSE_INPUT },
         { path := "/user/hand/left/input/aim/pose".toList,
           type := XR_ACTION_TYPE_POSE_INPUT },
         { path := "/user/hand/right/input/select/click".toList,
           type := XR_ACTION_TYPE_BOOLEAN_INPUT },
         { path := "/user/hand/right/input/trackpad/x".toList,
           type := XR_ACTION_TYPE_FLOAT_INPUT },
         { path := "/user/hand/right/input/trackpad/y".toList,
           type := XR_ACTION_TYPE_FLOAT_INPUT },
         { path := "/user/hand/right/input/trackpad/click".toList,
           type := XR_ACTION_TYPE_BOOLEAN_INPUT },
         { path := "/user/hand/right/input/trackpad/touch".toList,
           type := XR_ACTION_TYPE_BOOLEAN_INPUT },
         { path := "/user/hand/right/input/trackpad".toList,
           type := XR_ACTION_TYPE_VECTOR2F_INPUT },
         { path := "/user/hand/right/input/grip/pose".toList,
           type := XR_ACTION_TYPE_POSE_INPUT },
         { path := "/user/hand/right/input/aim/pose".toList,
           type := XR_ACTION_TYPE_POSE_INPUT }] },
   { name := "/interaction_profiles/htc/vive_controller".toList,
      userPaths := ["/user/hand/left".toList, "/user/hand/right".toList],
      inputSources :=
        [{ path := "/user/hand/left/input/menu/click".toList,
           type := XR_ACTION_TYPE_BOOLEAN_INPUT },
         { path := "/user/hand/left/input/squeeze/click".toList,
           type := XR_ACTION_TYPE_BOOLEAN_INPUT },
         { path := "/user/hand/left/input/trigger/value".toList,
           type := XR_ACTION_TYPE_FLOAT_INPUT },
         { path := "/user/hand/left/input/trigger/click".toList,
           type := XR_ACTION_TYPE_BOOLEAN_INPUT },
         { path := "/user/hand/left/input/trackpad/x".toList,
           type := XR_ACTION_TYPE_FLOAT_INPUT },
         { path := "/user/hand/left/input/trackpad/y".toList,
           type := XR_ACTION_TYPE_FLOAT_INPUT },
         { path := "/user/hand/left/input/trackpad/click".toList,
           type := XR_ACTION_TYPE_BOOLEAN_INPUT },
         { path := "/user/hand/left/input/trackpad/touch".toList,
           type := XR_ACTION_TYPE_BOOLEAN_INPUT },
         { path := "/user/hand/left/input/trackpad".toList,
           type := XR_ACTION_TYPE_VECTOR2F_INPUT },
         { path := "/user/hand/left/input/grip/pose".toList,
           type := XR_ACTION_TYPE_POSE_INPUT },
         { path := "/user/hand/left/input/aim/pose".toList,
           type := XR_ACTION_TYPE_POSE_INPUT },
         { path := "/user/hand/left/output/haptic".toList,
           type := XR_ACTION_TYPE_VIBRATION_OUTPUT },
         { path := "/user/hand/right/input/menu/click".toList,
           type := XR_ACTION_TYPE_BOOLEAN_INPUT },
         { path := "/user/hand/right/input/squeeze/click".toList,
           type := XR_ACTION_TYPE_BOOLEAN_INPUT },
         { path := "/user/hand/right/input/trigger/value".toList,
           type := XR_ACTION_TYPE_FLOAT_INPUT },
         { path := "/user/hand/right/input/trigger/click".toList,
           type := XR_ACTION_TYPE_BOOLEAN_INPUT },
         { path := "/user/hand/right/input/trackpad/x".toList,
           type := XR_ACTION_TYPE_FLOAT_INPUT },
         { path := "/user/hand/right/input/trackpad/y".toList,
           type := XR_ACTION_TYPE_FLOAT_INPUT },
         { path := "/user/hand/right/input/trackpad/click".toList,
           type := XR_ACTION_TYPE_BOOLEAN_INPUT },
         { path := "/user/hand/right/input/trackpad/touch".toList,
           type := XR_ACTION_TYPE_BOOLEAN_INPUT },
         { path := "/user/hand/right/input/trackpad".toList,
           type := XR_ACTION_TYPE_VECTOR2F_INPUT },
         { path := "/user/hand/right/input/grip/pose".toList,
           type := XR_ACTION_TYPE_POSE_INPUT },
         { path := "/user/hand/right/input/aim/pose".toList,
           type := XR_ACTION_TYPE_POSE_INPUT },
         { path := "/user/hand/right/output/haptic".toList,
           type := XR_ACTION_TYPE_VIBRATION_OUTPUT }] },
   { name := "/interaction_profiles/htc/vive_pro".toList,
      userPaths := ["/user/head".toList],
      inputSources :=
        [{ path := "/user/head/input/volume_up/click".toList,
           type := XR_ACTION_TYPE_BOOLEAN_INPUT },
         { path := "/user/head/input/volume_down/click".toList,
           type := XR_ACTION_TYPE_BOOLEAN_INPUT },
         { path := "/user/head/input/mute_mic/click".toList,
           type := XR_ACTION_TYPE_BOOLEAN_INPUT }] },
   { name := "/interaction_profiles/microsoft/xbox_controller".toList,
      userPaths := ["/user/gamepad".toList],
      inputSources :=
        [{ path := "/user/gamepad/input/menu/click".toList,
           type := XR_ACTION_TYPE_BOOLEAN_INPUT },
         { path := "/user/gamepad/input/view/click".toList,
           type := XR_ACTION_TYPE_BOOLEAN_INPUT },
         { path := "/user/gamepad/input/a/click".toList,
           type := XR_ACTION_TYPE_BOOLEAN_INPUT },
         { path := "/user/gamepad/input/b/click".toList,
           type := XR_ACTION_TYPE_BOOLEAN_INPUT },
         { path := "/user/gamepad/input/x/click".toList,
           type := XR_ACTION_TYPE_BOOLEAN_INPUT },
         { path := "/user/gamepad/input/y/click".toList,
           type := XR_ACTION_TYPE_BOOLEAN_INPUT },
         { path := "/user/gamepad/input/dpad_down/click".toList,
           type := XR_ACTION_TYPE_BOOLEAN_INPUT },
         { path := "/user/gamepad/input/dpad_right/click".toList,
           type := XR_ACTION_TYPE_BOOLEAN_INPUT },
         { path := "/user/gamepad/input/dpad_up/click".toList,
           type := XR_ACTION_TYPE_BOOLEAN_INPUT },
         { path := "/user/gamepad/input/dpad_left/click".toList,
           type := XR_ACTION_TYPE_BOOLEAN_INPUT },
         { path := "/user/gamepad/input/shoulder_left/click".toList,
           type := XR_ACTION_TYPE_BOOLEAN_INPUT },
         { path := "/user/gamepad/input/shoulder_right/click".toList,
           type := XR_ACTION_TYPE_BOOLEAN_INPUT },
         { path := "/user/gamepad/input/thumbstick_left/click".toList,
           type := XR_ACTION_TYPE_BOOLEAN_INPUT },
         { path := "/user/gamepad/input/thumbstick_right/click".toList,
           type := XR_ACTION_TYPE_BOOLEAN_INPUT },
         { path := "/user/gamepad/input/trigger_left/value".toList,
           type := XR_ACTION_TYPE_FLOAT_INPUT },
         { path := "/user/gamepad/input/trigger_right/value".toList,
           type := XR_ACTION_TYPE_FLOAT_INPUT },
         { path := "/user/gamepad/input/thumbstick_left/x".toList,
           type := XR_ACTION_TYPE_FLOAT_INPUT },
         { path := "/user/gamepad/input/thumbstick_left/y".toList,
           type := XR_ACTION_TYPE_FLOAT_INPUT },
         { path := "/user/gamepad/input/thumbstick_left".toList,
           type := XR_ACTION_TYPE_VECTOR2F_INPUT },
         { path := "/user/gamepad/input/thumbstick_right/x".toList,
           type := XR_ACTION_TYPE_FLOAT_INPUT },
         { path := "/user/gamepad/input/thumbstick_right/y".toList,
           type := XR_ACTION_TYPE_FLOAT_INPUT },
         { path := "/user/gamepad/input/thumbstick_right".toList,
           type := XR_ACTION_TYPE_VECTOR2F_INPUT },
         { path := "/user/gamepad/output/haptic_left".toList,
           type := XR_ACTION_TYPE_VIBRATION_OUTPUT },
         { path := "/user/gamepad/output/haptic_right".toList,
           type := XR_ACTION_TYPE_VIBRATION_OUTPUT },
         { path := "/user/gamepad/output/haptic_left_trigger".toList,
           type := XR_ACTION_TYPE_VIBRATION_OUTPUT },
         { path := "/user/gamepad/output/haptic_right_trigger".toList,
           type := XR_ACTION_TYPE_VIBRATION_OUTPUT }] },
   { name := "/interaction_profiles/oculus/go_controller".toList,
      userPaths := ["/user/hand/left".toList, "/user/hand/right".toList],
      inputSources :=
        [{ path := "/user/hand/left/input/trigger/click".toList,
           type := XR_ACTION_TYPE_BOOLEAN_INPUT },
         { path := "/user/hand/left/input/back/click".toList,
           type := XR_ACTION_TYPE_BOOLEAN_INPUT },
         { path := "/user/hand/left/input/trackpad/x".toList,
           type := XR_ACTION_TYPE_FLOAT_INPUT },
         { path := "/user/hand/left/input/trackpad/y".toList,
           type := XR_ACTION_TYPE_FLOAT_INPUT },
         { path := "/user/hand/left/input/trackpad".toList,
           type := XR_ACTION_TYPE_VECTOR2F_INPUT },
         { path := "/user/hand/left/input/trackpad/click".toList,
           type := XR_ACTION_TYPE_BOOLEAN_INPUT },
         { path := "/user/hand/left/input/trackpad/touch".toList,
           type := XR_ACTION_TYPE_BOOLEAN_INPUT },
         { path := "/user/hand/left/input/grip/pose".toList,
           type := XR_ACTION_TYPE_POSE_INPUT },
         { path := "/user/hand/left/input/aim/pose".toList,
           type := XR_ACTION_TYPE_POSE_INPUT },
         { path := "/user/hand/right/input/trigger/click".toList,
           type := XR_ACTION_TYPE_BOOLEAN_INPUT },
         { path := "/user/hand/right/input/back/click".toList,
           type := XR_ACTION_TYPE_BOOLEAN_INPUT },
         { path := "/user/hand/right/input/trackpad/x".toList,
           type := XR_ACTION_TYPE_FLOAT_INPUT },
         { path := "/user/hand/right/input/trackpad/y".toList,
           type := XR_ACTION_TYPE_FLOAT_INPUT },
         { path := "/user/hand/right/input/trackpad".toList,
           type := XR_ACTION_TYPE_VECTOR2F_INPUT },
         { path := "/user/hand/right/input/trackpad/click".toList,
           type := XR_ACTION_TYPE_BOOLEAN_INPUT },
         { path := "/user/hand/right/input/trackpad/touch".toList,
           type := XR_ACTION_TYPE_BOOLEAN_INPUT },
         { path := "/user/hand/right/input/grip/pose".toList,
           type := XR_ACTION_TYPE_POSE_INPUT },
         { path := "/user/hand/right/input/aim/pose".toList,
           type := XR_ACTION_TYPE_POSE_INPUT }] },
   { name := "/interaction_profiles/oculus/touch_controller".toList,
      userPaths := ["/user/hand/left".toList, "/user/hand/right".toList],
      inputSources :=
        [{ path := "/user/hand/left/input/x/click".toList,
           type := XR_ACTION_TYPE_BOOLEAN_INPUT },
         { path := "/user/hand/left/input/x/touch".toList,
           type := XR_ACTION_TYPE_BOOLEAN_INPUT },
         { path := "/user/hand/left/input/y/click".toList,
           type := XR_ACTION_TYPE_BOOLEAN_INPUT },
         { path := "/user/hand/left/input/y/touch".toList,
           type := XR_ACTION_TYPE_BOOLEAN_INPUT },
         { path := "/user/hand/left/input/menu/click".toList,
           type := XR_ACTION_TYPE_BOOLEAN_INPUT },
         { path := "/user/hand/left/input/squeeze/value".toList,
           type := XR_ACTION_TYPE_FLOAT_INPUT },
         { path := "/user/hand/left/input/trigger/value".toList,
           type := XR_ACTION_TYPE_FLOAT_INPUT },
         { path := "/user/hand/left/input/trigger/touch".toList,
           type := XR_ACTION_TYPE_BOOLEAN_INPUT },
         { path := "/user/hand/left/input/thumbstick/x".toList,
           type := XR_ACTION_TYPE_FLOAT_INPUT },
         { path := "/user/hand/left/input/thumbstick/y".toList,
           type := XR_ACTION_TYPE_FLOAT_INPUT },
         { path := "/user/hand/left/input/thumbstick/click".toList,
           type := XR_ACTION_TYPE_BOOLEAN_INPUT },
         { path := "/user/hand/left/input/thumbstick/touch".toList,
           type := XR_ACTION_TYPE_BOOLEAN_INPUT },
         { path := "/user/hand/left/input/thumbstick".toList,
           type := XR_ACTION_TYPE_VECTOR2F_INPUT },
         { path := "/user/hand/left/input/grip/pose".toList,
           type := XR_ACTION_TYPE_POSE_INPUT },
         { path := "/user/hand/left/input/aim/pose".toList,
           type := XR_ACTION_TYPE_POSE_INPUT },
         { path := "/user/hand/left/output/haptic".toList,
           type := XR_ACTION_TYPE_VIBRATION_OUTPUT },
         { path := "/user/hand/right/input/a/click".toList,
           type := XR_ACTION_TYPE_BOOLEAN_INPUT },
         { path := "/user/hand/right/input/a/touch".toList,
           type := XR_ACTION_TYPE_BOOLEAN_INPUT },
         { path := "/user/hand/right/input/b/click".toList,
           type := XR_ACTION_TYPE_BOOLEAN_INPUT },
         { path := "/user/hand/right/input/b/touch".toList,
           type := XR_ACTION_TYPE_BOOLEAN_INPUT },
         { path := "/user/hand/right/input/squeeze/value".toList,
           type := XR_ACTION_TYPE_FLOAT_INPUT },
         { path := "/user/hand/right/input/trigger/value".toList,
           type := XR_ACTION_TYPE_FLOAT_INPUT },
         { path := "/user/hand/right/input/trigger/touch".toList,
           type := XR_ACTION_TYPE_BOOLEAN_INPUT },
         { path := "/user/hand/right/input/thumbstick/x".toList,
           type := XR_ACTION_TYPE_FLOAT_INPUT },
         { path := "/user/hand/right/input/thumbstick/y".toList,
           type := XR_ACTION_TYPE_FLOAT_INPUT },
         { path := "/user/hand/right/input/thumbstick/click".toList,
           type := XR_ACTION_TYPE_BOOLEAN_INPUT },
         { path := "/user/hand/right/input/thumbstick/touch".toList,
           type := XR_ACTION_TYPE_BOOLEAN_INPUT },
         { path := "/user/hand/right/input/thumbstick".toList,
           type := XR_ACTION_TYPE_VECTOR2F_INPUT },
         { path := "/user/hand/right/input/grip/pose".toList,
           type := XR_ACTION_TYPE_POSE_INPUT },
         { path := "/user/hand/right/input/aim/pose".toList,
           type := XR_ACTION_TYPE_POSE_INPUT },
         { path := "/user/hand/right/output/haptic".toList,
           type := XR_ACTION_TYPE_VIBRATION_OUTPUT }] },
   { name := "/interaction_profiles/valve/index_controller".toList,
      userPaths := ["/user/hand/left".toList, "/user/hand/right".toList],
      inputSources :=
        [{ path := "/user/hand/left/input/a/click".toList,
           type := XR_ACTION_TYPE_BOOLEAN_INPUT },
         { path := "/user/hand/left/input/a/touch".toList,
           type := XR_ACTION_TYPE_BOOLEAN_INPUT },
         { path := "/user/hand/left/input/b/click".toList,
           type := XR_ACTION_TYPE_BOOLEAN_INPUT },
         { path := "/user/hand/left/input/b/touch".toList,
           type := XR_ACTION_TYPE_BOOLEAN_INPUT },
         { path := "/user/hand/left/input/squeeze/value".toList,
           type := XR_ACTION_TYPE_FLOAT_INPUT },
         { path := "/user/hand/left/input/squeeze/force".toList,
           type := XR_ACTION_TYPE_FLOAT_INPUT },
         { path := "/user/hand/left/input/trigger/click".toList,
           type := XR_ACTION_TYPE_BOOLEAN_INPUT },
         { path := "/user/hand/left/input/trigger/value".toList,
           type := XR_ACTION_TYPE_FLOAT_INPUT },
         { path := "/user/hand/left/input/trigger/touch".toList,
           type := XR_ACTION_TYPE_BOOLEAN_INPUT },
         { path := "/user/hand/left/input/thumbstick/x".toList,
           type := XR_ACTION_TYPE_FLOAT_INPUT },
         { path := "/user/hand/left/input/thumbstick/y".toList,
           type := XR_ACTION_TYPE_FLOAT_INPUT },
         { path := "/user/hand/left/input/thumbstick/click".toList,
           type := XR_ACTION_TYPE_BOOLEAN_INPUT },
         { path := "/user/hand/left/input/thumbstick/touch".toList,
           type := XR_ACTION_TYPE_BOOLEAN_INPUT },
         { path := "/user/hand/left/input/thumbstick".toList,
           type := XR_ACTION_TYPE_VECTOR2F_INPUT },
         { path := "/user/hand/left/input/trackpad/x".toList,
           type := XR_ACTION_TYPE_FLOAT_INPUT },
         { path := "/user/hand/left/input/trackpad/y".toList,
           type := XR_ACTION_TYPE_FLOAT_INPUT },
         { path := "/user/hand/left/input/trackpad/force".toList,
           type := XR_ACTION_TYPE_FLOAT_INPUT },
         { path := "/user/hand/left/input/trackpad/touch".toList,
           type := XR_ACTION_TYPE_BOOLEAN_INPUT },
         { path := "/user/hand/left/input/trackpad".toList,
           type := XR_ACTION_TYPE_VECTOR2F_INPUT },
         { path := "/user/hand/left/input/grip/pose".toList,
           type := XR_ACTION_TYPE_POSE_INPUT },
         { path := "/user/hand/left/input/aim/pose".toList,
           type := XR_ACTION_TYPE_POSE_INPUT },
         { path := "/user/hand/left/output/haptic".toList,
           type := XR_ACTION_TYPE_VIBRATION_OUTPUT },
         { path := "/user/hand/right/input/a/click".toList,
           type := XR_ACTION_TYPE_BOOLEAN_INPUT },
         { path := "/user/hand/right/input/a/touch".toList,
           type := XR_ACTION_TYPE_BOOLEAN_INPUT },
         { path := "/user/hand/right/input/b/click".toList,
           type := XR_ACTION_TYPE_BOOLEAN_INPUT },
         { path := "/user/hand/right/input/b/touch".toList,
           type := XR_ACTION_TYPE_BOOLEAN_INPUT },
         { path := "/user/hand/right/input/squeeze/value".toList,
           type := XR_ACTION_TYPE_FLOAT_INPUT },
         { path := "/user/hand/right/input/squeeze/force".toList,
           type := XR_ACTION_TYPE_FLOAT_INPUT },
         { path := "/user/hand/right/input/trigger/click".toList,
           type := XR_ACTION_TYPE_BOOLEAN_INPUT },
         { path := "/user/hand/right/input/trigger/value".toList,
           type := XR_ACTION_TYPE_FLOAT_INPUT },
         { path := "/user/hand/right/input/trigger/touch".toList,
           type := XR_ACTION_TYPE_BOOLEAN_INPUT },
         { path := "/user/hand/right/input/thumbstick/x".toList,
           type := XR_ACTION_TYPE_FLOAT_INPUT },
         { path := "/user/hand/right/input/thumbstick/y".toList,
           type := XR_ACTION_TYPE_FLOAT_INPUT },
         { path := "/user/hand/right/input/thumbstick/click".toList,
           type := XR_ACTION_TYPE_BOOLEAN_INPUT },
         { path := "/user/hand/right/input/thumbstick/touch".toList,
           type := XR_ACTION_TYPE_BOOLEAN_INPUT },
         { path := "/user/hand/right/input/thumbstick".toList,
           type := XR_ACTION_TYPE_VECTOR2F_INPUT },
         { path := "/user/hand/right/input/trackpad/x".toList,
           type := XR_ACTION_TYPE_FLOAT_INPUT },
         { path := "/user/hand/right/input/trackpad/y".toList,
           type := XR_ACTION_TYPE_FLOAT_INPUT },
         { path := "/user/hand/right/input/trackpad/force".toList,
           type := XR_ACTION_TYPE_FLOAT_INPUT },
         { path := "/user/hand/right/input/trackpad/touch".toList,
           type := XR_ACTION_TYPE_BOOLEAN_INPUT },
         { path := "/user/hand/right/input/trackpad".toList,
           type := XR_ACTION_TYPE_VECTOR2F_INPUT },
         { path := "/user/hand/right/input/grip/pose".toList,
           type := XR_ACTION_TYPE_POSE_INPUT },
         { path := "/user/hand/right/input/aim/pose".toList,
           type := XR_ACTION_TYPE_POSE_INPUT },
         { path := "/user/hand/right/output/haptic".toList,
           type := XR_ACTION_TYPE_VIBRATION_OUTPUT }] }]

namespace MockInputState

/-- Method `MockInputState::Reset`. -/
def Reset (st : MockInputState) : MockInputState :=
  match st.type with
  | XR_ACTION_TYPE_BOOLEAN_INPUT => { st with boolValue := 0 }
  | XR_ACTION_TYPE_FLOAT_INPUT => { st with floatValue := 0 }
  | XR_ACTION_TYPE_VECTOR2F_INPUT => { st with vectorValue := { x := 0, y := 0 } }
  | XR_ACTION_TYPE_POSE_INPUT =>
    { st with locationPose := XrPosef.identity, locationSpace := XR_NULL_HANDLE }
  | _ => st

end MockInputState

namespace MockRuntime

/-! ### Action binding engine: profiles and suggested bindings -/

/-- Method `MockRuntime::AddMockInputState`: the element that `emplace_back`
value-initialises gets the three identifying members and is reset; the result
is the index of the new element and the runtime. -/
def AddMockInputState (rt : MockRuntime) (interactionPath path : XrPath)
    (actionType : XrActionType) : Nat × MockRuntime :=
  let mockInputState : MockInputState :=
    { interactionProfile := interactionPath, path := path, type := actionType,
      boolValue := 0, floatValue := 0, vectorValue := { x := 0, y := 0 } }
  (rt.inputStates.length, { rt with inputStates := rt.inputStates ++ [mockInputState.Reset] })

/-- The loop of `InitializeInteractionProfiles` over the user paths of a
profile definition: each is interned and pushed onto `userPaths`. -/
def InitializeInteractionProfiles.userPaths :
    List CString → List XrPath → MockRuntime → List XrPath × MockRuntime
  | [], userPaths, rt => (userPaths, rt)
  | userPathString :: more, userPaths, rt =>
    InitializeInteractionProfiles.userPaths more
      (userPaths ++ [(rt.StringToPathOrNull userPathString).1])
      (rt.StringToPathOrNull userPathString).2

/-- The loop of `InitializeInteractionProfiles` over the input sources of a
profile definition: each path is interned and pushed with its type onto
`inputSources`. -/
def InitializeInteractionProfiles.inputSources :
    List MockInputSourcePath → List MockInteractionInputSource → MockRuntime →
      List MockInteractionInputSource × MockRuntime
  | [], inputSources, rt => (inputSources, rt)
  | componentDef :: more, inputSources, rt =>
    InitializeInteractionProfiles.inputSources more
      (inputSources ++
        [{ path := (rt.StringToPathOrNull componentDef.path).1, actionType := componentDef.type }])
      (rt.StringToPathOrNull componentDef.path).2

/-- The first loop of `InitializeInteractionProfiles`, over the profile
definitions: a profile is appended to `interactionProfiles` with the interned
name, user paths and input sources of its definition. -/
def InitializeInteractionProfiles.profiles : List MockInteractionProfileDef → MockRuntime → MockRuntime
  | [], rt => rt
  | profileDef :: more, rt =>
    let named := rt.StringToPathOrNull profileDef.name
    let users := InitializeInteractionProfiles.userPaths profileDef.userPaths [] named.2
    let sources := InitializeInteractionProfiles.inputSources profileDef.inputSources [] users.2
    let mockProfile : MockInteractionProfile :=
      { path := named.1, userPaths := users.1, inputSources := sources.1 }
    InitializeInteractionProfiles.profiles more
      { sources.2 with
        interactionProfiles := sources.2.interactionProfiles ++ [mockProfile] }

/-- The second loop of `InitializeInteractionProfiles`: an input state is added
for every input source of every profile. -/
def InitializeInteractionProfiles.states (rt : MockRuntime) : MockRuntime :=
  rt.interactionProfiles.foldl
    (fun rt1 mockProfile =>
      mockProfile.inputSources.foldl
        (fun rt2 inputSource =>
          (rt2.AddMockInputState mockProfile.path inputSource.path inputSource.actionType).2)
        rt1)
    rt

/-- Method `MockRuntime::InitializeInteractionProfiles`. -/
def InitializeInteractionProfiles (rt : MockRuntime) : MockRuntime :=
  InitializeInteractionProfiles.states
    { InitializeInteractionProfiles.profiles s_InteractionProfiles rt with inputStates := [] }

/-- The runtime the constructor `MockRuntime::MockRuntime` leaves behind when
no create flag is set: the member initialisation `ctor` followed by
`InitializeInteractionProfiles`. -/
def constructed : MockRuntime := ctor.InitializeInteractionProfiles

/-- Method `MockRuntime::GetMockInteractionProfile`, as a search from index `i`
through the profiles: the index of the first profile with the given path, and
the profile; `none` for the null pointer. -/
def GetMockInteractionProfile.loop (interactionProfile : XrPath) :
    List MockInteractionProfile → Nat → Option (Nat × MockInteractionProfile)
  | [], _ => none
  | mockProfile :: more, i =>
    if mockProfile.path = interactionProfile then some (i, mockProfile)
    else GetMockInteractionProfile.loop interactionProfile more (i + 1)

/-- Method `MockRuntime::GetMockInteractionProfile`. -/
def GetMockInteractionProfile (rt : MockRuntime) (interactionProfile : XrPath) :
    Option (Nat × MockInteractionProfile) :=
  GetMockInteractionProfile.loop interactionProfile rt.interactionProfiles 0

/-- Method `MockRuntime::SetActiveInteractionProfile`. -/
def SetActiveInteractionProfile (rt : MockRuntime) (interactionProfilePath : XrPath) :
    Bool × MockRuntime :=
  match rt.GetMockInteractionProfile interactionProfilePath with
  | none => (false, { rt with activeInteractionProfile := none })
  | some (i, _) => (true, { rt with activeInteractionProfile := some i })

/-- The search loop of `GetMockInputState` through `inputStates` from index
`i`: the index of the first state of the given profile and path. -/
def GetMockInputState.loop (profilePath path : XrPath) : List MockInputState → Nat → Option Nat
  | [], _ => none
  | mockInputState :: more, i =>
    if mockInputState.interactionProfile = profilePath ∧ mockInputState.path = path then some i
    else GetMockInputState.loop profilePath path more (i + 1)

/-- Method `MockRuntime::GetMockInputState`. The result is the index of the
state found, `none` for the null pointer, and the runtime, whose path tables
`AppendPath` may have extended. The calls the source makes on itself with
`allowParentPath = false` are the search loop alone. -/
def GetMockInputState (rt : MockRuntime) (mockProfile : MockInteractionProfile)
    (path : XrPath) (actionType : XrActionType) (allowParentPath : Bool) :
    Option Nat × MockRuntime :=
  match GetMockInputState.loop mockProfile.path path rt.inputStates 0 with
  | some found => (some found, rt)
  | none =>
    if allowParentPath then
      match actionType with
      | XR_ACTION_TYPE_BOOLEAN_INPUT =>
        let value := rt.AppendPath path "/value".toList
        match GetMockInputState.loop mockProfile.path value.1 value.2.inputStates 0 with
        | some found => (some found, value.2)
        | none =>
          let click := value.2.AppendPath path "/click".toList
          (GetMockInputState.loop mockProfile.path click.1 click.2.inputStates 0, click.2)
      | XR_ACTION_TYPE_FLOAT_INPUT =>
        let value := rt.AppendPath path "/value".toList
        (GetMockInputState.loop mockProfile.path value.1 value.2.inputStates 0, value.2)
      | _ => (none, rt)
    else (none, rt)

/-- The statement `mockAction->bindings.push_back(inputState)` for the action
that `GetMockAction` found at the two indices. -/
def pushBinding (rt : MockRuntime) (actionSetIndex actionIndex inputState : Nat) :
    MockRuntime :=
  match rt.actionSets[actionSetIndex]? with
  | none => rt
  | some mockActionSet =>
    match mockActionSet.actions[actionIndex]? with
    | none => rt
    | some mockAction =>
      { rt with
        actionSets :=
          rt.actionSets.set actionSetIndex
            { mockActionSet with
              actions :=
                mockActionSet.actions.set actionIndex
                  { mockAction with bindings := mockAction.bindings ++ [inputState] } } }

/-- The loop of `SuggestInteractionProfileBindings` over the suggested
bindings. -/
def SuggestInteractionProfileBindings.loop (mockProfile : MockInteractionProfile) :
    List XrActionSuggestedBinding → MockRuntime → XrResult × MockRuntime
  | [], rt => (XR_SUCCESS, rt)
  | suggestedBinding :: more, rt =>
    match rt.GetMockAction suggestedBinding.action with
    | none => (XR_ERROR_HANDLE_INVALID, rt)
    | some (actionSetIndex, actionIndex, mockAction) =>
      if rt.GetUserPath suggestedBinding.binding = XR_NULL_PATH then
        (XR_ERROR_PATH_UNSUPPORTED, rt)
      else
        let found := rt.GetMockInputState mockProfile suggestedBinding.binding mockAction.type true
        match found.1 with
        | none => (XR_ERROR_PATH_UNSUPPORTED, found.2)
        | some inputState =>
          SuggestInteractionProfileBindings.loop mockProfile more
            (found.2.pushBinding actionSetIndex actionIndex inputState)

/-- Method `MockRuntime::SuggestInteractionProfileBindings`; the argument is
`none` for a null pointer. -/
def SuggestInteractionProfileBindings (rt : MockRuntime)
    (suggestedBindings : Option XrInteractionProfileSuggestedBinding) :
    XrResult × MockRuntime :=
  match suggestedBindings with
  | none => (XR_ERROR_VALIDATION_FAILURE, rt)
  | some suggested =>
    if suggested.type ≠ XR_TYPE_INTERACTION_PROFILE_SUGGESTED_BINDING ∨
        suggested.countSuggestedBindings = 0 then
      (XR_ERROR_VALIDATION_FAILURE, rt)
    else if suggested.countSuggestedBindings = 0 then (XR_ERROR_VALIDATION_FAILURE, rt)
    else
      match suggested.suggestedBindings with
      | none => (XR_ERROR_VALIDATION_FAILURE, rt)
      | some bindingArray =>
        if rt.actionSetsAttached then (XR_ERROR_ACTIONSETS_ALREADY_ATTACHED, rt)
        else
          let activated :=
            if rt.activeInteractionProfile = none then
              rt.SetActiveInteractionProfile suggested.interactionProfile
            else (true, rt)
          if !activated.1 then (XR_ERROR_PATH_UNSUPPORTED, activated.2)
          else
            match activated.2.GetMockInteractionProfile suggested.interactionProfile with
            | none => (XR_ERROR_PATH_UNSUPPORTED, activated.2)
            | some (_, mockProfile) =>
              SuggestInteractionProfileBindings.loop mockProfile
                (bindingArray.take suggested.countSuggestedBindings) activated.2

end MockRuntime

/-! ## Driver extension -/

/-- The driver entry point `xrTransitionMockToStateUNITY`
(`mock_driver_extension.cpp`). `s_runtime` is the global runtime pointer,
`none` when null; `CHECK_SESSION` rejects a null runtime and a session handle
that is not the runtime's. -/
def xrTransitionMockToStateUNITY (s_runtime : Option MockRuntime) (session : XrSession)
    (requestedState : XrSessionState) (forceTransition : Bool) :
    XrResult × Option MockRuntime :=
  match s_runtime with
  | none => (XR_ERROR_HANDLE_INVALID, none)
  | some rt =>
    if rt.GetSession ≠ session then (XR_ERROR_HANDLE_INVALID, some rt)
    else if !forceTransition && !rt.IsStateTransitionValid requestedState then
      (XR_ERROR_VALIDATION_FAILURE, some rt)
    else (XR_SUCCESS, some (rt.ChangeSessionState requestedState))

/-- Modelled from the spec: the core entry point `xrRequestExitSession`, which
`mock_driver_extension.cpp` declares `extern` and which is defined outside the
sources. It is one of the entry points that check the session handle and
forward the call into the runtime, here to `MockRuntime::RequestExitSession`. -/
def xrRequestExitSession (s_runtime : Option MockRuntime) (session : XrSession) :
    XrResult × Option MockRuntime :=
  match s_runtime with
  | none => (XR_ERROR_HANDLE_INVALID, none)
  | some rt =>
    if rt.GetSession ≠ session then (XR_ERROR_HANDLE_INVALID, some rt)
    else ((rt.RequestExitSession).1, some (rt.RequestExitSession).2)

/-- The driver entry point `xrRequestExitSessionUNITY`
(`mock_driver_extension.cpp`). -/
def xrRequestExitSessionUNITY (s_runtime : Option MockRuntime) (session : XrSession) :
    XrResult × Option MockRuntime :=
  match s_runtime with
  | none => (XR_ERROR_HANDLE_INVALID, none)
  | some rt =>
    if rt.GetSession ≠ session then (XR_ERROR_HANDLE_INVALID, some rt)
    else if rt.IsSessionState XR_SESSION_STATE_READY ||
        rt.IsSessionState XR_SESSION_STATE_SYNCHRONIZED ||
        rt.IsSessionState XR_SESSION_STATE_VISIBLE ||
        rt.IsSessionState XR_SESSION_STATE_FOCUSED then
      xrRequestExitSession (some rt) session
    else (XR_ERROR_VALIDATION_FAILURE, some rt)

/-- A runtime whose session is running and is in the ready state, with nothing
queued: the state after `CreateSession`, `BeginSession` and a forced
transition back to Ready, or after `BeginSession` in Idle and the legal
transition to Ready, once the events have been polled. -/
def runningReadyRuntime : MockRuntime :=
  { MockRuntime.ctor with
    session := 3, currentState := XR_SESSION_STATE_READY, isRunning := true }

/-- A runtime whose session has been created and has come to rest in the idle
state, with nothing queued. -/
def idleRuntime : MockRuntime :=
  { MockRuntime.ctor with session := 3, currentState := XR_SESSION_STATE_IDLE }

/-! ## The accept set of the path interner, in the words of the specification -/

/-- A character a path may consist of: a lowercase letter, a digit, `-`, `_`,
`.` or `/`. -/
def isPathChar (ch : Char) : Bool :=
  ch.isLower || ch.isDigit || ch == '-' || ch == '_' || ch == '.' || ch == '/'

/-- A segment contains at least one non-period character. -/
def hasNonPeriod (segment : List Char) : Bool := segment.any (fun ch => ch != '.')

/-- The accept set of path validation as the specification words it: the string
starts with `/`, consists of path characters only, every `/`-delimited segment
(the pieces between the slashes, behind the leading one) contains a non-period
character, and the length with the terminator is at most `XR_MAX_PATH_LENGTH`. -/
def PathStringAccepted (s : CString) : Bool :=
  s.head? == some '/' && s.all isPathChar &&
    ((s.drop 1).splitOn '/').all hasNonPeriod && decide (s.length + 1 ≤ XR_MAX_PATH_LENGTH)

/-- The segment condition on the part of a path not yet read: every segment
contains a non-period character, except that the first one, which continues
the segment being read, need not when `flag` is false, that is when the part
already read of it contains one. -/
def segmentsOk (flag : Bool) : List (List Char) → Bool
  | [] => false
  | first :: more => (!flag || hasNonPeriod first) && more.all hasNonPeriod

/-! ## Aggregation of bound sources, in the words of the specification -/

/-- The input states bound to an action that match the requested sub-action
path, in binding order: all of them when the sub-action path is null,
otherwise those whose path has the requested user path. -/
def MockRuntime.matchingBindings (rt : MockRuntime) (subactionPath : XrPath)
    (bindings : List Nat) : List MockInputState :=
  (bindings.map rt.inputStateAt).filter fun st =>
    subactionPath == XR_NULL_PATH || rt.GetUserPath st.path == subactionPath

/-- The first entry of a list whose key is maximal among the keys of the list;
`d` for the empty list. -/
def firstMaximal {α : Type} (key : α → ℚ) (d : α) (xs : List α) : α :=
  (xs.find? fun x => xs.all fun y => decide (key y ≤ key x)).getD d

/-- The squared magnitude `x*x + y*y` of a vector as an exact number, without
the rounding of `float` arithmetic. -/
def XrVector2f.squaredMagnitude (v : XrVector2f) : ℚ := v.x * v.x + v.y * v.y

/-- The replacement rule of the float and vector aggregation, as a fold: an
entry replaces the running maximum only when its key is strictly greater. -/
def strictMaxFold {α : Type} (key : α → ℚ) (acc : α) (xs : List α) : α :=
  xs.foldl (fun best x => if key x > key best then x else best) acc

/-- The squared magnitude of a vector as `float` arithmetic computes it: the
float products `x * x` and `y * y` and their float sum. -/
def XrVector2f.computedSquaredMagnitude (v : XrVector2f) : FloatResult :=
  (CFloat.mul v.x v.x).add (CFloat.mul v.y v.y)

/-- The place of a float result in the order of the floats, as a rational
number: every finite float lies strictly between `-2 ^ 128` and `2 ^ 128`, and
the infinities take these two places. A NaN has no place in the order and is
given 0. -/
def FloatResult.rank : FloatResult → ℚ
  | FloatResult.finite value => value
  | FloatResult.posInf => 2 ^ 128
  | FloatResult.negInf => -2 ^ 128
  | FloatResult.nan => 0

/-- The first vector of a list whose computed squared magnitude no vector of
the list exceeds, when the computed squared magnitude of some vector of the
list exceeds zero; the zero vector otherwise. -/
def firstGreatestVector (ws : List XrVector2f) : XrVector2f :=
  if ws.all (fun w => !w.computedSquaredMagnitude.gt (FloatResult.finite 0)) then
    { x := 0, y := 0 }
  else
    (ws.find? fun w =>
      ws.all fun u => !u.computedSquaredMagnitude.gt w.computedSquaredMagnitude).getD
      { x := 0, y := 0 }

/-- The value of a boolean or float source read as a float: the value of a
float source, and for a boolean source the float nearest to its 32-bit
integer. -/
def MockInputState.floatReading (st : MockInputState) : CFloat :=
  if st.type = XR_ACTION_TYPE_FLOAT_INPUT then st.floatValue
  else CFloat.round (st.boolValue : ℚ)

/-! ## Sequences of interner calls -/

/-- A call on the path interner. -/
inductive PathCall where
  | StringToPath (pathString : CString)
  | AppendPath (path : XrPath) (append : CString)
  deriving DecidableEq, Repr

/-- The runtime a call on the path interner leaves behind. -/
def PathCall.run (rt : MockRuntime) : PathCall → MockRuntime
  | PathCall.StringToPath pathString => (rt.StringToPath pathString).2.2
  | PathCall.AppendPath path append => (rt.AppendPath path append).2

/-- The runtime after a sequence of calls on the path interner, first call first. -/
def runPathCalls (rt : MockRuntime) (calls : List PathCall) : MockRuntime :=
  calls.foldl PathCall.run rt

/-- The runtime `ctor` after `StringToPath "/user/head/input/select"`: the
component `/input/select` is the first entry of the component-path table. -/
def internedRuntime : MockRuntime :=
  { MockRuntime.ctor with componentPathStrings := ["/input/select".toList] }

/-- A runtime whose running session has reached the stopping state after an
exit request, with nothing queued. -/
def stoppingRuntime : MockRuntime :=
  { MockRuntime.ctor with
    session := 3, currentState := XR_SESSION_STATE_STOPPING, isRunning := true,
    exitSessionRequested := true }

/-- A runtime with one attached action set that holds a float action bound to
two float sources of values -0.8 and 0.5, a boolean action bound to a boolean
source that is set and to the second float source, and a 2D-vector action
bound to two vector sources of equal magnitude; the float and the vector
action are also bound to a source of the other type under the right hand. -/
def readRuntime : MockRuntime :=
  { MockRuntime.ctor with
    session := 3
    currentState := XR_SESSION_STATE_FOCUSED
    isRunning := true
    actionSetsAttached := true
    inputStates :=
      [{ interactionProfile := 4294967296, path := 8589934593,
         type := XR_ACTION_TYPE_FLOAT_INPUT,
         boolValue := 0, floatValue := -4 / 5, vectorValue := { x := 0, y := 0 } },
       { interactionProfile := 4294967296, path := 12884901889,
         type := XR_ACTION_TYPE_FLOAT_INPUT,
         boolValue := 0, floatValue := 1 / 2, vectorValue := { x := 0, y := 0 } },
       { interactionProfile := 4294967296, path := 17179869185,
         type := XR_ACTION_TYPE_BOOLEAN_INPUT,
         boolValue := 1, floatValue := 0, vectorValue := { x := 0, y := 0 } },
       { interactionProfile := 4294967296, path := 21474836481,
         type := XR_ACTION_TYPE_VECTOR2F_INPUT,
         boolValue := 0, floatValue := 0, vectorValue := { x := 3 / 5, y := 4 / 5 } },
       { interactionProfile := 4294967296, path := 25769803777,
         type := XR_ACTION_TYPE_VECTOR2F_INPUT,
         boolValue := 0, floatValue := 0, vectorValue := { x := 4 / 5, y := 3 / 5 } },
       { interactionProfile := 4294967296, path := 21474836482,
         type := XR_ACTION_TYPE_VECTOR2F_INPUT,
         boolValue := 0, floatValue := 0, vectorValue := { x := 1, y := 0 } },
       { interactionProfile := 4294967296, path := 8589934594,
         type := XR_ACTION_TYPE_FLOAT_INPUT,
         boolValue := 0, floatValue := 1, vectorValue := { x := 0, y := 0 } }]
    actionSets :=
      [{ actionSet := 1, attached := true, name := "gameplay".toList,
         localizedName := "Gameplay".toList, isDestroyed := false,
         actions :=
           [{ action := 4294967297, path := 0, name := "squeeze".toList,
              localizedName := "Squeeze".toList, type := XR_ACTION_TYPE_FLOAT_INPUT,
              bindings := [0, 1, 5], userPaths := [], isDestroyed := false },
            { action := 8589934593, path := 0, name := "fire".toList,
              localizedName := "Fire".toList, type := XR_ACTION_TYPE_BOOLEAN_INPUT,
              bindings := [2, 1], userPaths := [], isDestroyed := false },
            { action := 12884901889, path := 0, name := "move".toList,
              localizedName := "Move".toList, type := XR_ACTION_TYPE_VECTOR2F_INPUT,
              bindings := [3, 4, 6], userPaths := [], isDestroyed := false }] }] }

/-- A runtime with one attached action set that holds two 2D-vector actions:
"move", bound to two vector sources of values (1, 0) and (1, 2^-13), and
"tilt", bound to one vector source of value (2^-80, 0). The five numbers are
floats. -/
def roundingRuntime : MockRuntime :=
  { MockRuntime.ctor with
    session := 3
    currentState := XR_SESSION_STATE_FOCUSED
    isRunning := true
    actionSetsAttached := true
    inputStates :=
      [{ interactionProfile := 4294967296, path := 8589934593,
         type := XR_ACTION_TYPE_VECTOR2F_INPUT,
         boolValue := 0, floatValue := 0, vectorValue := { x := 1, y := 0 } },
       { interactionProfile := 4294967296, path := 12884901889,
         type := XR_ACTION_TYPE_VECTOR2F_INPUT,
         boolValue := 0, floatValue := 0, vectorValue := { x := 1, y := 1 / 2 ^ 13 } },
       { interactionProfile := 4294967296, path := 17179869185,
         type := XR_ACTION_TYPE_VECTOR2F_INPUT,
         boolValue := 0, floatValue := 0, vectorValue := { x := 1 / 2 ^ 80, y := 0 } }]
    actionSets :=
      [{ actionSet := 1, attached := true, name := "gameplay".toList,
         localizedName := "Gameplay".toList, isDestroyed := false,
         actions :=
           [{ action := 4294967297, path := 0, name := "move".toList,
              localizedName := "Move".toList, type := XR_ACTION_TYPE_VECTOR2F_INPUT,
              bindings := [0, 1], userPaths := [], isDestroyed := false },
            { action := 8589934593, path := 0, name := "tilt".toList,
              localizedName := "Tilt".toList, type := XR_ACTION_TYPE_VECTOR2F_INPUT,
              bindings := [2], userPaths := [], isDestroyed := false }] }] }

/-- The action "move" of `roundingRuntime`. -/
def moveAction : MockAction :=
  { action := 4294967297, path := 0, name := "move".toList,
    localizedName := "Move".toList, type := XR_ACTION_TYPE_VECTOR2F_INPUT,
    bindings := [0, 1], userPaths := [], isDestroyed := false }

/-! ## Suggested bindings: reading the result, and an application on the constructed runtime -/

/-- The bindings of the action at the given indices, `none` when there is no
such action. -/
def MockRuntime.actionBindings (rt : MockRuntime) (actionSetIndex actionIndex : Nat) :
    Option (List Nat) :=
  match rt.actionSets[actionSetIndex]? with
  | none => none
  | some mockActionSet =>
    match mockActionSet.actions[actionIndex]? with
    | none => none
    | some mockAction => some mockAction.bindings

/-- The indices of the action set and of the action in it that an action
handle points at: the low 16 bits and the high 32 bits of the handle, each
less one. -/
def actionIndices (action : XrAction) : Nat × Nat :=
  (((action &&& 0xFFFF) + (2 ^ 64 - 1)) % 2 ^ 64, ((action >>> 32) + (2 ^ 64 - 1)) % 2 ^ 64)

/-- The input source of a profile at a path: the index of the first input state
of the profile with that path handle, `none` when the profile has none. -/
def MockRuntime.sourceAt (rt : MockRuntime) (mockProfile : MockInteractionProfile)
    (path : XrPath) : Option Nat :=
  GetMockInputState.loop mockProfile.path path rt.inputStates 0


/-- The constructed runtime after `CreateSession`, with one action set
"gameplay" that holds the boolean action "fire": the set has the handle 1 and
the action the handle `1 + (1 << 32)` that `CreateActionSet` and `CreateAction`
give to the first set and its first action. -/
def suggestRuntime : MockRuntime :=
  { MockRuntime.constructed with
    session := 3
    currentState := XR_SESSION_STATE_READY
    actionSets :=
      [{ actionSet := 1, attached := false, name := "gameplay".toList,
         localizedName := "Gameplay".toList, isDestroyed := false,
         actions :=
           [{ action := 4294967297, path := 0, name := "fire".toList,
              localizedName := "Fire".toList, type := XR_ACTION_TYPE_BOOLEAN_INPUT,
              bindings := [], userPaths := [], isDestroyed := false }] }] }

/-- The path `/user/hand/left/input/trigger`, interned on `suggestRuntime`. -/
def triggerPath : XrPath × MockRuntime :=
  suggestRuntime.StringToPathOrNull "/user/hand/left/input/trigger".toList

/-- The path of the Microsoft motion controller profile, interned next. -/
def motionControllerPath : XrPath × MockRuntime :=
  triggerPath.2.StringToPathOrNull "/interaction_profiles/microsoft/motion_controller".toList

/-- The profile that the runtime holds for the Microsoft motion controller,
the second of the catalogue. -/
def motionControllerProfile : MockInteractionProfile :=
  motionControllerPath.2.interactionProfiles.getD 1
    { path := XR_NULL_PATH, userPaths := [], inputSources := [] }

/-- The boolean action "fire" of `suggestRuntime`. -/
def fireAction : MockAction :=
  { action := 4294967297, path := 0, name := "fire".toList,
    localizedName := "Fire".toList, type := XR_ACTION_TYPE_BOOLEAN_INPUT,
    bindings := [], userPaths := [], isDestroyed := false }

/-- The suggested binding of "fire" to `/user/hand/left/input/trigger`. -/
def triggerBinding : XrActionSuggestedBinding :=
  { action := 4294967297, binding := triggerPath.1 }

/-- The call that suggests `/user/hand/left/input/trigger` for the boolean
action "fire" under the Microsoft motion controller profile. -/
def triggerSuggestion : XrResult × MockRuntime :=
  motionControllerPath.2.SuggestInteractionProfileBindings
    (some { type := XR_TYPE_INTERACTION_PROFILE_SUGGESTED_BINDING,
            interactionProfile := motionControllerPath.1,
            countSuggestedBindings := 1,
            suggestedBindings := some [triggerBinding] })

/-- The path `/user/hand/left/input/select/click`, interned on `suggestRuntime`. -/
def selectPath : XrPath × MockRuntime :=
  suggestRuntime.StringToPathOrNull "/user/hand/left/input/select/click".toList

/-- The path of the KHR simple controller profile, interned next. -/
def simpleControllerPath : XrPath × MockRuntime :=
  selectPath.2.StringToPathOrNull "/interaction_profiles/khr/simple_controller".toList

/-- The first call of an application: it suggests the select click of the left
hand for "fire" under the simple controller profile, which thereby becomes the
active profile. -/
def simpleSuggestion : XrResult × MockRuntime :=
  simpleControllerPath.2.SuggestInteractionProfileBindings
    (some { type := XR_TYPE_INTERACTION_PROFILE_SUGGESTED_BINDING,
            interactionProfile := simpleControllerPath.1,
            countSuggestedBindings := 1,
            suggestedBindings := some [{ action := 4294967297, binding := selectPath.1 }] })

/-- The path `/user/hand/left/input/squeeze/click`, which the simple controller
does not have, interned after the first call. -/
def squeezePath : XrPath × MockRuntime :=
  simpleSuggestion.2.StringToPathOrNull "/user/hand/left/input/squeeze/click".toList

/-- The path of the Microsoft motion controller profile, interned next. -/
def secondProfilePath : XrPath × MockRuntime :=
  squeezePath.2.StringToPathOrNull "/interaction_profiles/microsoft/motion_controller".toList

/-- The suggested bindings of the second call: the squeeze click of the left
hand for "fire" under the Microsoft motion controller profile. -/
def squeezeBindings : XrInteractionProfileSuggestedBinding :=
  { type := XR_TYPE_INTERACTION_PROFILE_SUGGESTED_BINDING,
    interactionProfile := secondProfilePath.1,
    countSuggestedBindings := 1,
    suggestedBindings := some [{ action := 4294967297, binding := squeezePath.1 }] }

/-- The second call of the application, made while the simple controller is
the active profile. -/
def squeezeSuggestion : XrResult × MockRuntime :=
  secondProfilePath.2.SuggestInteractionProfileBindings (some squeezeBindings)

/-! ## Argument structures of the action set and space operations -/

/-- The structure `XrActionSetCreateInfo` of `openxr.h`, by the members the
runtime reads. -/
structure XrActionSetCreateInfo where
  actionSetName : CString
  localizedActionSetName : CString
  deriving DecidableEq, Repr

/-- The structure `XrActionCreateInfo` of `openxr.h`, by the members the
runtime reads. `actionType` is `none` for a value that is none of the five
enumerators of `XrActionType`; `subactionPaths` is the array pointer, `none`
when null. -/
structure XrActionCreateInfo where
  actionName : CString
  actionType : Option XrActionType
  countSubactionPaths : Nat
  subactionPaths : Option (List XrPath)
  localizedActionName : CString
  deriving DecidableEq, Repr

/-- The structure `XrSessionActionSetsAttachInfo` of `openxr.h`; `actionSets`
is the array pointer, `none` when null. -/
structure XrSessionActionSetsAttachInfo where
  type : XrStructureType
  countActionSets : Nat
  actionSets : Option (List XrActionSet)
  deriving DecidableEq, Repr

/-- The structure `XrActiveActionSet` of `openxr.h`. -/
structure XrActiveActionSet where
  actionSet : XrActionSet
  subactionPath : XrPath
  deriving DecidableEq, Repr

/-- The structure `XrActionsSyncInfo` of `openxr.h`; `activeActionSets` is the
array pointer, `none` when null. -/
structure XrActionsSyncInfo where
  type : XrStructureType
  countActiveActionSets : Nat
  activeActionSets : Option (List XrActiveActionSet)
  deriving DecidableEq, Repr

/-- The structure `XrBoundSourcesForActionEnumerateInfo` of `openxr.h`. -/
structure XrBoundSourcesForActionEnumerateInfo where
  type : XrStructureType
  action : XrAction
  deriving DecidableEq, Repr

/-- The structure `XrReferenceSpaceCreateInfo` of `openxr.h`. -/
structure XrReferenceSpaceCreateInfo where
  type : XrStructureType
  referenceSpaceType : XrReferenceSpaceType
  poseInReferenceSpace : XrPosef
  deriving DecidableEq, Repr

/-- The structure `XrActionSpaceCreateInfo` of `openxr.h`. -/
structure XrActionSpaceCreateInfo where
  type : XrStructureType
  action : XrAction
  subactionPath : XrPath
  poseInActionSpace : XrPosef
  deriving DecidableEq, Repr

/-- The structure `XrViewLocateInfo` of `openxr.h`, by the member the runtime
reads. -/
structure XrViewLocateInfo where
  viewConfigurationType : XrViewConfigurationType
  deriving DecidableEq, Repr

/-- The state `ConformanceAutomation::states` of the conformance automation
extension (`mock_conformance_automation.cpp`): the `std::map` from the path of
an input source to the value pushed for it. -/
abbrev ConformanceStates := List (XrPath × MockInputState)

namespace MockRuntime

/-! ### Session teardown -/

/-- Method `MockRuntime::DestroySession`. -/
def DestroySession (rt : MockRuntime) : XrResult × MockRuntime :=
  if rt.session = 0 then (XR_ERROR_HANDLE_INVALID, rt)
  else
    (XR_SUCCESS,
      { rt with
        isRunning := false
        exitSessionRequested := false
        session := XR_NULL_HANDLE
        actionSetsAttached := false
        activeInteractionProfile := none })

/-! ### Action binding engine: action sets and actions -/

/-- Method `MockRuntime::ValidateName`: every character is a digit, a
lowercase letter, `-`, `_` or a period. -/
def ValidateName : CString → XrResult
  | [] => XR_SUCCESS
  | c :: more =>
    if isNonPeriodChar c then ValidateName more
    else if c = '.' then ValidateName more
    else XR_ERROR_PATH_FORMAT_INVALID

/-- Method `MockRuntime::IsValidUserPath`. -/
def IsValidUserPath (rt : MockRuntime) (path : XrPath) : Bool :=
  decide (path ≠ XR_NULL_PATH) && decide (rt.GetUserPath path = path)

/-- Method `MockRuntime::GetMockActionSet(XrActionSet)`: the index of the
action set in `actionSets` and the set, `none` for the null pointer. The
index is a `size_t`, so the subtraction of one wraps around at zero. -/
def GetMockActionSet (rt : MockRuntime) (actionSet : XrActionSet) :
    Option (Nat × MockActionSet) :=
  let actionSetIndex := (actionSet + (2 ^ 64 - 1)) % 2 ^ 64
  match rt.actionSets[actionSetIndex]? with
  | none => none
  | some mockActionSet =>
    if mockActionSet.actionSet ≠ actionSet then none
    else some (actionSetIndex, mockActionSet)

/-- The loop of `CreateActionSet` over the existing action sets: the error
with which the loop returns, `none` when it runs to the end. -/
def CreateActionSet.loop (createInfo : XrActionSetCreateInfo) :
    List MockActionSet → Option XrResult
  | [] => none
  | existing :: more =>
    if existing.name = createInfo.actionSetName then some XR_ERROR_NAME_DUPLICATED
    else if existing.localizedName = createInfo.localizedActionSetName then
      some XR_ERROR_LOCALIZED_NAME_DUPLICATED
    else CreateActionSet.loop createInfo more

/-- Method `MockRuntime::CreateActionSet`. The second component is the handle
written to `*actionSet`. -/
def CreateActionSet (rt : MockRuntime) (createInfo : XrActionSetCreateInfo) :
    XrResult × Option XrActionSet × MockRuntime :=
  if createInfo.actionSetName = [] then (XR_ERROR_NAME_INVALID, none, rt)
  else if createInfo.localizedActionSetName = [] then
    (XR_ERROR_LOCALIZED_NAME_INVALID, none, rt)
  else if createInfo.actionSetName.length ≥ XR_MAX_ACTION_SET_NAME_SIZE then
    (XR_ERROR_NAME_INVALID, none, rt)
  else if createInfo.localizedActionSetName.length ≥ XR_MAX_LOCALIZED_ACTION_SET_NAME_SIZE then
    (XR_ERROR_LOCALIZED_NAME_INVALID, none, rt)
  else if ValidateName createInfo.actionSetName ≠ XR_SUCCESS then
    (ValidateName createInfo.actionSetName, none, rt)
  else
    match CreateActionSet.loop createInfo rt.actionSets with
    | some result => (result, none, rt)
    | none =>
      if rt.actionSets.length ≥ 0xFFFE then (XR_ERROR_LIMIT_REACHED, none, rt)
      else
        let added : MockActionSet :=
          { actionSet := rt.actionSets.length + 1
            isDestroyed := false
            attached := false
            name := createInfo.actionSetName
            localizedName := createInfo.localizedActionSetName
            actions := [] }
        (XR_SUCCESS, some added.actionSet, { rt with actionSets := rt.actionSets ++ [added] })

/-- The scan of `DestroyActionSet`: the index of the first action set with the
given handle. -/
def DestroyActionSet.scan (actionSet : XrActionSet) : List MockActionSet → Nat → Option Nat
  | [], _ => none
  | mockActionSet :: more, i =>
    if mockActionSet.actionSet = actionSet then some i
    else DestroyActionSet.scan actionSet more (i + 1)

/-- Method `MockRuntime::DestroyActionSet`: the first action set with the
handle is erased from the vector, and the sets behind it move up by one. -/
def DestroyActionSet (rt : MockRuntime) (actionSet : XrActionSet) : XrResult × MockRuntime :=
  match DestroyActionSet.scan actionSet rt.actionSets 0 with
  | some i => (XR_SUCCESS, { rt with actionSets := rt.actionSets.eraseIdx i })
  | none => (XR_ERROR_HANDLE_INVALID, rt)

/-- The loop of `CreateAction` over the actions of the set, from index `i`,
with the slot `mockAction` found so far for reuse: the error with which the
loop returns, or the slot with which it ends. -/
def CreateAction.scan (createInfo : XrActionCreateInfo) :
    List MockAction → Nat → Option Nat → Except XrResult (Option Nat)
  | [], _, mockAction => .ok mockAction
  | existingMockAction :: more, i, mockAction =>
    if existingMockAction.isDestroyed then
      CreateAction.scan createInfo more (i + 1)
        (if existingMockAction.name = createInfo.actionName then some i else mockAction)
    else if existingMockAction.name = createInfo.actionName then
      .error XR_ERROR_NAME_DUPLICATED
    else if !existingMockAction.isDestroyed &&
        decide (existingMockAction.localizedName = createInfo.localizedActionName) then
      .error XR_ERROR_LOCALIZED_NAME_DUPLICATED
    else CreateAction.scan createInfo more (i + 1) mockAction

/-- The loop of `CreateAction` over the sub-action paths, with the
`userPaths` of the action so far: the result with which the loop returns or
ends, and the `userPaths` it leaves in the action. -/
def CreateAction.subactionLoop (rt : MockRuntime) :
    List XrPath → List XrPath → XrResult × List XrPath
  | [], userPaths => (XR_SUCCESS, userPaths)
  | subactionPath :: more, userPaths =>
    if !rt.IsValidUserPath subactionPath then (XR_ERROR_PATH_UNSUPPORTED, userPaths)
    else if subactionPath ∈ userPaths then (XR_ERROR_PATH_UNSUPPORTED, userPaths)
    else CreateAction.subactionLoop rt more (userPaths ++ [subactionPath])

/-- The statements of `CreateAction` that fill the slot `mockAction` of a
collection of `size` elements: the handle, computed in 64 bits from the handle
of the set and the size of the collection, and the members of the create info
are assigned, and the sub-action paths are pushed one by one behind the user
paths the slot holds. The result is the result of the loop over the
sub-action paths and the action left in the slot. -/
def CreateAction.fill (rt : MockRuntime) (actionSet : XrActionSet)
    (createInfo : XrActionCreateInfo) (size : Nat) (mockAction : MockAction)
    (actionType : XrActionType) : XrResult × MockAction :=
  let handle := (actionSet + (size <<< 32) % 2 ^ 64) % 2 ^ 64
  let paths :=
    CreateAction.subactionLoop rt
      ((createInfo.subactionPaths.getD []).take createInfo.countSubactionPaths)
      mockAction.userPaths
  (paths.1,
    { mockAction with
      action := handle
      name := createInfo.actionName
      localizedName := createInfo.localizedActionName
      type := actionType
      isDestroyed := false
      userPaths := paths.2 })

/-- The statements of `CreateAction` behind its checks, for the set found at
`actionSetIndex` and the slot `reused` that the scan left for reuse: a new
element is emplaced unless a slot is reused, the slot is filled, and the
handle is written to `*action` when every sub-action path was accepted. The
element that `emplace_back` value-initialises has no bindings and no user
paths; a reused slot keeps the bindings, the user paths and the path it
had. -/
def CreateAction.create (rt : MockRuntime) (actionSet : XrActionSet)
    (createInfo : XrActionCreateInfo) (actionSetIndex : Nat) (mockActionSet : MockActionSet)
    (reused : Option Nat) (actionType : XrActionType) :
    XrResult × Option XrAction × MockRuntime :=
  let emplaced : MockAction :=
    { action := 0, path := 0, name := [], localizedName := [],
      type := XR_ACTION_TYPE_BOOLEAN_INPUT, bindings := [], userPaths := [],
      isDestroyed := false }
  match reused with
  | none =>
    let filled :=
      CreateAction.fill rt actionSet createInfo (mockActionSet.actions.length + 1) emplaced
        actionType
    (filled.1, if filled.1 = XR_SUCCESS then some filled.2.action else none,
      { rt with
        actionSets :=
          rt.actionSets.set actionSetIndex
            { mockActionSet with actions := mockActionSet.actions ++ [filled.2] } })
  | some slot =>
    let filled :=
      CreateAction.fill rt actionSet createInfo mockActionSet.actions.length
        (mockActionSet.actions.getD slot emplaced) actionType
    (filled.1, if filled.1 = XR_SUCCESS then some filled.2.action else none,
      { rt with
        actionSets :=
          rt.actionSets.set actionSetIndex
            { mockActionSet with actions := mockActionSet.actions.set slot filled.2 } })

/-- The checks of `CreateAction` on the create info, for the set found: the
error with which the method returns before it writes to the runtime, or the
slot left for reuse and the action type with which it goes on. -/
def CreateAction.check (createInfo : XrActionCreateInfo) (mockActionSet : MockActionSet) :
    Except XrResult (Option Nat × XrActionType) :=
  if mockActionSet.attached then .error XR_ERROR_ACTIONSETS_ALREADY_ATTACHED
  else if createInfo.actionName = [] then .error XR_ERROR_NAME_INVALID
  else if createInfo.localizedActionName = [] then .error XR_ERROR_LOCALIZED_NAME_INVALID
  else if ValidateName createInfo.actionName ≠ XR_SUCCESS then
    .error (ValidateName createInfo.actionName)
  else if createInfo.actionName.length ≥ XR_MAX_ACTION_NAME_SIZE then
    .error XR_ERROR_NAME_INVALID
  else if createInfo.localizedActionName.length ≥ XR_MAX_LOCALIZED_ACTION_NAME_SIZE then
    .error XR_ERROR_LOCALIZED_NAME_INVALID
  else
    match CreateAction.scan createInfo mockActionSet.actions 0 none with
    | .error result => .error result
    | .ok reused =>
      match createInfo.actionType with
      | none => .error XR_ERROR_VALIDATION_FAILURE
      | some actionType =>
        if mockActionSet.actions.length ≥ 0xFFFE then .error XR_ERROR_LIMIT_REACHED
        else if createInfo.countSubactionPaths > 0 ∧ createInfo.subactionPaths = none then
          .error XR_ERROR_VALIDATION_FAILURE
        else .ok (reused, actionType)

/-- Method `MockRuntime::CreateAction`: the lookup of the set, the checks and
the statements behind them. The second component is the handle written to
`*action`. -/
def CreateAction (rt : MockRuntime) (actionSet : XrActionSet)
    (createInfo : XrActionCreateInfo) : XrResult × Option XrAction × MockRuntime :=
  match rt.GetMockActionSet actionSet with
  | none => (XR_ERROR_HANDLE_INVALID, none, rt)
  | some (actionSetIndex, mockActionSet) =>
    match CreateAction.check createInfo mockActionSet with
    | .error result => (result, none, rt)
    | .ok (reused, actionType) =>
      CreateAction.create rt actionSet createInfo actionSetIndex mockActionSet reused actionType

/-- Method `MockRuntime::DestroyAction`. -/
def DestroyAction (rt : MockRuntime) (action : XrAction) : XrResult × MockRuntime :=
  match rt.GetMockAction action with
  | none => (XR_ERROR_HANDLE_INVALID, rt)
  | some (actionSetIndex, actionIndex, mockAction) =>
    (XR_SUCCESS,
      { rt with
        actionSets :=
          rt.actionSets.modify
            (fun mockActionSet =>
              { mockActionSet with
                actions := mockActionSet.actions.set actionIndex
                  { mockAction with isDestroyed := true } })
            actionSetIndex })

/-- The loop of `AttachSessionActionSets` over the handles of the array: each
set found is marked attached before the next handle is looked up. -/
def AttachSessionActionSets.loop : List XrActionSet → MockRuntime → XrResult × MockRuntime
  | [], rt => (XR_SUCCESS, rt)
  | handle :: more, rt =>
    match rt.GetMockActionSet handle with
    | none => (XR_ERROR_HANDLE_INVALID, rt)
    | some (actionSetIndex, mockActionSet) =>
      AttachSessionActionSets.loop more
        { rt with
          actionSets := rt.actionSets.set actionSetIndex { mockActionSet with attached := true } }

/-- Method `MockRuntime::AttachSessionActionSets`; the argument is `none` for
a null pointer. -/
def AttachSessionActionSets (rt : MockRuntime)
    (attachInfo : Option XrSessionActionSetsAttachInfo) : XrResult × MockRuntime :=
  match attachInfo with
  | none => (XR_ERROR_VALIDATION_FAILURE, rt)
  | some info =>
    if info.type ≠ XR_TYPE_SESSION_ACTION_SETS_ATTACH_INFO then (XR_ERROR_VALIDATION_FAILURE, rt)
    else
      match info.actionSets with
      | none => (XR_ERROR_VALIDATION_FAILURE, rt)
      | some handles =>
        if info.countActionSets = 0 then (XR_ERROR_VALIDATION_FAILURE, rt)
        else if rt.actionSetsAttached then (XR_ERROR_ACTIONSETS_ALREADY_ATTACHED, rt)
        else
          let looped := AttachSessionActionSets.loop (handles.take info.countActionSets) rt
          if looped.1 ≠ XR_SUCCESS then looped
          else (XR_SUCCESS, { looped.2 with actionSetsAttached := true })

/-- Method `MockRuntime::IsConformanceAutomationEnabled`. -/
def IsConformanceAutomationEnabled (rt : MockRuntime) : Bool :=
  rt.createFlags &&& MR_CREATE_CONFORMANCE_AUTOMATION_EXT != 0

/-- The function `ConformanceAutomation_GetInputState`
(`mock_conformance_automation.cpp`) on the input state a binding points to:
with the extension object present and a value pushed for the path of the
state, the state copies that value; `s_ext` is `none` for the null pointer. -/
def ConformanceAutomation_GetInputState (rt : MockRuntime) (s_ext : Option ConformanceStates)
    (binding : Nat) : MockRuntime :=
  match s_ext with
  | none => rt
  | some states =>
    match rt.inputStates[binding]? with
    | none => rt
    | some state =>
      match states.lookup state.path with
      | none => rt
      | some pushed =>
        { rt with inputStates := rt.inputStates.set binding (state.CopyValue pushed) }

/-- The two inner loops of `SyncActions`, over the actions of a set and the
bindings of each action: every binding that passes the sub-action filter is
refreshed from the conformance automation. -/
def SyncActions.refresh (s_ext : Option ConformanceStates) (subactionPath : XrPath)
    (actions : List MockAction) (rt : MockRuntime) : MockRuntime :=
  actions.foldl
    (fun rt1 mockAction =>
      mockAction.bindings.foldl
        (fun rt2 binding =>
          if subactionPath ≠ XR_NULL_PATH ∧
              subactionPath ≠ rt2.GetUserPath (rt2.inputStateAt binding).path then rt2
          else rt2.ConformanceAutomation_GetInputState s_ext binding)
        rt1)
    rt

/-- The loop of `SyncActions` over the active action sets: the error with
which the loop returns, `none` when it runs to the end, and the runtime. -/
def SyncActions.loop (s_ext : Option ConformanceStates) :
    List XrActiveActionSet → MockRuntime → Option XrResult × MockRuntime
  | [], rt => (none, rt)
  | active :: more, rt =>
    match rt.GetMockActionSet active.actionSet with
    | none => (some XR_ERROR_HANDLE_INVALID, rt)
    | some (_, mockActionSet) =>
      if !mockActionSet.attached then (some XR_ERROR_ACTIONSET_NOT_ATTACHED, rt)
      else
        SyncActions.loop s_ext more
          (if rt.IsConformanceAutomationEnabled then
            SyncActions.refresh s_ext active.subactionPath mockActionSet.actions rt
          else rt)

/-- Method `MockRuntime::SyncActions`; the argument is `none` for a null
pointer, and `s_ext` is the state of the conformance automation extension. -/
def SyncActions (rt : MockRuntime) (s_ext : Option ConformanceStates)
    (syncInfo : Option XrActionsSyncInfo) : XrResult × MockRuntime :=
  match syncInfo with
  | none => (XR_ERROR_VALIDATION_FAILURE, rt)
  | some info =>
    if info.type ≠ XR_TYPE_ACTIONS_SYNC_INFO then (XR_ERROR_VALIDATION_FAILURE, rt)
    else if info.countActiveActionSets > 0 ∧ info.activeActionSets = none then
      (XR_ERROR_VALIDATION_FAILURE, rt)
    else
      let looped :=
        SyncActions.loop s_ext
          ((info.activeActionSets.getD []).take info.countActiveActionSets) rt
      match looped.1 with
      | some result => (result, looped.2)
      | none =>
        if looped.2.currentState ≠ XR_SESSION_STATE_FOCUSED then (XR_SESSION_NOT_FOCUSED, looped.2)
        else (XR_SUCCESS, looped.2)

/-- The loop of `EnumerateBoundSourcesForAction` over the bindings, with the
running `*sourceCountOutput` (a `uint32_t`) and the paths written to the
buffer so far. `sources` tells whether the buffer pointer is non-null; the
result is `none` when the loop stores through the null pointer. -/
def EnumerateBoundSourcesForAction.loop (rt : MockRuntime) (sourceCapacityInput : Nat)
    (sources : Bool) : List Nat → Nat → List XrPath → Option (XrResult × Nat × List XrPath)
  | [], sourceCountOutput, written => some (XR_SUCCESS, sourceCountOutput, written)
  | mockInputState :: more, sourceCountOutput, written =>
    if sources && decide (sourceCountOutput ≥ sourceCapacityInput) then
      some (XR_ERROR_SIZE_INSUFFICIENT, sourceCountOutput, written)
    else if !sources then none
    else
      EnumerateBoundSourcesForAction.loop rt sourceCapacityInput sources more
        ((sourceCountOutput + 1) % 2 ^ 32) (written ++ [(rt.inputStateAt mockInputState).path])

/-- Method `MockRuntime::EnumerateBoundSourcesForAction`. `enumerateInfo` is
`none` for a null pointer, `sourceCountOutput` and `sources` tell whether the
two output pointers are non-null. The result is the return value, the count
left in `*sourceCountOutput` (`none` when it was not written) and the paths
written to the buffer from its start; it is `none` when the call stores
through the null buffer pointer. -/
def EnumerateBoundSourcesForAction (rt : MockRuntime)
    (enumerateInfo : Option XrBoundSourcesForActionEnumerateInfo) (sourceCapacityInput : Nat)
    (sourceCountOutput sources : Bool) : Option (XrResult × Option Nat × List XrPath) :=
  match enumerateInfo with
  | none => some (XR_ERROR_VALIDATION_FAILURE, none, [])
  | some info =>
    if info.type ≠ XR_TYPE_BOUND_SOURCES_FOR_ACTION_ENUMERATE_INFO then
      some (XR_ERROR_VALIDATION_FAILURE, none, [])
    else if sourceCapacityInput > 0 ∧ sources = false then
      some (XR_ERROR_VALIDATION_FAILURE, none, [])
    else if sourceCountOutput = false then some (XR_ERROR_VALIDATION_FAILURE, none, [])
    else
      match rt.GetMockAction info.action with
      | none => some (XR_ERROR_HANDLE_INVALID, none, [])
      | some (_, _, mockAction) =>
        if !rt.actionSetsAttached ||
            !((rt.GetMockActionSetOfAction mockAction.action).map
                (fun found => found.2.attached)).getD false then
          some (XR_ERROR_ACTIONSET_NOT_ATTACHED, none, [])
        else
          (EnumerateBoundSourcesForAction.loop rt sourceCapacityInput sources
              mockAction.bindings 0 []).map
            (fun looped => (looped.1, some looped.2.1, looped.2.2))

/-! ### Frame and view runtime -/

/-- Method `MockRuntime::GetMockSpace`: the space a handle names, `none` for
the null pointer. -/
def GetMockSpace (rt : MockRuntime) (space : XrSpace) : Option MockSpace :=
  if space = 0 ∨ space > rt.spaces.length then none else rt.spaces[space - 1]?

/-- Method `MockRuntime::CreateReferenceSpace`; the argument is `none` for a
null pointer and the second component is the handle written to `*space`. -/
def CreateReferenceSpace (rt : MockRuntime) (createInfo : Option XrReferenceSpaceCreateInfo) :
    XrResult × Option XrSpace × MockRuntime :=
  match createInfo with
  | none => (XR_ERROR_VALIDATION_FAILURE, none, rt)
  | some info =>
    if info.type ≠ XR_TYPE_REFERENCE_SPACE_CREATE_INFO then (XR_ERROR_VALIDATION_FAILURE, none, rt)
    else if info.referenceSpaceType = XR_REFERENCE_SPACE_TYPE_LOCAL ∨
        info.referenceSpaceType = XR_REFERENCE_SPACE_TYPE_STAGE ∨
        info.referenceSpaceType = XR_REFERENCE_SPACE_TYPE_VIEW ∨
        info.referenceSpaceType = XR_REFERENCE_SPACE_TYPE_UNBOUNDED_MSFT then
      let mockSpace : MockSpace :=
        { pose := info.poseInReferenceSpace, isDestroyed := false, action := XR_NULL_HANDLE,
          subActionPath := XR_NULL_PATH }
      (XR_SUCCESS, some (rt.spaces.length + 1), { rt with spaces := rt.spaces ++ [mockSpace] })
    else (XR_ERROR_REFERENCE_SPACE_UNSUPPORTED, none, rt)

/-- Method `MockRuntime::CreateActionSpace`; `createInfo` is `none` for a null
pointer, `space` tells whether the output pointer is non-null, and the second
component is the handle written to `*space`. -/
def CreateActionSpace (rt : MockRuntime) (createInfo : Option XrActionSpaceCreateInfo)
    (space : Bool) : XrResult × Option XrSpace × MockRuntime :=
  match createInfo with
  | none => (XR_ERROR_VALIDATION_FAILURE, none, rt)
  | some info =>
    if info.type ≠ XR_TYPE_ACTION_SPACE_CREATE_INFO then (XR_ERROR_VALIDATION_FAILURE, none, rt)
    else if space = false then (XR_ERROR_VALIDATION_FAILURE, none, rt)
    else
      match rt.GetMockAction info.action with
      | none => (XR_ERROR_HANDLE_INVALID, none, rt)
      | some (_, _, mockAction) =>
        if mockAction.type ≠ XR_ACTION_TYPE_POSE_INPUT then
          (XR_ERROR_ACTION_TYPE_MISMATCH, none, rt)
        else if info.subactionPath ≠ XR_NULL_PATH ∧ info.subactionPath ∉ mockAction.userPaths then
          (XR_ERROR_PATH_UNSUPPORTED, none, rt)
        else
          let mockSpace : MockSpace :=
            { pose := info.poseInActionSpace, isDestroyed := false, action := mockAction.action,
              subActionPath := info.subactionPath }
          (XR_SUCCESS, some (rt.spaces.length + 1), { rt with spaces := rt.spaces ++ [mockSpace] })

/-- Method `MockRuntime::SetSpacePose`. -/
def SetSpacePose (rt : MockRuntime) (pose : XrPosef) (locationFlags : XrSpaceLocationFlags) :
    MockRuntime :=
  { rt with spacePose := pose, spaceLocationFlags := locationFlags, spacePoseOverriden := true }

/-- The loop of `LocateSpace` over the bindings of the action of a space: the
pose of the first binding that passes the sub-action filter, `none` when no
binding passes it. -/
def LocateSpace.loop (rt : MockRuntime) (subActionPath : XrPath) : List Nat → Option XrPosef
  | [] => none
  | binding :: more =>
    if subActionPath ≠ XR_NULL_PATH ∧
        rt.GetUserPath (rt.inputStateAt binding).path ≠ subActionPath then
      LocateSpace.loop rt subActionPath more
    else some (rt.inputStateAt binding).GetLocationPose

/-- Method `MockRuntime::LocateSpace`. The result is the return value and the
two members of `*location`, each `none` when the call did not assign it. -/
def LocateSpace (rt : MockRuntime) (space _baseSpace : XrSpace) (_time : Int) :
    XrResult × Option XrPosef × Option XrSpaceLocationFlags :=
  if rt.spacePoseOverriden then (XR_SUCCESS, some rt.spacePose, some rt.spaceLocationFlags)
  else
    match rt.GetMockSpace space with
    | none => (XR_ERROR_HANDLE_INVALID, none, none)
    | some mockSpace =>
      if mockSpace.action ≠ XR_NULL_HANDLE then
        match rt.GetMockAction mockSpace.action with
        | none => (XR_ERROR_HANDLE_INVALID, some mockSpace.pose, none)
        | some (_, _, mockAction) =>
          (XR_SUCCESS,
            some ((LocateSpace.loop rt mockSpace.subActionPath mockAction.bindings).getD
              mockSpace.pose),
            some rt.spaceLocationFlags)
      else (XR_SUCCESS, some mockSpace.pose, some rt.spaceLocationFlags)

/-- Method `MockRuntime::GetMockViewConfiguration`: the entry of the map for
the key, `none` for the null pointer. -/
def GetMockViewConfiguration (rt : MockRuntime) (viewConfigType : XrViewConfigurationType) :
    Option MockViewConfiguration :=
  rt.viewConfigurations.lookup viewConfigType

/-- Method `MockRuntime::SetViewPose`; `viewIndex` is an `int`. -/
def SetViewPose (rt : MockRuntime) (viewIndex : Int) (pose : XrPosef) (fov : XrFovf)
    (viewStateFlags : XrViewStateFlags) : MockRuntime :=
  if viewIndex < 0 ∨ viewIndex > 1 then rt
  else
    match rt.GetMockViewConfiguration XR_VIEW_CONFIGURATION_TYPE_PRIMARY_STEREO with
    | none => rt
    | some mockViewConfig =>
      if viewIndex < 0 ∨ viewIndex ≥ (mockViewConfig.views.length : Int) then rt
      else
        { rt with
          viewConfigurations :=
            rt.viewConfigurations.map
              (fun entry =>
                if entry.1 = XR_VIEW_CONFIGURATION_TYPE_PRIMARY_STEREO then
                  (entry.1,
                    { entry.2 with
                      stateFlags := viewStateFlags
                      views :=
                        entry.2.views.modify
                          (fun mockView => { mockView with pose := pose, fov := fov })
                          viewIndex.toNat })
                else entry) }

/-- Method `MockRuntime::LocateViews`. `viewLocateInfo` is `none` for a null
pointer and `viewCapacityInput` is a `uint32_t`. The result is the return
value, the count written to `*viewCountOutput`, the flags written to
`viewState->viewStateFlags` (each `none` when the call did not assign it) and
the pose and field of view written to the elements of `views` from its
start. -/
def LocateViews (rt : MockRuntime) (viewLocateInfo : Option XrViewLocateInfo)
    (viewCapacityInput : Nat) :
    XrResult × Option Nat × Option XrViewStateFlags × List (XrPosef × XrFovf) :=
  match viewLocateInfo with
  | none => (XR_ERROR_VALIDATION_FAILURE, none, none, [])
  | some info =>
    if viewCapacityInput = 0 then (XR_SUCCESS, none, none, [])
    else
      match rt.GetMockViewConfiguration info.viewConfigurationType with
      | none => (XR_ERROR_VIEW_CONFIGURATION_TYPE_UNSUPPORTED, none, none, [])
      | some mockViewConfiguration =>
        if !mockViewConfiguration.enabled then
          (XR_ERROR_VIEW_CONFIGURATION_TYPE_UNSUPPORTED, none, none, [])
        else
          let viewCountOutput := mockViewConfiguration.views.length % 2 ^ 32
          if viewCapacityInput = 0 then (XR_SUCCESS, some viewCountOutput, none, [])
          else if viewCapacityInput < mockViewConfiguration.views.length % 2 ^ 32 then
            (XR_ERROR_VALIDATION_FAILURE, some viewCountOutput, none, [])
          else
            let viewStateFlags :=
              if !mockViewConfiguration.active then
                mockViewConfiguration.stateFlags &&&
                  ((2 ^ 64 - 1) ^^^
                    (XR_VIEW_STATE_ORIENTATION_TRACKED_BIT ||| XR_VIEW_STATE_POSITION_TRACKED_BIT))
              else mockViewConfiguration.stateFlags
            (XR_SUCCESS, some viewCountOutput, some viewStateFlags,
              mockViewConfiguration.views.map (fun mockView => (mockView.pose, mockView.fov)))

/-! ### Driver hooks and frame bookkeeping -/

/-- Method `MockRuntime::SetMockBlendMode`. -/
def SetMockBlendMode (rt : MockRuntime) (blendMode : XrEnvironmentBlendMode) : MockRuntime :=
  { rt with blendMode := blendMode }

/-- The assignment `map[key] = value` of a `std::map` carried in key order. -/
def mapAssign {α : Type} (key : Nat) (value : α) : List (Nat × α) → List (Nat × α)
  | [] => [(key, value)]
  | entry :: more =>
    if key < entry.1 then (key, value) :: entry :: more
    else if key = entry.1 then (key, value) :: more
    else entry :: mapAssign key value more

/-- Method `MockRuntime::SetExtentsForReferenceSpace`. -/
def SetExtentsForReferenceSpace (rt : MockRuntime) (referenceSpace : XrReferenceSpaceType)
    (extents : XrExtent2Df) : MockRuntime :=
  { rt with
    extentMap := mapAssign referenceSpace extents rt.extentMap
    eventQueue :=
      rt.eventQueue ++ [XrEventDataBuffer.referenceSpaceChangePending rt.session referenceSpace] }

/-- Method `MockRuntime::CauseInstanceLoss`; `lossTime` is the count of the
clock five seconds from the call. -/
def CauseInstanceLoss (rt : MockRuntime) (lossTime : Int) : XrResult × MockRuntime :=
  (XR_SUCCESS,
    { rt with
      instanceIsLost := true
      eventQueue := rt.eventQueue ++ [XrEventDataBuffer.instanceLossPending lossTime] })

/-- Method `MockRuntime::VisibilityMaskChangedKHR`. -/
def VisibilityMaskChangedKHR (rt : MockRuntime) (viewConfigurationType : XrViewConfigurationType)
    (viewIndex : Nat) : MockRuntime :=
  { rt with
    eventQueue :=
      rt.eventQueue ++
        [XrEventDataBuffer.visibilityMaskChangedKHR rt.session viewConfigurationType viewIndex] }

/-- Method `MockRuntime::EndFrame`, by the layer count of the frame. The
helper `MSFTSecondaryViewConfiguration_EndFrame`, defined outside the sources
and called only under its create flag, is taken by its result, and the
callback registered for the end of the frame, a function of the test driver,
by nothing. -/
def EndFrame (rt : MockRuntime) (layerCount : Int) (msftResult : XrResult) :
    XrResult × MockRuntime :=
  let rt1 := { rt with secondaryLayersRendered := 0 }
  let result :=
    if rt.createFlags &&& MR_CREATE_MSFT_SECONDARY_VIEW_CONFIGURATION_EXT ≠ 0 then msftResult
    else XR_SUCCESS
  if result ≠ XR_SUCCESS then (result, rt1)
  else (XR_SUCCESS, { rt1 with primaryLayersRendered := layerCount })

/-- Method `MockRuntime::RegisterEndFrameCallback`; the callback is carried as
its address, `none` when null. -/
def RegisterEndFrameCallback (rt : MockRuntime) (callback : Option Nat) : XrResult × MockRuntime :=
  (XR_SUCCESS, { rt with endFrameCallback := callback })

/-- Method `MockRuntime::SetExpectedResultForFunction`. -/
def SetExpectedResultForFunction (rt : MockRuntime) (functionName : CString)
    (result : XrResult) : MockRuntime :=
  { rt with
    functionResultMap :=
      if (rt.functionResultMap.lookup functionName).isSome then
        rt.functionResultMap.map
          (fun entry => if entry.1 = functionName then (entry.1, result) else entry)
      else rt.functionResultMap ++ [(functionName, result)] }

/-- Method `MockRuntime::GetExpectedResultForFunction`. -/
def GetExpectedResultForFunction (rt : MockRuntime) (functionName : CString) :
    XrResult × MockRuntime :=
  match rt.functionResultMap.lookup functionName with
  | some ret =>
    (ret,
      { rt with
        functionResultMap := rt.functionResultMap.filter (fun entry => entry.1 ≠ functionName) })
  | none => (XR_SUCCESS, rt)

end MockRuntime

/-! ## Sequences of runtime operations -/

/-- A call of a method of `MockRuntime` that can write to the runtime, with
its arguments: every public method that `mock_runtime.cpp` defines, the
methods apart that only read the runtime (`IsStateTransitionValid`,
`PathToString`, `LocateSpace`, `LocateViews`, the `GetActionState` and
`Enumerate` families, `GetCurrentInteractionProfile`, the haptic calls,
`WaitFrame` and the other queries). -/
inductive RuntimeCall where
  | CreateSession
  | BeginSession (msftResult : XrResult)
  | EndSession
  | DestroySession
  | GetNextEvent (eventData : Bool)
  | ChangeSessionState (state : XrSessionState)
  | ChangeSessionStateFrom (fromState toState : XrSessionState)
  | RequestExitSession
  | StringToPath (pathString : CString)
  | AppendPath (path : XrPath) (append : CString)
  | CreateActionSet (createInfo : XrActionSetCreateInfo)
  | DestroyActionSet (actionSet : XrActionSet)
  | CreateAction (actionSet : XrActionSet) (createInfo : XrActionCreateInfo)
  | DestroyAction (action : XrAction)
  | SuggestInteractionProfileBindings
      (suggestedBindings : Option XrInteractionProfileSuggestedBinding)
  | AttachSessionActionSets (attachInfo : Option XrSessionActionSetsAttachInfo)
  | SyncActions (s_ext : Option ConformanceStates) (syncInfo : Option XrActionsSyncInfo)
  | CreateReferenceSpace (createInfo : Option XrReferenceSpaceCreateInfo)
  | CreateActionSpace (createInfo : Option XrActionSpaceCreateInfo) (space : Bool)
  | SetSpacePose (pose : XrPosef) (locationFlags : XrSpaceLocationFlags)
  | SetViewPose (viewIndex : Int) (pose : XrPosef) (fov : XrFovf)
      (viewStateFlags : XrViewStateFlags)
  | SetMockBlendMode (blendMode : XrEnvironmentBlendMode)
  | SetExtentsForReferenceSpace (referenceSpace : XrReferenceSpaceType) (extents : XrExtent2Df)
  | CauseInstanceLoss (lossTime : Int)
  | VisibilityMaskChangedKHR (viewConfigurationType : XrViewConfigurationType) (viewIndex : Nat)
  | EndFrame (layerCount : Int) (msftResult : XrResult)
  | RegisterEndFrameCallback (callback : Option Nat)
  | SetExpectedResultForFunction (functionName : CString) (result : XrResult)
  | GetExpectedResultForFunction (functionName : CString)

/-- The runtime a call leaves behind. -/
def RuntimeCall.run (rt : MockRuntime) : RuntimeCall → MockRuntime
  | RuntimeCall.CreateSession => rt.CreateSession.2
  | RuntimeCall.BeginSession msftResult => (rt.BeginSession msftResult).2
  | RuntimeCall.EndSession => rt.EndSession.2
  | RuntimeCall.DestroySession => rt.DestroySession.2
  | RuntimeCall.GetNextEvent eventData => (rt.GetNextEvent eventData).2.2
  | RuntimeCall.ChangeSessionState state => rt.ChangeSessionState state
  | RuntimeCall.ChangeSessionStateFrom fromState toState =>
    (rt.ChangeSessionStateFrom fromState toState).2
  | RuntimeCall.RequestExitSession => rt.RequestExitSession.2
  | RuntimeCall.StringToPath pathString => (rt.StringToPath pathString).2.2
  | RuntimeCall.AppendPath path append => (rt.AppendPath path append).2
  | RuntimeCall.CreateActionSet createInfo => (rt.CreateActionSet createInfo).2.2
  | RuntimeCall.DestroyActionSet actionSet => (rt.DestroyActionSet actionSet).2
  | RuntimeCall.CreateAction actionSet createInfo => (rt.CreateAction actionSet createInfo).2.2
  | RuntimeCall.DestroyAction action => (rt.DestroyAction action).2
  | RuntimeCall.SuggestInteractionProfileBindings suggestedBindings =>
    (rt.SuggestInteractionProfileBindings suggestedBindings).2
  | RuntimeCall.AttachSessionActionSets attachInfo => (rt.AttachSessionActionSets attachInfo).2
  | RuntimeCall.SyncActions s_ext syncInfo => (rt.SyncActions s_ext syncInfo).2
  | RuntimeCall.CreateReferenceSpace createInfo => (rt.CreateReferenceSpace createInfo).2.2
  | RuntimeCall.CreateActionSpace createInfo space => (rt.CreateActionSpace createInfo space).2.2
  | RuntimeCall.SetSpacePose pose locationFlags => rt.SetSpacePose pose locationFlags
  | RuntimeCall.SetViewPose viewIndex pose fov viewStateFlags =>
    rt.SetViewPose viewIndex pose fov viewStateFlags
  | RuntimeCall.SetMockBlendMode blendMode => rt.SetMockBlendMode blendMode
  | RuntimeCall.SetExtentsForReferenceSpace referenceSpace extents =>
    rt.SetExtentsForReferenceSpace referenceSpace extents
  | RuntimeCall.CauseInstanceLoss lossTime => (rt.CauseInstanceLoss lossTime).2
  | RuntimeCall.VisibilityMaskChangedKHR viewConfigurationType viewIndex =>
    rt.VisibilityMaskChangedKHR viewConfigurationType viewIndex
  | RuntimeCall.EndFrame layerCount msftResult => (rt.EndFrame layerCount msftResult).2
  | RuntimeCall.RegisterEndFrameCallback callback => (rt.RegisterEndFrameCallback callback).2
  | RuntimeCall.SetExpectedResultForFunction functionName result =>
    rt.SetExpectedResultForFunction functionName result
  | RuntimeCall.GetExpectedResultForFunction functionName =>
    (rt.GetExpectedResultForFunction functionName).2

/-- Whether a call is a call of `SetSpacePose`. -/
def RuntimeCall.isSetSpacePose : RuntimeCall → Bool
  | RuntimeCall.SetSpacePose _ _ => true
  | _ => false

/-- The runtime after a sequence of calls, first call first. -/
def runCalls (rt : MockRuntime) (calls : List RuntimeCall) : MockRuntime :=
  calls.foldl RuntimeCall.run rt

/-! ## Reading the effect of an operation -/

/-- The members of an action set that no operation writes after the set was
created: its handle and its two names. -/
def MockActionSet.ident (mockActionSet : MockActionSet) : XrActionSet × CString × CString :=
  (mockActionSet.actionSet, mockActionSet.name, mockActionSet.localizedName)

/-- The action sets of a runtime, each by its handle, its two names and its
attached flag, in the order of the collection. -/
def MockRuntime.setFlags (rt : MockRuntime) : List ((XrActionSet × CString × CString) × Bool) :=
  rt.actionSets.map (fun mockActionSet => (mockActionSet.ident, mockActionSet.attached))

/-- The space-pose override of a runtime: the flag and the two values that
`SetSpacePose` writes and `LocateSpace` reads. -/
def MockRuntime.spaceOverride (rt : MockRuntime) : Bool × XrPosef × XrSpaceLocationFlags :=
  (rt.spacePoseOverriden, rt.spacePose, rt.spaceLocationFlags)

/-- A runtime with the members blanked that the action binding engine and the
path interner write: what is left is what their operations leave alone. -/
def MockRuntime.outsideBindingEngine (rt : MockRuntime) : MockRuntime :=
  { rt with
    actionSets := []
    inputStates := []
    componentPathStrings := []
    activeInteractionProfile := none
    actionSetsAttached := false }

/-- A runtime with the members blanked that the session state machine
writes: the state, the event queue, the session handle and the two session
flags. -/
def MockRuntime.outsideSession (rt : MockRuntime) : MockRuntime :=
  { rt with
    currentState := XR_SESSION_STATE_UNKNOWN
    eventQueue := []
    session := XR_NULL_HANDLE
    isRunning := false
    exitSessionRequested := false }

/-- Whether a call is a call of `AttachSessionActionSets`. -/
def RuntimeCall.isAttachSessionActionSets : RuntimeCall → Bool
  | RuntimeCall.AttachSessionActionSets _ => true
  | _ => false

/-! ## Applications: action sets and actions -/

/-- The create info of the action set "gameplay". -/
def gameplayInfo : XrActionSetCreateInfo :=
  { actionSetName := "gameplay".toList, localizedActionSetName := "Gameplay".toList }

/-- A runtime with one action set: the runtime of the constructor after
`CreateActionSet` for the set "gameplay", which gets the handle 1. The
interaction profiles, which the constructor loads behind its member
initialisation, play no part in the calls made on this runtime. -/
def gameplayRuntime : MockRuntime :=
  (MockRuntime.ctor.CreateActionSet gameplayInfo).2.2

/-- The attach info that names the set "gameplay" and then a handle that
names no set. -/
def brokenAttachInfo : XrSessionActionSetsAttachInfo :=
  { type := XR_TYPE_SESSION_ACTION_SETS_ATTACH_INFO
    countActionSets := 2
    actionSets := some [1, 7] }

/-- The call of `AttachSessionActionSets` with `brokenAttachInfo`. -/
def failedAttach : XrResult × MockRuntime :=
  gameplayRuntime.AttachSessionActionSets (some brokenAttachInfo)

/-- The sync info that names a handle of no set and then the set "gameplay". -/
def mixedSyncInfo : XrActionsSyncInfo :=
  { type := XR_TYPE_ACTIONS_SYNC_INFO
    countActiveActionSets := 2
    activeActionSets :=
      some [{ actionSet := 7, subactionPath := XR_NULL_PATH },
        { actionSet := 1, subactionPath := XR_NULL_PATH }] }

/-- The enumerate info for the float action "squeeze" of `readRuntime`, which
has three bindings. -/
def squeezeEnumerateInfo : XrBoundSourcesForActionEnumerateInfo :=
  { type := XR_TYPE_BOUND_SOURCES_FOR_ACTION_ENUMERATE_INFO, action := 4294967297 }

/-- The float action "squeeze" of `readRuntime`. -/
def squeezeAction : MockAction :=
  { action := 4294967297, path := 0, name := "squeeze".toList,
    localizedName := "Squeeze".toList, type := XR_ACTION_TYPE_FLOAT_INPUT,
    bindings := [0, 1, 5], userPaths := [], isDestroyed := false }

/-! ## Applications: suggested bindings on the constructed runtime -/

/-- Two suggested bindings for the Microsoft motion controller profile: the
trigger of the left hand for "fire", and then the same path for a handle that
names no action. -/
def brokenBindings : XrInteractionProfileSuggestedBinding :=
  { type := XR_TYPE_INTERACTION_PROFILE_SUGGESTED_BINDING
    interactionProfile := motionControllerPath.1
    countSuggestedBindings := 2
    suggestedBindings := some [triggerBinding, { action := 99, binding := triggerPath.1 }] }

/-- The call with `brokenBindings`, made while no profile is active. -/
def brokenSuggestion : XrResult × MockRuntime :=
  motionControllerPath.2.SuggestInteractionProfileBindings (some brokenBindings)

/-- The call that attaches the set "gameplay" of `suggestRuntime` to the
session. -/
def gameplayAttached : XrResult × MockRuntime :=
  motionControllerPath.2.AttachSessionActionSets
    (some { type := XR_TYPE_SESSION_ACTION_SETS_ATTACH_INFO, countActionSets := 1,
            actionSets := some [1] })

/-- The call of `DestroySession` that follows. -/
def sessionDestroyed : XrResult × MockRuntime :=
  gameplayAttached.2.DestroySession

/-- The suggested bindings of the call made after the session was destroyed:
the trigger of the left hand for "fire" under the Microsoft motion controller
profile. -/
def lateBindings : XrInteractionProfileSuggestedBinding :=
  { type := XR_TYPE_INTERACTION_PROFILE_SUGGESTED_BINDING
    interactionProfile := motionControllerPath.1
    countSuggestedBindings := 1
    suggestedBindings := some [triggerBinding] }

/-- The call of `SuggestInteractionProfileBindings` made after the session was
destroyed, while the set "gameplay" still has its attached flag. -/
def lateSuggestion : XrResult × MockRuntime :=
  sessionDestroyed.2.SuggestInteractionProfileBindings (some lateBindings)

/-! ## Applications: spaces and views -/

/-- A pose a test driver forces: a half turn about the vertical axis, one
metre up. -/
def forcedPose : XrPosef :=
  { orientation := { x := 0, y := 1, z := 0, w := 0 }, position := { x := 0, y := 1, z := 0 } }

/-- The pose pushed for the aim source of the left hand. -/
def aimPose : XrPosef :=
  { orientation := { x := 0, y := 0, z := 0, w := 1 }, position := { x := 2, y := 0, z := 3 } }

/-- A runtime with a pose action "aim" bound to a pose source of the left
hand, a reference space with the handle 1 and an action space of "aim" with
the handle 2. -/
def aimRuntime : MockRuntime :=
  { MockRuntime.ctor with
    session := 3
    currentState := XR_SESSION_STATE_FOCUSED
    isRunning := true
    actionSetsAttached := true
    inputStates :=
      [{ interactionProfile := 4294967296, path := 8589934593,
         type := XR_ACTION_TYPE_POSE_INPUT,
         boolValue := 0, floatValue := 0, vectorValue := { x := 0, y := 0 },
         locationSpace := 0, locationPose := aimPose }]
    actionSets :=
      [{ actionSet := 1, attached := true, name := "gameplay".toList,
         localizedName := "Gameplay".toList, isDestroyed := false,
         actions :=
           [{ action := 4294967297, path := 0, name := "aim".toList,
              localizedName := "Aim".toList, type := XR_ACTION_TYPE_POSE_INPUT,
              bindings := [0], userPaths := [], isDestroyed := false }] }]
    spaces :=
      [{ pose := XrPosef.identity, isDestroyed := false, action := XR_NULL_HANDLE,
         subActionPath := XR_NULL_PATH },
       { pose := XrPosef.identity, isDestroyed := false, action := 4294967297,
         subActionPath := XR_NULL_PATH }] }

/-- Calls a test makes after it has forced the space pose: a reference space
and an action space are created, the session state is forced, a view pose is
set and the session is destroyed. -/
def callsAfterOverride : List RuntimeCall :=
  [RuntimeCall.CreateReferenceSpace
      (some { type := XR_TYPE_REFERENCE_SPACE_CREATE_INFO,
              referenceSpaceType := XR_REFERENCE_SPACE_TYPE_LOCAL,
              poseInReferenceSpace := XrPosef.identity }),
    RuntimeCall.CreateActionSpace
      (some { type := XR_TYPE_ACTION_SPACE_CREATE_INFO, action := 4294967297,
              subactionPath := XR_NULL_PATH, poseInActionSpace := XrPosef.identity }) true,
    RuntimeCall.ChangeSessionState XR_SESSION_STATE_VISIBLE,
    RuntimeCall.SetViewPose 0 XrPosef.identity
      { angleLeft := -1, angleRight := 1, angleUp := 1, angleDown := -1 } 0,
    RuntimeCall.DestroySession]

namespace MockRuntime

/-! ### Path interner: the buffer form of `PathToString` and the handle test -/

/-- Method `XrResult MockRuntime::PathToString(XrPath, uint32_t, uint32_t*, char*) const`,
the form with an output buffer. `buffer` is the memory behind the buffer
pointer, `none` for a null pointer; the count pointer is dereferenced on
every path and is taken to be non-null. The result is the return value, the
count written to `*bufferCountOutput` (a `uint32_t`) and the memory behind the
buffer pointer after the call: `memcpy` overwrites the first characters and
the terminator is stored at index `strSize`. -/
def PathToStringBuffer (rt : MockRuntime) (path : XrPath) (bufferCapacityInput : Nat)
    (buffer : Option (List Char)) : XrResult × Nat × Option (List Char) :=
  let pathString := rt.PathToString path
  if pathString.length = 0 then (XR_ERROR_PATH_INVALID, 0, buffer)
  else
    match buffer with
    | none => (XR_SUCCESS, (pathString.length + 1) % 2 ^ 32, none)
    | some memory =>
      if pathString.length + 1 > bufferCapacityInput then
        (XR_ERROR_SIZE_INSUFFICIENT, 0, some memory)
      else
        let strSize := pathString.length % 2 ^ 32
        let copied := pathString ++ memory.drop pathString.length
        (XR_SUCCESS, (strSize + 1) % 2 ^ 32, some (copied.set strSize (Char.ofNat 0)))

/-- Method `MockRuntime::IsValidHandle`. -/
def IsValidHandle (rt : MockRuntime) (path : XrPath) : Bool :=
  if XR_NULL_PATH = path then false
  else
    let userPath := path &&& 0xFFFFFFFF
    let componentPath := path >>> 32
    decide (userPath ≤ rt.userPathStrings.length) &&
      decide (componentPath ≤ rt.componentPathStrings.length)

/-! ### Action binding engine: the pose state of an action -/

/-- Method `MockRuntime::GetActionStatePose`; the state pointer is not tested.
The second component of the result is the `XrBool32` written to
`state->isActive`. -/
def GetActionStatePose (rt : MockRuntime) (getInfo : Option XrActionStateGetInfo) :
    XrResult × Option XrBool32 :=
  match getInfo with
  | none => (XR_ERROR_VALIDATION_FAILURE, none)
  | some getInfo =>
    if getInfo.type ≠ XR_TYPE_ACTION_STATE_GET_INFO then (XR_ERROR_VALIDATION_FAILURE, none)
    else
      match rt.GetMockAction getInfo.action with
      | none => (XR_ERROR_HANDLE_INVALID, none)
      | some (_, _, mockAction) =>
        if !rt.IsActionAttached mockAction.action then (XR_ERROR_ACTIONSET_NOT_ATTACHED, none)
        else (XR_SUCCESS, some (if mockAction.bindings.isEmpty then 0 else 1))

end MockRuntime

/-! ## Sequences of calls that force nothing -/

/-- A call that drives the session without forcing a transition: a request of
the driver entry point `xrTransitionMockToStateUNITY` with `forceTransition`
false, or one of the methods `BeginSession`, `RequestExitSession`,
`EndSession` and `SyncActions`. -/
inductive UnforcedCall where
  | xrTransitionMockToStateUNITY (session : XrSession) (requestedState : XrSessionState)
  | BeginSession (msftResult : XrResult)
  | RequestExitSession
  | EndSession
  | SyncActions (s_ext : Option ConformanceStates) (syncInfo : Option XrActionsSyncInfo)

/-- The runtime an unforced call leaves behind. -/
def UnforcedCall.run (rt : MockRuntime) : UnforcedCall → MockRuntime
  | UnforcedCall.xrTransitionMockToStateUNITY session requestedState =>
    (OpenXRMock.xrTransitionMockToStateUNITY (some rt) session requestedState false).2.getD rt
  | UnforcedCall.BeginSession msftResult => (rt.BeginSession msftResult).2
  | UnforcedCall.RequestExitSession => rt.RequestExitSession.2
  | UnforcedCall.EndSession => rt.EndSession.2
  | UnforcedCall.SyncActions s_ext syncInfo => (rt.SyncActions s_ext syncInfo).2

/-- The runtime after a sequence of unforced calls, first call first. -/
def runUnforcedCalls (rt : MockRuntime) (calls : List UnforcedCall) : MockRuntime :=
  calls.foldl UnforcedCall.run rt

/-- Whether a call is `SetExpectedResultForFunction` for the given function
name. -/
def RuntimeCall.setsExpectedResult (functionName : CString) : RuntimeCall → Bool
  | RuntimeCall.SetExpectedResultForFunction name _ => decide (name = functionName)
  | _ => false

/-- Whether a call is `GetExpectedResultForFunction` for the given function
name. -/
def RuntimeCall.getsExpectedResult (functionName : CString) : RuntimeCall → Bool
  | RuntimeCall.GetExpectedResultForFunction name => decide (name = functionName)
  | _ => false

/-! ## Reading the state changes of an operation from the event queue -/

/-- The state that a session-state-changed event carries, `none` for an event
of another type. -/
def XrEventDataBuffer.sessionState : XrEventDataBuffer → Option XrSessionState
  | XrEventDataBuffer.sessionStateChanged _ state => some state
  | _ => none

/-- The states of the session-state-changed events of a queue, front first:
`ChangeSessionState` emplaces one for each change of the state it makes. -/
def stateChanges (queue : List XrEventDataBuffer) : List XrSessionState :=
  queue.filterMap XrEventDataBuffer.sessionState

/-- Whether a walk through the given states, started in the state of the
runtime, takes legal steps only: each state differs from the one before it,
and `IsStateTransitionValid`, asked in the state before it, accepts it. -/
def legalSteps (rt : MockRuntime) : List XrSessionState → Bool
  | [] => true
  | next :: more =>
    decide (next ≠ rt.currentState) && rt.IsStateTransitionValid next &&
      legalSteps { rt with currentState := next } more

/-! ## Applications: handles of action sets and actions -/

/-- The create info of the action set "menu". -/
def menuInfo : XrActionSetCreateInfo :=
  { actionSetName := "menu".toList, localizedActionSetName := "Menu".toList }

/-- The create info of the action set "hud". -/
def hudInfo : XrActionSetCreateInfo :=
  { actionSetName := "hud".toList, localizedActionSetName := "Hud".toList }

/-- The runtime of the constructor after `CreateActionSet` for "gameplay" and
for "menu", which get the handles 1 and 2. -/
def twoSetsRuntime : MockRuntime :=
  runCalls MockRuntime.ctor
    [RuntimeCall.CreateActionSet gameplayInfo, RuntimeCall.CreateActionSet menuInfo]

/-- The call of `DestroyActionSet` for the set "gameplay" that follows. -/
def gameplayDestroyed : XrResult × MockRuntime :=
  twoSetsRuntime.DestroyActionSet 1

/-- The call of `CreateActionSet` for "hud" that follows. -/
def hudCreated : XrResult × Option XrActionSet × MockRuntime :=
  gameplayDestroyed.2.CreateActionSet hudInfo

/-- The set "gameplay" of `gameplayRuntime`, which holds no action. -/
def gameplaySet : MockActionSet :=
  { actionSet := 1, attached := false, name := "gameplay".toList,
    localizedName := "Gameplay".toList, isDestroyed := false, actions := [] }

/-- The create info of a boolean action of the given name, with the localized
name and the sub-action paths given. -/
def booleanInfo (name localizedName : String) (subactionPaths : List XrPath) :
    XrActionCreateInfo :=
  { actionName := name.toList
    actionType := some XR_ACTION_TYPE_BOOLEAN_INPUT
    countSubactionPaths := subactionPaths.length
    subactionPaths := some subactionPaths
    localizedActionName := localizedName.toList }

/-- The set "gameplay" after `CreateAction` for the boolean actions "fire" and
"jump", which get the handles `1 + (1 << 32)` and `1 + (2 << 32)`. -/
def twoActionsRuntime : MockRuntime :=
  runCalls gameplayRuntime
    [RuntimeCall.CreateAction 1 (booleanInfo "fire" "Fire" []),
      RuntimeCall.CreateAction 1 (booleanInfo "jump" "Jump" [])]

/-- The call of `DestroyAction` for "fire" that follows. -/
def fireDestroyed : XrResult × MockRuntime :=
  twoActionsRuntime.DestroyAction 4294967297

/-- The call of `CreateAction` for "fire" that follows, which takes the slot
of the destroyed action. -/
def fireRevived : XrResult × Option XrAction × MockRuntime :=
  fireDestroyed.2.CreateAction 1 (booleanInfo "fire" "Fire" [])

/-- The call of `CreateAction` on the set "gameplay" for "fire" with the one
sub-action path `/user/hand/left`, the handle 1. -/
def leftFireCreated : XrResult × Option XrAction × MockRuntime :=
  gameplayRuntime.CreateAction 1 (booleanInfo "fire" "Fire" [1])

/-- The call of `DestroyAction` for "fire" that follows. -/
def leftFireDestroyed : XrResult × MockRuntime :=
  leftFireCreated.2.2.DestroyAction 4294967297

/-- The call of `CreateAction` for "fire" with the same sub-action path that
follows, which takes the slot of the destroyed action. -/
def leftFireAgain : XrResult × Option XrAction × MockRuntime :=
  leftFireDestroyed.2.CreateAction 1 (booleanInfo "fire" "Fire" [1])

/-! ## Applications: a destroyed action -/

/-- The runtime `readRuntime` after `DestroyAction` for each of its three
actions, "squeeze", "fire" and "move". -/
def actionsDestroyed : MockRuntime :=
  runCalls readRuntime
    [RuntimeCall.DestroyAction 4294967297, RuntimeCall.DestroyAction 8589934593,
      RuntimeCall.DestroyAction 12884901889]

/-- The get info that names an action with the left hand as sub-action path. -/
def leftGetInfo (action : XrAction) : XrActionStateGetInfo :=
  { type := XR_TYPE_ACTION_STATE_GET_INFO, action := action, subactionPath := 1 }

/-- The call of `DestroyAction` for the pose action "aim" of `aimRuntime`. -/
def aimDestroyed : XrResult × MockRuntime :=
  aimRuntime.DestroyAction 4294967297

/-- The create info of an action space of "aim". -/
def aimSpaceInfo : XrActionSpaceCreateInfo :=
  { type := XR_TYPE_ACTION_SPACE_CREATE_INFO, action := 4294967297,
    subactionPath := XR_NULL_PATH, poseInActionSpace := XrPosef.identity }

/-- A runtime with one interaction profile of one boolean source, the click
of the left hand, and the set "gameplay" with the boolean action "fire", not
attached. -/
def clickRuntime : MockRuntime :=
  { MockRuntime.ctor with
    session := 3
    currentState := XR_SESSION_STATE_READY
    interactionProfiles := [{ path := 4294967296, userPaths := [1], inputSources := [] }]
    inputStates :=
      [{ interactionProfile := 4294967296, path := 8589934593,
         type := XR_ACTION_TYPE_BOOLEAN_INPUT,
         boolValue := 0, floatValue := 0, vectorValue := { x := 0, y := 0 } }]
    actionSets :=
      [{ actionSet := 1, attached := false, name := "gameplay".toList,
         localizedName := "Gameplay".toList, isDestroyed := false,
         actions :=
           [{ action := 4294967297, path := 0, name := "fire".toList,
              localizedName := "Fire".toList, type := XR_ACTION_TYPE_BOOLEAN_INPUT,
              bindings := [], userPaths := [], isDestroyed := false }] }] }

/-- The call of `DestroyAction` for "fire" on `clickRuntime`. -/
def clickFireDestroyed : XrResult × MockRuntime :=
  clickRuntime.DestroyAction 4294967297

/-- The suggested binding of the destroyed "fire" to the click of the left
hand. -/
def clickBindings : XrInteractionProfileSuggestedBinding :=
  { type := XR_TYPE_INTERACTION_PROFILE_SUGGESTED_BINDING
    interactionProfile := 4294967296
    countSuggestedBindings := 1
    suggestedBindings := some [{ action := 4294967297, binding := 8589934593 }] }

/-! ## Applications: the loss-pending state and issued handles -/

/-- A runtime whose running session is in the loss-pending state, with an
active interaction profile and nothing queued. -/
def lossPendingRuntime : MockRuntime :=
  { clickRuntime with
    currentState := XR_SESSION_STATE_LOSS_PENDING
    isRunning := true
    activeInteractionProfile := some 0 }

/-- Unforced calls made in the loss-pending state: requests for the ready and
the loss-pending state, and the four session operations. -/
def lossPendingCalls : List UnforcedCall :=
  [UnforcedCall.xrTransitionMockToStateUNITY 3 XR_SESSION_STATE_READY,
    UnforcedCall.xrTransitionMockToStateUNITY 3 XR_SESSION_STATE_LOSS_PENDING,
    UnforcedCall.BeginSession XR_SUCCESS,
    UnforcedCall.RequestExitSession,
    UnforcedCall.EndSession,
    UnforcedCall.SyncActions none none]

/-- Interner calls made after `/user/hand/left/input/select` was interned. -/
def laterPathCalls : List PathCall :=
  [PathCall.StringToPath "/user/head/input/pose".toList,
    PathCall.AppendPath 4294967297 "/click".toList,
    PathCall.StringToPath "/input/select".toList]

/-! ## Session state machine: theorems -/

open MockRuntime

/-- C5: the legality predicate `IsStateTransitionValid` is the table of the
specification: a target is legal iff it is LossPending or the pair (current,
target) is one of the ten listed pairs; in particular from Unknown only
LossPending is legal. -/
theorem IsStateTransitionValid_iff_table (rt : MockRuntime) (t : XrSessionState) :
    (rt.IsStateTransitionValid t = true ↔
      t = XR_SESSION_STATE_LOSS_PENDING ∨
      (rt.currentState, t) ∈
        [(XR_SESSION_STATE_IDLE, XR_SESSION_STATE_READY),
         (XR_SESSION_STATE_IDLE, XR_SESSION_STATE_EXITING),
         (XR_SESSION_STATE_READY, XR_SESSION_STATE_SYNCHRONIZED),
         (XR_SESSION_STATE_SYNCHRONIZED, XR_SESSION_STATE_STOPPING),
         (XR_SESSION_STATE_SYNCHRONIZED, XR_SESSION_STATE_VISIBLE),
         (XR_SESSION_STATE_VISIBLE, XR_SESSION_STATE_SYNCHRONIZED),
         (XR_SESSION_STATE_VISIBLE, XR_SESSION_STATE_FOCUSED),
         (XR_SESSION_STATE_FOCUSED, XR_SESSION_STATE_VISIBLE),
         (XR_SESSION_STATE_STOPPING, XR_SESSION_STATE_IDLE),
         (XR_SESSION_STATE_EXITING, XR_SESSION_STATE_IDLE)]) ∧
    (rt.currentState = XR_SESSION_STATE_UNKNOWN →
      (rt.IsStateTransitionValid t = true ↔ t = XR_SESSION_STATE_LOSS_PENDING)) := by
  cases h : rt.currentState <;> cases t <;> simp [IsStateTransitionValid, h]

/-- C6, as stated, fails: from Idle an unforced request for LossPending is
not rejected; it returns success, the state becomes LossPending and the
state-changed event is queued. -/
theorem idle_unforced_loss_pending_accepted :
    xrTransitionMockToStateUNITY (some idleRuntime) 3 XR_SESSION_STATE_LOSS_PENDING false =
      (XR_SUCCESS,
        some { idleRuntime with
          currentState := XR_SESSION_STATE_LOSS_PENDING
          eventQueue :=
            [XrEventDataBuffer.sessionStateChanged 3 XR_SESSION_STATE_LOSS_PENDING] }) ∧
    idleRuntime.currentState = XR_SESSION_STATE_IDLE ∧
    idleRuntime.GetSession = 3 :=
  ⟨rfl, rfl, rfl⟩

/-- C6, amended: from Idle an unforced request with the current session handle
succeeds exactly for the targets Ready, Exiting and LossPending; for every
other target it returns validation-failure and leaves the runtime, hence the
Idle state, as it was. -/
theorem idle_unforced_transition (rt : MockRuntime) (t : XrSessionState)
    (hIdle : rt.currentState = XR_SESSION_STATE_IDLE) :
    ((xrTransitionMockToStateUNITY (some rt) rt.GetSession t false).1 = XR_SUCCESS ↔
      t = XR_SESSION_STATE_READY ∨ t = XR_SESSION_STATE_EXITING ∨
        t = XR_SESSION_STATE_LOSS_PENDING) ∧
    (¬(t = XR_SESSION_STATE_READY ∨ t = XR_SESSION_STATE_EXITING ∨
        t = XR_SESSION_STATE_LOSS_PENDING) →
      xrTransitionMockToStateUNITY (some rt) rt.GetSession t false =
        (XR_ERROR_VALIDATION_FAILURE, some rt) ∧
      rt.currentState = XR_SESSION_STATE_IDLE) := by
  cases t <;> simp [xrTransitionMockToStateUNITY, IsStateTransitionValid, hIdle]

/-- Witness of `idle_unforced_transition` at the idle runtime and the target
Focused. -/
theorem idle_unforced_transition_witness :
    ((xrTransitionMockToStateUNITY (some idleRuntime) idleRuntime.GetSession
        XR_SESSION_STATE_FOCUSED false).1 = XR_SUCCESS ↔
      XR_SESSION_STATE_FOCUSED = XR_SESSION_STATE_READY ∨
        XR_SESSION_STATE_FOCUSED = XR_SESSION_STATE_EXITING ∨
        XR_SESSION_STATE_FOCUSED = XR_SESSION_STATE_LOSS_PENDING) ∧
    (¬(XR_SESSION_STATE_FOCUSED = XR_SESSION_STATE_READY ∨
        XR_SESSION_STATE_FOCUSED = XR_SESSION_STATE_EXITING ∨
        XR_SESSION_STATE_FOCUSED = XR_SESSION_STATE_LOSS_PENDING) →
      xrTransitionMockToStateUNITY (some idleRuntime) idleRuntime.GetSession
          XR_SESSION_STATE_FOCUSED false =
        (XR_ERROR_VALIDATION_FAILURE, some idleRuntime) ∧
      idleRuntime.currentState = XR_SESSION_STATE_IDLE) :=
  idle_unforced_transition idleRuntime XR_SESSION_STATE_FOCUSED (by decide)

/-- C7: a forced transition with the current session handle returns success
and leaves the session in the requested state, from every current state and
for every requested state, legal or not. -/
theorem forced_transition_succeeds (rt : MockRuntime) (t : XrSessionState) :
    ∃ rt1 : MockRuntime,
      xrTransitionMockToStateUNITY (some rt) rt.GetSession t true = (XR_SUCCESS, some rt1) ∧
      rt1.currentState = t := by
  refine ⟨rt.ChangeSessionState t, ?_, ?_⟩
  · simp [xrTransitionMockToStateUNITY]
  · unfold ChangeSessionState
    split
    · assumption
    · rfl

/-- C8: an unforced request that returns validation-failure leaves the runtime
as it was: the session state is still the former one and the event queue has
not changed, for every current state, target and session handle. -/
theorem rejected_transition_atomic (rt : MockRuntime) (session : XrSession)
    (t : XrSessionState)
    (hRejected : (xrTransitionMockToStateUNITY (some rt) session t false).1 =
      XR_ERROR_VALIDATION_FAILURE) :
    ∃ rt1 : MockRuntime,
      (xrTransitionMockToStateUNITY (some rt) session t false).2 = some rt1 ∧
      rt1.currentState = rt.currentState ∧ rt1.eventQueue = rt.eventQueue := by
  refine ⟨rt, ?_, rfl, rfl⟩
  simp only [xrTransitionMockToStateUNITY] at hRejected ⊢
  split_ifs at hRejected ⊢
  simp_all

/-- Witness of `rejected_transition_atomic`: the rejected request Idle to
Focused. -/
theorem rejected_transition_atomic_witness :
    (xrTransitionMockToStateUNITY (some idleRuntime) 3 XR_SESSION_STATE_FOCUSED false).1 =
      XR_ERROR_VALIDATION_FAILURE ∧
    ∃ rt1 : MockRuntime,
      (xrTransitionMockToStateUNITY (some idleRuntime) 3 XR_SESSION_STATE_FOCUSED false).2 =
        some rt1 ∧
      rt1.currentState = idleRuntime.currentState ∧ rt1.eventQueue = idleRuntime.eventQueue :=
  ⟨by decide, rejected_transition_atomic idleRuntime 3 XR_SESSION_STATE_FOCUSED (by decide)⟩

/-- C9: `ChangeSessionState t` with `t` different from the current state makes
`t` the current state and appends, behind the events already queued and in
their order, exactly one session-state-changed event carrying `t` and the
current session handle; with `t` equal to the current state it changes
nothing at all. -/
theorem ChangeSessionState_spec (rt : MockRuntime) (t : XrSessionState) :
    (t ≠ rt.currentState →
      (rt.ChangeSessionState t).currentState = t ∧
      (rt.ChangeSessionState t).eventQueue =
        rt.eventQueue ++ [XrEventDataBuffer.sessionStateChanged rt.session t] ∧
      (rt.ChangeSessionState t).session = rt.session) ∧
    (t = rt.currentState → rt.ChangeSessionState t = rt) := by
  constructor
  · intro h
    have h1 : ¬ rt.currentState = t := fun e => h e.symm
    simp [ChangeSessionState, h1]
  · intro h
    simp [ChangeSessionState, h]

/-- C10: on a runtime in state Unknown with an empty event queue,
`CreateSession` succeeds and ends in Ready, and `GetNextEvent` then yields
the state-changed event for Idle, then the one for Ready, then
event-unavailable. -/
theorem CreateSession_fresh (rt : MockRuntime)
    (hState : rt.currentState = XR_SESSION_STATE_UNKNOWN) (hQueue : rt.eventQueue = []) :
    ∃ rt1 rt2 rt3 : MockRuntime,
      rt.CreateSession = (XR_SUCCESS, rt1) ∧
      rt1.currentState = XR_SESSION_STATE_READY ∧
      rt1.GetNextEvent true =
        (XR_SUCCESS, some (XrEventDataBuffer.sessionStateChanged 3 XR_SESSION_STATE_IDLE), rt2) ∧
      rt2.GetNextEvent true =
        (XR_SUCCESS, some (XrEventDataBuffer.sessionStateChanged 3 XR_SESSION_STATE_READY), rt3) ∧
      rt3.GetNextEvent true = (XR_EVENT_UNAVAILABLE, none, rt3) ∧
      rt3.currentState = XR_SESSION_STATE_READY := by
  refine ⟨{ rt with
      session := 3
      currentState := XR_SESSION_STATE_READY
      eventQueue := [XrEventDataBuffer.sessionStateChanged 3 XR_SESSION_STATE_IDLE,
        XrEventDataBuffer.sessionStateChanged 3 XR_SESSION_STATE_READY] },
    { rt with
      session := 3
      currentState := XR_SESSION_STATE_READY
      eventQueue := [XrEventDataBuffer.sessionStateChanged 3 XR_SESSION_STATE_READY] },
    { rt with
      session := 3
      currentState := XR_SESSION_STATE_READY
      eventQueue := [] }, ?_, ?_, ?_, ?_, ?_, ?_⟩ <;>
    simp [CreateSession, ChangeSessionState, ChangeSessionStateFrom, IsSessionState,
      GetNextEvent, hState, hQueue]

/-- Witness of `CreateSession_fresh` at the freshly constructed runtime. -/
theorem CreateSession_fresh_witness :
    MockRuntime.ctor.currentState = XR_SESSION_STATE_UNKNOWN ∧
    MockRuntime.ctor.eventQueue = [] ∧
    ∃ rt1 rt2 rt3 : MockRuntime,
      MockRuntime.ctor.CreateSession = (XR_SUCCESS, rt1) ∧
      rt1.currentState = XR_SESSION_STATE_READY ∧
      rt1.GetNextEvent true =
        (XR_SUCCESS, some (XrEventDataBuffer.sessionStateChanged 3 XR_SESSION_STATE_IDLE), rt2) ∧
      rt2.GetNextEvent true =
        (XR_SUCCESS, some (XrEventDataBuffer.sessionStateChanged 3 XR_SESSION_STATE_READY), rt3) ∧
      rt3.GetNextEvent true = (XR_EVENT_UNAVAILABLE, none, rt3) ∧
      rt3.currentState = XR_SESSION_STATE_READY :=
  ⟨rfl, rfl, CreateSession_fresh MockRuntime.ctor rfl rfl⟩

/-! ## Path interner: theorems -/

theorem isPathChar_iff (ch : Char) :
    isPathChar ch = true ↔ isNonPeriodChar ch = true ∨ ch = '.' ∨ ch = '/' := by
  unfold isPathChar isNonPeriodChar Char.isLower Char.isDigit
  simp only [Bool.or_eq_true, Bool.and_eq_true, decide_eq_true_eq, beq_iff_eq, ge_iff_le,
    Char.le_def]
  have e0 : '0'.val = 48 := rfl
  have e9 : '9'.val = 57 := rfl
  have ea : 'a'.val = 97 := rfl
  have ez : 'z'.val = 122 := rfl
  rw [e0, e9, ea, ez]
  tauto

theorem isNonPeriodChar_slash : isNonPeriodChar '/' = false := by decide

theorem isNonPeriodChar_period : isNonPeriodChar '.' = false := by decide

theorem splitOn_cons_slash (rest : List Char) :
    ('/' :: rest).splitOn '/' = [] :: rest.splitOn '/' := by
  simp [List.splitOn, List.splitOnP_cons]

theorem splitOn_cons_other (ch : Char) (rest : List Char) (h : ch ≠ '/') :
    (ch :: rest).splitOn '/' = (rest.splitOn '/').modifyHead (List.cons ch) := by
  simp [List.splitOn, List.splitOnP_cons, h]

theorem splitOn_ne_nil (rest : List Char) : rest.splitOn '/' ≠ [] := by
  simp [List.splitOn, List.splitOnP_ne_nil]

/-- Prepending a character to the first segment. -/
theorem segmentsOk_modifyHead (flag : Bool) (ch : Char) (segs : List (List Char))
    (h : segs ≠ []) :
    segmentsOk flag (segs.modifyHead (List.cons ch)) =
      segmentsOk (flag && ch == '.') segs := by
  cases segs with
  | nil => exact absurd rfl h
  | cons first more =>
    by_cases hc : ch = '.' <;> cases flag <;>
      simp [segmentsOk, hasNonPeriod, List.modifyHead, hc, bne]

/-- The loop advances `c` and `p` by the number of characters it reads. -/
theorem ValidatePath.loop_pointers (rest : List Char) :
    ∀ (c p nonperiod slash c1 p1 n1 s1 : Nat),
      ValidatePath.loop rest c p nonperiod slash = some (c1, p1, n1, s1) →
      c1 = c + rest.length ∧ p1 = p + rest.length := by
  induction rest with
  | nil =>
    intro c p nonperiod slash c1 p1 n1 s1 h
    simp only [ValidatePath.loop, Option.some.injEq, Prod.mk.injEq] at h
    simp only [List.length_nil]
    omega
  | cons ch rest ih =>
    intro c p nonperiod slash c1 p1 n1 s1 h
    simp only [ValidatePath.loop] at h
    split_ifs at h <;>
      · have := ih _ _ _ _ _ _ _ _ h
        simp only [List.length_cons]
        omega

/-- A string that ends in a slash leaves `nonperiod` on `slash`. -/
theorem ValidatePath.loop_trailing_slash (rest : List Char) :
    ∀ (c p nonperiod slash c1 p1 n1 s1 : Nat),
      ValidatePath.loop rest c p nonperiod slash = some (c1, p1, n1, s1) →
      rest.getLast? = some '/' → n1 = s1 := by
  induction rest with
  | nil =>
    intro c p nonperiod slash c1 p1 n1 s1 _ hl
    simp at hl
  | cons ch rest ih =>
    intro c p nonperiod slash c1 p1 n1 s1 h hl
    cases rest with
    | nil =>
      simp only [List.getLast?_singleton, Option.some.injEq] at hl
      subst hl
      simp [ValidatePath.loop, isNonPeriodChar_slash] at h
      omega
    | cons ch2 rest2 =>
      rw [List.getLast?_cons_cons] at hl
      rw [ValidatePath.loop] at h
      split_ifs at h <;> exact ih _ _ _ _ _ _ _ _ h hl

/-- The loop against the segment reading: with `slash ≤ nonperiod < c`, the loop
finishes with `nonperiod` off `slash` exactly when every character is a path
character and every segment holds a non-period character, the first one being
excused when the string so far already holds one. -/
theorem ValidatePath.loop_iff (rest : List Char) :
    ∀ (c p nonperiod slash : Nat), slash ≤ nonperiod → nonperiod < c →
      ((∃ c1 p1 n1 s1, ValidatePath.loop rest c p nonperiod slash = some (c1, p1, n1, s1) ∧
          n1 ≠ s1) ↔
        rest.all isPathChar = true ∧
          segmentsOk (decide (nonperiod = slash)) (rest.splitOn '/') = true) := by
  induction rest with
  | nil =>
    intro c p nonperiod slash _ _
    simp only [ValidatePath.loop, Option.some.injEq, Prod.mk.injEq, List.all_nil,
      List.splitOn_nil, true_and]
    constructor
    · rintro ⟨c1, p1, n1, s1, ⟨_, _, rfl, rfl⟩, h⟩
      simp [segmentsOk, hasNonPeriod, h]
    · intro h
      refine ⟨c, p, nonperiod, slash, ⟨rfl, rfl, rfl, rfl⟩, ?_⟩
      simpa [segmentsOk, hasNonPeriod] using h
  | cons ch rest ih =>
    intro c p nonperiod slash h1 h2
    have hallc : (ch :: rest).all isPathChar = true ↔
        (isNonPeriodChar ch = true ∨ ch = '.' ∨ ch = '/') ∧ rest.all isPathChar = true := by
      rw [List.all_cons, Bool.and_eq_true, isPathChar_iff]
    rw [hallc]
    by_cases hs : ch = '/'
    · subst hs
      rw [splitOn_cons_slash]
      by_cases hf : nonperiod = slash
      · have step : ValidatePath.loop ('/' :: rest) c p nonperiod slash = none := by
          simp [ValidatePath.loop, hf]
        rw [step]
        simp [hf, segmentsOk, hasNonPeriod]
      · have step : ValidatePath.loop ('/' :: rest) c p nonperiod slash =
            ValidatePath.loop rest (c + 1) (p + 1) c c := by
          simp [ValidatePath.loop, hf, isNonPeriodChar_slash]
        rw [step, ih (c + 1) (p + 1) c c (le_refl _) (by omega)]
        cases hsp : rest.splitOn '/' with
        | nil => exact absurd hsp (splitOn_ne_nil rest)
        | cons first more => simp [segmentsOk, hf]
    · rw [splitOn_cons_other ch rest hs, segmentsOk_modifyHead _ _ _ (splitOn_ne_nil rest)]
      by_cases hn : isNonPeriodChar ch = true
      · have hp : ch ≠ '.' := by
          intro e; subst e; simp [isNonPeriodChar_period] at hn
        have step : ValidatePath.loop (ch :: rest) c p nonperiod slash =
            ValidatePath.loop rest (c + 1) (p + 1) c slash := by
          simp [ValidatePath.loop, hs, hn]
        have hd : decide (c = slash) = false := by
          rw [decide_eq_false_iff_not]; omega
        have hb : (decide (nonperiod = slash) && ch == '.') = false := by
          simp [hp]
        rw [step, ih (c + 1) (p + 1) c slash (by omega) (by omega), hd, hb]
        simp [hn]
      · by_cases hp : ch = '.'
        · subst hp
          have step : ValidatePath.loop ('.' :: rest) c p nonperiod slash =
              ValidatePath.loop rest (c + 1) (p + 1) nonperiod slash := by
            simp [ValidatePath.loop, isNonPeriodChar_period]
          rw [step, ih (c + 1) (p + 1) nonperiod slash h1 (by omega)]
          simp
        · have step : ValidatePath.loop (ch :: rest) c p nonperiod slash = none := by
            simp [ValidatePath.loop, hs, hn, hp]
          rw [step]
          simp [hs, hn, hp]

theorem segmentsOk_true_splitOn (rest : List Char) :
    segmentsOk true (rest.splitOn '/') = (rest.splitOn '/').all hasNonPeriod := by
  cases hsp : rest.splitOn '/' with
  | nil => exact absurd hsp (splitOn_ne_nil rest)
  | cons first more => simp [segmentsOk]

theorem getElem?_length_cons (ch : Char) (rest : List Char) (h : rest ≠ []) :
    (ch :: rest)[rest.length]? = rest.getLast? := by
  cases rest with
  | nil => exact absurd rfl h
  | cons ch2 rest2 =>
    rw [← @List.getLast?_cons_cons _ ch ch2 rest2, List.getLast?_eq_getElem?]
    simp

/-- The result of `ValidatePath` is success or path-format-invalid. -/
theorem ValidatePath_result (path : CString) :
    ValidatePath path = XR_SUCCESS ∨ ValidatePath path = XR_ERROR_PATH_FORMAT_INVALID := by
  unfold ValidatePath
  split_ifs
  · exact Or.inr rfl
  · split
    · exact Or.inr rfl
    · split_ifs <;> simp

/-- The accept set of `ValidatePath`: a leading slash, path characters only, and
a non-period character in every segment behind a slash. The length test of
`ValidatePath` never fires. -/
theorem ValidatePath_eq_success_iff (path : CString) :
    ValidatePath path = XR_SUCCESS ↔
      path.head? = some '/' ∧ path.all isPathChar = true ∧
        ((path.drop 1).splitOn '/').all hasNonPeriod = true := by
  cases path with
  | nil => simp [ValidatePath]
  | cons ch rest =>
    by_cases hs : ch = '/'
    · subst hs
      have hiff := ValidatePath.loop_iff rest 1 0 0 0 (le_refl _) (by omega)
      rw [decide_eq_true rfl, segmentsOk_true_splitOn] at hiff
      have hall : ('/' :: rest).all isPathChar = rest.all isPathChar := by
        rw [List.all_cons, (isPathChar_iff '/').mpr (Or.inr (Or.inr rfl)), Bool.true_and]
      simp only [List.head?_cons, true_and, hall, List.drop_succ_cons, List.drop_zero]
      rw [← hiff]
      unfold ValidatePath
      simp only [List.head?_cons, ne_eq, not_true_eq_false, if_false, List.drop_succ_cons,
        List.drop_zero]
      cases hl : ValidatePath.loop rest 1 0 0 0 with
      | none => simp
      | some r =>
        obtain ⟨c1, p1, n1, s1⟩ := r
        obtain ⟨hc, hp⟩ := ValidatePath.loop_pointers rest _ _ _ _ _ _ _ _ hl
        by_cases hn : n1 = s1
        · subst hn
          simp only [if_true, ite_self, reduceCtorEq, false_iff, not_exists, not_and,
            Option.some.injEq, Prod.mk.injEq, ne_eq, not_not]
          rintro c2 p2 n2 s2 ⟨_, _, rfl, rfl⟩
          rfl
        · have hne : rest ≠ [] := by
            intro e
            subst e
            simp only [ValidatePath.loop, Option.some.injEq, Prod.mk.injEq] at hl
            omega
          have hlast : ('/' :: rest)[p1]? ≠ some '/' := by
            rw [hp, Nat.zero_add, getElem?_length_cons _ _ hne]
            intro e
            exact hn (ValidatePath.loop_trailing_slash rest _ _ _ _ _ _ _ _ hl e)
          have hlen : ¬ ((c1 : Int) - (p1 : Int) + 1 > (XR_MAX_PATH_LENGTH : Int)) := by
            simp only [XR_MAX_PATH_LENGTH]
            omega
          simp only [hn, hlast, hlen, if_false, true_iff]
          exact ⟨c1, p1, n1, s1, rfl, hn⟩
    · simp [ValidatePath, hs]

/-- C4: `StringToPath` succeeds exactly on the strings of the accept set, and on
every other string it returns path-format-invalid and leaves the runtime, with
its user-path and component-path tables, as it was. -/
theorem StringToPath_accept_set (rt : MockRuntime) (s : CString) :
    ((rt.StringToPath s).1 = XR_SUCCESS ↔ PathStringAccepted s = true) ∧
    (PathStringAccepted s = false →
      (rt.StringToPath s).1 = XR_ERROR_PATH_FORMAT_INVALID ∧
      (rt.StringToPath s).2.2.userPathStrings = rt.userPathStrings ∧
      (rt.StringToPath s).2.2.componentPathStrings = rt.componentPathStrings ∧
      (rt.StringToPath s).2.2 = rt) := by
  have hacc : PathStringAccepted s = true ↔
      ValidatePath s = XR_SUCCESS ∧ ¬ s.length ≥ XR_MAX_PATH_LENGTH := by
    rw [ValidatePath_eq_success_iff]
    simp only [PathStringAccepted, Bool.and_eq_true, beq_iff_eq, decide_eq_true_eq,
      XR_MAX_PATH_LENGTH]
    constructor
    · rintro ⟨⟨⟨h1, h2⟩, h3⟩, h4⟩
      exact ⟨⟨h1, h2, h3⟩, by omega⟩
    · rintro ⟨⟨h1, h2, h3⟩, h4⟩
      exact ⟨⟨⟨h1, h2⟩, h3⟩, by omega⟩
  by_cases hv : ValidatePath s = XR_SUCCESS
  · by_cases hl : s.length ≥ XR_MAX_PATH_LENGTH
    · have hno : PathStringAccepted s = false := by
        rw [← Bool.not_eq_true, hacc]; tauto
      simp [StringToPath, hv, hl, hno]
    · have hyes : PathStringAccepted s = true := hacc.mpr ⟨hv, hl⟩
      refine ⟨?_, by simp [hyes]⟩
      simp only [hyes, iff_true]
      simp only [StringToPath, hv, hl, ne_eq, not_true_eq_false, if_false]
      split_ifs
      · split <;> rfl
      · rfl
  · have hno : PathStringAccepted s = false := by
      rw [← Bool.not_eq_true, hacc]; tauto
    have hinv := (ValidatePath_result s).resolve_left hv
    simp [StringToPath, hv, hno, hinv]

/-- A match of the component loop survives entries appended to the table. -/
theorem StringToPath.componentLoop_append_of_some (pathString : CString)
    (table extra : List CString) :
    ∀ (i j : Nat), StringToPath.componentLoop pathString table i = some j →
      StringToPath.componentLoop pathString (table ++ extra) i = some j := by
  induction table with
  | nil => intro i j h; simp [StringToPath.componentLoop] at h
  | cons entry more ih =>
    intro i j h
    simp only [StringToPath.componentLoop, List.cons_append] at h ⊢
    split_ifs at h ⊢ with he
    · exact h
    · exact ih _ _ h

/-- A string the component loop does not find is found, once pushed, at the
index the table had as its size. -/
theorem StringToPath.componentLoop_append_of_none (pathString : CString)
    (table extra : List CString) :
    ∀ (i : Nat), StringToPath.componentLoop pathString table i = none →
      StringToPath.componentLoop pathString (table ++ pathString :: extra) i =
        some (i + table.length) := by
  induction table with
  | nil => intro i _; simp [StringToPath.componentLoop]
  | cons entry more ih =>
    intro i h
    simp only [StringToPath.componentLoop, List.cons_append, List.append_eq] at h ⊢
    split_ifs at h ⊢ with he
    rw [ih _ h, List.length_cons]
    congr 1
    omega

/-- The call `StringToPath` keeps the user-path table and only appends to the
component-path table. -/
theorem StringToPath_tables (rt : MockRuntime) (s : CString) :
    (rt.StringToPath s).2.2.userPathStrings = rt.userPathStrings ∧
    rt.componentPathStrings <+: (rt.StringToPath s).2.2.componentPathStrings := by
  simp only [StringToPath]
  split_ifs
  · exact ⟨rfl, List.prefix_refl _⟩
  · exact ⟨rfl, List.prefix_refl _⟩
  · split
    · exact ⟨rfl, List.prefix_refl _⟩
    · exact ⟨rfl, List.prefix_append _ _⟩
  · exact ⟨rfl, List.prefix_refl _⟩

theorem StringToPathOrNull_snd (rt : MockRuntime) (s : CString) :
    (rt.StringToPathOrNull s).2 = (rt.StringToPath s).2.2 := by
  unfold StringToPathOrNull
  split <;> simp_all

/-- The call `AppendPath` keeps the user-path table and only appends to the
component-path table. -/
theorem AppendPath_tables (rt : MockRuntime) (path : XrPath) (append : CString) :
    (rt.AppendPath path append).2.userPathStrings = rt.userPathStrings ∧
    rt.componentPathStrings <+: (rt.AppendPath path append).2.componentPathStrings := by
  unfold AppendPath
  simp only
  split_ifs
  · exact ⟨rfl, List.prefix_refl _⟩
  · rw [StringToPathOrNull_snd]
    exact StringToPath_tables rt _

/-- Any sequence of interner calls keeps the user-path table and only appends to
the component-path table. -/
theorem runPathCalls_tables (calls : List PathCall) :
    ∀ rt : MockRuntime,
      (runPathCalls rt calls).userPathStrings = rt.userPathStrings ∧
      rt.componentPathStrings <+: (runPathCalls rt calls).componentPathStrings := by
  induction calls with
  | nil => intro rt; exact ⟨rfl, List.prefix_refl _⟩
  | cons call more ih =>
    intro rt
    have hstep : (PathCall.run rt call).userPathStrings = rt.userPathStrings ∧
        rt.componentPathStrings <+: (PathCall.run rt call).componentPathStrings := by
      cases call with
      | StringToPath s => exact StringToPath_tables rt s
      | AppendPath p a => exact AppendPath_tables rt p a
    have hrest := ih (PathCall.run rt call)
    simp only [runPathCalls, List.foldl_cons] at hrest ⊢
    exact ⟨hrest.1.trans hstep.1, hstep.2.trans hrest.2⟩

/-- Interning is stable under growth of the component-path table. -/
theorem StringToPath_of_extension (rt rt1 rt2 : MockRuntime) (s : CString) (h : XrPath)
    (hFirst : rt.StringToPath s = (XR_SUCCESS, some h, rt1))
    (hUser : rt2.userPathStrings = rt1.userPathStrings)
    (hComp : rt1.componentPathStrings <+: rt2.componentPathStrings) :
    rt2.StringToPath s = (XR_SUCCESS, some h, rt2) := by
  obtain ⟨extra, hextra⟩ := hComp
  simp only [StringToPath] at hFirst ⊢
  split_ifs at hFirst with hv hl hh
  · simp only [Prod.mk.injEq] at hFirst
    exact absurd hFirst.1 hv
  · simp at hFirst
  · -- the remainder goes to the component table
    rw [if_neg hv, if_neg hl]
    cases hc : StringToPath.componentLoop
        (StringToPath.userLoop s rt.userPathStrings 0).2 rt.componentPathStrings 0 with
    | some i =>
      rw [hc] at hFirst
      simp only [Prod.mk.injEq, Option.some.injEq, true_and] at hFirst
      obtain ⟨hh1, hrt⟩ := hFirst
      subst hrt
      subst hh1
      rw [hUser, if_pos hh, ← hextra,
        StringToPath.componentLoop_append_of_some _ _ _ _ _ hc]
    | none =>
      rw [hc] at hFirst
      simp only [Prod.mk.injEq, Option.some.injEq, true_and] at hFirst
      obtain ⟨hh1, hrt⟩ := hFirst
      subst hrt
      subst hh1
      simp only at hUser hextra
      rw [hUser, if_pos hh, ← hextra, List.append_assoc, List.singleton_append,
        StringToPath.componentLoop_append_of_none _ _ _ _ hc]
      simp only [List.length_append, List.length_singleton, Nat.zero_add]
  · rw [if_neg hv, if_neg hl]
    simp only [Prod.mk.injEq, Option.some.injEq, true_and] at hFirst
    obtain ⟨hh1, hrt⟩ := hFirst
    subst hrt
    subst hh1
    rw [hUser, if_neg hh]

/-- C3: once `StringToPath s` has succeeded with handle `h`, `StringToPath s`
succeeds with the same handle `h` after any sequence of further `StringToPath`
and `AppendPath` calls on the runtime. -/
theorem StringToPath_stable (rt rt1 : MockRuntime) (s : CString) (h : XrPath)
    (calls : List PathCall)
    (hFirst : rt.StringToPath s = (XR_SUCCESS, some h, rt1)) :
    (runPathCalls rt1 calls).StringToPath s = (XR_SUCCESS, some h, runPathCalls rt1 calls) :=
  StringToPath_of_extension rt rt1 (runPathCalls rt1 calls) s h hFirst
    (runPathCalls_tables calls rt1).1 (runPathCalls_tables calls rt1).2

/-- C1, evaluated where it fails: on every runtime with the built-in user-path
table, `StringToPath "/user/headset"` succeeds with handle 3, the handle of the
user path `/user/head`, and `PathToString 3` is `/user/head`, not the string
that was interned. -/
theorem StringToPath_headset_no_round_trip (rt : MockRuntime)
    (hUser : rt.userPathStrings = MockRuntime.ctor.userPathStrings)
    (hSize : rt.componentPathStrings.length < 2 ^ 64) :
    rt.StringToPath "/user/headset".toList = (XR_SUCCESS, some 3, rt) ∧
    rt.PathToString 3 = "/user/head".toList ∧
    rt.PathToString 3 ≠ "/user/headset".toList := by
  have hv : ValidatePath "/user/headset".toList = XR_SUCCESS := by decide
  have hl : ¬ "/user/headset".toList.length ≥ XR_MAX_PATH_LENGTH := by decide
  have hu : StringToPath.userLoop "/user/headset".toList MockRuntime.ctor.userPathStrings 0 =
      (3, "set".toList) := by decide
  have hp : rt.PathToString 3 = "/user/head".toList := by
    have h1 : ((3 &&& 0xFFFFFFFF) + (2 ^ 64 - 1)) % 2 ^ 64 = 2 := by decide
    have h2 : ((3 >>> 32) + (2 ^ 64 - 1)) % 2 ^ 64 = 2 ^ 64 - 1 := by decide
    have h3 : ¬ (2 ^ 64 - 1 < rt.componentPathStrings.length) := by omega
    have h4 : (2 : Nat) < MockRuntime.ctor.userPathStrings.length := by decide
    have h5 : MockRuntime.ctor.userPathStrings.getD 2 [] = "/user/head".toList := by decide
    simp only [PathToString, h1, h2, h3, hUser, h4, h5, and_false, if_false, if_true]
  refine ⟨?_, hp, ?_⟩
  · simp only [StringToPath, hv, hl, hUser, hu, ne_eq, not_true_eq_false, if_false]
    rw [if_neg (by decide)]
  · rw [hp]
    decide

/-- Witness of `StringToPath_headset_no_round_trip` at the constructed runtime. -/
theorem StringToPath_headset_no_round_trip_witness :
    MockRuntime.ctor.StringToPath "/user/headset".toList =
      (XR_SUCCESS, some 3, MockRuntime.ctor) ∧
    MockRuntime.ctor.PathToString 3 = "/user/head".toList ∧
    MockRuntime.ctor.PathToString 3 ≠ "/user/headset".toList :=
  StringToPath_headset_no_round_trip MockRuntime.ctor rfl (by decide)

/-- C2, evaluated where it fails: on every runtime with the built-in user-path
table the two different strings `/user/head` and `/user/headset` are both
accepted and both get the handle 3. -/
theorem StringToPath_head_headset_collide (rt : MockRuntime)
    (hUser : rt.userPathStrings = MockRuntime.ctor.userPathStrings) :
    rt.StringToPath "/user/head".toList = (XR_SUCCESS, some 3, rt) ∧
    rt.StringToPath "/user/headset".toList = (XR_SUCCESS, some 3, rt) ∧
    "/user/head".toList ≠ "/user/headset".toList := by
  have hv : ValidatePath "/user/headset".toList = XR_SUCCESS := by decide
  have hl : ¬ "/user/headset".toList.length ≥ XR_MAX_PATH_LENGTH := by decide
  have hu : StringToPath.userLoop "/user/headset".toList MockRuntime.ctor.userPathStrings 0 =
      (3, "set".toList) := by decide
  have hv2 : ValidatePath "/user/head".toList = XR_SUCCESS := by decide
  have hl2 : ¬ "/user/head".toList.length ≥ XR_MAX_PATH_LENGTH := by decide
  have hu2 : StringToPath.userLoop "/user/head".toList MockRuntime.ctor.userPathStrings 0 =
      (3, []) := by decide
  refine ⟨?_, ?_, by decide⟩
  · simp only [StringToPath, hv2, hl2, hUser, hu2, ne_eq, not_true_eq_false, if_false]
    rw [if_neg (by decide)]
  · simp only [StringToPath, hv, hl, hUser, hu, ne_eq, not_true_eq_false, if_false]
    rw [if_neg (by decide)]

/-- Witness of `StringToPath_head_headset_collide` at the constructed runtime. -/
theorem StringToPath_head_headset_collide_witness :
    MockRuntime.ctor.StringToPath "/user/head".toList =
      (XR_SUCCESS, some 3, MockRuntime.ctor) ∧
    MockRuntime.ctor.StringToPath "/user/headset".toList =
      (XR_SUCCESS, some 3, MockRuntime.ctor) ∧
    "/user/head".toList ≠ "/user/headset".toList :=
  StringToPath_head_headset_collide MockRuntime.ctor rfl

/-- Witness of `StringToPath_stable`: `/user/head/input/select` is interned on
the constructed runtime with handle `3 + 1 * 2 ^ 32` and keeps that handle
after another string is interned and a path is appended. -/
theorem StringToPath_stable_witness :
    MockRuntime.ctor.StringToPath "/user/head/input/select".toList =
      (XR_SUCCESS, some 4294967299, internedRuntime) ∧
    (runPathCalls internedRuntime
        [PathCall.StringToPath "/user/hand/left/input/trigger".toList,
          PathCall.AppendPath 3 "/input/menu".toList]).StringToPath
        "/user/head/input/select".toList =
      (XR_SUCCESS, some 4294967299,
        runPathCalls internedRuntime
          [PathCall.StringToPath "/user/hand/left/input/trigger".toList,
            PathCall.AppendPath 3 "/input/menu".toList]) :=
  ⟨rfl,
    StringToPath_stable MockRuntime.ctor internedRuntime "/user/head/input/select".toList
      4294967299 _ rfl⟩

set_option maxRecDepth 100000 in
/-- Sample strings in and out of the accept set, the last two at the length
bound. -/
theorem PathStringAccepted_samples :
    PathStringAccepted "/user/hand/left/input/trigger.x/value-1_a".toList = true ∧
    PathStringAccepted "/a.".toList = true ∧
    PathStringAccepted "/.a".toList = true ∧
    PathStringAccepted "/".toList = false ∧
    PathStringAccepted "/a/".toList = false ∧
    PathStringAccepted "/a//b".toList = false ∧
    PathStringAccepted "/a/./b".toList = false ∧
    PathStringAccepted "/a/..".toList = false ∧
    PathStringAccepted "/A".toList = false ∧
    PathStringAccepted "a/b".toList = false ∧
    PathStringAccepted ('/' :: List.replicate 254 'a') = true ∧
    PathStringAccepted ('/' :: List.replicate 255 'a') = false := by
  decide

/-! ## Session lifecycle operations: theorems -/

/-- C11: `BeginSession` from Ready ends in Focused, marks the session running
and appends exactly the three session-state-changed events Synchronized,
Visible, Focused in that order (followed only by the interaction-profile
event when a profile is active); from any state other than Ready,
Synchronized or Visible it leaves the state as it was and appends no
session-state-changed event. -/
theorem BeginSession_spec (rt : MockRuntime) (msftResult : XrResult) :
    (rt.currentState = XR_SESSION_STATE_READY →
      (rt.BeginSession msftResult).2.currentState = XR_SESSION_STATE_FOCUSED ∧
      (rt.BeginSession msftResult).2.isRunning = true ∧
      (rt.BeginSession msftResult).2.eventQueue =
        rt.eventQueue ++
          [XrEventDataBuffer.sessionStateChanged rt.session XR_SESSION_STATE_SYNCHRONIZED,
           XrEventDataBuffer.sessionStateChanged rt.session XR_SESSION_STATE_VISIBLE,
           XrEventDataBuffer.sessionStateChanged rt.session XR_SESSION_STATE_FOCUSED] ++
          (if rt.activeInteractionProfile ≠ none then
            [XrEventDataBuffer.interactionProfileChanged rt.session] else [])) ∧
    (rt.currentState ≠ XR_SESSION_STATE_READY →
      rt.currentState ≠ XR_SESSION_STATE_SYNCHRONIZED →
      rt.currentState ≠ XR_SESSION_STATE_VISIBLE →
      (rt.BeginSession msftResult).2.currentState = rt.currentState ∧
      (rt.BeginSession msftResult).2.eventQueue =
        rt.eventQueue ++
          (if rt.activeInteractionProfile ≠ none then
            [XrEventDataBuffer.interactionProfileChanged rt.session] else [])) := by
  constructor
  · intro h
    simp only [BeginSession, ChangeSessionStateFrom, ChangeSessionState, IsSessionState, h]
    by_cases ha : rt.activeInteractionProfile = none <;>
      by_cases hf : rt.createFlags &&& MR_CREATE_MSFT_SECONDARY_VIEW_CONFIGURATION_EXT = 0 <;>
      simp [ha, hf]
  · intro h1 h2 h3
    simp only [BeginSession, ChangeSessionStateFrom, ChangeSessionState, IsSessionState]
    by_cases ha : rt.activeInteractionProfile = none <;>
      by_cases hf : rt.createFlags &&& MR_CREATE_MSFT_SECONDARY_VIEW_CONFIGURATION_EXT = 0 <;>
      simp [ha, hf, h1, h2, h3]

/-- C12: `RequestExitSession` on a running session in Focused ends in Stopping,
sets the exit-requested flag and appends exactly the three
session-state-changed events Visible, Synchronized, Stopping in that order; on
a session that is not running it returns session-not-running and leaves the
runtime, with its state, flag and event queue, as it was. -/
theorem RequestExitSession_spec (rt : MockRuntime) :
    (rt.isRunning = true → rt.currentState = XR_SESSION_STATE_FOCUSED →
      (rt.RequestExitSession).1 = XR_SUCCESS ∧
      (rt.RequestExitSession).2.currentState = XR_SESSION_STATE_STOPPING ∧
      (rt.RequestExitSession).2.exitSessionRequested = true ∧
      (rt.RequestExitSession).2.eventQueue =
        rt.eventQueue ++
          [XrEventDataBuffer.sessionStateChanged rt.session XR_SESSION_STATE_VISIBLE,
           XrEventDataBuffer.sessionStateChanged rt.session XR_SESSION_STATE_SYNCHRONIZED,
           XrEventDataBuffer.sessionStateChanged rt.session XR_SESSION_STATE_STOPPING]) ∧
    (rt.isRunning = false →
      rt.RequestExitSession = (XR_ERROR_SESSION_NOT_RUNNING, rt)) := by
  constructor
  · intro hr hs
    simp [RequestExitSession, IsSessionRunning, ChangeSessionStateFrom, ChangeSessionState,
      IsSessionState, hr, hs]
  · intro hr
    simp [RequestExitSession, IsSessionRunning, hr]

/-- C13, as stated, fails: on a running session in state Ready the driver exit
request returns success and the session is still in Ready, not in Stopping;
only the exit-requested flag is set. -/
theorem running_ready_exit_request_stays_ready :
    xrRequestExitSessionUNITY (some runningReadyRuntime) 3 =
      (XR_SUCCESS, some { runningReadyRuntime with exitSessionRequested := true }) ∧
    runningReadyRuntime.isRunning = true ∧
    runningReadyRuntime.currentState = XR_SESSION_STATE_READY ∧
    runningReadyRuntime.GetSession = 3 :=
  ⟨rfl, rfl, rfl, rfl⟩

/-- C13, amended: with the current session handle, the driver exit request on a
running session in Synchronized, Visible or Focused returns success and leaves
the session in Stopping; on a running session in Ready it returns success,
sets the exit-requested flag and leaves the session in Ready; in every state
other than these four it returns validation-failure and leaves the runtime as
it was. -/
theorem xrRequestExitSessionUNITY_spec (rt : MockRuntime) :
    (rt.isRunning = true →
      (rt.currentState = XR_SESSION_STATE_SYNCHRONIZED ∨
        rt.currentState = XR_SESSION_STATE_VISIBLE ∨
        rt.currentState = XR_SESSION_STATE_FOCUSED) →
      ∃ rt1 : MockRuntime,
        xrRequestExitSessionUNITY (some rt) rt.GetSession = (XR_SUCCESS, some rt1) ∧
        rt1.currentState = XR_SESSION_STATE_STOPPING) ∧
    (rt.isRunning = true → rt.currentState = XR_SESSION_STATE_READY →
      xrRequestExitSessionUNITY (some rt) rt.GetSession =
        (XR_SUCCESS, some { rt with exitSessionRequested := true })) ∧
    (rt.currentState ≠ XR_SESSION_STATE_READY →
      rt.currentState ≠ XR_SESSION_STATE_SYNCHRONIZED →
      rt.currentState ≠ XR_SESSION_STATE_VISIBLE →
      rt.currentState ≠ XR_SESSION_STATE_FOCUSED →
      xrRequestExitSessionUNITY (some rt) rt.GetSession =
        (XR_ERROR_VALIDATION_FAILURE, some rt)) := by
  refine ⟨?_, ?_, ?_⟩
  · intro hr hs
    refine ⟨(rt.RequestExitSession).2, ?_, ?_⟩
    · rcases hs with hs | hs | hs <;>
        simp [xrRequestExitSessionUNITY, xrRequestExitSession, RequestExitSession,
          IsSessionRunning, IsSessionState, GetSession, hr, hs]
    · rcases hs with hs | hs | hs <;>
        simp [RequestExitSession, IsSessionRunning, ChangeSessionStateFrom,
          ChangeSessionState, IsSessionState, hr, hs]
  · intro hr hs
    simp [xrRequestExitSessionUNITY, xrRequestExitSession, RequestExitSession,
      IsSessionRunning, ChangeSessionStateFrom, ChangeSessionState, IsSessionState,
      GetSession, hr, hs]
  · intro h1 h2 h3 h4
    simp [xrRequestExitSessionUNITY, IsSessionState, GetSession, h1, h2, h3, h4]

/-- C14: `EndSession` from Stopping marks the session not running; when exit was
not requested it ends in Idle and appends the one state-changed event Idle;
when exit was requested it ends in Exiting, appends the two state-changed
events Idle, Exiting in that order and clears the exit-requested flag. -/
theorem EndSession_spec (rt : MockRuntime)
    (hState : rt.currentState = XR_SESSION_STATE_STOPPING) :
    (rt.EndSession).2.isRunning = false ∧
    (rt.exitSessionRequested = false →
      (rt.EndSession).2.currentState = XR_SESSION_STATE_IDLE ∧
      (rt.EndSession).2.eventQueue =
        rt.eventQueue ++
          [XrEventDataBuffer.sessionStateChanged rt.session XR_SESSION_STATE_IDLE]) ∧
    (rt.exitSessionRequested = true →
      (rt.EndSession).2.currentState = XR_SESSION_STATE_EXITING ∧
      (rt.EndSession).2.eventQueue =
        rt.eventQueue ++
          [XrEventDataBuffer.sessionStateChanged rt.session XR_SESSION_STATE_IDLE,
           XrEventDataBuffer.sessionStateChanged rt.session XR_SESSION_STATE_EXITING] ∧
      (rt.EndSession).2.exitSessionRequested = false) := by
  cases he : rt.exitSessionRequested <;>
    simp [EndSession, ChangeSessionStateFrom, ChangeSessionState, IsSessionState, hState, he]

/-- Witness of `EndSession_spec` at a stopping runtime whose exit was requested. -/
theorem EndSession_spec_witness :
    stoppingRuntime.currentState = XR_SESSION_STATE_STOPPING ∧
    (stoppingRuntime.EndSession).2.isRunning = false ∧
    (stoppingRuntime.exitSessionRequested = false →
      (stoppingRuntime.EndSession).2.currentState = XR_SESSION_STATE_IDLE ∧
      (stoppingRuntime.EndSession).2.eventQueue =
        stoppingRuntime.eventQueue ++
          [XrEventDataBuffer.sessionStateChanged stoppingRuntime.session
            XR_SESSION_STATE_IDLE]) ∧
    (stoppingRuntime.exitSessionRequested = true →
      (stoppingRuntime.EndSession).2.currentState = XR_SESSION_STATE_EXITING ∧
      (stoppingRuntime.EndSession).2.eventQueue =
        stoppingRuntime.eventQueue ++
          [XrEventDataBuffer.sessionStateChanged stoppingRuntime.session XR_SESSION_STATE_IDLE,
           XrEventDataBuffer.sessionStateChanged stoppingRuntime.session
             XR_SESSION_STATE_EXITING] ∧
      (stoppingRuntime.EndSession).2.exitSessionRequested = false) :=
  ⟨rfl, EndSession_spec stoppingRuntime rfl⟩

/-! ## Action states: theorems -/

/-- A number below `2 ^ k` has at most `k` binary digits. -/
theorem bitLengthAux_le (k : Nat) :
    ∀ fuel n : Nat, n < 2 ^ k → CFloat.bitLengthAux fuel n ≤ k := by
  induction k with
  | zero =>
    intro fuel n h
    have : n = 0 := by simpa using h
    subst this
    cases fuel <;> simp [CFloat.bitLengthAux]
  | succ k ih =>
    intro fuel n h
    cases fuel with
    | zero => simp [CFloat.bitLengthAux]
    | succ fuel =>
      rw [CFloat.bitLengthAux]
      split_ifs
      · omega
      · have hhalf : n / 2 < 2 ^ k := by
          rw [Nat.div_lt_iff_lt_mul (by norm_num)]
          rw [pow_succ] at h
          exact h
        have := ih fuel (n / 2) hhalf
        omega

/-- The spacing of the floats around a natural number below `2 ^ 24` is at
most one. -/
theorem quantum_nonpos (n : Nat) (h : n < 2 ^ 24) : CFloat.quantum n 1 ≤ 0 := by
  have hb : CFloat.bitLength n ≤ 24 := bitLengthAux_le 24 n n h
  have h1 : CFloat.bitLength 1 = 1 := by decide
  unfold CFloat.quantum
  rw [h1]
  dsimp only
  split_ifs <;> omega

/-- A natural number below `2 ^ 24` is a float: the conversion to `float`
returns the number itself. -/
theorem round_natCast (n : Nat) (h : n < 2 ^ 24) : CFloat.round (n : ℚ) = n := by
  have hq := quantum_nonpos n h
  unfold CFloat.round
  rw [if_neg (by simp)]
  simp only [Rat.num_natCast, Int.natAbs_ofNat, Rat.den_natCast]
  unfold CFloat.roundMagnitude
  by_cases h0 : n = 0
  · simp [h0]
  · rw [if_neg (by simp [h0])]
    dsimp only
    generalize CFloat.quantum n 1 = q at hq
    obtain ⟨k, rfl⟩ : ∃ k : Nat, q = -(k : Int) := ⟨q.natAbs, by omega⟩
    simp only [neg_neg, Int.toNat_ofNat, Int.toNat_neg_nat, pow_zero, mul_one, Nat.div_one,
      Nat.mod_one, mul_zero]
    rw [if_neg (by simp)]
    push_cast
    rw [zpow_neg, zpow_natCast, mul_assoc, mul_inv_cancel₀ (by positivity), mul_one]

/-- The rounding of an exact result that is not negative is not negative. -/
theorem round_nonneg (q : ℚ) (h : 0 ≤ q) : 0 ≤ CFloat.round q := by
  unfold CFloat.round
  rw [if_neg (not_lt.mpr h)]
  unfold CFloat.roundMagnitude
  split_ifs
  · exact le_refl _
  · dsimp only
    positivity

/-- The float result for an exact result that is not negative is the positive
infinity or a finite number from 0 up to, but not including, `2 ^ 128`. -/
theorem ofExact_nonneg (q : ℚ) (h : 0 ≤ q) :
    FloatResult.ofExact q = FloatResult.posInf ∨
      ∃ r : ℚ, FloatResult.ofExact q = FloatResult.finite r ∧ 0 ≤ r ∧ r < 2 ^ 128 := by
  have hr := round_nonneg q h
  unfold FloatResult.ofExact
  by_cases hbig : CFloat.round q ≥ 2 ^ 128
  · left; rw [if_pos hbig]
  · right
    have hneg : ¬ CFloat.round q ≤ -2 ^ 128 := by
      intro hle
      have : (0 : ℚ) < 2 ^ 128 := by positivity
      linarith
    rw [if_neg hbig, if_neg hneg]
    exact ⟨_, rfl, hr, not_le.mp hbig⟩

/-- The computed squared magnitude of a vector is the positive infinity or a
finite number from 0 up to, but not including, `2 ^ 128`; it is no NaN. -/
theorem computedSquaredMagnitude_cases (v : XrVector2f) :
    v.computedSquaredMagnitude = FloatResult.posInf ∨
      ∃ r : ℚ, v.computedSquaredMagnitude = FloatResult.finite r ∧ 0 ≤ r ∧ r < 2 ^ 128 := by
  unfold XrVector2f.computedSquaredMagnitude CFloat.mul
  rcases ofExact_nonneg (v.x * v.x) (mul_self_nonneg _) with hx | ⟨a, hx, ha, _⟩ <;>
    rcases ofExact_nonneg (v.y * v.y) (mul_self_nonneg _) with hy | ⟨b, hy, hb, _⟩ <;>
    rw [hx, hy]
  · left; rfl
  · left; rfl
  · left; rfl
  · exact ofExact_nonneg (a + b) (add_nonneg ha hb)

/-- On computed squared magnitudes the comparison of `float` is the comparison
of the places in the order. -/
theorem computedSquaredMagnitude_gt (u w : XrVector2f) :
    u.computedSquaredMagnitude.gt w.computedSquaredMagnitude =
      decide (u.computedSquaredMagnitude.rank > w.computedSquaredMagnitude.rank) := by
  rcases computedSquaredMagnitude_cases u with hu | ⟨a, hu, _, ha⟩ <;>
    rcases computedSquaredMagnitude_cases w with hw | ⟨b, hw, _, hb⟩ <;>
    rw [hu, hw]
  · simp [FloatResult.gt, FloatResult.rank]
  · simp only [FloatResult.gt, FloatResult.rank]
    exact (decide_eq_true hb).symm
  · simp only [FloatResult.gt, FloatResult.rank]
    exact (decide_eq_false (not_lt.mpr (le_of_lt ha))).symm
  · simp only [FloatResult.gt, FloatResult.rank]

/-- The computed squared magnitude of the zero vector is zero. -/
theorem computedSquaredMagnitude_zero :
    ({ x := 0, y := 0 } : XrVector2f).computedSquaredMagnitude = FloatResult.finite 0 := by
  decide!

/-- The fold with the strict replacement rule returns either the start value,
which then no entry exceeds, or an entry that strictly exceeds the start value
and every entry before it and that no later entry exceeds. -/
theorem strictMaxFold_cases {α : Type} (key : α → ℚ) (xs : List α) :
    ∀ acc : α,
      (strictMaxFold key acc xs = acc ∧ ∀ x ∈ xs, key x ≤ key acc) ∨
      ∃ before after, xs = before ++ strictMaxFold key acc xs :: after ∧
        key acc < key (strictMaxFold key acc xs) ∧
        (∀ x ∈ before, key x < key (strictMaxFold key acc xs)) ∧
        ∀ x ∈ after, key x ≤ key (strictMaxFold key acc xs) := by
  induction xs with
  | nil => intro acc; left; simp [strictMaxFold]
  | cons x xs ih =>
    intro acc
    by_cases hx : key x > key acc
    · have hstep : strictMaxFold key acc (x :: xs) = strictMaxFold key x xs := by
        simp [strictMaxFold, hx]
      rw [hstep]
      right
      rcases ih x with ⟨hr, hall⟩ | ⟨before, after, hsplit, hlt, hb, ha⟩
      · refine ⟨[], xs, ?_, ?_, ?_, ?_⟩
        · rw [hr]; rfl
        · rw [hr]; exact hx
        · simp
        · rw [hr]; exact hall
      · refine ⟨x :: before, after, ?_, ?_, ?_, ha⟩
        · rw [List.cons_append, ← hsplit]
        · exact lt_trans hx hlt
        · intro y hy
          rcases List.mem_cons.mp hy with rfl | hy
          · exact hlt
          · exact hb y hy
    · have hstep : strictMaxFold key acc (x :: xs) = strictMaxFold key acc xs := by
        simp [strictMaxFold, hx]
      rw [hstep]
      have hxle : key x ≤ key acc := not_lt.mp hx
      rcases ih acc with ⟨hr, hall⟩ | ⟨before, after, hsplit, hlt, hb, ha⟩
      · left
        refine ⟨hr, ?_⟩
        intro y hy
        rcases List.mem_cons.mp hy with rfl | hy
        · exact hxle
        · exact hall y hy
      · right
        refine ⟨x :: before, after, ?_, hlt, ?_, ha⟩
        · rw [List.cons_append, ← hsplit]
        · intro y hy
          rcases List.mem_cons.mp hy with rfl | hy
          · exact lt_of_le_of_lt hxle hlt
          · exact hb y hy

/-- The fold with the strict replacement rule, started at a value of key zero
that is the only value of key zero, returns the first entry of maximal key. -/
theorem strictMaxFold_eq_firstMaximal {α : Type} (key : α → ℚ) (d : α) (xs : List α)
    (hd : key d = 0) (hnonneg : ∀ x, 0 ≤ key x) (hzero : ∀ x, key x = 0 → x = d) :
    strictMaxFold key d xs = firstMaximal key d xs := by
  rcases strictMaxFold_cases key xs d with ⟨hr, hall⟩ | ⟨before, after, hsplit, hlt, hb, ha⟩
  · rw [hr]
    cases xs with
    | nil => simp [firstMaximal]
    | cons x rest =>
      have hxs : ∀ y ∈ x :: rest, y = d := by
        intro y hy
        exact hzero y (le_antisymm (hd ▸ hall y hy) (hnonneg y))
      have hx : x = d := hxs x (List.mem_cons_self _ _)
      have hp : (x :: rest).all (fun y => decide (key y ≤ key x)) = true := by
        rw [List.all_eq_true]
        intro y hy
        rw [decide_eq_true_eq, hxs y hy, hx]
      simp only [firstMaximal, List.find?_cons, hp, Option.getD_some]
      exact hx.symm
  · generalize strictMaxFold key d xs = best at hsplit hlt hb ha ⊢
    have hfind : xs.find? (fun x => xs.all fun y => decide (key y ≤ key x)) = some best := by
      rw [List.find?_eq_some]
      refine ⟨?_, before, after, hsplit, ?_⟩
      · rw [List.all_eq_true]
        intro y hy
        rw [decide_eq_true_eq]
        rw [hsplit] at hy
        rcases List.mem_append.mp hy with hy | hy
        · exact le_of_lt (hb y hy)
        · rcases List.mem_cons.mp hy with rfl | hy
          · exact le_refl _
          · exact ha y hy
      · intro y hy
        rw [Bool.not_eq_true', List.all_eq_false]
        refine ⟨best, ?_, ?_⟩
        · rw [hsplit]
          exact List.mem_append_right _ (List.mem_cons_self _ _)
        · rw [decide_eq_true_eq, not_le]
          exact hb y hy
    simp only [firstMaximal, hfind, Option.getD_some]

/-- The fold with the strict replacement rule returns its start value when no
entry exceeds it, and otherwise the first entry of maximal key. -/
theorem strictMaxFold_eq_ite {α : Type} (key : α → ℚ) (d : α) (xs : List α) :
    strictMaxFold key d xs =
      if xs.all (fun x => decide (key x ≤ key d)) then d else firstMaximal key d xs := by
  rcases strictMaxFold_cases key xs d with ⟨hr, hall⟩ | ⟨before, after, hsplit, hlt, hb, ha⟩
  · rw [hr, if_pos]
    rw [List.all_eq_true]
    intro y hy
    exact decide_eq_true (hall y hy)
  · generalize strictMaxFold key d xs = best at hsplit hlt hb ha ⊢
    have hmem : best ∈ xs := by
      rw [hsplit]
      exact List.mem_append_right _ (List.mem_cons_self _ _)
    have hnot : ¬ (xs.all (fun x => decide (key x ≤ key d)) = true) := by
      rw [List.all_eq_true]
      intro hall
      have := hall best hmem
      rw [decide_eq_true_eq] at this
      exact absurd hlt (not_lt.mpr this)
    rw [if_neg hnot]
    have hfind : xs.find? (fun x => xs.all fun y => decide (key y ≤ key x)) = some best := by
      rw [List.find?_eq_some]
      refine ⟨?_, before, after, hsplit, ?_⟩
      · rw [List.all_eq_true]
        intro y hy
        rw [decide_eq_true_eq]
        rw [hsplit] at hy
        rcases List.mem_append.mp hy with hy | hy
        · exact le_of_lt (hb y hy)
        · rcases List.mem_cons.mp hy with rfl | hy
          · exact le_refl _
          · exact ha y hy
      · intro y hy
        rw [Bool.not_eq_true', List.all_eq_false]
        refine ⟨best, hmem, ?_⟩
        rw [decide_eq_true_eq, not_le]
        exact hb y hy
    simp only [firstMaximal, hfind, Option.getD_some]

/-- The first greatest vector of a list is what the fold with the strict
replacement rule on the places of the computed squared magnitudes returns,
started at the zero vector. -/
theorem firstGreatestVector_eq_fold (ws : List XrVector2f) :
    firstGreatestVector ws =
      strictMaxFold (fun v : XrVector2f => v.computedSquaredMagnitude.rank)
        { x := 0, y := 0 } ws := by
  have hnot : ∀ a b : ℚ, (!decide (a > b)) = decide (a ≤ b) := by
    intro a b
    by_cases h : a ≤ b
    · simp [h, not_lt.mpr h]
    · simp [h, not_le.mp h]
  have hzero : ∀ w : XrVector2f,
      w.computedSquaredMagnitude.gt (FloatResult.finite 0) =
        decide (w.computedSquaredMagnitude.rank >
          ({ x := 0, y := 0 } : XrVector2f).computedSquaredMagnitude.rank) := by
    intro w
    rw [← computedSquaredMagnitude_gt, computedSquaredMagnitude_zero]
  rw [strictMaxFold_eq_ite]
  unfold firstGreatestVector firstMaximal
  simp only [hzero, computedSquaredMagnitude_gt, hnot]

/-- The matching bindings, one binding at a time. -/
theorem matchingBindings_cons (rt : MockRuntime) (subactionPath : XrPath) (binding : Nat)
    (rest : List Nat) :
    rt.matchingBindings subactionPath (binding :: rest) =
      if subactionPath = XR_NULL_PATH ∨
          rt.GetUserPath (rt.inputStateAt binding).path = subactionPath then
        rt.inputStateAt binding :: rt.matchingBindings subactionPath rest
      else rt.matchingBindings subactionPath rest := by
  simp only [matchingBindings, List.map_cons, List.filter_cons, Bool.or_eq_true, beq_iff_eq]

theorem matchingBindings_nil (rt : MockRuntime) (subactionPath : XrPath) :
    rt.matchingBindings subactionPath [] = [] := rfl

/-- The float loop fails exactly on an incompatible matching binding. -/
theorem GetActionStateFloat_loop_eq_none_iff (rt : MockRuntime) (subactionPath : XrPath)
    (bindings : List Nat) :
    ∀ value : CFloat,
      GetActionStateFloat.loop rt subactionPath bindings value = none ↔
        ∃ st ∈ rt.matchingBindings subactionPath bindings,
          st.IsCompatibleType XR_ACTION_TYPE_FLOAT_INPUT = false := by
  induction bindings with
  | nil => intro value; simp [GetActionStateFloat.loop, matchingBindings_nil]
  | cons binding rest ih =>
    intro value
    rw [matchingBindings_cons, GetActionStateFloat.loop]
    by_cases hm : subactionPath = XR_NULL_PATH ∨
        rt.GetUserPath (rt.inputStateAt binding).path = subactionPath
    · have hskip : ¬(subactionPath ≠ XR_NULL_PATH ∧
          rt.GetUserPath (rt.inputStateAt binding).path ≠ subactionPath) := by tauto
      rw [if_neg hskip, if_pos hm]
      by_cases hc : (rt.inputStateAt binding).IsCompatibleType XR_ACTION_TYPE_FLOAT_INPUT = true
      · have hex : (∃ st ∈ rt.inputStateAt binding :: rt.matchingBindings subactionPath rest,
            st.IsCompatibleType XR_ACTION_TYPE_FLOAT_INPUT = false) ↔
            ∃ st ∈ rt.matchingBindings subactionPath rest,
              st.IsCompatibleType XR_ACTION_TYPE_FLOAT_INPUT = false := by
          simp [hc]
        rw [hex]
        simp only [hc, Bool.not_true, Bool.false_eq_true, if_false]
        split_ifs <;> exact ih _
      · simp only [Bool.not_eq_true] at hc
        simp [hc]
    · have hskip : subactionPath ≠ XR_NULL_PATH ∧
          rt.GetUserPath (rt.inputStateAt binding).path ≠ subactionPath := by tauto
      rw [if_pos hskip, if_neg hm]
      exact ih _

/-- The float loop, when it does not fail, folds the values of the matching
bindings with the strict replacement rule on absolute values. -/
theorem GetActionStateFloat_loop_eq_fold (rt : MockRuntime) (subactionPath : XrPath)
    (bindings : List Nat) :
    ∀ value : CFloat,
      (∀ st ∈ rt.matchingBindings subactionPath bindings,
        st.IsCompatibleType XR_ACTION_TYPE_FLOAT_INPUT = true) →
      GetActionStateFloat.loop rt subactionPath bindings value =
        some (strictMaxFold (fun v : ℚ => |v|) value
          ((rt.matchingBindings subactionPath bindings).map MockInputState.GetFloat)) := by
  induction bindings with
  | nil => intro value _; simp [GetActionStateFloat.loop, matchingBindings_nil, strictMaxFold]
  | cons binding rest ih =>
    intro value hall
    rw [matchingBindings_cons] at hall ⊢
    rw [GetActionStateFloat.loop]
    by_cases hm : subactionPath = XR_NULL_PATH ∨
        rt.GetUserPath (rt.inputStateAt binding).path = subactionPath
    · have hskip : ¬(subactionPath ≠ XR_NULL_PATH ∧
          rt.GetUserPath (rt.inputStateAt binding).path ≠ subactionPath) := by tauto
      rw [if_pos hm] at hall
      rw [if_neg hskip, if_pos hm]
      have hc := hall _ (List.mem_cons_self _ _)
      have hrest := fun v => ih v (fun st hst => hall st (List.mem_cons_of_mem _ hst))
      simp only [hc, Bool.not_true, Bool.false_eq_true, if_false, List.map_cons]
      split_ifs with hgt
      · rw [hrest]; simp [strictMaxFold, hgt]
      · rw [hrest]; simp [strictMaxFold, hgt]
    · have hskip : subactionPath ≠ XR_NULL_PATH ∧
          rt.GetUserPath (rt.inputStateAt binding).path ≠ subactionPath := by tauto
      rw [if_neg hm] at hall
      rw [if_pos hskip, if_neg hm]
      exact ih value hall

/-- The boolean loop fails exactly on an incompatible matching binding. -/
theorem GetActionStateBoolean_loop_eq_none_iff (rt : MockRuntime) (subactionPath : XrPath)
    (bindings : List Nat) :
    ∀ value : Bool,
      GetActionStateBoolean.loop rt subactionPath bindings value = none ↔
        ∃ st ∈ rt.matchingBindings subactionPath bindings,
          st.IsCompatibleType XR_ACTION_TYPE_BOOLEAN_INPUT = false := by
  induction bindings with
  | nil => intro value; simp [GetActionStateBoolean.loop, matchingBindings_nil]
  | cons binding rest ih =>
    intro value
    rw [matchingBindings_cons, GetActionStateBoolean.loop]
    by_cases hm : subactionPath = XR_NULL_PATH ∨
        rt.GetUserPath (rt.inputStateAt binding).path = subactionPath
    · rw [if_pos hm, if_pos hm]
      by_cases hc : (rt.inputStateAt binding).IsCompatibleType XR_ACTION_TYPE_BOOLEAN_INPUT = true
      · have hex : (∃ st ∈ rt.inputStateAt binding :: rt.matchingBindings subactionPath rest,
            st.IsCompatibleType XR_ACTION_TYPE_BOOLEAN_INPUT = false) ↔
            ∃ st ∈ rt.matchingBindings subactionPath rest,
              st.IsCompatibleType XR_ACTION_TYPE_BOOLEAN_INPUT = false := by
          simp [hc]
        rw [hex]
        simp only [hc, Bool.not_true, Bool.false_eq_true, if_false]
        exact ih _
      · simp only [Bool.not_eq_true] at hc
        simp [hc]
    · rw [if_neg hm, if_neg hm]
      exact ih _

/-- The boolean loop, when it does not fail, is the disjunction of the running
value with the matching bindings that read true. -/
theorem GetActionStateBoolean_loop_eq_any (rt : MockRuntime) (subactionPath : XrPath)
    (bindings : List Nat) :
    ∀ value : Bool,
      (∀ st ∈ rt.matchingBindings subactionPath bindings,
        st.IsCompatibleType XR_ACTION_TYPE_BOOLEAN_INPUT = true) →
      GetActionStateBoolean.loop rt subactionPath bindings value =
        some (value || (rt.matchingBindings subactionPath bindings).any
          fun st => decide (st.GetBoolean ≠ 0)) := by
  induction bindings with
  | nil => intro value _; simp [GetActionStateBoolean.loop, matchingBindings_nil]
  | cons binding rest ih =>
    intro value hall
    rw [matchingBindings_cons] at hall ⊢
    rw [GetActionStateBoolean.loop]
    by_cases hm : subactionPath = XR_NULL_PATH ∨
        rt.GetUserPath (rt.inputStateAt binding).path = subactionPath
    · rw [if_pos hm] at hall
      rw [if_pos hm, if_pos hm]
      have hc := hall _ (List.mem_cons_self _ _)
      have hrest := fun v => ih v (fun st hst => hall st (List.mem_cons_of_mem _ hst))
      simp only [hc, Bool.not_true, Bool.false_eq_true, if_false, List.any_cons]
      rw [hrest, Bool.or_assoc]
    · rw [if_neg hm] at hall
      rw [if_neg hm, if_neg hm]
      exact ih value hall

/-- The vector loop fails exactly on an incompatible matching binding. -/
theorem GetActionStateVector2f_loop_eq_none_iff (rt : MockRuntime) (subactionPath : XrPath)
    (bindings : List Nat) :
    ∀ (value : XrVector2f) (valueLength : FloatResult),
      GetActionStateVector2f.loop rt subactionPath bindings value valueLength = none ↔
        ∃ st ∈ rt.matchingBindings subactionPath bindings,
          st.IsCompatibleType XR_ACTION_TYPE_VECTOR2F_INPUT = false := by
  induction bindings with
  | nil => intro value valueLength; simp [GetActionStateVector2f.loop, matchingBindings_nil]
  | cons binding rest ih =>
    intro value valueLength
    rw [matchingBindings_cons, GetActionStateVector2f.loop]
    by_cases hm : subactionPath = XR_NULL_PATH ∨
        rt.GetUserPath (rt.inputStateAt binding).path = subactionPath
    · rw [if_pos hm, if_pos hm]
      by_cases hc : (rt.inputStateAt binding).IsCompatibleType XR_ACTION_TYPE_VECTOR2F_INPUT = true
      · have hex : (∃ st ∈ rt.inputStateAt binding :: rt.matchingBindings subactionPath rest,
            st.IsCompatibleType XR_ACTION_TYPE_VECTOR2F_INPUT = false) ↔
            ∃ st ∈ rt.matchingBindings subactionPath rest,
              st.IsCompatibleType XR_ACTION_TYPE_VECTOR2F_INPUT = false := by
          simp [hc]
        rw [hex]
        simp only [hc, Bool.not_true, Bool.false_eq_true, if_false]
        split_ifs <;> exact ih _ _
      · simp only [Bool.not_eq_true] at hc
        simp [hc]
    · rw [if_neg hm, if_neg hm]
      exact ih _ _

/-- The vector loop, when it does not fail and `valueLength` is the computed
squared magnitude of `value`, folds the vectors of the matching bindings with
the strict replacement rule on computed squared magnitudes. -/
theorem GetActionStateVector2f_loop_eq_fold (rt : MockRuntime) (subactionPath : XrPath)
    (bindings : List Nat) :
    ∀ value : XrVector2f,
      (∀ st ∈ rt.matchingBindings subactionPath bindings,
        st.IsCompatibleType XR_ACTION_TYPE_VECTOR2F_INPUT = true) →
      GetActionStateVector2f.loop rt subactionPath bindings value
          value.computedSquaredMagnitude =
        some (strictMaxFold (fun v : XrVector2f => v.computedSquaredMagnitude.rank) value
          ((rt.matchingBindings subactionPath bindings).map MockInputState.GetVector2)) := by
  induction bindings with
  | nil =>
    intro value _
    simp [GetActionStateVector2f.loop, matchingBindings_nil, strictMaxFold]
  | cons binding rest ih =>
    intro value hall
    rw [matchingBindings_cons] at hall ⊢
    rw [GetActionStateVector2f.loop]
    by_cases hm : subactionPath = XR_NULL_PATH ∨
        rt.GetUserPath (rt.inputStateAt binding).path = subactionPath
    · rw [if_pos hm] at hall
      rw [if_pos hm, if_pos hm]
      have hc := hall _ (List.mem_cons_self _ _)
      have hrest := fun v => ih v (fun st hst => hall st (List.mem_cons_of_mem _ hst))
      simp only [hc, Bool.not_true, Bool.false_eq_true, if_false, List.map_cons]
      have hkey : ∀ v : XrVector2f,
          (CFloat.mul v.x v.x).add (CFloat.mul v.y v.y) = v.computedSquaredMagnitude :=
        fun _ => rfl
      rw [hkey, computedSquaredMagnitude_gt]
      by_cases hgt : (rt.inputStateAt binding).GetVector2.computedSquaredMagnitude.rank >
          value.computedSquaredMagnitude.rank
      · rw [if_pos (decide_eq_true hgt), hrest]
        simp [strictMaxFold, hgt]
      · rw [if_neg (by simpa using hgt), hrest]
        simp [strictMaxFold, hgt]
    · rw [if_neg hm] at hall
      rw [if_neg hm, if_neg hm]
      exact ih value hall

/-- The characterisation of `IsCompatibleType`: boolean and float sources serve
boolean and float reads, every other source only a read of its own type. -/
theorem IsCompatibleType_iff (st : MockInputState) (actionType : XrActionType) :
    st.IsCompatibleType actionType = true ↔
      ((st.type = XR_ACTION_TYPE_BOOLEAN_INPUT ∨ st.type = XR_ACTION_TYPE_FLOAT_INPUT) ∧
        (actionType = XR_ACTION_TYPE_BOOLEAN_INPUT ∨ actionType = XR_ACTION_TYPE_FLOAT_INPUT)) ∨
      st.type = actionType := by
  cases h : st.type <;> cases actionType <;>
    simp [MockInputState.IsCompatibleType, MockInputState.IsType, h]

/-- C15: for an attached action whose bindings matching the requested
sub-action path are all boolean- or float-typed, `GetActionStateFloat`
succeeds and returns the first of their values, in binding order, whose
absolute value is maximal, and 0 when there is none. The value of a float
source is its float value, the value of a boolean source the float nearest
to its 32-bit integer, which is the integer itself below `2 ^ 24`. The
unqualified `abs` of the source is read as the absolute value on `float`. -/
theorem GetActionStateFloat_aggregation (rt : MockRuntime) (getInfo : XrActionStateGetInfo)
    (actionSetIndex actionIndex : Nat) (mockAction : MockAction)
    (hInfo : getInfo.type = XR_TYPE_ACTION_STATE_GET_INFO)
    (hAction : rt.GetMockAction getInfo.action = some (actionSetIndex, actionIndex, mockAction))
    (hAttached : rt.IsActionAttached mockAction.action = true)
    (hTyped : ∀ st ∈ rt.matchingBindings getInfo.subactionPath mockAction.bindings,
      st.type = XR_ACTION_TYPE_BOOLEAN_INPUT ∨ st.type = XR_ACTION_TYPE_FLOAT_INPUT) :
    rt.GetActionStateFloat (some getInfo) (some XR_TYPE_ACTION_STATE_FLOAT) =
      (XR_SUCCESS,
        some (firstMaximal (fun v : ℚ => |v|) 0
          ((rt.matchingBindings getInfo.subactionPath mockAction.bindings).map
            MockInputState.floatReading))) ∧
    (∀ st ∈ rt.matchingBindings getInfo.subactionPath mockAction.bindings,
      (st.type = XR_ACTION_TYPE_FLOAT_INPUT → st.floatReading = st.floatValue) ∧
      (st.type = XR_ACTION_TYPE_BOOLEAN_INPUT → st.boolValue < 2 ^ 24 →
        st.floatReading = st.boolValue)) := by
  have hcompat : ∀ st ∈ rt.matchingBindings getInfo.subactionPath mockAction.bindings,
      st.IsCompatibleType XR_ACTION_TYPE_FLOAT_INPUT = true := by
    intro st hst
    exact (IsCompatibleType_iff st _).mpr (Or.inl ⟨hTyped st hst, Or.inr rfl⟩)
  have hloop := GetActionStateFloat_loop_eq_fold rt getInfo.subactionPath mockAction.bindings 0
    hcompat
  rw [strictMaxFold_eq_firstMaximal (fun v : ℚ => |v|) 0 _ abs_zero (fun x => abs_nonneg x)
    (fun x hx => abs_eq_zero.mp hx)] at hloop
  have hmap : (rt.matchingBindings getInfo.subactionPath mockAction.bindings).map
        MockInputState.GetFloat =
      (rt.matchingBindings getInfo.subactionPath mockAction.bindings).map
        MockInputState.floatReading := by
    apply List.map_congr_left
    intro st hst
    rcases hTyped st hst with h | h <;>
      simp [MockInputState.GetFloat, MockInputState.floatReading, h]
  rw [hmap] at hloop
  refine ⟨?_, ?_⟩
  · simp only [GetActionStateFloat, hInfo, hAction, hAttached, hloop, ne_eq, not_true_eq_false,
      if_false, Bool.not_true, Bool.false_eq_true]
  · intro st _
    refine ⟨fun h => by simp [MockInputState.floatReading, h], fun h hlt => ?_⟩
    simp only [MockInputState.floatReading, h]
    rw [if_neg (by decide)]
    exact round_natCast st.boolValue hlt

/-- C16, amended: for an attached action whose bindings matching the requested
sub-action path are all vector-typed, `GetActionStateVector2f` succeeds and
returns the zero vector when there is no such binding or no vector has a
computed squared magnitude above zero, and otherwise the first of the vectors,
in binding order, whose computed squared magnitude none exceeds. The computed
squared magnitude is `x * x + y * y` in `float` arithmetic, each product and
the sum rounded. The running maximum is replaced only by a vector whose
computed squared magnitude is strictly greater. -/
theorem GetActionStateVector2f_aggregation (rt : MockRuntime) (getInfo : XrActionStateGetInfo)
    (actionSetIndex actionIndex : Nat) (mockAction : MockAction)
    (hInfo : getInfo.type = XR_TYPE_ACTION_STATE_GET_INFO)
    (hAction : rt.GetMockAction getInfo.action = some (actionSetIndex, actionIndex, mockAction))
    (hAttached : rt.IsActionAttached mockAction.action = true)
    (hTyped : ∀ st ∈ rt.matchingBindings getInfo.subactionPath mockAction.bindings,
      st.type = XR_ACTION_TYPE_VECTOR2F_INPUT) :
    rt.GetActionStateVector2f (some getInfo) =
      (XR_SUCCESS,
        some (firstGreatestVector
          ((rt.matchingBindings getInfo.subactionPath mockAction.bindings).map
            MockInputState.vectorValue))) ∧
    firstGreatestVector
        ((rt.matchingBindings getInfo.subactionPath mockAction.bindings).map
          MockInputState.vectorValue) =
      ((rt.matchingBindings getInfo.subactionPath mockAction.bindings).map
          MockInputState.vectorValue).foldl
        (fun best w =>
          if w.computedSquaredMagnitude.gt best.computedSquaredMagnitude then w else best)
        { x := 0, y := 0 } := by
  have hcompat : ∀ st ∈ rt.matchingBindings getInfo.subactionPath mockAction.bindings,
      st.IsCompatibleType XR_ACTION_TYPE_VECTOR2F_INPUT = true := by
    intro st hst
    exact (IsCompatibleType_iff st _).mpr (Or.inr (hTyped st hst))
  have hloop := GetActionStateVector2f_loop_eq_fold rt getInfo.subactionPath mockAction.bindings
    { x := 0, y := 0 } hcompat
  have hmap : (rt.matchingBindings getInfo.subactionPath mockAction.bindings).map
        MockInputState.GetVector2 =
      (rt.matchingBindings getInfo.subactionPath mockAction.bindings).map
        MockInputState.vectorValue := by
    apply List.map_congr_left
    intro st hst
    simp [MockInputState.GetVector2, hTyped st hst]
  rw [computedSquaredMagnitude_zero, hmap, ← firstGreatestVector_eq_fold] at hloop
  refine ⟨?_, ?_⟩
  · simp only [GetActionStateVector2f, hInfo, hAction, hAttached, hloop, ne_eq,
      not_true_eq_false, if_false, Bool.not_true, Bool.false_eq_true]
  · rw [firstGreatestVector_eq_fold]
    unfold strictMaxFold
    simp only [computedSquaredMagnitude_gt, decide_eq_true_eq]

/-- C17: for an attached action whose bindings matching the requested
sub-action path are all boolean- or float-typed, `GetActionStateBoolean`
succeeds and returns true exactly when at least one matching binding reads
true, false when no binding matches; a float source reads true exactly when
its value is not zero. -/
theorem GetActionStateBoolean_aggregation (rt : MockRuntime) (getInfo : XrActionStateGetInfo)
    (actionSetIndex actionIndex : Nat) (mockAction : MockAction)
    (hInfo : getInfo.type = XR_TYPE_ACTION_STATE_GET_INFO)
    (hAction : rt.GetMockAction getInfo.action = some (actionSetIndex, actionIndex, mockAction))
    (hAttached : rt.IsActionAttached mockAction.action = true)
    (hTyped : ∀ st ∈ rt.matchingBindings getInfo.subactionPath mockAction.bindings,
      st.type = XR_ACTION_TYPE_BOOLEAN_INPUT ∨ st.type = XR_ACTION_TYPE_FLOAT_INPUT) :
    rt.GetActionStateBoolean (some getInfo) =
      (XR_SUCCESS,
        some (if (rt.matchingBindings getInfo.subactionPath mockAction.bindings).any
          (fun st => decide (st.GetBoolean ≠ 0)) then 1 else 0)) ∧
    (∀ st : MockInputState, st.type = XR_ACTION_TYPE_FLOAT_INPUT →
      (st.GetBoolean ≠ 0 ↔ st.floatValue ≠ 0)) ∧
    (∀ st : MockInputState, st.type = XR_ACTION_TYPE_BOOLEAN_INPUT →
      (st.GetBoolean ≠ 0 ↔ st.boolValue ≠ 0)) := by
  have hcompat : ∀ st ∈ rt.matchingBindings getInfo.subactionPath mockAction.bindings,
      st.IsCompatibleType XR_ACTION_TYPE_BOOLEAN_INPUT = true := by
    intro st hst
    exact (IsCompatibleType_iff st _).mpr (Or.inl ⟨hTyped st hst, Or.inl rfl⟩)
  have hloop := GetActionStateBoolean_loop_eq_any rt getInfo.subactionPath mockAction.bindings
    false hcompat
  rw [Bool.false_or] at hloop
  refine ⟨?_, ?_, ?_⟩
  · simp only [GetActionStateBoolean, hInfo, hAction, hAttached, hloop, ne_eq,
      not_true_eq_false, if_false, Bool.not_true, Bool.false_eq_true]
  · intro st hst
    simp only [MockInputState.GetBoolean, hst]
    split_ifs with h <;> simp [h]
  · intro st hst
    simp only [MockInputState.GetBoolean, hst]

/-- C18: a source of type T serves a read of type A exactly when both are
boolean or float, or T is A; and on an attached action each of
`GetActionStateFloat`, `GetActionStateBoolean` and `GetActionStateVector2f`
returns action-type-mismatch exactly when some binding that matches the
sub-action filter is incompatible with the read type, whatever the bindings
that the filter excludes. -/
theorem GetActionState_mismatch_iff (rt : MockRuntime) (getInfo : XrActionStateGetInfo)
    (actionSetIndex actionIndex : Nat) (mockAction : MockAction)
    (hInfo : getInfo.type = XR_TYPE_ACTION_STATE_GET_INFO)
    (hAction : rt.GetMockAction getInfo.action = some (actionSetIndex, actionIndex, mockAction))
    (hAttached : rt.IsActionAttached mockAction.action = true) :
    (∀ (st : MockInputState) (actionType : XrActionType),
      st.IsCompatibleType actionType = true ↔
        ((st.type = XR_ACTION_TYPE_BOOLEAN_INPUT ∨ st.type = XR_ACTION_TYPE_FLOAT_INPUT) ∧
          (actionType = XR_ACTION_TYPE_BOOLEAN_INPUT ∨
            actionType = XR_ACTION_TYPE_FLOAT_INPUT)) ∨
        st.type = actionType) ∧
    ((rt.GetActionStateFloat (some getInfo) (some XR_TYPE_ACTION_STATE_FLOAT)).1 =
        XR_ERROR_ACTION_TYPE_MISMATCH ↔
      ∃ st ∈ rt.matchingBindings getInfo.subactionPath mockAction.bindings,
        st.IsCompatibleType XR_ACTION_TYPE_FLOAT_INPUT = false) ∧
    ((rt.GetActionStateBoolean (some getInfo)).1 = XR_ERROR_ACTION_TYPE_MISMATCH ↔
      ∃ st ∈ rt.matchingBindings getInfo.subactionPath mockAction.bindings,
        st.IsCompatibleType XR_ACTION_TYPE_BOOLEAN_INPUT = false) ∧
    ((rt.GetActionStateVector2f (some getInfo)).1 = XR_ERROR_ACTION_TYPE_MISMATCH ↔
      ∃ st ∈ rt.matchingBindings getInfo.subactionPath mockAction.bindings,
        st.IsCompatibleType XR_ACTION_TYPE_VECTOR2F_INPUT = false) := by
  refine ⟨IsCompatibleType_iff, ?_, ?_, ?_⟩
  · rw [← GetActionStateFloat_loop_eq_none_iff rt getInfo.subactionPath mockAction.bindings 0]
    simp only [GetActionStateFloat, hInfo, hAction, hAttached, ne_eq, not_true_eq_false,
      if_false, Bool.not_true, Bool.false_eq_true]
    cases GetActionStateFloat.loop rt getInfo.subactionPath mockAction.bindings 0 <;> simp
  · rw [← GetActionStateBoolean_loop_eq_none_iff rt getInfo.subactionPath mockAction.bindings
      false]
    simp only [GetActionStateBoolean, hInfo, hAction, hAttached, ne_eq, not_true_eq_false,
      if_false, Bool.not_true, Bool.false_eq_true]
    cases GetActionStateBoolean.loop rt getInfo.subactionPath mockAction.bindings false <;> simp
  · rw [← GetActionStateVector2f_loop_eq_none_iff rt getInfo.subactionPath mockAction.bindings
      { x := 0, y := 0 } (FloatResult.finite 0)]
    simp only [GetActionStateVector2f, hInfo, hAction, hAttached, ne_eq, not_true_eq_false,
      if_false, Bool.not_true, Bool.false_eq_true]
    cases GetActionStateVector2f.loop rt getInfo.subactionPath mockAction.bindings
      { x := 0, y := 0 } (FloatResult.finite 0) <;> simp

/-- Witness of `GetActionStateFloat_aggregation`: the float action of
`readRuntime` read under the left hand, with sources of values -0.8 and 0.5. -/
theorem GetActionStateFloat_aggregation_witness :
    readRuntime.GetActionStateFloat
        (some { type := XR_TYPE_ACTION_STATE_GET_INFO, action := 4294967297, subactionPath := 1 })
        (some XR_TYPE_ACTION_STATE_FLOAT) =
      (XR_SUCCESS,
        some (firstMaximal (fun v : ℚ => |v|) 0
          ((readRuntime.matchingBindings 1 [0, 1, 5]).map MockInputState.floatReading))) ∧
    (∀ st ∈ readRuntime.matchingBindings 1 [0, 1, 5],
      (st.type = XR_ACTION_TYPE_FLOAT_INPUT → st.floatReading = st.floatValue) ∧
      (st.type = XR_ACTION_TYPE_BOOLEAN_INPUT → st.boolValue < 2 ^ 24 →
        st.floatReading = st.boolValue)) :=
  GetActionStateFloat_aggregation readRuntime
    { type := XR_TYPE_ACTION_STATE_GET_INFO, action := 4294967297, subactionPath := 1 } 0 0
    { action := 4294967297, path := 0, name := "squeeze".toList,
      localizedName := "Squeeze".toList, type := XR_ACTION_TYPE_FLOAT_INPUT,
      bindings := [0, 1, 5], userPaths := [], isDestroyed := false }
    rfl (by decide) (by decide) (by decide)

/-- The examples of the float aggregation: values -0.8 and 0.5 give -0.8, two
values 0.3 give 0.3, no value gives 0, and the values the witness reads are
-0.8 and 0.5, of which the call returns -0.8. Read without a sub-action path,
the boolean action "fire" of `readRuntime` has a boolean source that is set
and a float source of value 0.5, and the call returns 1. A boolean source
that holds `2 ^ 24 + 1` reads as the float `2 ^ 24`. -/
theorem firstMaximal_abs_examples :
    firstMaximal (fun v : ℚ => |v|) 0 [-4 / 5, 1 / 2] = -4 / 5 ∧
    firstMaximal (fun v : ℚ => |v|) 0 [3 / 10, 3 / 10] = 3 / 10 ∧
    firstMaximal (fun v : ℚ => |v|) 0 [1 / 2, -4 / 5, 4 / 5] = -4 / 5 ∧
    firstMaximal (fun v : ℚ => |v|) 0 [] = 0 ∧
    (readRuntime.matchingBindings 1 [0, 1, 5]).map MockInputState.floatReading =
      [-4 / 5, 1 / 2] ∧
    readRuntime.GetActionStateFloat
        (some { type := XR_TYPE_ACTION_STATE_GET_INFO, action := 4294967297, subactionPath := 1 })
        (some XR_TYPE_ACTION_STATE_FLOAT) = (XR_SUCCESS, some (-4 / 5)) ∧
    (readRuntime.matchingBindings XR_NULL_PATH [2, 1]).map MockInputState.floatReading =
      [1, 1 / 2] ∧
    readRuntime.GetActionStateFloat
        (some { type := XR_TYPE_ACTION_STATE_GET_INFO, action := 8589934593,
                subactionPath := XR_NULL_PATH })
        (some XR_TYPE_ACTION_STATE_FLOAT) = (XR_SUCCESS, some 1) ∧
    MockInputState.GetFloat
        { interactionProfile := 0, path := 0, type := XR_ACTION_TYPE_BOOLEAN_INPUT,
          boolValue := 2 ^ 24 + 1, floatValue := 0, vectorValue := { x := 0, y := 0 } } =
      2 ^ 24 := by
  refine ⟨?_, ?_, ?_, ?_, ?_, ?_, ?_, ?_, ?_⟩
  · simp [firstMaximal, List.find?]; norm_num [abs_div]
  · simp [firstMaximal, List.find?]
  · simp [firstMaximal, List.find?]; norm_num [abs_div]
  · simp [firstMaximal]
  · decide!
  · decide!
  · decide!
  · decide!
  · decide!

/-- C16, as stated, fails. The action "move" of `roundingRuntime` is bound to
the vectors (1, 0) and (1, 2^-13), whose components are floats: the second has
the greater squared magnitude `x*x + y*y`, and yet the call returns the first,
because the float sum `1 + 2^-26` is 1. The action "tilt" is bound to the
vector (2^-80, 0), which is not the zero vector, and the call returns the zero
vector, because the float product of 2^-80 with itself is 0. Both actions are
attached and all three sources are vector-typed. -/
theorem rounded_magnitude_keeps_lesser_vector :
    roundingRuntime.IsActionAttached 4294967297 = true ∧
    roundingRuntime.IsActionAttached 8589934593 = true ∧
    (roundingRuntime.matchingBindings XR_NULL_PATH [0, 1, 2]).map MockInputState.type =
      [XR_ACTION_TYPE_VECTOR2F_INPUT, XR_ACTION_TYPE_VECTOR2F_INPUT,
        XR_ACTION_TYPE_VECTOR2F_INPUT] ∧
    (roundingRuntime.matchingBindings XR_NULL_PATH [0, 1]).map MockInputState.vectorValue =
      [{ x := 1, y := 0 }, { x := 1, y := 1 / 2 ^ 13 }] ∧
    CFloat.round (1 / 2 ^ 13) = 1 / 2 ^ 13 ∧
    XrVector2f.squaredMagnitude { x := 1, y := 0 } <
      XrVector2f.squaredMagnitude { x := 1, y := 1 / 2 ^ 13 } ∧
    firstMaximal XrVector2f.squaredMagnitude { x := 0, y := 0 }
        [{ x := 1, y := 0 }, { x := 1, y := 1 / 2 ^ 13 }] = { x := 1, y := 1 / 2 ^ 13 } ∧
    roundingRuntime.GetActionStateVector2f
        (some { type := XR_TYPE_ACTION_STATE_GET_INFO, action := 4294967297,
                subactionPath := XR_NULL_PATH }) =
      (XR_SUCCESS, some { x := 1, y := 0 }) ∧
    (roundingRuntime.matchingBindings XR_NULL_PATH [2]).map MockInputState.vectorValue =
      [{ x := 1 / 2 ^ 80, y := 0 }] ∧
    CFloat.round (1 / 2 ^ 80) = 1 / 2 ^ 80 ∧
    roundingRuntime.GetActionStateVector2f
        (some { type := XR_TYPE_ACTION_STATE_GET_INFO, action := 8589934593,
                subactionPath := XR_NULL_PATH }) =
      (XR_SUCCESS, some { x := 0, y := 0 }) := by
  refine ⟨?_, ?_, ?_, ?_, ?_, ?_, ?_, ?_, ?_, ?_, ?_⟩ <;> decide!

/-- Witness of `GetActionStateVector2f_aggregation`: the action "move" of
`roundingRuntime` read without a sub-action path. -/
theorem GetActionStateVector2f_aggregation_witness :
    roundingRuntime.GetActionStateVector2f
        (some { type := XR_TYPE_ACTION_STATE_GET_INFO, action := 4294967297,
                subactionPath := XR_NULL_PATH }) =
      (XR_SUCCESS,
        some (firstGreatestVector
          ((roundingRuntime.matchingBindings XR_NULL_PATH moveAction.bindings).map
            MockInputState.vectorValue))) ∧
    firstGreatestVector
        ((roundingRuntime.matchingBindings XR_NULL_PATH moveAction.bindings).map
          MockInputState.vectorValue) =
      ((roundingRuntime.matchingBindings XR_NULL_PATH moveAction.bindings).map
          MockInputState.vectorValue).foldl
        (fun best w =>
          if w.computedSquaredMagnitude.gt best.computedSquaredMagnitude then w else best)
        { x := 0, y := 0 } :=
  GetActionStateVector2f_aggregation roundingRuntime
    { type := XR_TYPE_ACTION_STATE_GET_INFO, action := 4294967297,
      subactionPath := XR_NULL_PATH } 0 0 moveAction
    rfl (by decide) (by decide) (by decide)

/-- The examples of the vector aggregation: of two vectors of equal computed
squared magnitude the first one is returned, a vector of greater computed
squared magnitude replaces an earlier one, a squared magnitude beyond the
largest float is the positive infinity, which no later vector exceeds, and
the vector action of `readRuntime` read under the left hand returns the first
of its two vectors of equal magnitude. -/
theorem firstGreatestVector_examples :
    firstGreatestVector [{ x := 1, y := 0 }, { x := 0, y := 1 }] = { x := 1, y := 0 } ∧
    firstGreatestVector [{ x := 1 / 2, y := 0 }, { x := 0, y := -1 }, { x := 1, y := 0 }] =
      { x := 0, y := -1 } ∧
    firstGreatestVector [{ x := 1, y := 0 }, { x := 1, y := 1 / 2 ^ 13 }] = { x := 1, y := 0 } ∧
    firstGreatestVector [{ x := 1 / 2 ^ 80, y := 0 }] = { x := 0, y := 0 } ∧
    XrVector2f.computedSquaredMagnitude { x := 2 ^ 100, y := 0 } = FloatResult.posInf ∧
    firstGreatestVector [{ x := 2 ^ 100, y := 0 }, { x := 2 ^ 101, y := 0 }] =
      { x := 2 ^ 100, y := 0 } ∧
    readRuntime.GetActionStateVector2f
        (some { type := XR_TYPE_ACTION_STATE_GET_INFO, action := 12884901889,
                subactionPath := 1 }) =
      (XR_SUCCESS, some { x := 3 / 5, y := 4 / 5 }) := by
  refine ⟨?_, ?_, ?_, ?_, ?_, ?_, ?_⟩ <;> decide!

/-- Witness of `GetActionStateBoolean_aggregation`: the boolean action of
`readRuntime` read without a sub-action path. -/
theorem GetActionStateBoolean_aggregation_witness :
    readRuntime.GetActionStateBoolean
        (some { type := XR_TYPE_ACTION_STATE_GET_INFO, action := 8589934593,
                subactionPath := XR_NULL_PATH }) =
      (XR_SUCCESS,
        some (if (readRuntime.matchingBindings XR_NULL_PATH [2, 1]).any
          (fun st => decide (st.GetBoolean ≠ 0)) then 1 else 0)) ∧
    (∀ st : MockInputState, st.type = XR_ACTION_TYPE_FLOAT_INPUT →
      (st.GetBoolean ≠ 0 ↔ st.floatValue ≠ 0)) ∧
    (∀ st : MockInputState, st.type = XR_ACTION_TYPE_BOOLEAN_INPUT →
      (st.GetBoolean ≠ 0 ↔ st.boolValue ≠ 0)) :=
  GetActionStateBoolean_aggregation readRuntime
    { type := XR_TYPE_ACTION_STATE_GET_INFO, action := 8589934593,
      subactionPath := XR_NULL_PATH } 0 1
    { action := 8589934593, path := 0, name := "fire".toList,
      localizedName := "Fire".toList, type := XR_ACTION_TYPE_BOOLEAN_INPUT,
      bindings := [2, 1], userPaths := [], isDestroyed := false }
    rfl (by decide) (by decide) (by decide)

/-- Witness of `GetActionState_mismatch_iff`: the float action of `readRuntime`
read without a sub-action path, so that its vector source matches. -/
theorem GetActionState_mismatch_iff_witness :
    (readRuntime.GetActionStateFloat
        (some { type := XR_TYPE_ACTION_STATE_GET_INFO, action := 4294967297,
                subactionPath := XR_NULL_PATH })
        (some XR_TYPE_ACTION_STATE_FLOAT)).1 = XR_ERROR_ACTION_TYPE_MISMATCH ↔
      ∃ st ∈ readRuntime.matchingBindings XR_NULL_PATH [0, 1, 5],
        st.IsCompatibleType XR_ACTION_TYPE_FLOAT_INPUT = false :=
  (GetActionState_mismatch_iff readRuntime
    { type := XR_TYPE_ACTION_STATE_GET_INFO, action := 4294967297,
      subactionPath := XR_NULL_PATH } 0 0
    { action := 4294967297, path := 0, name := "squeeze".toList,
      localizedName := "Squeeze".toList, type := XR_ACTION_TYPE_FLOAT_INPUT,
      bindings := [0, 1, 5], userPaths := [], isDestroyed := false }
    rfl (by decide) (by decide)).2.1

/-! ## Suggested bindings: theorems -/

/-- The calls `StringToPath` changes nothing but the component-path table. -/
theorem StringToPath_frame (rt : MockRuntime) (s : CString) :
    (rt.StringToPath s).2.2 =
      { rt with componentPathStrings := (rt.StringToPath s).2.2.componentPathStrings } := by
  simp only [StringToPath]
  split_ifs
  · rfl
  · rfl
  · split <;> rfl
  · rfl

/-- The call `AppendPath` changes nothing but the component-path table. -/
theorem AppendPath_frame (rt : MockRuntime) (path : XrPath) (append : CString) :
    (rt.AppendPath path append).2 =
      { rt with componentPathStrings := (rt.AppendPath path append).2.componentPathStrings } := by
  unfold AppendPath
  simp only
  split_ifs
  · rfl
  · rw [StringToPathOrNull_snd]
    exact StringToPath_frame rt _

theorem AppendPath_inputStates (rt : MockRuntime) (path : XrPath) (append : CString) :
    (rt.AppendPath path append).2.inputStates = rt.inputStates := by
  rw [AppendPath_frame]

theorem AppendPath_actionSets (rt : MockRuntime) (path : XrPath) (append : CString) :
    (rt.AppendPath path append).2.actionSets = rt.actionSets := by
  rw [AppendPath_frame]

theorem AppendPath_activeInteractionProfile (rt : MockRuntime) (path : XrPath)
    (append : CString) :
    (rt.AppendPath path append).2.activeInteractionProfile = rt.activeInteractionProfile := by
  rw [AppendPath_frame]

theorem AppendPath_interactionProfiles (rt : MockRuntime) (path : XrPath)
    (append : CString) :
    (rt.AppendPath path append).2.interactionProfiles = rt.interactionProfiles := by
  rw [AppendPath_frame]

/-- The call `GetMockInputState` leaves the input states, the action sets, the
profiles and the active profile as they were. -/
theorem GetMockInputState_frame (rt : MockRuntime) (mockProfile : MockInteractionProfile)
    (path : XrPath) (actionType : XrActionType) (allowParentPath : Bool) :
    (rt.GetMockInputState mockProfile path actionType allowParentPath).2.inputStates =
      rt.inputStates ∧
    (rt.GetMockInputState mockProfile path actionType allowParentPath).2.actionSets =
      rt.actionSets ∧
    (rt.GetMockInputState mockProfile path actionType allowParentPath).2.interactionProfiles =
      rt.interactionProfiles ∧
    (rt.GetMockInputState mockProfile path actionType allowParentPath).2.activeInteractionProfile =
      rt.activeInteractionProfile := by
  unfold GetMockInputState
  split
  · exact ⟨rfl, rfl, rfl, rfl⟩
  · split_ifs
    · split
      · simp only
        split
        · simp only [AppendPath_inputStates, AppendPath_actionSets,
            AppendPath_interactionProfiles, AppendPath_activeInteractionProfile, and_self]
        · simp only [AppendPath_inputStates, AppendPath_actionSets,
            AppendPath_interactionProfiles, AppendPath_activeInteractionProfile, and_self]
      · simp only [AppendPath_inputStates, AppendPath_actionSets,
          AppendPath_interactionProfiles, AppendPath_activeInteractionProfile, and_self]
      · exact ⟨rfl, rfl, rfl, rfl⟩
    · exact ⟨rfl, rfl, rfl, rfl⟩

/-- An index the search loop returns names a state of the profile and path
searched for. -/
theorem GetMockInputState_loop_some (profilePath path : XrPath) (states : List MockInputState) :
    ∀ (start found : Nat), GetMockInputState.loop profilePath path states start = some found →
      start ≤ found ∧ ∃ st, states[found - start]? = some st ∧
        st.interactionProfile = profilePath ∧ st.path = path := by
  induction states with
  | nil => intro start found h; simp [GetMockInputState.loop] at h
  | cons st more ih =>
    intro start found h
    rw [GetMockInputState.loop] at h
    split_ifs at h with hst
    · simp only [Option.some.injEq] at h
      subst h
      exact ⟨le_refl _, st, by simp, hst.1, hst.2⟩
    · obtain ⟨hle, st1, hget, hp⟩ := ih _ _ h
      refine ⟨by omega, st1, ?_, hp⟩
      have hidx : found - start = (found - (start + 1)) + 1 := by omega
      rw [hidx, List.getElem?_cons_succ]
      exact hget

/-- A state that `GetMockInputState` finds belongs to the profile passed in. -/
theorem GetMockInputState_some (rt : MockRuntime) (mockProfile : MockInteractionProfile)
    (path : XrPath) (actionType : XrActionType) (allowParentPath : Bool) (found : Nat)
    (h : (rt.GetMockInputState mockProfile path actionType allowParentPath).1 = some found) :
    ∃ st, rt.inputStates[found]? = some st ∧ st.interactionProfile = mockProfile.path := by
  have key : ∀ (states : List MockInputState) (p : XrPath),
      GetMockInputState.loop mockProfile.path p states 0 = some found →
      ∃ st, states[found]? = some st ∧ st.interactionProfile = mockProfile.path := by
    intro states p hp
    obtain ⟨_, st, hget, hprof, _⟩ := GetMockInputState_loop_some _ _ _ _ _ hp
    exact ⟨st, by simpa using hget, hprof⟩
  unfold GetMockInputState at h
  split at h
  · next i hi =>
    simp only [Option.some.injEq] at h
    subst h
    exact key _ _ hi
  · split_ifs at h
    · split at h
      · simp only at h
        split at h
        · next i hi =>
          simp only [Option.some.injEq] at h
          subst h
          rw [AppendPath_inputStates] at hi
          exact key _ _ hi
        · simp only [AppendPath_inputStates] at h
          exact key _ _ h
      · simp only [AppendPath_inputStates] at h
        exact key _ _ h
      · simp at h

/-- The bindings after `push_back`: the action pushed to gains the state at the
end of its list and every other action keeps its bindings. -/
theorem pushBinding_actionBindings (rt : MockRuntime) (si ai inputState : Nat)
    (bindings : List Nat) (h : rt.actionBindings si ai = some bindings) (sj aj : Nat) :
    (rt.pushBinding si ai inputState).actionBindings sj aj =
      if sj = si ∧ aj = ai then some (bindings ++ [inputState])
      else rt.actionBindings sj aj := by
  unfold actionBindings at h
  cases hs : rt.actionSets[si]? with
  | none => simp [hs] at h
  | some mockActionSet =>
    rw [hs] at h
    cases ha : mockActionSet.actions[ai]? with
    | none => simp [ha] at h
    | some mockAction =>
      simp only [ha, Option.some.injEq] at h
      have hsi : si < rt.actionSets.length := by
        by_contra hc
        rw [List.getElem?_eq_none (by omega)] at hs
        exact Option.noConfusion hs
      have hai : ai < mockActionSet.actions.length := by
        by_contra hc
        rw [List.getElem?_eq_none (by omega)] at ha
        exact Option.noConfusion ha
      simp only [pushBinding, hs, ha, actionBindings]
      by_cases hsj : sj = si
      · subst hsj
        rw [List.getElem?_set_self hsi]
        simp only
        by_cases haj : aj = ai
        · subst haj
          rw [List.getElem?_set_self hai]
          simp [h]
        · rw [List.getElem?_set_ne (Ne.symm haj)]
          simp [haj, hs]
      · rw [List.getElem?_set_ne (Ne.symm hsj)]
        simp [hsj]

theorem pushBinding_frame (rt : MockRuntime) (si ai inputState : Nat) :
    (rt.pushBinding si ai inputState).inputStates = rt.inputStates ∧
    (rt.pushBinding si ai inputState).interactionProfiles = rt.interactionProfiles ∧
    (rt.pushBinding si ai inputState).activeInteractionProfile =
      rt.activeInteractionProfile := by
  unfold pushBinding
  split
  · exact ⟨rfl, rfl, rfl⟩
  · split <;> exact ⟨rfl, rfl, rfl⟩

/-- The action that `GetMockAction` finds is the one at the indices it returns. -/
theorem GetMockAction_actionBindings (rt : MockRuntime) (action : XrAction) (si ai : Nat)
    (mockAction : MockAction) (h : rt.GetMockAction action = some (si, ai, mockAction)) :
    rt.actionBindings si ai = some mockAction.bindings := by
  unfold GetMockAction GetMockActionSetOfAction at h
  simp only at h
  split at h
  · simp at h
  · next si1 set1 hset =>
    split at hset
    · simp at hset
    · next set2 hget =>
      simp only [Option.some.injEq, Prod.mk.injEq] at hset
      obtain ⟨rfl, rfl⟩ := hset
      split at h
      · simp at h
      · next act hact =>
        split_ifs at h
        simp only [Option.some.injEq, Prod.mk.injEq] at h
        obtain ⟨rfl, rfl, rfl⟩ := h
        unfold actionBindings
        rw [hget]
        simp only
        rw [hact]

/-- The loop over the suggested bindings, when it succeeds, leaves the input
states, the profiles and the active profile as they were, and every action has
its former bindings followed by states of the profile that was passed in. -/
theorem SuggestInteractionProfileBindings_loop_success (mockProfile : MockInteractionProfile)
    (bindingArray : List XrActionSuggestedBinding) :
    ∀ rt rt1 : MockRuntime,
      SuggestInteractionProfileBindings.loop mockProfile bindingArray rt = (XR_SUCCESS, rt1) →
      rt1.inputStates = rt.inputStates ∧
      rt1.interactionProfiles = rt.interactionProfiles ∧
      rt1.activeInteractionProfile = rt.activeInteractionProfile ∧
      ∀ (si ai : Nat) (before : List Nat), rt.actionBindings si ai = some before →
        ∃ appended, rt1.actionBindings si ai = some (before ++ appended) ∧
          ∀ i ∈ appended, ∃ st, rt.inputStates[i]? = some st ∧
            st.interactionProfile = mockProfile.path := by
  induction bindingArray with
  | nil =>
    intro rt rt1 h
    simp only [SuggestInteractionProfileBindings.loop, Prod.mk.injEq, true_and] at h
    subst h
    refine ⟨rfl, rfl, rfl, ?_⟩
    intro si ai before hb
    exact ⟨[], by simpa using hb, by simp⟩
  | cons suggestedBinding more ih =>
    intro rt rt1 h
    rw [SuggestInteractionProfileBindings.loop] at h
    cases hact : rt.GetMockAction suggestedBinding.action with
    | none => simp [hact] at h
    | some triple =>
      obtain ⟨sj, aj, mockAction⟩ := triple
      simp only [hact] at h
      split_ifs at h with hu
      · simp at h
      · cases hfound : (rt.GetMockInputState mockProfile suggestedBinding.binding
            mockAction.type true).1 with
        | none => simp [hfound] at h
        | some inputState =>
          simp only [hfound] at h
          obtain ⟨hst, hsets, hprofs, hactive⟩ := GetMockInputState_frame rt mockProfile
            suggestedBinding.binding mockAction.type true
          obtain ⟨hpst, hpprofs, hpactive⟩ := pushBinding_frame
            (rt.GetMockInputState mockProfile suggestedBinding.binding mockAction.type true).2
            sj aj inputState
          obtain ⟨h1, h2, h3, h4⟩ := ih _ _ h
          have hbind := GetMockAction_actionBindings rt _ _ _ _ hact
          have hbind2 : (rt.GetMockInputState mockProfile suggestedBinding.binding
              mockAction.type true).2.actionBindings sj aj = some mockAction.bindings := by
            unfold actionBindings at hbind ⊢
            rw [hsets]
            exact hbind
          refine ⟨by rw [h1, hpst, hst], by rw [h2, hpprofs, hprofs],
            by rw [h3, hpactive, hactive], ?_⟩
          intro si ai before hb
          have hpush := pushBinding_actionBindings _ sj aj inputState _ hbind2 si ai
          have hsame : (rt.GetMockInputState mockProfile suggestedBinding.binding
              mockAction.type true).2.actionBindings si ai = some before := by
            unfold actionBindings at hb ⊢
            rw [hsets]
            exact hb
          have hnew := GetMockInputState_some rt mockProfile _ _ _ _ hfound
          by_cases hij : si = sj ∧ ai = aj
          · obtain ⟨rfl, rfl⟩ := hij
            rw [if_pos ⟨rfl, rfl⟩] at hpush
            rw [hbind2] at hsame
            simp only [Option.some.injEq] at hsame
            subst hsame
            obtain ⟨appended, happ, hall⟩ := h4 _ _ _ hpush
            refine ⟨inputState :: appended, ?_, ?_⟩
            · rw [happ]; simp
            · intro i hi
              rcases List.mem_cons.mp hi with rfl | hi
              · exact hnew
              · have := hall i hi
                rwa [hpst, hst] at this
          · rw [if_neg hij, hsame] at hpush
            obtain ⟨appended, happ, hall⟩ := h4 _ _ _ hpush
            refine ⟨appended, happ, ?_⟩
            intro i hi
            have := hall i hi
            rwa [hpst, hst] at this

/-- The profile that `GetMockInteractionProfile` finds has the path asked for. -/
theorem GetMockInteractionProfile_loop_some (interactionProfile : XrPath)
    (profiles : List MockInteractionProfile) :
    ∀ (start found : Nat) (mockProfile : MockInteractionProfile),
      GetMockInteractionProfile.loop interactionProfile profiles start =
        some (found, mockProfile) →
      start ≤ found ∧ profiles[found - start]? = some mockProfile ∧
        mockProfile.path = interactionProfile := by
  induction profiles with
  | nil => intro start found mockProfile h; simp [GetMockInteractionProfile.loop] at h
  | cons profile more ih =>
    intro start found mockProfile h
    rw [GetMockInteractionProfile.loop] at h
    split_ifs at h with hp
    · simp only [Option.some.injEq, Prod.mk.injEq] at h
      obtain ⟨rfl, rfl⟩ := h
      exact ⟨le_refl _, by simp, hp⟩
    · obtain ⟨hle, hget, hpath⟩ := ih _ _ _ h
      refine ⟨by omega, ?_, hpath⟩
      have hidx : found - start = (found - (start + 1)) + 1 := by omega
      rw [hidx, List.getElem?_cons_succ]
      exact hget

/-- C20, amended: after every successful `SuggestInteractionProfileBindings`
call the input states are the former ones, every action has its former
bindings followed by the appended ones, and each appended input source belongs
to the catalogue of the interaction profile that the call names; that profile
becomes the active one when none was active, and an active profile stays the
active one. -/
theorem SuggestInteractionProfileBindings_sources (rt rt1 : MockRuntime)
    (suggested : XrInteractionProfileSuggestedBinding)
    (hSuccess : rt.SuggestInteractionProfileBindings (some suggested) = (XR_SUCCESS, rt1)) :
    rt1.inputStates = rt.inputStates ∧
    (∀ (si ai : Nat) (before : List Nat), rt.actionBindings si ai = some before →
      ∃ appended, rt1.actionBindings si ai = some (before ++ appended) ∧
        ∀ i ∈ appended, ∃ st, rt.inputStates[i]? = some st ∧
          st.interactionProfile = suggested.interactionProfile) ∧
    (rt.activeInteractionProfile = none →
      ∃ k mockProfile, rt1.activeInteractionProfile = some k ∧
        rt1.interactionProfiles[k]? = some mockProfile ∧
        mockProfile.path = suggested.interactionProfile) ∧
    (rt.activeInteractionProfile ≠ none →
      rt1.activeInteractionProfile = rt.activeInteractionProfile) := by
  simp only [SuggestInteractionProfileBindings] at hSuccess
  by_cases h1 : suggested.type ≠ XR_TYPE_INTERACTION_PROFILE_SUGGESTED_BINDING ∨
      suggested.countSuggestedBindings = 0
  · simp [h1] at hSuccess
  · have h2 : ¬ suggested.countSuggestedBindings = 0 := fun h => h1 (Or.inr h)
    rw [if_neg h1, if_neg h2] at hSuccess
    cases harr : suggested.suggestedBindings with
    | none => simp [harr] at hSuccess
    | some bindingArray =>
      simp only [harr] at hSuccess
      by_cases hatt : rt.actionSetsAttached = true
      · simp [hatt] at hSuccess
      · simp only [hatt, Bool.false_eq_true, if_false] at hSuccess
        by_cases hnone : rt.activeInteractionProfile = none
        · -- the profile of the call becomes the active one
          simp only [hnone, if_true] at hSuccess
          cases hprof : rt.GetMockInteractionProfile suggested.interactionProfile with
          | none => simp [SetActiveInteractionProfile, hprof] at hSuccess
          | some found =>
            obtain ⟨k, mockProfile⟩ := found
            have hset : rt.SetActiveInteractionProfile suggested.interactionProfile =
                (true, { rt with activeInteractionProfile := some k }) := by
              simp [SetActiveInteractionProfile, hprof]
            rw [hset] at hSuccess
            have hprof2 : ({ rt with activeInteractionProfile := some k } :
                MockRuntime).GetMockInteractionProfile suggested.interactionProfile =
                some (k, mockProfile) := hprof
            simp only [hprof2, Bool.not_true, Bool.false_eq_true, if_false] at hSuccess
            obtain ⟨_, hget, hpath⟩ := GetMockInteractionProfile_loop_some _ _ _ _ _ hprof
            obtain ⟨hst, hprofs, hact, hb⟩ :=
              SuggestInteractionProfileBindings_loop_success _ _ _ _ hSuccess
            refine ⟨hst, ?_, ?_, fun hne => absurd hnone hne⟩
            · intro si ai before hbefore
              obtain ⟨appended, happ, hall⟩ := hb si ai before hbefore
              exact ⟨appended, happ, fun i hi => hpath ▸ hall i hi⟩
            · intro _
              refine ⟨k, mockProfile, hact, ?_, hpath⟩
              rw [hprofs]
              simpa using hget
        · simp only [hnone, if_false, Bool.not_true, Bool.false_eq_true] at hSuccess
          cases hprof : rt.GetMockInteractionProfile suggested.interactionProfile with
          | none => simp [hprof] at hSuccess
          | some found =>
            obtain ⟨k, mockProfile⟩ := found
            simp only [hprof] at hSuccess
            obtain ⟨_, hget, hpath⟩ := GetMockInteractionProfile_loop_some _ _ _ _ _ hprof
            obtain ⟨hst, hprofs, hact, hb⟩ :=
              SuggestInteractionProfileBindings_loop_success _ _ _ _ hSuccess
            refine ⟨hst, ?_, fun h => absurd h hnone, fun _ => hact⟩
            intro si ai before hbefore
            obtain ⟨appended, happ, hall⟩ := hb si ai before hbefore
            exact ⟨appended, happ, fun i hi => hpath ▸ hall i hi⟩

/-- C19: for a suggested binding whose action exists, whose path carries a user
path and at whose exact path the profile has no input source, the loop of
`SuggestInteractionProfileBindings` binds a boolean action to the source at
the path with `/value` appended if there is one, otherwise to the source at
the path with `/click` appended if there is one, and a float action to the
source at the path with `/value` appended if there is one; it returns
path-unsupported when there is no such source, and for an action of any other
type without trying a longer path. -/
theorem SuggestInteractionProfileBindings_parent_path (rt : MockRuntime)
    (mockProfile : MockInteractionProfile) (suggestedBinding : XrActionSuggestedBinding)
    (si ai : Nat) (mockAction : MockAction)
    (hAction : rt.GetMockAction suggestedBinding.action = some (si, ai, mockAction))
    (hUser : rt.GetUserPath suggestedBinding.binding ≠ XR_NULL_PATH)
    (hExact : rt.sourceAt mockProfile suggestedBinding.binding = none) :
    (mockAction.type = XR_ACTION_TYPE_BOOLEAN_INPUT →
      (∀ i, rt.sourceAt mockProfile
          (rt.AppendPath suggestedBinding.binding "/value".toList).1 = some i →
        (SuggestInteractionProfileBindings.loop mockProfile [suggestedBinding] rt).1 =
          XR_SUCCESS ∧
        (SuggestInteractionProfileBindings.loop mockProfile [suggestedBinding]
          rt).2.actionBindings si ai = some (mockAction.bindings ++ [i])) ∧
      (rt.sourceAt mockProfile
          (rt.AppendPath suggestedBinding.binding "/value".toList).1 = none →
        (∀ i, rt.sourceAt mockProfile
            ((rt.AppendPath suggestedBinding.binding "/value".toList).2.AppendPath
              suggestedBinding.binding "/click".toList).1 = some i →
          (SuggestInteractionProfileBindings.loop mockProfile [suggestedBinding] rt).1 =
            XR_SUCCESS ∧
          (SuggestInteractionProfileBindings.loop mockProfile [suggestedBinding]
            rt).2.actionBindings si ai = some (mockAction.bindings ++ [i])) ∧
        (rt.sourceAt mockProfile
            ((rt.AppendPath suggestedBinding.binding "/value".toList).2.AppendPath
              suggestedBinding.binding "/click".toList).1 = none →
          (SuggestInteractionProfileBindings.loop mockProfile [suggestedBinding] rt).1 =
            XR_ERROR_PATH_UNSUPPORTED))) ∧
    (mockAction.type = XR_ACTION_TYPE_FLOAT_INPUT →
      (∀ i, rt.sourceAt mockProfile
          (rt.AppendPath suggestedBinding.binding "/value".toList).1 = some i →
        (SuggestInteractionProfileBindings.loop mockProfile [suggestedBinding] rt).1 =
          XR_SUCCESS ∧
        (SuggestInteractionProfileBindings.loop mockProfile [suggestedBinding]
          rt).2.actionBindings si ai = some (mockAction.bindings ++ [i])) ∧
      (rt.sourceAt mockProfile
          (rt.AppendPath suggestedBinding.binding "/value".toList).1 = none →
        (SuggestInteractionProfileBindings.loop mockProfile [suggestedBinding] rt).1 =
          XR_ERROR_PATH_UNSUPPORTED)) ∧
    (mockAction.type ≠ XR_ACTION_TYPE_BOOLEAN_INPUT →
      mockAction.type ≠ XR_ACTION_TYPE_FLOAT_INPUT →
      SuggestInteractionProfileBindings.loop mockProfile [suggestedBinding] rt =
        (XR_ERROR_PATH_UNSUPPORTED, rt)) := by
  have hbind := GetMockAction_actionBindings rt _ _ _ _ hAction
  have hpushed : ∀ (rt1 : MockRuntime) (i : Nat), rt1.actionSets = rt.actionSets →
      (rt1.pushBinding si ai i).actionBindings si ai = some (mockAction.bindings ++ [i]) := by
    intro rt1 i hsets
    have h1 : rt1.actionBindings si ai = some mockAction.bindings := by
      unfold actionBindings at hbind ⊢
      rw [hsets]
      exact hbind
    rw [pushBinding_actionBindings rt1 si ai i _ h1 si ai, if_pos ⟨rfl, rfl⟩]
  unfold sourceAt at hExact
  simp only [sourceAt, SuggestInteractionProfileBindings.loop, hAction, hUser, if_false,
    GetMockInputState, hExact, if_true, AppendPath_inputStates]
  refine ⟨?_, ?_, ?_⟩
  · intro hty
    simp only [hty]
    refine ⟨?_, ?_⟩
    · intro i hi
      simp only [hi]
      exact ⟨trivial, hpushed _ _ (AppendPath_actionSets _ _ _)⟩
    · intro hv
      simp only [hv]
      refine ⟨?_, ?_⟩
      · intro i hi
        simp only [hi]
        exact ⟨trivial, hpushed _ _ (by rw [AppendPath_actionSets, AppendPath_actionSets])⟩
      · intro hc
        simp only [hc]
  · intro hty
    simp only [hty]
    refine ⟨?_, ?_⟩
    · intro i hi
      simp only [hi]
      exact ⟨trivial, hpushed _ _ (AppendPath_actionSets _ _ _)⟩
    · intro hv
      simp only [hv]
  · intro hb hf
    cases hty : mockAction.type <;> simp_all

/-- A pair whose first component is known. -/
theorem prod_eq_of_fst {α β : Type} (p : α × β) (a : α) (h : p.1 = a) : p = (a, p.2) := by
  cases p
  simp_all

/-- The suggestion of `/user/hand/left/input/trigger` for the boolean action
"fire" under the Microsoft motion controller profile, evaluated on the
constructed runtime: the action exists, the path carries a user path, the
profile has no source at the path itself, the source at the path with `/value`
appended is state 12, the call succeeds and binds state 12, and state 12 is the
source `/user/hand/left/input/trigger/value` of the motion controller. -/
theorem triggerSuggestion_eval :
    (motionControllerPath.2.GetMockAction triggerBinding.action = some (0, 0, fireAction) ∧
      motionControllerPath.2.GetUserPath triggerBinding.binding ≠ XR_NULL_PATH ∧
      motionControllerPath.2.sourceAt motionControllerProfile triggerBinding.binding = none) ∧
    motionControllerProfile.path = motionControllerPath.1 ∧
    motionControllerPath.2.sourceAt motionControllerProfile
      (motionControllerPath.2.AppendPath triggerBinding.binding "/value".toList).1 = some 12 ∧
    triggerSuggestion.1 = XR_SUCCESS ∧
    triggerSuggestion.2.actionBindings 0 0 = some [12] ∧
    (triggerSuggestion.2.inputStates[12]?).map
        (fun st => (triggerSuggestion.2.PathToString st.interactionProfile,
          triggerSuggestion.2.PathToString st.path)) =
      some ("/interaction_profiles/microsoft/motion_controller".toList,
        "/user/hand/left/input/trigger/value".toList) := by
  decide!

/-- Witness of `SuggestInteractionProfileBindings_parent_path`: the boolean
action "fire" suggested at `/user/hand/left/input/trigger` under the Microsoft
motion controller profile, which has the trigger only as `.../trigger/value`;
the whole call succeeds and binds that source. -/
theorem SuggestInteractionProfileBindings_parent_path_witness :
    ((fireAction.type = XR_ACTION_TYPE_BOOLEAN_INPUT →
      (∀ i, motionControllerPath.2.sourceAt motionControllerProfile
          (motionControllerPath.2.AppendPath triggerBinding.binding "/value".toList).1 = some i →
        (SuggestInteractionProfileBindings.loop motionControllerProfile [triggerBinding] motionControllerPath.2).1 =
          XR_SUCCESS ∧
        (SuggestInteractionProfileBindings.loop motionControllerProfile [triggerBinding]
          motionControllerPath.2).2.actionBindings 0 0 = some (fireAction.bindings ++ [i])) ∧
      (motionControllerPath.2.sourceAt motionControllerProfile
          (motionControllerPath.2.AppendPath triggerBinding.binding "/value".toList).1 = none →
        (∀ i, motionControllerPath.2.sourceAt motionControllerProfile
            ((motionControllerPath.2.AppendPath triggerBinding.binding "/value".toList).2.AppendPath
              triggerBinding.binding "/click".toList).1 = some i →
          (SuggestInteractionProfileBindings.loop motionControllerProfile [triggerBinding] motionControllerPath.2).1 =
            XR_SUCCESS ∧
          (SuggestInteractionProfileBindings.loop motionControllerProfile [triggerBinding]
            motionControllerPath.2).2.actionBindings 0 0 = some (fireAction.bindings ++ [i])) ∧
        (motionControllerPath.2.sourceAt motionControllerProfile
            ((motionControllerPath.2.AppendPath triggerBinding.binding "/value".toList).2.AppendPath
              triggerBinding.binding "/click".toList).1 = none →
          (SuggestInteractionProfileBindings.loop motionControllerProfile [triggerBinding] motionControllerPath.2).1 =
            XR_ERROR_PATH_UNSUPPORTED))) ∧
    (fireAction.type = XR_ACTION_TYPE_FLOAT_INPUT →
      (∀ i, motionControllerPath.2.sourceAt motionControllerProfile
          (motionControllerPath.2.AppendPath triggerBinding.binding "/value".toList).1 = some i →
        (SuggestInteractionProfileBindings.loop motionControllerProfile [triggerBinding] motionControllerPath.2).1 =
          XR_SUCCESS ∧
        (SuggestInteractionProfileBindings.loop motionControllerProfile [triggerBinding]
          motionControllerPath.2).2.actionBindings 0 0 = some (fireAction.bindings ++ [i])) ∧
      (motionControllerPath.2.sourceAt motionControllerProfile
          (motionControllerPath.2.AppendPath triggerBinding.binding "/value".toList).1 = none →
        (SuggestInteractionProfileBindings.loop motionControllerProfile [triggerBinding] motionControllerPath.2).1 =
          XR_ERROR_PATH_UNSUPPORTED)) ∧
    (fireAction.type ≠ XR_ACTION_TYPE_BOOLEAN_INPUT →
      fireAction.type ≠ XR_ACTION_TYPE_FLOAT_INPUT →
      SuggestInteractionProfileBindings.loop motionControllerProfile [triggerBinding] motionControllerPath.2 =
        (XR_ERROR_PATH_UNSUPPORTED, motionControllerPath.2))) ∧
    triggerSuggestion.1 = XR_SUCCESS ∧
    triggerSuggestion.2.actionBindings 0 0 = some [12] :=
  ⟨SuggestInteractionProfileBindings_parent_path motionControllerPath.2 motionControllerProfile
      triggerBinding 0 0 fireAction triggerSuggestion_eval.1.1 triggerSuggestion_eval.1.2.1
      triggerSuggestion_eval.1.2.2,
    triggerSuggestion_eval.2.2.2.1, triggerSuggestion_eval.2.2.2.2.1⟩

/-- The two calls of an application that first suggests a binding under the
simple controller profile and then one under the Microsoft motion controller
profile, evaluated on the constructed runtime. -/
theorem squeezeSuggestion_eval :
    simpleSuggestion.1 = XR_SUCCESS ∧
    secondProfilePath.2.activeInteractionProfile = some 0 ∧
    (secondProfilePath.2.interactionProfiles[0]?).map (fun p => p.path) =
      some simpleControllerPath.1 ∧
    (secondProfilePath.2.interactionProfiles[0]?).map
      (fun p => secondProfilePath.2.sourceAt p squeezePath.1) = some none ∧
    squeezeSuggestion.1 = XR_SUCCESS ∧
    squeezeSuggestion.2.activeInteractionProfile = some 0 ∧
    secondProfilePath.2.actionBindings 0 0 = some [0] ∧
    squeezeSuggestion.2.actionBindings 0 0 = some [0, 11] ∧
    (squeezeSuggestion.2.inputStates[11]?).map (fun st => st.interactionProfile) =
      some secondProfilePath.1 ∧
    secondProfilePath.1 ≠ simpleControllerPath.1 := by
  decide!

/-- C20, as stated, fails: while the simple controller is the active profile
(profile 0), a call that names the Microsoft motion controller and suggests
the squeeze click of the left hand, a path at which the simple controller has
no source, is not rejected with path-unsupported; it succeeds, the simple
controller stays the active profile, and the action gets state 11 appended, a
source of the motion controller and not of the active profile. -/
theorem suggestion_binds_source_of_named_profile :
    secondProfilePath.2.activeInteractionProfile = some 0 ∧
    (secondProfilePath.2.interactionProfiles[0]?).map (fun p => p.path) =
      some simpleControllerPath.1 ∧
    (secondProfilePath.2.interactionProfiles[0]?).map
      (fun p => secondProfilePath.2.sourceAt p squeezePath.1) = some none ∧
    squeezeSuggestion.1 = XR_SUCCESS ∧
    squeezeSuggestion.2.activeInteractionProfile = some 0 ∧
    secondProfilePath.2.actionBindings 0 0 = some [0] ∧
    squeezeSuggestion.2.actionBindings 0 0 = some [0, 11] ∧
    (squeezeSuggestion.2.inputStates[11]?).map (fun st => st.interactionProfile) =
      some secondProfilePath.1 ∧
    secondProfilePath.1 ≠ simpleControllerPath.1 :=
  squeezeSuggestion_eval.2

/-- Witness of `SuggestInteractionProfileBindings_sources`: the second call of
the application, which names the Microsoft motion controller. -/
theorem SuggestInteractionProfileBindings_sources_witness :
    squeezeSuggestion.2.inputStates = secondProfilePath.2.inputStates ∧
    (∀ (si ai : Nat) (before : List Nat),
      secondProfilePath.2.actionBindings si ai = some before →
      ∃ appended, squeezeSuggestion.2.actionBindings si ai = some (before ++ appended) ∧
        ∀ i ∈ appended, ∃ st, secondProfilePath.2.inputStates[i]? = some st ∧
          st.interactionProfile = squeezeBindings.interactionProfile) ∧
    (secondProfilePath.2.activeInteractionProfile = none →
      ∃ k mockProfile, squeezeSuggestion.2.activeInteractionProfile = some k ∧
        squeezeSuggestion.2.interactionProfiles[k]? = some mockProfile ∧
        mockProfile.path = squeezeBindings.interactionProfile) ∧
    (secondProfilePath.2.activeInteractionProfile ≠ none →
      squeezeSuggestion.2.activeInteractionProfile =
        secondProfilePath.2.activeInteractionProfile) :=
  SuggestInteractionProfileBindings_sources secondProfilePath.2 squeezeSuggestion.2
    squeezeBindings (prod_eq_of_fst squeezeSuggestion XR_SUCCESS squeezeSuggestion_eval.2.2.2.2.1)

/-- The call `StringToPath` writes no member outside the binding engine. -/
theorem StringToPath_outside (rt : MockRuntime) (s : CString) :
    (rt.StringToPath s).2.2.outsideBindingEngine = rt.outsideBindingEngine := by
  rw [StringToPath_frame]; rfl

theorem AppendPath_outside (rt : MockRuntime) (path : XrPath) (append : CString) :
    (rt.AppendPath path append).2.outsideBindingEngine = rt.outsideBindingEngine := by
  rw [AppendPath_frame]; rfl

theorem GetMockInputState_outside (rt : MockRuntime) (mockProfile : MockInteractionProfile)
    (path : XrPath) (actionType : XrActionType) (allowParentPath : Bool) :
    (rt.GetMockInputState mockProfile path actionType allowParentPath).2.outsideBindingEngine =
      rt.outsideBindingEngine := by
  unfold GetMockInputState
  split
  · rfl
  · split_ifs
    · split
      · simp only
        split
        · exact AppendPath_outside _ _ _
        · simp only [AppendPath_outside]
      · exact AppendPath_outside _ _ _
      · rfl
    · rfl

theorem pushBinding_outside (rt : MockRuntime) (si ai inputState : Nat) :
    (rt.pushBinding si ai inputState).outsideBindingEngine = rt.outsideBindingEngine := by
  unfold pushBinding
  split
  · rfl
  · split <;> rfl

theorem SuggestInteractionProfileBindings_loop_outside (mockProfile : MockInteractionProfile)
    (bindingArray : List XrActionSuggestedBinding) :
    ∀ rt : MockRuntime,
      (SuggestInteractionProfileBindings.loop mockProfile bindingArray rt).2.outsideBindingEngine =
        rt.outsideBindingEngine := by
  induction bindingArray with
  | nil => intro rt; rfl
  | cons sb more ih =>
    intro rt
    rw [SuggestInteractionProfileBindings.loop]
    split
    · rfl
    · split_ifs
      · rfl
      · simp only
        split
        · exact GetMockInputState_outside _ _ _ _ _
        · rw [ih, pushBinding_outside, GetMockInputState_outside]

theorem SetActiveInteractionProfile_outside (rt : MockRuntime) (p : XrPath) :
    (rt.SetActiveInteractionProfile p).2.outsideBindingEngine = rt.outsideBindingEngine := by
  unfold SetActiveInteractionProfile
  split <;> rfl

theorem SuggestInteractionProfileBindings_outside (rt : MockRuntime)
    (arg : Option XrInteractionProfileSuggestedBinding) :
    (rt.SuggestInteractionProfileBindings arg).2.outsideBindingEngine =
      rt.outsideBindingEngine := by
  unfold SuggestInteractionProfileBindings
  repeat' (first | split | dsimp only)
  all_goals
    first
    | rfl
    | exact SetActiveInteractionProfile_outside _ _
    | (rw [SuggestInteractionProfileBindings_loop_outside]
       try exact SetActiveInteractionProfile_outside _ _)

theorem CreateActionSet_outside (rt : MockRuntime) (createInfo : XrActionSetCreateInfo) :
    (rt.CreateActionSet createInfo).2.2.outsideBindingEngine = rt.outsideBindingEngine := by
  unfold CreateActionSet
  repeat' (first | split | dsimp only)
  all_goals rfl

theorem DestroyActionSet_outside (rt : MockRuntime) (actionSet : XrActionSet) :
    (rt.DestroyActionSet actionSet).2.outsideBindingEngine = rt.outsideBindingEngine := by
  unfold DestroyActionSet
  split <;> rfl

theorem CreateAction_outside (rt : MockRuntime) (actionSet : XrActionSet)
    (createInfo : XrActionCreateInfo) :
    (rt.CreateAction actionSet createInfo).2.2.outsideBindingEngine = rt.outsideBindingEngine := by
  unfold CreateAction
  split
  · rfl
  · split
    · rfl
    · unfold CreateAction.create
      dsimp only
      split <;> rfl

theorem DestroyAction_outside (rt : MockRuntime) (action : XrAction) :
    (rt.DestroyAction action).2.outsideBindingEngine = rt.outsideBindingEngine := by
  unfold DestroyAction
  split <;> rfl

theorem AttachSessionActionSets_loop_outside (handles : List XrActionSet) :
    ∀ rt : MockRuntime,
      (AttachSessionActionSets.loop handles rt).2.outsideBindingEngine =
        rt.outsideBindingEngine := by
  induction handles with
  | nil => intro rt; rfl
  | cons handle more ih =>
    intro rt
    rw [AttachSessionActionSets.loop]
    split
    · rfl
    · rw [ih]; rfl

theorem AttachSessionActionSets_outside (rt : MockRuntime)
    (attachInfo : Option XrSessionActionSetsAttachInfo) :
    (rt.AttachSessionActionSets attachInfo).2.outsideBindingEngine = rt.outsideBindingEngine := by
  unfold AttachSessionActionSets
  repeat' (first | split | dsimp only)
  all_goals
    first
    | rfl
    | exact AttachSessionActionSets_loop_outside _ _

theorem ConformanceAutomation_GetInputState_outside (rt : MockRuntime)
    (s_ext : Option ConformanceStates) (binding : Nat) :
    (rt.ConformanceAutomation_GetInputState s_ext binding).outsideBindingEngine =
      rt.outsideBindingEngine := by
  unfold ConformanceAutomation_GetInputState
  repeat' (first | split | dsimp only)
  all_goals rfl

theorem foldl_outside {α : Type} (step : MockRuntime → α → MockRuntime)
    (hstep : ∀ rt a, (step rt a).outsideBindingEngine = rt.outsideBindingEngine)
    (xs : List α) :
    ∀ rt : MockRuntime, (xs.foldl step rt).outsideBindingEngine = rt.outsideBindingEngine := by
  induction xs with
  | nil => intro rt; rfl
  | cons x more ih => intro rt; rw [List.foldl_cons, ih, hstep]

theorem SyncActions_refresh_outside (s_ext : Option ConformanceStates) (subactionPath : XrPath)
    (actions : List MockAction) (rt : MockRuntime) :
    (SyncActions.refresh s_ext subactionPath actions rt).outsideBindingEngine =
      rt.outsideBindingEngine := by
  unfold SyncActions.refresh
  apply foldl_outside
  intro rt1 mockAction
  apply foldl_outside
  intro rt2 binding
  split
  · rfl
  · exact ConformanceAutomation_GetInputState_outside _ _ _

theorem SyncActions_loop_outside (s_ext : Option ConformanceStates)
    (active : List XrActiveActionSet) :
    ∀ rt : MockRuntime,
      (SyncActions.loop s_ext active rt).2.outsideBindingEngine = rt.outsideBindingEngine := by
  induction active with
  | nil => intro rt; rfl
  | cons a more ih =>
    intro rt
    rw [SyncActions.loop]
    split
    · rfl
    · split
      · rfl
      · rw [ih]
        split
        · exact SyncActions_refresh_outside _ _ _ _
        · rfl

theorem SyncActions_outside (rt : MockRuntime) (s_ext : Option ConformanceStates)
    (syncInfo : Option XrActionsSyncInfo) :
    (rt.SyncActions s_ext syncInfo).2.outsideBindingEngine = rt.outsideBindingEngine := by
  unfold SyncActions
  repeat' (first | split | dsimp only)
  all_goals first | rfl | exact SyncActions_loop_outside _ _ _

theorem ChangeSessionState_outsideSession (rt : MockRuntime) (state : XrSessionState) :
    (rt.ChangeSessionState state).outsideSession = rt.outsideSession := by
  unfold ChangeSessionState
  split <;> rfl

theorem ChangeSessionStateFrom_outsideSession (rt : MockRuntime)
    (fromState toState : XrSessionState) :
    (rt.ChangeSessionStateFrom fromState toState).2.outsideSession = rt.outsideSession := by
  unfold ChangeSessionStateFrom
  split
  · rfl
  · exact ChangeSessionState_outsideSession _ _

theorem CreateSession_outsideSession (rt : MockRuntime) :
    rt.CreateSession.2.outsideSession = rt.outsideSession := by
  unfold CreateSession
  dsimp only
  rw [ChangeSessionStateFrom_outsideSession, ChangeSessionState_outsideSession]
  rfl

theorem BeginSession_outsideSession (rt : MockRuntime) (msftResult : XrResult) :
    (rt.BeginSession msftResult).2.outsideSession = rt.outsideSession := by
  unfold BeginSession
  dsimp only
  repeat' split
  all_goals
    show (ChangeSessionStateFrom _ _ _).2.outsideSession = _
    rw [ChangeSessionStateFrom_outsideSession, ChangeSessionStateFrom_outsideSession,
      ChangeSessionStateFrom_outsideSession]
    rfl

theorem EndSession_outsideSession (rt : MockRuntime) :
    rt.EndSession.2.outsideSession = rt.outsideSession := by
  unfold EndSession
  dsimp only
  split
  · dsimp only
    rw [ChangeSessionStateFrom_outsideSession]
    show (ChangeSessionStateFrom _ _ _).2.outsideSession = _
    rw [ChangeSessionStateFrom_outsideSession]
    rfl
  · dsimp only
    rw [ChangeSessionStateFrom_outsideSession]
    rfl

theorem RequestExitSession_outsideSession (rt : MockRuntime) :
    rt.RequestExitSession.2.outsideSession = rt.outsideSession := by
  unfold RequestExitSession
  split
  · rfl
  · dsimp only
    show (ChangeSessionStateFrom _ _ _).2.outsideSession = _
    rw [ChangeSessionStateFrom_outsideSession, ChangeSessionStateFrom_outsideSession,
      ChangeSessionStateFrom_outsideSession]

/-- No call but `SetSpacePose` writes the space-pose override. -/
theorem RuntimeCall_run_spaceOverride (rt : MockRuntime) (call : RuntimeCall)
    (h : call.isSetSpacePose = false) : (call.run rt).spaceOverride = rt.spaceOverride := by
  have key : ∀ rt1 : MockRuntime, rt1.outsideBindingEngine = rt.outsideBindingEngine →
      rt1.spaceOverride = rt.spaceOverride := by
    intro rt1 h1
    have := congrArg MockRuntime.spaceOverride h1
    exact this
  have sess : ∀ rt1 : MockRuntime, rt1.outsideSession = rt.outsideSession →
      rt1.spaceOverride = rt.spaceOverride := by
    intro rt1 h1
    have := congrArg MockRuntime.spaceOverride h1
    exact this
  cases call with
  | SetSpacePose pose flags => simp [RuntimeCall.isSetSpacePose] at h
  | StringToPath s => exact key _ (StringToPath_outside rt s)
  | AppendPath p a => exact key _ (AppendPath_outside rt p a)
  | CreateActionSet ci => exact key _ (CreateActionSet_outside rt ci)
  | DestroyActionSet a => exact key _ (DestroyActionSet_outside rt a)
  | CreateAction a ci => exact key _ (CreateAction_outside rt a ci)
  | DestroyAction a => exact key _ (DestroyAction_outside rt a)
  | SuggestInteractionProfileBindings sb =>
    exact key _ (SuggestInteractionProfileBindings_outside rt sb)
  | AttachSessionActionSets ai => exact key _ (AttachSessionActionSets_outside rt ai)
  | SyncActions e si => exact key _ (SyncActions_outside rt e si)
  | CreateSession => exact sess _ (CreateSession_outsideSession rt)
  | BeginSession m => exact sess _ (BeginSession_outsideSession rt m)
  | EndSession => exact sess _ (EndSession_outsideSession rt)
  | DestroySession =>
    simp only [RuntimeCall.run, DestroySession]
    split <;> rfl
  | GetNextEvent e =>
    simp only [RuntimeCall.run, GetNextEvent]
    repeat' (first | split | dsimp only)
    all_goals rfl
  | ChangeSessionState st => exact sess _ (ChangeSessionState_outsideSession rt st)
  | ChangeSessionStateFrom a b => exact sess _ (ChangeSessionStateFrom_outsideSession rt a b)
  | RequestExitSession => exact sess _ (RequestExitSession_outsideSession rt)
  | CreateReferenceSpace ci =>
    simp only [RuntimeCall.run, CreateReferenceSpace]
    repeat' (first | split | dsimp only)
    all_goals rfl
  | CreateActionSpace ci sp =>
    simp only [RuntimeCall.run, CreateActionSpace]
    repeat' (first | split | dsimp only)
    all_goals rfl
  | SetViewPose i p f fl =>
    simp only [RuntimeCall.run, SetViewPose]
    repeat' (first | split | dsimp only)
    all_goals rfl
  | SetMockBlendMode b => rfl
  | SetExtentsForReferenceSpace r e => rfl
  | CauseInstanceLoss t => rfl
  | VisibilityMaskChangedKHR v i => rfl
  | EndFrame l m =>
    simp only [RuntimeCall.run, EndFrame]
    repeat' (first | split | dsimp only)
    all_goals rfl
  | RegisterEndFrameCallback c => rfl
  | SetExpectedResultForFunction f r => rfl
  | GetExpectedResultForFunction f =>
    simp only [RuntimeCall.run, GetExpectedResultForFunction]
    split <;> rfl

/-- What `GetMockAction` returns: the set at the first index, found by the
low 16 bits of the handle, the action at the second index in that set, and
the handle of the action is the handle asked for. -/
theorem GetMockAction_some (rt : MockRuntime) (action : XrAction) (si ai : Nat)
    (mockAction : MockAction) (h : rt.GetMockAction action = some (si, ai, mockAction)) :
    ∃ mockActionSet, rt.actionSets[si]? = some mockActionSet ∧
      rt.GetMockActionSetOfAction action = some (si, mockActionSet) ∧
      mockActionSet.actions[ai]? = some mockAction ∧ mockAction.action = action := by
  unfold GetMockAction at h
  split at h
  · simp at h
  · next si1 set1 hset =>
    have hset0 := hset
    unfold GetMockActionSetOfAction at hset
    simp only at hset
    split at hset
    · simp at hset
    · next set2 hget =>
      simp only [Option.some.injEq, Prod.mk.injEq] at hset
      obtain ⟨rfl, rfl⟩ := hset
      simp only at h
      split at h
      · simp at h
      · next act hact =>
        split_ifs at h with hne
        simp only [Option.some.injEq, Prod.mk.injEq] at h
        obtain ⟨rfl, rfl, rfl⟩ := h
        exact ⟨set2, hget, hset0, hact, not_not.mp hne⟩

/-- The loop of `EnumerateBoundSourcesForAction` with a buffer: it ends with
success when the bindings fit behind the `k` entries already counted, and
otherwise stops when the count has reached the capacity. -/
theorem EnumerateBoundSourcesForAction_loop_spec (rt : MockRuntime) (c : Nat)
    (hc : c < 2 ^ 32) (bindings : List Nat) :
    ∀ (k : Nat) (written : List XrPath), k ≤ c →
      EnumerateBoundSourcesForAction.loop rt c true bindings k written =
        if k + bindings.length ≤ c then
          some (XR_SUCCESS, k + bindings.length,
            written ++ bindings.map (fun b => (rt.inputStateAt b).path))
        else
          some (XR_ERROR_SIZE_INSUFFICIENT, c,
            written ++ (bindings.map (fun b => (rt.inputStateAt b).path)).take (c - k)) := by
  induction bindings with
  | nil =>
    intro k written hk
    simp [EnumerateBoundSourcesForAction.loop, hk]
  | cons b more ih =>
    intro k written hk
    rw [EnumerateBoundSourcesForAction.loop]
    by_cases hkc : k ≥ c
    · have hkeq : k = c := Nat.le_antisymm hk hkc
      subst hkeq
      simp
    · have hlt : k < c := Nat.lt_of_not_ge hkc
      have hmod : (k + 1) % 2 ^ 32 = k + 1 := Nat.mod_eq_of_lt (by omega)
      simp only [Bool.true_and, decide_eq_true_eq, hkc, if_false, Bool.not_true,
        Bool.false_eq_true, hmod]
      rw [ih (k + 1) _ (by omega)]
      have hsub : c - k = (c - (k + 1)) + 1 := by omega
      by_cases hfit : k + (b :: more).length ≤ c
      · have hfit1 : k + 1 + more.length ≤ c := by simpa [Nat.add_assoc, Nat.add_comm 1] using hfit
        rw [if_pos hfit1, if_pos hfit]
        simp [Nat.add_assoc, Nat.add_comm 1]
      · have hfit1 : ¬ k + 1 + more.length ≤ c := by
          intro h; apply hfit; simpa [Nat.add_assoc, Nat.add_comm 1] using h
        rw [if_neg hfit1, if_neg hfit, hsub]
        simp

/-- C28: for an attached action with `n` bindings and a buffer of capacity
`c`, `EnumerateBoundSourcesForAction` returns success, the count `n` and the
paths of the `n` bound input sources in binding order when `n ≤ c`; when
`c < n` it returns size-insufficient with the count `c`, after the first `c`
paths were written. -/
theorem EnumerateBoundSourcesForAction_buffer (rt : MockRuntime)
    (info : XrBoundSourcesForActionEnumerateInfo) (c : Nat)
    (actionSetIndex actionIndex : Nat) (mockAction : MockAction)
    (hType : info.type = XR_TYPE_BOUND_SOURCES_FOR_ACTION_ENUMERATE_INFO)
    (hCapacity : c < 2 ^ 32)
    (hAction : rt.GetMockAction info.action = some (actionSetIndex, actionIndex, mockAction))
    (hAttached : rt.IsActionAttached info.action = true) :
    (mockAction.bindings.length ≤ c →
      rt.EnumerateBoundSourcesForAction (some info) c true true =
        some (XR_SUCCESS, some mockAction.bindings.length,
          mockAction.bindings.map (fun b => (rt.inputStateAt b).path))) ∧
    (c < mockAction.bindings.length →
      rt.EnumerateBoundSourcesForAction (some info) c true true =
        some (XR_ERROR_SIZE_INSUFFICIENT, some c,
          (mockAction.bindings.map (fun b => (rt.inputStateAt b).path)).take c)) := by
  obtain ⟨_, _, _, _, hact⟩ := GetMockAction_some rt _ _ _ _ hAction
  have hcond : (!rt.actionSetsAttached ||
      !((rt.GetMockActionSetOfAction mockAction.action).map
          (fun found => found.2.attached)).getD false) = false := by
    rw [hact]
    unfold IsActionAttached at hAttached
    split at hAttached
    · simp at hAttached
    · next hsa =>
      split at hAttached
      · simp at hAttached
      · next idx set hset =>
        simp only [Bool.not_eq_true, Bool.not_eq_false'] at hsa
        simp [hsa, hset, hAttached]
  have hloop := EnumerateBoundSourcesForAction_loop_spec rt c hCapacity mockAction.bindings 0 []
    (Nat.zero_le c)
  simp only [Nat.zero_add, List.nil_append, Nat.sub_zero] at hloop
  constructor
  · intro hn
    unfold EnumerateBoundSourcesForAction
    simp only [hType, ne_eq, not_true_eq_false, if_false, hAction, hcond, Bool.false_eq_true]
    rw [hloop, if_pos hn]
    simp
  · intro hn
    unfold EnumerateBoundSourcesForAction
    simp only [hType, ne_eq, not_true_eq_false, if_false, hAction, hcond, Bool.false_eq_true]
    rw [hloop, if_neg (Nat.not_le.mpr hn)]
    simp

/-- The loop over the sub-action paths ends with success or path-unsupported. -/
theorem CreateAction_subactionLoop_result (rt : MockRuntime) (paths : List XrPath) :
    ∀ userPaths : List XrPath,
      (CreateAction.subactionLoop rt paths userPaths).1 = XR_SUCCESS ∨
        (CreateAction.subactionLoop rt paths userPaths).1 = XR_ERROR_PATH_UNSUPPORTED := by
  induction paths with
  | nil => intro userPaths; left; rfl
  | cons p more ih =>
    intro userPaths
    rw [CreateAction.subactionLoop]
    split_ifs
    · right; rfl
    · right; rfl
    · exact ih _

/-- The statements behind the checks end with success or path-unsupported. -/
theorem CreateAction_create_result (rt : MockRuntime) (actionSet : XrActionSet)
    (createInfo : XrActionCreateInfo) (si : Nat) (set : MockActionSet) (reused : Option Nat)
    (actionType : XrActionType) :
    (CreateAction.create rt actionSet createInfo si set reused actionType).1 = XR_SUCCESS ∨
      (CreateAction.create rt actionSet createInfo si set reused actionType).1 =
        XR_ERROR_PATH_UNSUPPORTED := by
  unfold CreateAction.create CreateAction.fill
  cases reused <;> exact CreateAction_subactionLoop_result _ _ _

/-- What `GetMockActionSet` returns: the set at the index, with the handle
asked for. -/
theorem GetMockActionSet_some (rt : MockRuntime) (actionSet : XrActionSet) (si : Nat)
    (set : MockActionSet) (h : rt.GetMockActionSet actionSet = some (si, set)) :
    rt.actionSets[si]? = some set ∧ set.actionSet = actionSet := by
  unfold GetMockActionSet at h
  simp only at h
  split at h
  · simp at h
  · next set1 hget =>
    split_ifs at h with hne
    simp only [Option.some.injEq, Prod.mk.injEq] at h
    obtain ⟨rfl, rfl⟩ := h
    exact ⟨hget, not_not.mp hne⟩

/-- A fold over calls keeps what every step keeps. -/
theorem foldl_keeps {α β : Type} (f : MockRuntime → β) (step : MockRuntime → α → MockRuntime)
    (hstep : ∀ rt a, f (step rt a) = f rt) (xs : List α) :
    ∀ rt : MockRuntime, f (xs.foldl step rt) = f rt := by
  induction xs with
  | nil => intro rt; rfl
  | cons x more ih => intro rt; rw [List.foldl_cons, ih, hstep]

/-- Writing an element back with the same handle, names and flag leaves the
flags of the sets as they were. -/
theorem setFlags_set (rt : MockRuntime) (si : Nat) (set set1 : MockActionSet)
    (hget : rt.actionSets[si]? = some set) (hident : set1.ident = set.ident)
    (hattached : set1.attached = set.attached) :
    ({ rt with actionSets := rt.actionSets.set si set1 } : MockRuntime).setFlags = rt.setFlags := by
  unfold setFlags
  simp only
  apply List.ext_getElem?
  intro i
  simp only [List.getElem?_map, List.getElem?_set]
  by_cases h : si = i
  · subst h
    have hlt : si < rt.actionSets.length := by
      rcases Nat.lt_or_ge si rt.actionSets.length with h | h
      · exact h
      · rw [List.getElem?_eq_none h] at hget; simp at hget
    simp [hlt, hget, hident, hattached]
  · simp [h]

theorem pushBinding_setFlags (rt : MockRuntime) (si ai inputState : Nat) :
    (rt.pushBinding si ai inputState).setFlags = rt.setFlags := by
  unfold pushBinding
  split
  · rfl
  · next set hget =>
    split
    · rfl
    · exact setFlags_set rt si set _ hget rfl rfl

theorem SuggestInteractionProfileBindings_loop_setFlags (mockProfile : MockInteractionProfile)
    (bindingArray : List XrActionSuggestedBinding) :
    ∀ rt : MockRuntime,
      (SuggestInteractionProfileBindings.loop mockProfile bindingArray rt).2.setFlags =
        rt.setFlags := by
  have hin : ∀ (rt : MockRuntime) p t b,
      (rt.GetMockInputState mockProfile p t b).2.setFlags = rt.setFlags := by
    intro rt p t b
    unfold setFlags
    rw [(GetMockInputState_frame rt mockProfile p t b).2.1]
  induction bindingArray with
  | nil => intro rt; rfl
  | cons sb more ih =>
    intro rt
    rw [SuggestInteractionProfileBindings.loop]
    split
    · rfl
    · split_ifs
      · rfl
      · simp only
        split
        · exact hin _ _ _ _
        · rw [ih, pushBinding_setFlags, hin]

theorem SuggestInteractionProfileBindings_setFlags (rt : MockRuntime)
    (arg : Option XrInteractionProfileSuggestedBinding) :
    (rt.SuggestInteractionProfileBindings arg).2.setFlags = rt.setFlags := by
  have hact : ∀ p, (rt.SetActiveInteractionProfile p).2.setFlags = rt.setFlags := by
    intro p
    unfold SetActiveInteractionProfile
    split <;> rfl
  unfold SuggestInteractionProfileBindings
  repeat' (first | split | dsimp only)
  all_goals
    first
    | rfl
    | exact hact _
    | (rw [SuggestInteractionProfileBindings_loop_setFlags]
       try exact hact _)

theorem CreateAction_setFlags (rt : MockRuntime) (actionSet : XrActionSet)
    (createInfo : XrActionCreateInfo) :
    (rt.CreateAction actionSet createInfo).2.2.setFlags = rt.setFlags := by
  unfold CreateAction
  split
  · rfl
  · next si set hset =>
    split
    · rfl
    · unfold CreateAction.create
      dsimp only
      have hget := (GetMockActionSet_some rt actionSet si set hset).1
      split
      · exact setFlags_set rt si set _ hget rfl rfl
      · exact setFlags_set rt si set _ hget rfl rfl

theorem DestroyAction_setFlags (rt : MockRuntime) (action : XrAction) :
    (rt.DestroyAction action).2.setFlags = rt.setFlags := by
  unfold DestroyAction
  split
  · rfl
  · next si ai mockAction hact =>
    obtain ⟨set, hget, _, _, _⟩ := GetMockAction_some rt action si ai mockAction hact
    simp only
    have hmod : rt.actionSets.modify
        (fun mockActionSet =>
          { mockActionSet with
            actions := mockActionSet.actions.set ai { mockAction with isDestroyed := true } })
        si =
        rt.actionSets.set si
          { set with actions := set.actions.set ai { mockAction with isDestroyed := true } } := by
      rw [List.modify_eq_set_get?, List.get?_eq_getElem?, hget]
      rfl
    rw [hmod]
    exact setFlags_set rt si set _ hget rfl rfl

/-- The loop of `AttachSessionActionSets` writes nothing but `actionSets`. -/
theorem AttachSessionActionSets_loop_frame (handles : List XrActionSet) :
    ∀ rt : MockRuntime,
      (AttachSessionActionSets.loop handles rt).2 =
        { rt with actionSets := (AttachSessionActionSets.loop handles rt).2.actionSets } := by
  induction handles with
  | nil => intro rt; rfl
  | cons handle more ih =>
    intro rt
    rw [AttachSessionActionSets.loop]
    split
    · rfl
    · rw [ih]

/-- The loop of `AttachSessionActionSets` ends with success or handle-invalid. -/
theorem AttachSessionActionSets_loop_result (handles : List XrActionSet) :
    ∀ rt : MockRuntime,
      (AttachSessionActionSets.loop handles rt).1 = XR_SUCCESS ∨
        (AttachSessionActionSets.loop handles rt).1 = XR_ERROR_HANDLE_INVALID := by
  induction handles with
  | nil => intro rt; left; rfl
  | cons handle more ih =>
    intro rt
    rw [AttachSessionActionSets.loop]
    split
    · right; rfl
    · exact ih _

/-- The loop of `AttachSessionActionSets` keeps every set at its place, with
its handle and names, and with its flag as it was or set. -/
theorem AttachSessionActionSets_loop_setFlags (handles : List XrActionSet) :
    ∀ rt : MockRuntime,
      (AttachSessionActionSets.loop handles rt).2.setFlags.length = rt.setFlags.length ∧
      ∀ (i : Nat) (ident : XrActionSet × CString × CString) (flag : Bool),
        rt.setFlags[i]? = some (ident, flag) →
        (AttachSessionActionSets.loop handles rt).2.setFlags[i]? = some (ident, flag) ∨
          (AttachSessionActionSets.loop handles rt).2.setFlags[i]? = some (ident, true) := by
  induction handles with
  | nil => intro rt; exact ⟨rfl, fun i ident flag h => Or.inl h⟩
  | cons handle more ih =>
    intro rt
    rw [AttachSessionActionSets.loop]
    split
    · exact ⟨rfl, fun i ident flag h => Or.inl h⟩
    · next si set hset =>
      have hget := (GetMockActionSet_some rt handle si set hset).1
      have hstep : ({ rt with
          actionSets := rt.actionSets.set si { set with attached := true } } :
            MockRuntime).setFlags = rt.setFlags.set si (set.ident, true) := by
        unfold setFlags
        simp only [List.map_set]
        rfl
      obtain ⟨hlen, hflags⟩ := ih
        { rt with actionSets := rt.actionSets.set si { set with attached := true } }
      refine ⟨?_, ?_⟩
      · rw [hlen, hstep, List.length_set]
      · intro i ident flag h
        by_cases hi : si = i
        · subst hi
          have hold : rt.setFlags[si]? = some (set.ident, set.attached) := by
            unfold setFlags
            simp [List.getElem?_map, hget]
          rw [hold] at h
          simp only [Option.some.injEq, Prod.mk.injEq] at h
          obtain ⟨rfl, rfl⟩ := h
          have hlt : si < rt.setFlags.length := by
            rcases Nat.lt_or_ge si rt.setFlags.length with h | h
            · exact h
            · rw [List.getElem?_eq_none h] at hold; simp at hold
          have hnew : (rt.setFlags.set si (set.ident, true))[si]? = some (set.ident, true) := by
            simp [List.getElem?_set, hlt]
          rw [← hstep] at hnew
          rcases hflags si set.ident true hnew with h1 | h1 <;> exact Or.inr h1
        · have hnew : (rt.setFlags.set si (set.ident, true))[i]? = some (ident, flag) := by
            simp [List.getElem?_set, hi, h]
          rw [← hstep] at hnew
          exact hflags i ident flag hnew

/-- When the loop of `AttachSessionActionSets` fails, it has attached the sets
named before the first handle that names no set, and stopped there. -/
theorem AttachSessionActionSets_loop_failure (handles : List XrActionSet) :
    ∀ rt rt1 : MockRuntime,
      AttachSessionActionSets.loop handles rt = (XR_ERROR_HANDLE_INVALID, rt1) →
      ∃ (done : List XrActionSet) (unknown : XrActionSet) (rest : List XrActionSet),
        handles = done ++ unknown :: rest ∧
        AttachSessionActionSets.loop done rt = (XR_SUCCESS, rt1) ∧
        rt1.GetMockActionSet unknown = none := by
  induction handles with
  | nil =>
    intro rt rt1 h
    simp [AttachSessionActionSets.loop] at h
  | cons handle more ih =>
    intro rt rt1 h
    rw [AttachSessionActionSets.loop] at h
    split at h
    · next hnone =>
      simp only [Prod.mk.injEq, true_and] at h
      subst h
      exact ⟨[], handle, more, rfl, rfl, hnone⟩
    · next si set hset =>
      obtain ⟨done, unknown, rest, hsplit, hdone, hunknown⟩ := ih _ rt1 h
      refine ⟨handle :: done, unknown, rest, by rw [hsplit]; rfl, ?_, hunknown⟩
      rw [AttachSessionActionSets.loop, hset]
      exact hdone

/-- A handle names a set when the set at the index of the handle carries the
handle. -/
theorem GetMockActionSet_of_getElem (rt : MockRuntime) (actionSet : XrActionSet)
    (set : MockActionSet)
    (hget : rt.actionSets[(actionSet + (2 ^ 64 - 1)) % 2 ^ 64]? = some set)
    (hhandle : set.actionSet = actionSet) :
    rt.GetMockActionSet actionSet = some ((actionSet + (2 ^ 64 - 1)) % 2 ^ 64, set) := by
  unfold GetMockActionSet
  simp only [hget, hhandle, ne_eq, not_true_eq_false, if_false]

/-- The index at which `GetMockActionSet` finds a set is the index of the
handle. -/
theorem GetMockActionSet_index (rt : MockRuntime) (actionSet : XrActionSet) (si : Nat)
    (set : MockActionSet) (h : rt.GetMockActionSet actionSet = some (si, set)) :
    si = (actionSet + (2 ^ 64 - 1)) % 2 ^ 64 := by
  unfold GetMockActionSet at h
  simp only at h
  split at h
  · simp at h
  · split_ifs at h
    simp only [Option.some.injEq, Prod.mk.injEq] at h
    exact h.1.symm

/-- The entry of `setFlags` at an index, read back as a set. -/
theorem setFlags_getElem (rt : MockRuntime) (i : Nat) (ident : XrActionSet × CString × CString)
    (flag : Bool) (h : rt.setFlags[i]? = some (ident, flag)) :
    ∃ set, rt.actionSets[i]? = some set ∧ set.ident = ident ∧ set.attached = flag := by
  unfold setFlags at h
  rw [List.getElem?_map] at h
  cases hget : rt.actionSets[i]? with
  | none => rw [hget] at h; simp at h
  | some set =>
    rw [hget] at h
    simp only [Option.map_some', Option.some.injEq, Prod.mk.injEq] at h
    exact ⟨set, rfl, h.1, h.2⟩

/-- When the loop of `AttachSessionActionSets` succeeds, every handle it was
given names an attached set afterwards. -/
theorem AttachSessionActionSets_loop_attached (handles : List XrActionSet) :
    ∀ rt rt1 : MockRuntime,
      AttachSessionActionSets.loop handles rt = (XR_SUCCESS, rt1) →
      ∀ handle ∈ handles, ∃ found, rt1.GetMockActionSet handle = some found ∧
        found.2.attached = true := by
  induction handles with
  | nil => intro rt rt1 _ handle hmem; simp at hmem
  | cons first more ih =>
    intro rt rt1 h handle hmem
    rw [AttachSessionActionSets.loop] at h
    split at h
    · simp at h
    · next si set hset =>
      rcases List.mem_cons.mp hmem with heq | hmore
      · subst heq
        obtain ⟨hget, hhandle⟩ := GetMockActionSet_some rt handle si set hset
        have hidx := GetMockActionSet_index rt handle si set hset
        have hlt : si < rt.actionSets.length := by
          rcases Nat.lt_or_ge si rt.actionSets.length with h | h
          · exact h
          · rw [List.getElem?_eq_none h] at hget; simp at hget
        have hflag : ({ rt with
            actionSets := rt.actionSets.set si { set with attached := true } } :
              MockRuntime).setFlags[si]? = some (set.ident, true) := by
          unfold setFlags
          simp [List.getElem?_map, List.getElem?_set, hlt]
          rfl
        have hkept := (AttachSessionActionSets_loop_setFlags more
          { rt with actionSets := rt.actionSets.set si { set with attached := true } }).2
            si set.ident true hflag
        rw [h] at hkept
        have hkept1 : rt1.setFlags[si]? = some (set.ident, true) := by
          rcases hkept with h1 | h1 <;> exact h1
        obtain ⟨set1, hget1, hident1, hatt1⟩ := setFlags_getElem rt1 si _ _ hkept1
        have hh1 : set1.actionSet = handle := by
          have := congrArg Prod.fst hident1
          simp only [MockActionSet.ident] at this
          rw [this, hhandle]
        rw [hidx] at hget1
        exact ⟨_, GetMockActionSet_of_getElem rt1 handle set1 hget1 hh1, hatt1⟩
      · exact ih _ rt1 h handle hmore

/-- When `AttachSessionActionSets` returns an error, the session-wide attached
flag and every member of the runtime other than the action sets are as they
were, every set is at its place with its flag as it was or set, and no flag is
cleared. When the error is other than handle-invalid the runtime is as it
was. When it is handle-invalid, the sets named before the first handle that
names no set are attached. -/
theorem AttachSessionActionSets_error_flags (rt : MockRuntime)
    (attachInfo : Option XrSessionActionSetsAttachInfo)
    (hError : (rt.AttachSessionActionSets attachInfo).1 ≠ XR_SUCCESS) :
    (rt.AttachSessionActionSets attachInfo).2 =
      { rt with actionSets := (rt.AttachSessionActionSets attachInfo).2.actionSets } ∧
    ((rt.AttachSessionActionSets attachInfo).1 ≠ XR_ERROR_HANDLE_INVALID →
      (rt.AttachSessionActionSets attachInfo).2 = rt) ∧
    ((rt.AttachSessionActionSets attachInfo).2.setFlags.length = rt.setFlags.length ∧
      ∀ (i : Nat) (ident : XrActionSet × CString × CString) (flag : Bool),
        rt.setFlags[i]? = some (ident, flag) →
        (rt.AttachSessionActionSets attachInfo).2.setFlags[i]? = some (ident, flag) ∨
          (rt.AttachSessionActionSets attachInfo).2.setFlags[i]? = some (ident, true)) ∧
    ((rt.AttachSessionActionSets attachInfo).1 = XR_ERROR_HANDLE_INVALID →
      ∃ (info : XrSessionActionSetsAttachInfo) (handles done : List XrActionSet)
        (unknown : XrActionSet) (rest : List XrActionSet),
        attachInfo = some info ∧ info.actionSets = some handles ∧
        handles.take info.countActionSets = done ++ unknown :: rest ∧
        (rt.AttachSessionActionSets attachInfo).2.GetMockActionSet unknown = none ∧
        ∀ handle ∈ done, ∃ found,
          (rt.AttachSessionActionSets attachInfo).2.GetMockActionSet handle = some found ∧
            found.2.attached = true) := by
  have hsame : (rt = { rt with actionSets := rt.actionSets }) ∧ (True → rt = rt) ∧
      (rt.setFlags.length = rt.setFlags.length ∧
        ∀ (i : Nat) (ident : XrActionSet × CString × CString) (flag : Bool),
          rt.setFlags[i]? = some (ident, flag) →
          rt.setFlags[i]? = some (ident, flag) ∨ rt.setFlags[i]? = some (ident, true)) :=
    ⟨rfl, fun _ => rfl, rfl, fun _ _ _ h => Or.inl h⟩
  unfold AttachSessionActionSets at hError ⊢
  cases attachInfo with
  | none => exact ⟨rfl, fun _ => rfl, hsame.2.2, fun h => by simp at h⟩
  | some info =>
    simp only at hError ⊢
    by_cases hty : info.type ≠ XR_TYPE_SESSION_ACTION_SETS_ATTACH_INFO
    · rw [if_pos hty]
      exact ⟨rfl, fun _ => rfl, hsame.2.2, fun h => by simp at h⟩
    · rw [if_neg hty] at hError ⊢
      cases hsets : info.actionSets with
      | none => exact ⟨rfl, fun _ => rfl, hsame.2.2, fun h => by simp at h⟩
      | some handles =>
        simp only [hsets] at hError ⊢
        by_cases hcount : info.countActionSets = 0
        · rw [if_pos hcount]
          exact ⟨rfl, fun _ => rfl, hsame.2.2, fun h => by simp at h⟩
        · rw [if_neg hcount] at hError ⊢
          by_cases hatt : rt.actionSetsAttached = true
          · rw [if_pos hatt]
            exact ⟨rfl, fun _ => rfl, hsame.2.2, fun h => by simp at h⟩
          · rw [if_neg hatt] at hError ⊢
            by_cases hloop :
                (AttachSessionActionSets.loop (handles.take info.countActionSets) rt).1 ≠
                  XR_SUCCESS
            · rw [if_pos hloop]
              have hinv := (AttachSessionActionSets_loop_result
                (handles.take info.countActionSets) rt).resolve_left hloop
              refine ⟨AttachSessionActionSets_loop_frame _ rt, fun hne => absurd hinv hne,
                AttachSessionActionSets_loop_setFlags _ rt, fun _ => ?_⟩
              have hpair : AttachSessionActionSets.loop (handles.take info.countActionSets) rt =
                  (XR_ERROR_HANDLE_INVALID,
                    (AttachSessionActionSets.loop (handles.take info.countActionSets) rt).2) := by
                rw [← hinv]
              obtain ⟨done, unknown, rest, hsplit, hdone, hunknown⟩ :=
                AttachSessionActionSets_loop_failure _ rt _ hpair
              exact ⟨info, handles, done, unknown, rest, rfl, hsets, hsplit, hunknown,
                AttachSessionActionSets_loop_attached done rt _ hdone⟩
            · rw [if_neg hloop] at hError
              exact absurd rfl hError

/-- The call `CreateActionSet` leaves the sets as they were or puts one
unattached set behind them. -/
theorem CreateActionSet_setFlags (rt : MockRuntime) (createInfo : XrActionSetCreateInfo) :
    (rt.CreateActionSet createInfo).2.2.setFlags = rt.setFlags ∨
      ∃ ident, (rt.CreateActionSet createInfo).2.2.setFlags = rt.setFlags ++ [(ident, false)] := by
  unfold CreateActionSet
  repeat' (first | split | dsimp only)
  all_goals
    first
    | exact Or.inl rfl
    | (right
       refine ⟨(rt.actionSets.length + 1, createInfo.actionSetName,
         createInfo.localizedActionSetName), ?_⟩
       unfold setFlags
       simp only [List.map_append, List.map_cons, List.map_nil]
       rfl)

/-- The scan of `DestroyActionSet` finds an index of the collection. -/
theorem DestroyActionSet_setFlags (rt : MockRuntime) (actionSet : XrActionSet) :
    (rt.DestroyActionSet actionSet).2.setFlags = rt.setFlags ∨
      ∃ i, (rt.DestroyActionSet actionSet).2.setFlags = rt.setFlags.eraseIdx i := by
  unfold DestroyActionSet
  split
  · next i _ =>
    right
    refine ⟨i, ?_⟩
    unfold setFlags
    simp only
    apply List.ext_getElem?
    intro j
    simp only [List.getElem?_map, List.getElem?_eraseIdx]
    split <;> simp [List.getElem?_map]
  · exact Or.inl rfl

theorem ConformanceAutomation_GetInputState_actionSets (rt : MockRuntime)
    (s_ext : Option ConformanceStates) (binding : Nat) :
    (rt.ConformanceAutomation_GetInputState s_ext binding).actionSets = rt.actionSets := by
  unfold ConformanceAutomation_GetInputState
  repeat' (first | split | dsimp only)

theorem SyncActions_refresh_actionSets (s_ext : Option ConformanceStates) (subactionPath : XrPath)
    (actions : List MockAction) (rt : MockRuntime) :
    (SyncActions.refresh s_ext subactionPath actions rt).actionSets = rt.actionSets := by
  unfold SyncActions.refresh
  apply foldl_keeps (fun rt => rt.actionSets)
  intro rt1 mockAction
  apply foldl_keeps (fun rt => rt.actionSets)
  intro rt2 binding
  dsimp only
  split
  · rfl
  · exact ConformanceAutomation_GetInputState_actionSets _ _ _

theorem SyncActions_loop_actionSets (s_ext : Option ConformanceStates)
    (active : List XrActiveActionSet) :
    ∀ rt : MockRuntime, (SyncActions.loop s_ext active rt).2.actionSets = rt.actionSets := by
  induction active with
  | nil => intro rt; rfl
  | cons a more ih =>
    intro rt
    rw [SyncActions.loop]
    split
    · rfl
    · split
      · rfl
      · rw [ih]
        split
        · exact SyncActions_refresh_actionSets _ _ _ _
        · rfl

theorem SyncActions_actionSets (rt : MockRuntime) (s_ext : Option ConformanceStates)
    (syncInfo : Option XrActionsSyncInfo) :
    (rt.SyncActions s_ext syncInfo).2.actionSets = rt.actionSets := by
  unfold SyncActions
  repeat' (first | split | dsimp only)
  all_goals first | rfl | exact SyncActions_loop_actionSets _ _ _

/-- The call `AttachSessionActionSets` keeps every set at its place, with its
handle and names, and with its flag as it was or set. -/
theorem AttachSessionActionSets_setFlags (rt : MockRuntime)
    (attachInfo : Option XrSessionActionSetsAttachInfo) :
    (rt.AttachSessionActionSets attachInfo).2.setFlags.length = rt.setFlags.length ∧
    ∀ (i : Nat) (ident : XrActionSet × CString × CString) (flag : Bool),
      rt.setFlags[i]? = some (ident, flag) →
      (rt.AttachSessionActionSets attachInfo).2.setFlags[i]? = some (ident, flag) ∨
        (rt.AttachSessionActionSets attachInfo).2.setFlags[i]? = some (ident, true) := by
  unfold AttachSessionActionSets
  repeat' (first | split | dsimp only)
  all_goals
    first
    | exact ⟨rfl, fun _ _ _ h => Or.inl h⟩
    | exact AttachSessionActionSets_loop_setFlags _ rt

/-- What a call does to the action sets of the runtime: a call other than
`CreateActionSet`, `DestroyActionSet` and `AttachSessionActionSets` leaves
every set at its place with its flag; `CreateActionSet` may put an unattached
set behind them; `DestroyActionSet` may erase one of them; and
`AttachSessionActionSets` keeps every set at its place, with its flag as it
was or set. -/
theorem RuntimeCall_run_setFlags (rt : MockRuntime) (call : RuntimeCall) :
    (call.run rt).setFlags = rt.setFlags ∨
    (∃ ident, (call.run rt).setFlags = rt.setFlags ++ [(ident, false)]) ∨
    (∃ i, (call.run rt).setFlags = rt.setFlags.eraseIdx i) ∨
    (call.isAttachSessionActionSets = true ∧
      (call.run rt).setFlags.length = rt.setFlags.length ∧
      ∀ (i : Nat) (ident : XrActionSet × CString × CString) (flag : Bool),
        rt.setFlags[i]? = some (ident, flag) →
        (call.run rt).setFlags[i]? = some (ident, flag) ∨
          (call.run rt).setFlags[i]? = some (ident, true)) := by
  have sess : ∀ rt1 : MockRuntime, rt1.outsideSession = rt.outsideSession →
      rt1.setFlags = rt.setFlags := by
    intro rt1 h1
    have := congrArg MockRuntime.setFlags h1
    exact this
  have sets : ∀ rt1 : MockRuntime, rt1.actionSets = rt.actionSets →
      rt1.setFlags = rt.setFlags := by
    intro rt1 h1
    unfold setFlags
    rw [h1]
  cases call with
  | CreateActionSet ci =>
    rcases CreateActionSet_setFlags rt ci with h | h
    · exact Or.inl h
    · exact Or.inr (Or.inl h)
  | DestroyActionSet a =>
    rcases DestroyActionSet_setFlags rt a with h | h
    · exact Or.inl h
    · exact Or.inr (Or.inr (Or.inl h))
  | AttachSessionActionSets ai =>
    exact Or.inr (Or.inr (Or.inr ⟨rfl, AttachSessionActionSets_setFlags rt ai⟩))
  | SetSpacePose pose flags => exact Or.inl rfl
  | StringToPath s =>
    exact Or.inl (sets _ (by rw [RuntimeCall.run, StringToPath_frame]))
  | AppendPath p a => exact Or.inl (sets _ (AppendPath_actionSets rt p a))
  | CreateAction a ci => exact Or.inl (CreateAction_setFlags rt a ci)
  | DestroyAction a => exact Or.inl (DestroyAction_setFlags rt a)
  | SuggestInteractionProfileBindings sb =>
    exact Or.inl (SuggestInteractionProfileBindings_setFlags rt sb)
  | SyncActions e si => exact Or.inl (sets _ (SyncActions_actionSets rt e si))
  | CreateSession => exact Or.inl (sess _ (CreateSession_outsideSession rt))
  | BeginSession m => exact Or.inl (sess _ (BeginSession_outsideSession rt m))
  | EndSession => exact Or.inl (sess _ (EndSession_outsideSession rt))
  | DestroySession =>
    left
    simp only [RuntimeCall.run, DestroySession]
    split <;> rfl
  | GetNextEvent e =>
    left
    simp only [RuntimeCall.run, GetNextEvent]
    repeat' (first | split | dsimp only)
    all_goals rfl
  | ChangeSessionState st => exact Or.inl (sess _ (ChangeSessionState_outsideSession rt st))
  | ChangeSessionStateFrom a b =>
    exact Or.inl (sess _ (ChangeSessionStateFrom_outsideSession rt a b))
  | RequestExitSession => exact Or.inl (sess _ (RequestExitSession_outsideSession rt))
  | CreateReferenceSpace ci =>
    left
    simp only [RuntimeCall.run, CreateReferenceSpace]
    repeat' (first | split | dsimp only)
    all_goals rfl
  | CreateActionSpace ci sp =>
    left
    simp only [RuntimeCall.run, CreateActionSpace]
    repeat' (first | split | dsimp only)
    all_goals rfl
  | SetViewPose i p f fl =>
    left
    simp only [RuntimeCall.run, SetViewPose]
    repeat' (first | split | dsimp only)
    all_goals rfl
  | SetMockBlendMode b => exact Or.inl rfl
  | SetExtentsForReferenceSpace r e => exact Or.inl rfl
  | CauseInstanceLoss t => exact Or.inl rfl
  | VisibilityMaskChangedKHR v i => exact Or.inl rfl
  | EndFrame l m =>
    left
    simp only [RuntimeCall.run, EndFrame]
    repeat' (first | split | dsimp only)
    all_goals rfl
  | RegisterEndFrameCallback c => exact Or.inl rfl
  | SetExpectedResultForFunction f r => exact Or.inl rfl
  | GetExpectedResultForFunction f =>
    left
    simp only [RuntimeCall.run, GetExpectedResultForFunction]
    split <;> rfl

/-- The loop over the suggested bindings ends with success, handle-invalid or
path-unsupported. -/
theorem SuggestInteractionProfileBindings_loop_result (mockProfile : MockInteractionProfile)
    (bindingArray : List XrActionSuggestedBinding) :
    ∀ rt : MockRuntime,
      (SuggestInteractionProfileBindings.loop mockProfile bindingArray rt).1 = XR_SUCCESS ∨
      (SuggestInteractionProfileBindings.loop mockProfile bindingArray rt).1 =
        XR_ERROR_HANDLE_INVALID ∨
      (SuggestInteractionProfileBindings.loop mockProfile bindingArray rt).1 =
        XR_ERROR_PATH_UNSUPPORTED := by
  induction bindingArray with
  | nil => intro rt; left; rfl
  | cons sb more ih =>
    intro rt
    rw [SuggestInteractionProfileBindings.loop]
    split
    · right; left; rfl
    · split_ifs
      · right; right; rfl
      · simp only
        split
        · right; right; rfl
        · exact ih _

/-- The loop over the suggested bindings, whatever its result, leaves the
active profile as it was and every action with its former bindings in front
of those it has got. -/
theorem SuggestInteractionProfileBindings_loop_appends (mockProfile : MockInteractionProfile)
    (bindingArray : List XrActionSuggestedBinding) :
    ∀ rt : MockRuntime,
      (SuggestInteractionProfileBindings.loop mockProfile bindingArray rt).2.activeInteractionProfile =
        rt.activeInteractionProfile ∧
      ∀ (si ai : Nat) (before : List Nat), rt.actionBindings si ai = some before →
        ∃ appended,
          (SuggestInteractionProfileBindings.loop mockProfile bindingArray rt).2.actionBindings
            si ai = some (before ++ appended) := by
  induction bindingArray with
  | nil =>
    intro rt
    exact ⟨rfl, fun si ai before hb => ⟨[], by simpa using hb⟩⟩
  | cons sb more ih =>
    intro rt
    rw [SuggestInteractionProfileBindings.loop]
    cases hact : rt.GetMockAction sb.action with
    | none => exact ⟨rfl, fun si ai before hb => ⟨[], by simpa using hb⟩⟩
    | some triple =>
      obtain ⟨sj, aj, mockAction⟩ := triple
      simp only
      obtain ⟨hst, hsets, hprofs, hactive⟩ := GetMockInputState_frame rt mockProfile
        sb.binding mockAction.type true
      have hkeep : ∀ si ai, (rt.GetMockInputState mockProfile sb.binding
          mockAction.type true).2.actionBindings si ai = rt.actionBindings si ai := by
        intro si ai
        unfold actionBindings
        rw [hsets]
      split_ifs with hu
      · exact ⟨rfl, fun si ai before hb => ⟨[], by simpa using hb⟩⟩
      · cases hfound : (rt.GetMockInputState mockProfile sb.binding mockAction.type true).1 with
        | none =>
          simp only
          exact ⟨hactive, fun si ai before hb => ⟨[], by rw [hkeep]; simpa using hb⟩⟩
        | some inputState =>
          simp only
          obtain ⟨hpst, hpprofs, hpactive⟩ := pushBinding_frame
            (rt.GetMockInputState mockProfile sb.binding mockAction.type true).2
            sj aj inputState
          obtain ⟨h1, h2⟩ := ih
            ((rt.GetMockInputState mockProfile sb.binding mockAction.type true).2.pushBinding
              sj aj inputState)
          have hbind := GetMockAction_actionBindings rt _ _ _ _ hact
          have hbind2 : (rt.GetMockInputState mockProfile sb.binding
              mockAction.type true).2.actionBindings sj aj = some mockAction.bindings := by
            rw [hkeep]; exact hbind
          refine ⟨by rw [h1, hpactive, hactive], ?_⟩
          intro si ai before hb
          have hpush := pushBinding_actionBindings _ sj aj inputState _ hbind2 si ai
          by_cases hij : si = sj ∧ ai = aj
          · obtain ⟨rfl, rfl⟩ := hij
            rw [if_pos ⟨rfl, rfl⟩] at hpush
            rw [hbind] at hb
            simp only [Option.some.injEq] at hb
            subst hb
            obtain ⟨appended, happ⟩ := h2 si ai _ hpush
            exact ⟨[inputState] ++ appended, by rw [happ, List.append_assoc]⟩
          · rw [if_neg hij, hkeep, hb] at hpush
            exact h2 si ai before hpush

/-- C26, amended: in every runtime state in which the session-wide attached
flag is set, a well-formed `SuggestInteractionProfileBindings` call returns
actionsets-already-attached and leaves the runtime, and so the bindings of
every action, as it was. -/
theorem SuggestInteractionProfileBindings_attached (rt : MockRuntime)
    (suggested : XrInteractionProfileSuggestedBinding)
    (bindingArray : List XrActionSuggestedBinding)
    (hType : suggested.type = XR_TYPE_INTERACTION_PROFILE_SUGGESTED_BINDING)
    (hCount : suggested.countSuggestedBindings ≠ 0)
    (hArray : suggested.suggestedBindings = some bindingArray)
    (hAttached : rt.actionSetsAttached = true) :
    rt.SuggestInteractionProfileBindings (some suggested) =
      (XR_ERROR_ACTIONSETS_ALREADY_ATTACHED, rt) := by
  unfold SuggestInteractionProfileBindings
  simp [hType, hCount, hArray, hAttached]

/-- When `SuggestInteractionProfileBindings` returns validation-failure or
actionsets-already-attached, or names a profile the runtime does not know,
the runtime is as it was. Whatever the call returns, a profile that was active
before the call is the active one after it, and every action has its former
bindings in front of those the call has appended. -/
theorem SuggestInteractionProfileBindings_error_frame (rt : MockRuntime)
    (arg : Option XrInteractionProfileSuggestedBinding)
    (hError : (rt.SuggestInteractionProfileBindings arg).1 ≠ XR_SUCCESS) :
    ((rt.SuggestInteractionProfileBindings arg).1 = XR_ERROR_VALIDATION_FAILURE ∨
        (rt.SuggestInteractionProfileBindings arg).1 = XR_ERROR_ACTIONSETS_ALREADY_ATTACHED →
      (rt.SuggestInteractionProfileBindings arg).2 = rt) ∧
    (∀ suggested, arg = some suggested →
      rt.GetMockInteractionProfile suggested.interactionProfile = none →
      (rt.SuggestInteractionProfileBindings arg).2 = rt) ∧
    (rt.activeInteractionProfile ≠ none →
      (rt.SuggestInteractionProfileBindings arg).2.activeInteractionProfile =
        rt.activeInteractionProfile) ∧
    (∀ (si ai : Nat) (before : List Nat), rt.actionBindings si ai = some before →
      ∃ appended,
        (rt.SuggestInteractionProfileBindings arg).2.actionBindings si ai =
          some (before ++ appended)) := by
  have hsame : ∀ (si ai : Nat) (before : List Nat), rt.actionBindings si ai = some before →
      ∃ appended, rt.actionBindings si ai = some (before ++ appended) :=
    fun si ai before hb => ⟨[], by simpa using hb⟩
  unfold SuggestInteractionProfileBindings at hError ⊢
  cases arg with
  | none => exact ⟨fun _ => rfl, fun _ _ _ => rfl, fun _ => rfl, hsame⟩
  | some suggested =>
    simp only at hError ⊢
    by_cases hty : suggested.type ≠ XR_TYPE_INTERACTION_PROFILE_SUGGESTED_BINDING ∨
        suggested.countSuggestedBindings = 0
    · rw [if_pos hty]
      exact ⟨fun _ => rfl, fun _ _ _ => rfl, fun _ => rfl, hsame⟩
    · rw [if_neg hty] at hError ⊢
      by_cases hcount : suggested.countSuggestedBindings = 0
      · rw [if_pos hcount]
        exact ⟨fun _ => rfl, fun _ _ _ => rfl, fun _ => rfl, hsame⟩
      · rw [if_neg hcount] at hError ⊢
        cases harr : suggested.suggestedBindings with
        | none => exact ⟨fun _ => rfl, fun _ _ _ => rfl, fun _ => rfl, hsame⟩
        | some bindingArray =>
          simp only [harr] at hError ⊢
          by_cases hatt : rt.actionSetsAttached = true
          · rw [if_pos hatt]
            exact ⟨fun _ => rfl, fun _ _ _ => rfl, fun _ => rfl, hsame⟩
          · rw [if_neg hatt] at hError ⊢
            have hloopne : ∀ (prof : MockInteractionProfile) (rt1 : MockRuntime),
                ¬ ((SuggestInteractionProfileBindings.loop prof
                    (bindingArray.take suggested.countSuggestedBindings) rt1).1 =
                      XR_ERROR_VALIDATION_FAILURE ∨
                  (SuggestInteractionProfileBindings.loop prof
                    (bindingArray.take suggested.countSuggestedBindings) rt1).1 =
                      XR_ERROR_ACTIONSETS_ALREADY_ATTACHED) := by
              intro prof rt1 h
              rcases SuggestInteractionProfileBindings_loop_result prof
                (bindingArray.take suggested.countSuggestedBindings) rt1 with h1 | h1 | h1 <;>
                rcases h with h | h <;> rw [h1] at h <;> exact absurd h (by decide)
            by_cases hnone : rt.activeInteractionProfile = none
            · simp only [hnone, if_true]
              cases hprof : rt.GetMockInteractionProfile suggested.interactionProfile with
              | none =>
                have hrt : ({ rt with activeInteractionProfile := none } : MockRuntime) = rt := by
                  cases rt
                  simp only at hnone
                  subst hnone
                  rfl
                simp only [SetActiveInteractionProfile, hprof, Bool.not_false, if_true, hrt]
                exact ⟨fun _ => trivial, fun _ _ _ => trivial, fun h => absurd rfl h, hsame⟩
              | some found =>
                obtain ⟨k, prof⟩ := found
                have hprof1 : ({ rt with activeInteractionProfile := some k } :
                    MockRuntime).GetMockInteractionProfile suggested.interactionProfile =
                      some (k, prof) := hprof
                simp only [SetActiveInteractionProfile, hprof, Bool.not_true, Bool.false_eq_true,
                  if_false, hprof1]
                refine ⟨fun h => absurd h (hloopne _ _), ?_, fun h => absurd rfl h, ?_⟩
                · intro s hs hn
                  simp only [Option.some.injEq] at hs
                  subst hs
                  rw [hprof] at hn
                  simp at hn
                · intro si ai before hb
                  exact (SuggestInteractionProfileBindings_loop_appends prof _
                    { rt with activeInteractionProfile := some k }).2 si ai before hb
            · simp only [hnone, if_false, Bool.not_true, Bool.false_eq_true]
              cases hprof : rt.GetMockInteractionProfile suggested.interactionProfile with
              | none =>
                simp only
                exact ⟨fun _ => trivial, fun _ _ _ => trivial, fun _ => trivial, hsame⟩
              | some found =>
                obtain ⟨k, prof⟩ := found
                simp only
                refine ⟨fun h => absurd h (hloopne _ _), ?_, fun _ => ?_, ?_⟩
                · intro s hs hn
                  simp only [Option.some.injEq] at hs
                  subst hs
                  rw [hprof] at hn
                  simp at hn
                · exact (SuggestInteractionProfileBindings_loop_appends prof _ rt).1
                · exact (SuggestInteractionProfileBindings_loop_appends prof _ rt).2

/-- A sequence of calls without `SetSpacePose` leaves the override as it was. -/
theorem runCalls_spaceOverride (calls : List RuntimeCall) :
    ∀ rt : MockRuntime, calls.any RuntimeCall.isSetSpacePose = false →
      (runCalls rt calls).spaceOverride = rt.spaceOverride := by
  induction calls with
  | nil => intro rt _; rfl
  | cons call more ih =>
    intro rt h
    simp only [List.any_cons, Bool.or_eq_false_iff] at h
    unfold runCalls
    rw [List.foldl_cons]
    have := ih (call.run rt) h.2
    unfold runCalls at this
    rw [this, RuntimeCall_run_spaceOverride rt call h.1]

/-- C29: after `SetSpacePose pose locationFlags`, and after any sequence of
runtime operations that follows and holds no other `SetSpacePose`, every
`LocateSpace` call returns success with that pose and those flags, whatever
the space handle. -/
theorem LocateSpace_override_wins (rt : MockRuntime) (pose : XrPosef)
    (locationFlags : XrSpaceLocationFlags) (calls : List RuntimeCall)
    (space baseSpace : XrSpace) (time : Int)
    (hCalls : calls.any RuntimeCall.isSetSpacePose = false) :
    (runCalls (rt.SetSpacePose pose locationFlags) calls).LocateSpace space baseSpace time =
      (XR_SUCCESS, some pose, some locationFlags) := by
  have h : (runCalls (rt.SetSpacePose pose locationFlags) calls).spaceOverride =
      (true, pose, locationFlags) :=
    runCalls_spaceOverride calls (rt.SetSpacePose pose locationFlags) hCalls
  simp only [spaceOverride, Prod.mk.injEq] at h
  obtain ⟨h1, h2, h3⟩ := h
  unfold LocateSpace
  rw [if_pos h1, h2, h3]

/-- C30, the early return: with a non-null locate info and a view capacity of
zero `LocateViews` returns success and writes nothing, whatever the view
configuration type it is asked for, known or not. -/
theorem LocateViews_zero_capacity (rt : MockRuntime) (info : XrViewLocateInfo) :
    rt.LocateViews (some info) 0 = (XR_SUCCESS, none, none, []) := by
  simp [LocateViews]

/-- C30 for a view capacity other than zero: an unknown or disabled view
configuration is answered with view-configuration-type-unsupported; a known
and enabled one, with a capacity that holds its views, with success, the count
of the views, the pose and field of view of each, and the state flags of the
configuration, from which the two tracked bits are cleared when the
configuration is not active and only then. -/
theorem LocateViews_positive_capacity (rt : MockRuntime) (info : XrViewLocateInfo)
    (viewCapacityInput : Nat) (hCapacity : viewCapacityInput ≠ 0) :
    (rt.GetMockViewConfiguration info.viewConfigurationType = none →
      rt.LocateViews (some info) viewCapacityInput =
        (XR_ERROR_VIEW_CONFIGURATION_TYPE_UNSUPPORTED, none, none, [])) ∧
    (∀ config, rt.GetMockViewConfiguration info.viewConfigurationType = some config →
      (config.enabled = false →
        rt.LocateViews (some info) viewCapacityInput =
          (XR_ERROR_VIEW_CONFIGURATION_TYPE_UNSUPPORTED, none, none, [])) ∧
      (config.enabled = true → config.views.length < 2 ^ 32 →
        config.views.length ≤ viewCapacityInput →
        rt.LocateViews (some info) viewCapacityInput =
          (XR_SUCCESS, some config.views.length,
            some (if config.active = true then config.stateFlags
              else config.stateFlags &&&
                ((2 ^ 64 - 1) ^^^
                  (XR_VIEW_STATE_ORIENTATION_TRACKED_BIT ||| XR_VIEW_STATE_POSITION_TRACKED_BIT))),
            config.views.map (fun mockView => (mockView.pose, mockView.fov))))) := by
  refine ⟨?_, ?_⟩
  · intro h
    simp [LocateViews, hCapacity, h]
  · intro config h
    refine ⟨?_, ?_⟩
    · intro he
      simp [LocateViews, hCapacity, h, he]
    · intro he hlen hcap
      have hmod : config.views.length % 4294967296 = config.views.length :=
        Nat.mod_eq_of_lt hlen
      have hnot : ¬ viewCapacityInput < config.views.length := Nat.not_lt.mpr hcap
      cases ha : config.active <;>
        simp [LocateViews, hCapacity, h, he, hmod, hnot, ha]

/-- C24: on a runtime with no action sets, for a valid name and two valid
localized names, `CreateActionSet` succeeds; a second `CreateActionSet` with
the same name returns name-duplicated and leaves the runtime as it was; and
after `DestroyActionSet` of the first set `CreateActionSet` with that name
succeeds, leaving the one set of that name. -/
theorem CreateActionSet_name_unique (rt : MockRuntime) (n l1 l2 : CString)
    (hEmpty : rt.actionSets = [])
    (hName : n ≠ [] ∧ n.length < XR_MAX_ACTION_SET_NAME_SIZE ∧ ValidateName n = XR_SUCCESS)
    (hLocalized1 : l1 ≠ [] ∧ l1.length < XR_MAX_LOCALIZED_ACTION_SET_NAME_SIZE)
    (hLocalized2 : l2 ≠ [] ∧ l2.length < XR_MAX_LOCALIZED_ACTION_SET_NAME_SIZE) :
    ∃ (first second : XrActionSet) (rt1 rt2 rt3 : MockRuntime),
      rt.CreateActionSet { actionSetName := n, localizedActionSetName := l1 } =
        (XR_SUCCESS, some first, rt1) ∧
      rt1.CreateActionSet { actionSetName := n, localizedActionSetName := l2 } =
        (XR_ERROR_NAME_DUPLICATED, none, rt1) ∧
      rt1.DestroyActionSet first = (XR_SUCCESS, rt2) ∧
      rt2.CreateActionSet { actionSetName := n, localizedActionSetName := l2 } =
        (XR_SUCCESS, some second, rt3) ∧
      rt3.actionSets.map (fun s => (s.name, s.localizedName)) = [(n, l2)] := by
  obtain ⟨hn1, hn2, hn3⟩ := hName
  obtain ⟨h11, h12⟩ := hLocalized1
  obtain ⟨h21, h22⟩ := hLocalized2
  have hn2' : ¬ n.length ≥ XR_MAX_ACTION_SET_NAME_SIZE := Nat.not_le.mpr hn2
  have h12' : ¬ l1.length ≥ XR_MAX_LOCALIZED_ACTION_SET_NAME_SIZE := Nat.not_le.mpr h12
  have h22' : ¬ l2.length ≥ XR_MAX_LOCALIZED_ACTION_SET_NAME_SIZE := Nat.not_le.mpr h22
  refine ⟨1, 1,
    { rt with
      actionSets :=
        [{ actionSet := 1, isDestroyed := false, attached := false, name := n,
           localizedName := l1, actions := [] }] },
    { rt with actionSets := [] },
    { rt with
      actionSets :=
        [{ actionSet := 1, isDestroyed := false, attached := false, name := n,
           localizedName := l2, actions := [] }] }, ?_, ?_, ?_, ?_, ?_⟩
  · simp [CreateActionSet, CreateActionSet.loop, hn1, h11, hn2', h12', hn3, hEmpty]
  · simp [CreateActionSet, CreateActionSet.loop, hn1, h21, hn2', h22', hn3]
  · simp [DestroyActionSet, DestroyActionSet.scan]
  · simp [CreateActionSet, CreateActionSet.loop, hn1, h21, hn2', h22', hn3]
  · simp

/-- Witness of `CreateActionSet_name_unique`, on the runtime the constructor
leaves behind, with the name "gameplay". -/
theorem CreateActionSet_name_unique_witness :
    ∃ (first second : XrActionSet) (rt1 rt2 rt3 : MockRuntime),
      MockRuntime.ctor.CreateActionSet
          { actionSetName := "gameplay".toList, localizedActionSetName := "Gameplay".toList } =
        (XR_SUCCESS, some first, rt1) ∧
      rt1.CreateActionSet
          { actionSetName := "gameplay".toList, localizedActionSetName := "Game play".toList } =
        (XR_ERROR_NAME_DUPLICATED, none, rt1) ∧
      rt1.DestroyActionSet first = (XR_SUCCESS, rt2) ∧
      rt2.CreateActionSet
          { actionSetName := "gameplay".toList, localizedActionSetName := "Game play".toList } =
        (XR_SUCCESS, some second, rt3) ∧
      rt3.actionSets.map (fun s => (s.name, s.localizedName)) =
        [("gameplay".toList, "Game play".toList)] :=
  CreateActionSet_name_unique MockRuntime.ctor "gameplay".toList "Gameplay".toList
    "Game play".toList rfl (by decide) (by decide) (by decide)

/-- C25: `CreateAction` on a set whose attached flag is set returns
actionsets-already-attached, whatever the create info, and leaves the runtime,
and so the action collection of the set, as it was; and no call clears the
attached flag of a set: after every call either one set is erased and the
others stand in their order with their flags, or every set that was attached
stands at its place and is attached. -/
theorem attached_set_accepts_no_action :
    (∀ (rt : MockRuntime) (actionSet : XrActionSet) (createInfo : XrActionCreateInfo)
        (found : Nat × MockActionSet),
      rt.GetMockActionSet actionSet = some found → found.2.attached = true →
      rt.CreateAction actionSet createInfo = (XR_ERROR_ACTIONSETS_ALREADY_ATTACHED, none, rt)) ∧
    (∀ (rt : MockRuntime) (call : RuntimeCall),
      (∃ i, (call.run rt).setFlags = rt.setFlags.eraseIdx i) ∨
      (∀ (i : Nat) (ident : XrActionSet × CString × CString),
        rt.setFlags[i]? = some (ident, true) → (call.run rt).setFlags[i]? = some (ident, true))) := by
  constructor
  · intro rt actionSet createInfo found hfound hattached
    obtain ⟨si, set⟩ := found
    unfold CreateAction
    rw [hfound]
    simp only
    have hcheck : CreateAction.check createInfo set =
        .error XR_ERROR_ACTIONSETS_ALREADY_ATTACHED := by
      unfold CreateAction.check
      rw [if_pos hattached]
    rw [hcheck]
  · intro rt call
    rcases RuntimeCall_run_setFlags rt call with h | ⟨ident, h⟩ | h | ⟨_, _, h⟩
    · right
      intro i ident hi
      rw [h]; exact hi
    · right
      intro i ident0 hi
      rw [h]
      have hlt : i < rt.setFlags.length := by
        rcases Nat.lt_or_ge i rt.setFlags.length with h | h
        · exact h
        · rw [List.getElem?_eq_none h] at hi; simp at hi
      rw [List.getElem?_append_left hlt]
      exact hi
    · exact Or.inl h
    · right
      intro i ident hi
      rcases h i ident true hi with h1 | h1 <;> exact h1

/-- A sequence of calls without `AttachSessionActionSets` on a runtime in
which no set is attached leaves no set attached. -/
theorem runCalls_never_attached (calls : List RuntimeCall) :
    ∀ rt : MockRuntime, calls.any RuntimeCall.isAttachSessionActionSets = false →
      (∀ entry ∈ rt.setFlags, entry.2 = false) →
      ∀ entry ∈ (runCalls rt calls).setFlags, entry.2 = false := by
  induction calls with
  | nil => intro rt _ h; exact h
  | cons call more ih =>
    intro rt hcalls h
    simp only [List.any_cons, Bool.or_eq_false_iff] at hcalls
    have hstep : ∀ entry ∈ (call.run rt).setFlags, entry.2 = false := by
      rcases RuntimeCall_run_setFlags rt call with h1 | ⟨ident, h1⟩ | ⟨i, h1⟩ | ⟨h1, _⟩
      · rw [h1]; exact h
      · rw [h1]
        intro entry hmem
        rcases List.mem_append.mp hmem with hm | hm
        · exact h entry hm
        · simp only [List.mem_singleton] at hm
          rw [hm]
      · rw [h1]
        intro entry hmem
        exact h entry (List.mem_of_mem_eraseIdx hmem)
      · rw [hcalls.1] at h1
        exact absurd h1 (by decide)
    exact ih (call.run rt) hcalls.2 hstep

/-- C27, amended: on a runtime that was constructed without action sets and on
which `AttachSessionActionSets` has never been called, whatever else was
called and whatever the session state, a well-formed `SyncActions` call whose
first entry names an existing action set returns actionset-not-attached and
leaves the runtime as it was. -/
theorem SyncActions_before_attach (rt0 : MockRuntime) (calls : List RuntimeCall)
    (s_ext : Option ConformanceStates) (info : XrActionsSyncInfo)
    (first : XrActiveActionSet) (more : List XrActiveActionSet)
    (hFresh : rt0.actionSets = [])
    (hCalls : calls.any RuntimeCall.isAttachSessionActionSets = false)
    (hType : info.type = XR_TYPE_ACTIONS_SYNC_INFO)
    (hCount : info.countActiveActionSets ≠ 0)
    (hSets : info.activeActionSets = some (first :: more))
    (hFirst : ((runCalls rt0 calls).GetMockActionSet first.actionSet).isSome = true) :
    (runCalls rt0 calls).SyncActions s_ext (some info) =
      (XR_ERROR_ACTIONSET_NOT_ATTACHED, runCalls rt0 calls) := by
  have hnever := runCalls_never_attached calls rt0 hCalls
    (by unfold setFlags; rw [hFresh]; intro entry hmem; simp at hmem)
  cases hget : (runCalls rt0 calls).GetMockActionSet first.actionSet with
  | none => rw [hget] at hFirst; simp at hFirst
  | some found =>
    obtain ⟨si, set⟩ := found
    have hmem := (GetMockActionSet_some _ _ _ _ hget).1
    have hflag : set.attached = false := by
      have : (set.ident, set.attached) ∈ (runCalls rt0 calls).setFlags := by
        unfold setFlags
        exact List.mem_map.mpr ⟨set, List.getElem?_mem hmem, rfl⟩
      exact hnever _ this
    obtain ⟨k, hk⟩ : ∃ k, info.countActiveActionSets = k + 1 :=
      Nat.exists_eq_succ_of_ne_zero hCount
    unfold SyncActions
    simp only [hType, ne_eq, not_true_eq_false, if_false, hSets, Option.getD_some, hk,
      List.take_succ_cons, SyncActions.loop, hget, hflag, Bool.not_false, if_true]
    simp

/-- The evaluation of the call with `brokenBindings` on the constructed
runtime: the second suggested binding names no action, the call returns
handle-invalid, and yet "fire" has got the binding of the first suggestion,
state 12, and the profile the call names, profile 1, has become the active
one. -/
theorem brokenSuggestion_eval :
    brokenSuggestion.1 = XR_ERROR_HANDLE_INVALID ∧
    motionControllerPath.2.actionBindings 0 0 = some [] ∧
    brokenSuggestion.2.actionBindings 0 0 = some [12] ∧
    motionControllerPath.2.activeInteractionProfile = none ∧
    brokenSuggestion.2.activeInteractionProfile = some 1 := by
  decide!

/-- The evaluation of the calls that attach the set "gameplay", destroy the
session and then suggest a binding for "fire". -/
theorem lateSuggestion_eval :
    gameplayAttached.1 = XR_SUCCESS ∧
    gameplayAttached.2.actionSetsAttached = true ∧
    sessionDestroyed.1 = XR_SUCCESS ∧
    sessionDestroyed.2.actionSetsAttached = false ∧
    sessionDestroyed.2.actionSets.map (fun s => (s.name, s.attached)) =
      [("gameplay".toList, true)] ∧
    lateSuggestion.1 = XR_SUCCESS ∧
    sessionDestroyed.2.actionBindings 0 0 = some [] ∧
    lateSuggestion.2.actionBindings 0 0 = some [12] := by
  decide!

/-- C22, as stated, fails: the call with two suggested bindings of which the
second names no action returns handle-invalid, and yet the binding list of
"fire", empty before the call, holds the source of the first suggestion after
it, and the active profile, null before the call, is the profile the call
names. -/
theorem failed_suggestion_leaves_binding :
    brokenSuggestion.1 = XR_ERROR_HANDLE_INVALID ∧
    motionControllerPath.2.actionBindings 0 0 = some [] ∧
    brokenSuggestion.2.actionBindings 0 0 = some [12] ∧
    motionControllerPath.2.activeInteractionProfile = none ∧
    brokenSuggestion.2.activeInteractionProfile = some 1 :=
  brokenSuggestion_eval

/-- C23, as stated, fails: the call that names the set "gameplay" and then a
handle of no set returns handle-invalid and leaves the session-wide flag
clear, and yet the attached flag of "gameplay", clear before the call, is set
after it. -/
theorem failed_attach_leaves_flag :
    failedAttach.1 = XR_ERROR_HANDLE_INVALID ∧
    gameplayRuntime.actionSets.map (fun s => (s.name, s.attached)) =
      [("gameplay".toList, false)] ∧
    failedAttach.2.actionSets.map (fun s => (s.name, s.attached)) =
      [("gameplay".toList, true)] ∧
    gameplayRuntime.actionSetsAttached = false ∧
    failedAttach.2.actionSetsAttached = false := by
  decide

/-- C26, as stated, fails: after the set "gameplay" was attached and the
session destroyed, the set has its attached flag and the session-wide flag is
clear; a well-formed call then returns success, not
actionsets-already-attached, and appends a binding to "fire", an action of
the attached set. -/
theorem suggestion_after_DestroySession_binds :
    gameplayAttached.1 = XR_SUCCESS ∧
    gameplayAttached.2.actionSetsAttached = true ∧
    sessionDestroyed.1 = XR_SUCCESS ∧
    sessionDestroyed.2.actionSetsAttached = false ∧
    sessionDestroyed.2.actionSets.map (fun s => (s.name, s.attached)) =
      [("gameplay".toList, true)] ∧
    lateSuggestion.1 = XR_SUCCESS ∧
    sessionDestroyed.2.actionBindings 0 0 = some [] ∧
    lateSuggestion.2.actionBindings 0 0 = some [12] :=
  lateSuggestion_eval

/-- Witness of `SuggestInteractionProfileBindings_attached`: the call with
`lateBindings` on a runtime whose session has its action sets attached. -/
theorem SuggestInteractionProfileBindings_attached_witness :
    readRuntime.SuggestInteractionProfileBindings (some lateBindings) =
      (XR_ERROR_ACTIONSETS_ALREADY_ATTACHED, readRuntime) :=
  SuggestInteractionProfileBindings_attached readRuntime lateBindings [triggerBinding]
    rfl (by decide) rfl rfl

/-- C27, as stated, fails: on a runtime on which `AttachSessionActionSets` was
never called, a well-formed `SyncActions` call that names a handle of no set
and then the existing set "gameplay" returns handle-invalid, not
actionset-not-attached. -/
theorem sync_unknown_handle_first :
    (gameplayRuntime.SyncActions none (some mixedSyncInfo)).1 = XR_ERROR_HANDLE_INVALID ∧
    mixedSyncInfo.type = XR_TYPE_ACTIONS_SYNC_INFO ∧
    (gameplayRuntime.GetMockActionSet 7).isSome = false ∧
    (gameplayRuntime.GetMockActionSet 1).isSome = true ∧
    gameplayRuntime.actionSets.map (fun s => (s.name, s.attached)) =
      [("gameplay".toList, false)] := by
  decide

/-- Witness of `SyncActions_before_attach`: after `CreateActionSet` for
"gameplay" and a forced change to the focused state, the call that names the
set 1. -/
theorem SyncActions_before_attach_witness :
    (runCalls MockRuntime.ctor
        [RuntimeCall.CreateActionSet gameplayInfo,
          RuntimeCall.ChangeSessionState XR_SESSION_STATE_FOCUSED]).SyncActions none
        (some { type := XR_TYPE_ACTIONS_SYNC_INFO, countActiveActionSets := 1,
                activeActionSets := some [{ actionSet := 1, subactionPath := XR_NULL_PATH }] }) =
      (XR_ERROR_ACTIONSET_NOT_ATTACHED,
        runCalls MockRuntime.ctor
          [RuntimeCall.CreateActionSet gameplayInfo,
            RuntimeCall.ChangeSessionState XR_SESSION_STATE_FOCUSED]) :=
  SyncActions_before_attach MockRuntime.ctor
    [RuntimeCall.CreateActionSet gameplayInfo,
      RuntimeCall.ChangeSessionState XR_SESSION_STATE_FOCUSED]
    none
    { type := XR_TYPE_ACTIONS_SYNC_INFO, countActiveActionSets := 1,
      activeActionSets := some [{ actionSet := 1, subactionPath := XR_NULL_PATH }] }
    { actionSet := 1, subactionPath := XR_NULL_PATH } [] rfl rfl rfl (by decide) rfl
    (by decide)

/-- Witness of `EnumerateBoundSourcesForAction_buffer`: the action "squeeze"
of `readRuntime`, with three bindings, and a buffer of two paths. -/
theorem EnumerateBoundSourcesForAction_buffer_witness :
    (squeezeAction.bindings.length ≤ 2 →
      readRuntime.EnumerateBoundSourcesForAction (some squeezeEnumerateInfo) 2 true true =
        some (XR_SUCCESS, some squeezeAction.bindings.length,
          squeezeAction.bindings.map (fun b => (readRuntime.inputStateAt b).path))) ∧
    (2 < squeezeAction.bindings.length →
      readRuntime.EnumerateBoundSourcesForAction (some squeezeEnumerateInfo) 2 true true =
        some (XR_ERROR_SIZE_INSUFFICIENT, some 2,
          (squeezeAction.bindings.map (fun b => (readRuntime.inputStateAt b).path)).take 2)) :=
  EnumerateBoundSourcesForAction_buffer readRuntime squeezeEnumerateInfo 2 0 0 squeezeAction
    rfl (by decide) rfl rfl

/-- The two cases of C28 on `readRuntime`: a buffer of three paths takes the
three bound sources in binding order, and a buffer of two paths gives
size-insufficient with the count two. -/
theorem EnumerateBoundSourcesForAction_examples :
    readRuntime.EnumerateBoundSourcesForAction (some squeezeEnumerateInfo) 3 true true =
      some (XR_SUCCESS, some 3, [8589934593, 12884901889, 21474836482]) ∧
    readRuntime.EnumerateBoundSourcesForAction (some squeezeEnumerateInfo) 2 true true =
      some (XR_ERROR_SIZE_INSUFFICIENT, some 2, [8589934593, 12884901889]) :=
  ⟨rfl, rfl⟩

/-- Witness of `LocateSpace_override_wins`: the action space of "aim", whose
binding resolves to another pose, after the pose was forced and further calls
were made. -/
theorem LocateSpace_override_wins_witness :
    (runCalls (aimRuntime.SetSpacePose forcedPose 3) callsAfterOverride).LocateSpace 2 1 0 =
      (XR_SUCCESS, some forcedPose, some 3) :=
  LocateSpace_override_wins aimRuntime forcedPose 3 callsAfterOverride 2 1 0 rfl

/-- Without the override the action space of "aim" is located at the pose of
its binding and a space handle that names no space is refused; with it both
are located at the forced pose. -/
theorem LocateSpace_examples :
    aimRuntime.LocateSpace 2 1 0 = (XR_SUCCESS, some aimPose, some 15) ∧
    aimRuntime.LocateSpace 9 1 0 = (XR_ERROR_HANDLE_INVALID, none, none) ∧
    (aimRuntime.SetSpacePose forcedPose 3).LocateSpace 2 1 0 =
      (XR_SUCCESS, some forcedPose, some 3) ∧
    (aimRuntime.SetSpacePose forcedPose 3).LocateSpace 9 1 0 =
      (XR_SUCCESS, some forcedPose, some 3) ∧
    aimPose ≠ forcedPose :=
  ⟨rfl, rfl, rfl, rfl, by decide⟩

/-- C30 at a view capacity of zero: the runtime has no mono view
configuration, `LocateViews` for it with a capacity of two returns
view-configuration-type-unsupported, and with a capacity of zero it returns
success. -/
theorem LocateViews_unknown_type_zero_capacity :
    MockRuntime.ctor.GetMockViewConfiguration XR_VIEW_CONFIGURATION_TYPE_PRIMARY_MONO = none ∧
    MockRuntime.ctor.LocateViews
        (some { viewConfigurationType := XR_VIEW_CONFIGURATION_TYPE_PRIMARY_MONO }) 2 =
      (XR_ERROR_VIEW_CONFIGURATION_TYPE_UNSUPPORTED, none, none, []) ∧
    MockRuntime.ctor.LocateViews
        (some { viewConfigurationType := XR_VIEW_CONFIGURATION_TYPE_PRIMARY_MONO }) 0 =
      (XR_SUCCESS, none, none, []) :=
  ⟨rfl, rfl, rfl⟩

/-- The lookup of a key in an association list, by the first entry. -/
theorem lookup_cons_eq (k g : CString) (v : XrResult) (more : List (CString × XrResult)) :
    ((k, v) :: more).lookup g = if g = k then some v else more.lookup g := by
  rw [List.lookup_cons]
  by_cases h : g = k
  · subst h
    simp
  · have : (g == k) = false := by simpa using h
    simp [this, h]

/-- The lookup after the assignment to an existing key. -/
theorem lookup_map_assign (entries : List (CString × XrResult)) (f g : CString) (r : XrResult) :
    (entries.map (fun entry => if entry.1 = f then (entry.1, r) else entry)).lookup g =
      if g = f then (entries.lookup g).map (fun _ => r) else entries.lookup g := by
  induction entries with
  | nil => simp
  | cons entry more ih =>
    obtain ⟨k, v⟩ := entry
    rw [List.map_cons]
    by_cases hk : k = f
    · rw [if_pos hk, lookup_cons_eq, lookup_cons_eq, ih]
      dsimp only
      by_cases hg : g = f
      · have hgk : g = k := hg.trans hk.symm
        simp only [if_pos hg, if_pos hgk, Option.map_some']
      · have hgk : g ≠ k := fun e => hg (e.trans hk)
        simp only [if_neg hg, if_neg hgk]
    · rw [if_neg hk, lookup_cons_eq, lookup_cons_eq, ih]
      by_cases hg : g = f
      · have hgk : g ≠ k := fun e => hk (e.symm.trans hg)
        simp only [if_pos hg, if_neg hgk]
      · simp only [if_neg hg]

/-- The lookup after an entry was put behind the others. -/
theorem lookup_append_entry (entries : List (CString × XrResult)) (f g : CString)
    (r : XrResult) :
    (entries ++ [(f, r)]).lookup g =
      match entries.lookup g with
      | some v => some v
      | none => if g = f then some r else none := by
  induction entries with
  | nil =>
    rw [List.nil_append, lookup_cons_eq]
    rfl
  | cons entry more ih =>
    obtain ⟨k, v⟩ := entry
    rw [List.cons_append, lookup_cons_eq, lookup_cons_eq, ih]
    by_cases hg : g = k
    · rw [if_pos hg, if_pos hg]
    · rw [if_neg hg, if_neg hg]

/-- The entry that `SetExpectedResultForFunction` leaves for the name it is
given is the result it is given. -/
theorem SetExpectedResultForFunction_lookup (rt : MockRuntime) (f : CString) (r : XrResult) :
    (rt.SetExpectedResultForFunction f r).functionResultMap.lookup f = some r := by
  unfold SetExpectedResultForFunction
  dsimp only
  split
  · next h =>
    rw [lookup_map_assign, if_pos rfl]
    cases hl : rt.functionResultMap.lookup f with
    | none => rw [hl] at h; exact absurd h (by decide)
    | some v => rfl
  · next h =>
    rw [lookup_append_entry]
    cases hl : rt.functionResultMap.lookup f with
    | none => simp
    | some v => rw [hl] at h; exact absurd rfl h

/-- The entries that `SetExpectedResultForFunction` leaves for the other names
are the entries they had. -/
theorem SetExpectedResultForFunction_lookup_other (rt : MockRuntime) (f g : CString)
    (r : XrResult) (hg : g ≠ f) :
    (rt.SetExpectedResultForFunction f r).functionResultMap.lookup g =
      rt.functionResultMap.lookup g := by
  unfold SetExpectedResultForFunction
  dsimp only
  split
  · rw [lookup_map_assign, if_neg hg]
  · rw [lookup_append_entry]
    cases hl : rt.functionResultMap.lookup g with
    | none => simp [hg]
    | some v => rfl

/-- The lookup in a list from which the entries of one key were filtered. -/
theorem lookup_filter_ne (entries : List (CString × XrResult)) (f g : CString) :
    (entries.filter (fun entry => entry.1 ≠ f)).lookup g =
      if g = f then none else entries.lookup g := by
  induction entries with
  | nil => simp
  | cons entry more ih =>
    obtain ⟨k, v⟩ := entry
    by_cases hk : k = f
    · rw [List.filter_cons_of_neg (by simpa using hk), ih, lookup_cons_eq]
      by_cases hg : g = f
      · simp only [if_pos hg]
      · have hgk : g ≠ k := fun e => hg (e.trans hk)
        simp only [if_neg hg, if_neg hgk]
    · rw [List.filter_cons_of_pos (by simpa using hk), lookup_cons_eq, lookup_cons_eq, ih]
      by_cases hg : g = f
      · have hgk : g ≠ k := fun e => hk (e.symm.trans hg)
        simp only [if_pos hg, if_neg hgk]
      · simp only [if_neg hg]

/-- What `GetExpectedResultForFunction` returns and leaves: the entry of the
name, or success when there is none; the name has no entry afterwards and the
entries of the other names are the entries they had. -/
theorem GetExpectedResultForFunction_spec (rt : MockRuntime) (f : CString) :
    (rt.GetExpectedResultForFunction f).1 = (rt.functionResultMap.lookup f).getD XR_SUCCESS ∧
    (rt.functionResultMap.lookup f = none → rt.GetExpectedResultForFunction f = (XR_SUCCESS, rt)) ∧
    (rt.GetExpectedResultForFunction f).2.functionResultMap.lookup f = none ∧
    ∀ g, g ≠ f →
      (rt.GetExpectedResultForFunction f).2.functionResultMap.lookup g =
        rt.functionResultMap.lookup g := by
  unfold GetExpectedResultForFunction
  split
  · next ret h =>
    refine ⟨by simp [h], fun h2 => by simp [h2] at h, ?_, ?_⟩
    · dsimp only
      rw [lookup_filter_ne]
      simp
    · intro g hg
      dsimp only
      rw [lookup_filter_ne]
      simp [hg]
  · next h =>
    exact ⟨by simp [h], fun _ => rfl, h, fun _ _ => rfl⟩

/-- A call other than `SetExpectedResultForFunction` for a name leaves the
name without an entry when it had none. -/
theorem RuntimeCall_run_functionResultMap (rt : MockRuntime) (call : RuntimeCall)
    (f : CString) (h : call.setsExpectedResult f = false)
    (hnone : rt.functionResultMap.lookup f = none) :
    (call.run rt).functionResultMap.lookup f = none := by
  have key : ∀ rt1 : MockRuntime, rt1.outsideBindingEngine = rt.outsideBindingEngine →
      rt1.functionResultMap.lookup f = none := by
    intro rt1 h1
    have := congrArg MockRuntime.functionResultMap h1
    simp only [outsideBindingEngine] at this
    rw [this]; exact hnone
  have sess : ∀ rt1 : MockRuntime, rt1.outsideSession = rt.outsideSession →
      rt1.functionResultMap.lookup f = none := by
    intro rt1 h1
    have := congrArg MockRuntime.functionResultMap h1
    simp only [outsideSession] at this
    rw [this]; exact hnone
  cases call with
  | SetSpacePose pose flags => exact hnone
  | StringToPath s => exact key _ (StringToPath_outside rt s)
  | AppendPath p a => exact key _ (AppendPath_outside rt p a)
  | CreateActionSet ci => exact key _ (CreateActionSet_outside rt ci)
  | DestroyActionSet a => exact key _ (DestroyActionSet_outside rt a)
  | CreateAction a ci => exact key _ (CreateAction_outside rt a ci)
  | DestroyAction a => exact key _ (DestroyAction_outside rt a)
  | SuggestInteractionProfileBindings sb =>
    exact key _ (SuggestInteractionProfileBindings_outside rt sb)
  | AttachSessionActionSets ai => exact key _ (AttachSessionActionSets_outside rt ai)
  | SyncActions e si => exact key _ (SyncActions_outside rt e si)
  | CreateSession => exact sess _ (CreateSession_outsideSession rt)
  | BeginSession m => exact sess _ (BeginSession_outsideSession rt m)
  | EndSession => exact sess _ (EndSession_outsideSession rt)
  | DestroySession =>
    simp only [RuntimeCall.run, DestroySession]
    split <;> exact hnone
  | GetNextEvent e =>
    simp only [RuntimeCall.run, GetNextEvent]
    repeat' (first | split | dsimp only)
    all_goals exact hnone
  | ChangeSessionState st => exact sess _ (ChangeSessionState_outsideSession rt st)
  | ChangeSessionStateFrom a b => exact sess _ (ChangeSessionStateFrom_outsideSession rt a b)
  | RequestExitSession => exact sess _ (RequestExitSession_outsideSession rt)
  | CreateReferenceSpace ci =>
    simp only [RuntimeCall.run, CreateReferenceSpace]
    repeat' (first | split | dsimp only)
    all_goals exact hnone
  | CreateActionSpace ci sp =>
    simp only [RuntimeCall.run, CreateActionSpace]
    repeat' (first | split | dsimp only)
    all_goals exact hnone
  | SetViewPose i p fo fl =>
    simp only [RuntimeCall.run, SetViewPose]
    repeat' (first | split | dsimp only)
    all_goals exact hnone
  | SetMockBlendMode b => exact hnone
  | SetExtentsForReferenceSpace r e => exact hnone
  | CauseInstanceLoss t => exact hnone
  | VisibilityMaskChangedKHR v i => exact hnone
  | EndFrame l m =>
    simp only [RuntimeCall.run, EndFrame]
    repeat' (first | split | dsimp only)
    all_goals exact hnone
  | RegisterEndFrameCallback c => exact hnone
  | SetExpectedResultForFunction g r =>
    have hg : f ≠ g := by
      intro e; subst e
      simp [RuntimeCall.setsExpectedResult] at h
    simp only [RuntimeCall.run]
    rw [SetExpectedResultForFunction_lookup_other rt g f r hg]
    exact hnone
  | GetExpectedResultForFunction g =>
    simp only [RuntimeCall.run]
    by_cases hg : f = g
    · subst hg
      exact (GetExpectedResultForFunction_spec rt f).2.2.1
    · rw [(GetExpectedResultForFunction_spec rt g).2.2.2 f hg]
      exact hnone

theorem runCalls_functionResultMap (calls : List RuntimeCall) (f : CString) :
    ∀ rt : MockRuntime, calls.any (fun call => call.setsExpectedResult f) = false →
      rt.functionResultMap.lookup f = none →
      (runCalls rt calls).functionResultMap.lookup f = none := by
  induction calls with
  | nil => intro rt _ h; exact h
  | cons call more ih =>
    intro rt h hnone
    simp only [List.any_cons, Bool.or_eq_false_iff] at h
    unfold runCalls
    rw [List.foldl_cons]
    have := ih (call.run rt) h.2 (RuntimeCall_run_functionResultMap rt call f h.1 hnone)
    unfold runCalls at this
    exact this

/-- A call that neither sets nor gets the expected result of a name leaves
the entry of the name as it was. -/
theorem RuntimeCall_run_lookup (rt : MockRuntime) (call : RuntimeCall)
    (f : CString) (h : call.setsExpectedResult f = false)
    (hget : call.getsExpectedResult f = false) :
    (call.run rt).functionResultMap.lookup f = rt.functionResultMap.lookup f := by
  have key : ∀ rt1 : MockRuntime, rt1.outsideBindingEngine = rt.outsideBindingEngine →
      rt1.functionResultMap.lookup f = rt.functionResultMap.lookup f := by
    intro rt1 h1
    have := congrArg MockRuntime.functionResultMap h1
    simp only [outsideBindingEngine] at this
    rw [this]
  have sess : ∀ rt1 : MockRuntime, rt1.outsideSession = rt.outsideSession →
      rt1.functionResultMap.lookup f = rt.functionResultMap.lookup f := by
    intro rt1 h1
    have := congrArg MockRuntime.functionResultMap h1
    simp only [outsideSession] at this
    rw [this]
  cases call with
  | SetSpacePose pose flags => rfl
  | StringToPath s => exact key _ (StringToPath_outside rt s)
  | AppendPath p a => exact key _ (AppendPath_outside rt p a)
  | CreateActionSet ci => exact key _ (CreateActionSet_outside rt ci)
  | DestroyActionSet a => exact key _ (DestroyActionSet_outside rt a)
  | CreateAction a ci => exact key _ (CreateAction_outside rt a ci)
  | DestroyAction a => exact key _ (DestroyAction_outside rt a)
  | SuggestInteractionProfileBindings sb =>
    exact key _ (SuggestInteractionProfileBindings_outside rt sb)
  | AttachSessionActionSets ai => exact key _ (AttachSessionActionSets_outside rt ai)
  | SyncActions e si => exact key _ (SyncActions_outside rt e si)
  | CreateSession => exact sess _ (CreateSession_outsideSession rt)
  | BeginSession m => exact sess _ (BeginSession_outsideSession rt m)
  | EndSession => exact sess _ (EndSession_outsideSession rt)
  | DestroySession =>
    simp only [RuntimeCall.run, DestroySession]
    split <;> rfl
  | GetNextEvent e =>
    simp only [RuntimeCall.run, GetNextEvent]
    repeat' (first | split | dsimp only)
  | ChangeSessionState st => exact sess _ (ChangeSessionState_outsideSession rt st)
  | ChangeSessionStateFrom a b => exact sess _ (ChangeSessionStateFrom_outsideSession rt a b)
  | RequestExitSession => exact sess _ (RequestExitSession_outsideSession rt)
  | CreateReferenceSpace ci =>
    simp only [RuntimeCall.run, CreateReferenceSpace]
    repeat' (first | split | dsimp only)
  | CreateActionSpace ci sp =>
    simp only [RuntimeCall.run, CreateActionSpace]
    repeat' (first | split | dsimp only)
  | SetViewPose i p fo fl =>
    simp only [RuntimeCall.run, SetViewPose]
    repeat' (first | split | dsimp only)
  | SetMockBlendMode b => rfl
  | SetExtentsForReferenceSpace r e => rfl
  | CauseInstanceLoss t => rfl
  | VisibilityMaskChangedKHR v i => rfl
  | EndFrame l m =>
    simp only [RuntimeCall.run, EndFrame]
    repeat' (first | split | dsimp only)
  | RegisterEndFrameCallback c => rfl
  | SetExpectedResultForFunction g r =>
    have hg : f ≠ g := by
      intro e; subst e
      simp [RuntimeCall.setsExpectedResult] at h
    simp only [RuntimeCall.run]
    exact SetExpectedResultForFunction_lookup_other rt g f r hg
  | GetExpectedResultForFunction g =>
    have hg : f ≠ g := by
      intro e; subst e
      simp [RuntimeCall.getsExpectedResult] at hget
    simp only [RuntimeCall.run]
    exact (GetExpectedResultForFunction_spec rt g).2.2.2 f hg

/-- A sequence of calls that neither set nor get the expected result of a
name leaves the entry of the name as it was. -/
theorem runCalls_lookup (calls : List RuntimeCall) (f : CString) :
    ∀ rt : MockRuntime,
      calls.any (fun call => call.setsExpectedResult f || call.getsExpectedResult f) = false →
      (runCalls rt calls).functionResultMap.lookup f = rt.functionResultMap.lookup f := by
  induction calls with
  | nil => intro rt _; rfl
  | cons call more ih =>
    intro rt h
    simp only [List.any_cons, Bool.or_eq_false_iff] at h
    unfold runCalls
    rw [List.foldl_cons]
    have := ih (call.run rt) h.2
    unfold runCalls at this
    rw [this, RuntimeCall_run_lookup rt call f h.1.1 h.1.2]

/-- C31: after `SetExpectedResultForFunction f r` the next
`GetExpectedResultForFunction f` returns `r` and removes the entry, whether it
follows at once or after any sequence of runtime calls that neither set nor
get the result of `f`; after any sequence of runtime calls that follows the
get and does not set `f` again, every `GetExpectedResultForFunction f` returns
success and leaves the runtime as it is; a second set before the get
overwrites the first; and the entry of every other name, and with it what
`GetExpectedResultForFunction` returns for that name, is as it was after the
set and after the get. -/
theorem expected_result_one_shot (rt : MockRuntime) (f : CString) (r : XrResult) :
    ((rt.SetExpectedResultForFunction f r).GetExpectedResultForFunction f).1 = r ∧
    ((rt.SetExpectedResultForFunction f r).GetExpectedResultForFunction f).2.functionResultMap.lookup
        f = none ∧
    (∀ between : List RuntimeCall,
      between.any (fun call => call.setsExpectedResult f || call.getsExpectedResult f) = false →
      ((runCalls (rt.SetExpectedResultForFunction f r) between).GetExpectedResultForFunction
          f).1 = r ∧
        ((runCalls (rt.SetExpectedResultForFunction f r) between).GetExpectedResultForFunction
          f).2.functionResultMap.lookup f = none ∧
        ∀ calls : List RuntimeCall, calls.any (fun call => call.setsExpectedResult f) = false →
          (runCalls
              ((runCalls (rt.SetExpectedResultForFunction f r)
                between).GetExpectedResultForFunction f).2 calls).GetExpectedResultForFunction f =
            (XR_SUCCESS,
              runCalls
                ((runCalls (rt.SetExpectedResultForFunction f r)
                  between).GetExpectedResultForFunction f).2 calls)) ∧
    (∀ calls : List RuntimeCall, calls.any (fun call => call.setsExpectedResult f) = false →
      (runCalls ((rt.SetExpectedResultForFunction f r).GetExpectedResultForFunction f).2
          calls).GetExpectedResultForFunction f =
        (XR_SUCCESS,
          runCalls ((rt.SetExpectedResultForFunction f r).GetExpectedResultForFunction f).2
            calls)) ∧
    (∀ (between later : List RuntimeCall) (r2 : XrResult),
      later.any (fun call => call.setsExpectedResult f || call.getsExpectedResult f) = false →
      ((runCalls ((runCalls (rt.SetExpectedResultForFunction f r)
          between).SetExpectedResultForFunction f r2)
          later).GetExpectedResultForFunction f).1 = r2) ∧
    (∀ r2 : XrResult,
      (((rt.SetExpectedResultForFunction f r).SetExpectedResultForFunction f
          r2).GetExpectedResultForFunction f).1 = r2) ∧
    (∀ g : CString, g ≠ f →
      (rt.SetExpectedResultForFunction f r).functionResultMap.lookup g =
          rt.functionResultMap.lookup g ∧
        (rt.GetExpectedResultForFunction f).2.functionResultMap.lookup g =
          rt.functionResultMap.lookup g ∧
        ((rt.SetExpectedResultForFunction f r).GetExpectedResultForFunction g).1 =
          (rt.GetExpectedResultForFunction g).1 ∧
        ((rt.GetExpectedResultForFunction f).2.GetExpectedResultForFunction g).1 =
          (rt.GetExpectedResultForFunction g).1) := by
  refine ⟨?_, ?_, ?_, ?_, ?_, ?_, ?_⟩
  · rw [(GetExpectedResultForFunction_spec _ f).1, SetExpectedResultForFunction_lookup]
    rfl
  · exact (GetExpectedResultForFunction_spec _ f).2.2.1
  · intro between hbetween
    refine ⟨?_, (GetExpectedResultForFunction_spec _ f).2.2.1, ?_⟩
    · rw [(GetExpectedResultForFunction_spec _ f).1, runCalls_lookup between f _ hbetween,
        SetExpectedResultForFunction_lookup]
      rfl
    · intro calls hcalls
      exact (GetExpectedResultForFunction_spec _ f).2.1
        (runCalls_functionResultMap calls f _ hcalls
          (GetExpectedResultForFunction_spec _ f).2.2.1)
  · intro calls hcalls
    exact (GetExpectedResultForFunction_spec _ f).2.1
      (runCalls_functionResultMap calls f _ hcalls (GetExpectedResultForFunction_spec _ f).2.2.1)
  · intro between later r2 hlater
    rw [(GetExpectedResultForFunction_spec _ f).1, runCalls_lookup later f _ hlater,
      SetExpectedResultForFunction_lookup]
    rfl
  · intro r2
    rw [(GetExpectedResultForFunction_spec _ f).1, SetExpectedResultForFunction_lookup]
    rfl
  · intro g hg
    refine ⟨SetExpectedResultForFunction_lookup_other rt f g r hg,
      (GetExpectedResultForFunction_spec rt f).2.2.2 g hg, ?_, ?_⟩
    · rw [(GetExpectedResultForFunction_spec _ g).1, (GetExpectedResultForFunction_spec _ g).1,
        SetExpectedResultForFunction_lookup_other rt f g r hg]
    · rw [(GetExpectedResultForFunction_spec _ g).1, (GetExpectedResultForFunction_spec _ g).1,
        (GetExpectedResultForFunction_spec rt f).2.2.2 g hg]

/-- The null path resolves to the empty string: both halves wrap around to an
index beyond the tables. -/
theorem PathToString_null (rt : MockRuntime)
    (hUser : rt.userPathStrings.length < 2 ^ 64)
    (hComponent : rt.componentPathStrings.length < 2 ^ 64) :
    rt.PathToString XR_NULL_PATH = [] := by
  have h1 : ¬ (2 ^ 64 - 1 < rt.userPathStrings.length) := by omega
  have h2 : ¬ (2 ^ 64 - 1 < rt.componentPathStrings.length) := by omega
  have e1 : ((XR_NULL_PATH &&& 0xFFFFFFFF) + (2 ^ 64 - 1)) % 2 ^ 64 = 2 ^ 64 - 1 := by decide
  have e2 : ((XR_NULL_PATH >>> 32) + (2 ^ 64 - 1)) % 2 ^ 64 = 2 ^ 64 - 1 := by decide
  unfold PathToString
  simp only [e1, e2]
  rw [if_neg (fun h => h1 h.1), if_neg h1, if_neg h2]

/-- C33: the buffer form of `PathToString` follows the two-call convention.
For a handle that resolves to a non-empty string `s` whose length with the
terminator fits a `uint32_t`: a null buffer gives success and the count
`|s| + 1`; a buffer of a capacity below `|s| + 1` gives size-insufficient, the
count 0 and the memory as it was; a buffer of a capacity of at least
`|s| + 1` gives success and the count `|s| + 1`, and the memory holds `s`, the
terminator, and behind it what it held. The null path resolves to the empty
string and gives path-invalid with the count 0, the memory as it was. -/
theorem PathToStringBuffer_two_call (rt : MockRuntime) (path : XrPath) :
    (rt.PathToString path ≠ [] → (rt.PathToString path).length + 1 < 2 ^ 32 →
      (∀ capacity : Nat,
        rt.PathToStringBuffer path capacity none =
          (XR_SUCCESS, (rt.PathToString path).length + 1, none)) ∧
      (∀ (capacity : Nat) (memory : List Char), capacity < (rt.PathToString path).length + 1 →
        rt.PathToStringBuffer path capacity (some memory) =
          (XR_ERROR_SIZE_INSUFFICIENT, 0, some memory)) ∧
      (∀ (capacity : Nat) (memory : List Char), (rt.PathToString path).length + 1 ≤ capacity →
        capacity ≤ memory.length →
        rt.PathToStringBuffer path capacity (some memory) =
          (XR_SUCCESS, (rt.PathToString path).length + 1,
            some (rt.PathToString path ++
              Char.ofNat 0 :: memory.drop ((rt.PathToString path).length + 1))))) ∧
    (rt.userPathStrings.length < 2 ^ 64 → rt.componentPathStrings.length < 2 ^ 64 →
      rt.PathToString XR_NULL_PATH = [] ∧
      ∀ (capacity : Nat) (buffer : Option (List Char)),
        rt.PathToStringBuffer XR_NULL_PATH capacity buffer = (XR_ERROR_PATH_INVALID, 0, buffer)) := by
  constructor
  · intro hne hlen
    have hpos : (rt.PathToString path).length ≠ 0 := by
      intro h; exact hne (List.length_eq_zero.mp h)
    have hmod : ((rt.PathToString path).length + 1) % 2 ^ 32 =
        (rt.PathToString path).length + 1 := Nat.mod_eq_of_lt hlen
    have hmod2 : (rt.PathToString path).length % 2 ^ 32 = (rt.PathToString path).length :=
      Nat.mod_eq_of_lt (by omega)
    refine ⟨?_, ?_, ?_⟩
    · intro capacity
      unfold PathToStringBuffer
      simp only [if_neg hpos, hmod]
    · intro capacity memory hcap
      unfold PathToStringBuffer
      simp only [if_neg hpos]
      rw [if_pos (by omega)]
    · intro capacity memory hcap hmem
      unfold PathToStringBuffer
      simp only [if_neg hpos]
      rw [if_neg (by omega)]
      simp only [hmod2, hmod]
      congr 2
      congr 1
      have hdrop : (rt.PathToString path).length < memory.length := by omega
      rw [List.set_append_right _ _ (le_refl _), Nat.sub_self]
      congr 1
      cases hd : memory.drop (rt.PathToString path).length with
      | nil =>
        have := congrArg List.length hd
        simp at this
        omega
      | cons c rest =>
        rw [List.set_cons_zero]
        congr 1
        have : memory.drop ((rt.PathToString path).length + 1) =
            (memory.drop (rt.PathToString path).length).drop 1 := by
          rw [List.drop_drop]
        rw [this, hd]
        rfl
  · intro hu hc
    have hnull := PathToString_null rt hu hc
    refine ⟨hnull, ?_⟩
    intro capacity buffer
    unfold PathToStringBuffer
    simp only [hnull, List.length_nil, if_true]

/-- The two-call convention on the runtime that has interned
`/user/hand/left/input/select`, a string of 28 characters: the null buffer,
a buffer of five characters, a buffer of thirty, and the null path. -/
theorem PathToStringBuffer_examples :
    internedRuntime.PathToString 4294967297 = "/user/hand/left/input/select".toList ∧
    internedRuntime.PathToStringBuffer 4294967297 0 none = (XR_SUCCESS, 29, none) ∧
    internedRuntime.PathToStringBuffer 4294967297 5 (some "?????".toList) =
      (XR_ERROR_SIZE_INSUFFICIENT, 0, some "?????".toList) ∧
    internedRuntime.PathToStringBuffer 4294967297 30
        (some "??????????????????????????????".toList) =
      (XR_SUCCESS, 29,
        some ("/user/hand/left/input/select".toList ++ [Char.ofNat 0, '?'])) ∧
    internedRuntime.PathToStringBuffer XR_NULL_PATH 30
        (some "??????????????????????????????".toList) =
      (XR_ERROR_PATH_INVALID, 0, some "??????????????????????????????".toList) := by
  refine ⟨by decide, by decide, by decide, by decide, by decide⟩

/-- What `IsStateTransitionValid` answers depends on the current state alone, not on
the flags of the session. -/
theorem IsStateTransitionValid_of_state (rt1 rt2 : MockRuntime) (newState : XrSessionState)
    (h : rt1.currentState = rt2.currentState) :
    rt1.IsStateTransitionValid newState = rt2.IsStateTransitionValid newState := by
  unfold IsStateTransitionValid
  rw [h]

/-- The walk of `legalSteps` depends on the current state alone. -/
theorem legalSteps_of_state (steps : List XrSessionState) :
    ∀ rt1 rt2 : MockRuntime, rt1.currentState = rt2.currentState →
      legalSteps rt1 steps = legalSteps rt2 steps := by
  induction steps with
  | nil => intro _ _ _; rfl
  | cons next more ih =>
    intro rt1 rt2 h
    unfold legalSteps
    rw [h, IsStateTransitionValid_of_state rt1 rt2 next h,
      ih { rt1 with currentState := next } { rt2 with currentState := next } rfl]

/-- The state and the state changes that `ChangeSessionStateFrom` leaves. -/
theorem ChangeSessionStateFrom_trace (rt : MockRuntime) (a b : XrSessionState) :
    (rt.ChangeSessionStateFrom a b).2.currentState =
        (if rt.currentState = a ∧ a ≠ b then b else rt.currentState) ∧
    stateChanges (rt.ChangeSessionStateFrom a b).2.eventQueue =
      stateChanges rt.eventQueue ++ (if rt.currentState = a ∧ a ≠ b then [b] else []) := by
  unfold ChangeSessionStateFrom ChangeSessionState IsSessionState
  by_cases h1 : rt.currentState = a
  · by_cases h2 : a = b
    · subst h2
      simp [h1]
    · have h3 : rt.currentState ≠ b := fun e => h2 (h1.symm.trans e)
      simp [h1, h2, stateChanges, List.filterMap_append, XrEventDataBuffer.sessionState]
  · simp [h1]

/-- The state and the state changes that `BeginSession` leaves: those of the
three `ChangeSessionStateFrom` calls in a row. -/
theorem BeginSession_trace (rt : MockRuntime) (msftResult : XrResult) :
    ∃ r1 r2 r3 : MockRuntime,
      r1 = ({ rt with isRunning := true }.ChangeSessionStateFrom XR_SESSION_STATE_READY
        XR_SESSION_STATE_SYNCHRONIZED).2 ∧
      r2 = (r1.ChangeSessionStateFrom XR_SESSION_STATE_SYNCHRONIZED XR_SESSION_STATE_VISIBLE).2 ∧
      r3 = (r2.ChangeSessionStateFrom XR_SESSION_STATE_VISIBLE XR_SESSION_STATE_FOCUSED).2 ∧
      (rt.BeginSession msftResult).2.currentState = r3.currentState ∧
      stateChanges (rt.BeginSession msftResult).2.eventQueue = stateChanges r3.eventQueue := by
  refine ⟨_, _, _, rfl, rfl, rfl, ?_, ?_⟩
  · unfold BeginSession
    dsimp only
    repeat' split
    all_goals rfl
  · unfold BeginSession
    dsimp only
    repeat' split
    all_goals first
      | rfl
      | simp [stateChanges, List.filterMap_append, XrEventDataBuffer.sessionState]

/-- The state changes of `BeginSession`, read from the event queue, are legal
steps. -/
theorem BeginSession_steps (rt : MockRuntime) (msftResult : XrResult) :
    ∃ steps : List XrSessionState,
      stateChanges (rt.BeginSession msftResult).2.eventQueue =
        stateChanges rt.eventQueue ++ steps ∧
      legalSteps rt steps = true ∧
      (rt.BeginSession msftResult).2.currentState = steps.getLast?.getD rt.currentState := by
  obtain ⟨r1, r2, r3, h1, h2, h3, hc, hq⟩ := BeginSession_trace rt msftResult
  have t1 := ChangeSessionStateFrom_trace { rt with isRunning := true } XR_SESSION_STATE_READY
    XR_SESSION_STATE_SYNCHRONIZED
  have t2 := ChangeSessionStateFrom_trace r1 XR_SESSION_STATE_SYNCHRONIZED XR_SESSION_STATE_VISIBLE
  have t3 := ChangeSessionStateFrom_trace r2 XR_SESSION_STATE_VISIBLE XR_SESSION_STATE_FOCUSED
  rw [← h1] at t1
  rw [← h2] at t2
  rw [← h3] at t3
  rw [hc, hq, t3.1, t3.2, t2.1, t2.2, t1.1, t1.2]
  dsimp only
  rw [List.append_assoc, List.append_assoc]
  refine ⟨_, rfl, ?_, ?_⟩
  · cases hs : rt.currentState <;> simp [legalSteps, IsStateTransitionValid, hs]
  · cases hs : rt.currentState <;> simp [hs]

/-- The state changes of `RequestExitSession`, read from the event queue, are
legal steps. -/
theorem RequestExitSession_steps (rt : MockRuntime) :
    ∃ steps : List XrSessionState,
      stateChanges rt.RequestExitSession.2.eventQueue = stateChanges rt.eventQueue ++ steps ∧
      legalSteps rt steps = true ∧
      rt.RequestExitSession.2.currentState = steps.getLast?.getD rt.currentState := by
  unfold RequestExitSession IsSessionRunning
  split
  · exact ⟨[], by simp, rfl, rfl⟩
  · dsimp only
    have t1 := ChangeSessionStateFrom_trace rt XR_SESSION_STATE_FOCUSED XR_SESSION_STATE_VISIBLE
    have t2 := ChangeSessionStateFrom_trace
      (rt.ChangeSessionStateFrom XR_SESSION_STATE_FOCUSED XR_SESSION_STATE_VISIBLE).2
      XR_SESSION_STATE_VISIBLE XR_SESSION_STATE_SYNCHRONIZED
    have t3 := ChangeSessionStateFrom_trace
      ((rt.ChangeSessionStateFrom XR_SESSION_STATE_FOCUSED XR_SESSION_STATE_VISIBLE).2.ChangeSessionStateFrom
        XR_SESSION_STATE_VISIBLE XR_SESSION_STATE_SYNCHRONIZED).2
      XR_SESSION_STATE_SYNCHRONIZED XR_SESSION_STATE_STOPPING
    rw [t3.1, t3.2, t2.1, t2.2, t1.1, t1.2]
    rw [List.append_assoc, List.append_assoc]
    refine ⟨_, rfl, ?_, ?_⟩
    · cases hs : rt.currentState <;> simp [legalSteps, IsStateTransitionValid, hs]
    · cases hs : rt.currentState <;> simp [hs]

/-- The state changes of `EndSession`, read from the event queue, are legal
steps. -/
theorem EndSession_steps (rt : MockRuntime) :
    ∃ steps : List XrSessionState,
      stateChanges rt.EndSession.2.eventQueue = stateChanges rt.eventQueue ++ steps ∧
      legalSteps rt steps = true ∧
      rt.EndSession.2.currentState = steps.getLast?.getD rt.currentState := by
  have t1 := ChangeSessionStateFrom_trace { rt with isRunning := false }
    XR_SESSION_STATE_STOPPING XR_SESSION_STATE_IDLE
  have t2 := ChangeSessionStateFrom_trace
    { ({ rt with isRunning := false }.ChangeSessionStateFrom XR_SESSION_STATE_STOPPING
        XR_SESSION_STATE_IDLE).2 with exitSessionRequested := false }
    XR_SESSION_STATE_IDLE XR_SESSION_STATE_EXITING
  unfold EndSession
  dsimp only
  split
  · dsimp only at t2 ⊢
    rw [t2.1, t2.2, t1.1, t1.2]
    dsimp only
    rw [List.append_assoc]
    refine ⟨_, rfl, ?_, ?_⟩
    · cases hs : rt.currentState <;> simp [legalSteps, IsStateTransitionValid, hs]
    · cases hs : rt.currentState <;> simp [hs]
  · dsimp only
    rw [t1.1, t1.2]
    dsimp only
    refine ⟨_, rfl, ?_, ?_⟩
    · cases hs : rt.currentState <;> simp [legalSteps, IsStateTransitionValid, hs]
    · cases hs : rt.currentState <;> simp [hs]

/-- C38: for every runtime, whatever its state and its flags, the state
changes that `BeginSession`, `RequestExitSession` and `EndSession` make, read
from the session-state-changed events the operation has put behind the
queue, form a walk from the state before the operation to the state after it
in which every step changes the state and is a transition that
`IsStateTransitionValid` accepts when asked in the state just before the
step; and what `IsStateTransitionValid` answers does not depend on the flags of
the session. -/
theorem lifecycle_steps_legal (rt : MockRuntime) :
    (∀ msftResult : XrResult, ∃ steps : List XrSessionState,
      stateChanges (rt.BeginSession msftResult).2.eventQueue =
        stateChanges rt.eventQueue ++ steps ∧
      legalSteps rt steps = true ∧
      (rt.BeginSession msftResult).2.currentState = steps.getLast?.getD rt.currentState) ∧
    (∃ steps : List XrSessionState,
      stateChanges rt.RequestExitSession.2.eventQueue = stateChanges rt.eventQueue ++ steps ∧
      legalSteps rt steps = true ∧
      rt.RequestExitSession.2.currentState = steps.getLast?.getD rt.currentState) ∧
    (∃ steps : List XrSessionState,
      stateChanges rt.EndSession.2.eventQueue = stateChanges rt.eventQueue ++ steps ∧
      legalSteps rt steps = true ∧
      rt.EndSession.2.currentState = steps.getLast?.getD rt.currentState) ∧
    (∀ (other : MockRuntime) (steps : List XrSessionState),
      other.currentState = rt.currentState → legalSteps other steps = legalSteps rt steps) :=
  ⟨BeginSession_steps rt, RequestExitSession_steps rt, EndSession_steps rt,
    fun other steps h => legalSteps_of_state steps other rt h⟩

/-- The walks of C38 on concrete runtimes: `BeginSession` in the ready state
goes through synchronized and visible to focused, `RequestExitSession` in the
focused state of a running session goes back through visible and
synchronized to stopping, and `EndSession` in the stopping state with an exit
requested goes through idle to exiting. -/
theorem lifecycle_steps_examples :
    stateChanges (({ idleRuntime with currentState := XR_SESSION_STATE_READY }).BeginSession
        XR_SUCCESS).2.eventQueue =
      [XR_SESSION_STATE_SYNCHRONIZED, XR_SESSION_STATE_VISIBLE, XR_SESSION_STATE_FOCUSED] ∧
    legalSteps { idleRuntime with currentState := XR_SESSION_STATE_READY }
      [XR_SESSION_STATE_SYNCHRONIZED, XR_SESSION_STATE_VISIBLE, XR_SESSION_STATE_FOCUSED] = true ∧
    stateChanges ({ runningReadyRuntime with
        currentState := XR_SESSION_STATE_FOCUSED }).RequestExitSession.2.eventQueue =
      [XR_SESSION_STATE_VISIBLE, XR_SESSION_STATE_SYNCHRONIZED, XR_SESSION_STATE_STOPPING] ∧
    stateChanges stoppingRuntime.EndSession.2.eventQueue =
      [XR_SESSION_STATE_IDLE, XR_SESSION_STATE_EXITING] ∧
    legalSteps stoppingRuntime [XR_SESSION_STATE_IDLE, XR_SESSION_STATE_EXITING] = true ∧
    legalSteps stoppingRuntime [XR_SESSION_STATE_EXITING] = false := by
  refine ⟨by decide, by decide, by decide, by decide, by decide, by decide⟩

/-- A call of `ChangeSessionStateFrom` from a state other than the current one
does nothing. -/
theorem ChangeSessionStateFrom_other (rt : MockRuntime) (a b c : XrSessionState)
    (hState : rt.currentState = c) (hne : a ≠ c) :
    rt.ChangeSessionStateFrom a b = (false, rt) := by
  unfold ChangeSessionStateFrom IsSessionState
  have : (rt.currentState == a) = false := by
    rw [hState]
    simpa using fun e => hne e.symm
  rw [this]
  rfl

/-- In the loss-pending state an unforced call leaves the state as it is and
puts no session-state-changed event into the queue. -/
theorem UnforcedCall_run_loss_pending (rt : MockRuntime) (call : UnforcedCall)
    (hState : rt.currentState = XR_SESSION_STATE_LOSS_PENDING) :
    (call.run rt).currentState = XR_SESSION_STATE_LOSS_PENDING ∧
    ∃ extra : List XrEventDataBuffer,
      (call.run rt).eventQueue = rt.eventQueue ++ extra ∧
      ∀ event ∈ extra, event.sessionState = none := by
  cases call with
  | xrTransitionMockToStateUNITY session requestedState =>
    simp only [UnforcedCall.run, xrTransitionMockToStateUNITY]
    split
    · exact ⟨hState, [], by simp, by simp⟩
    · split
      · exact ⟨hState, [], by simp, by simp⟩
      · next hvalid =>
        have hreq : requestedState = XR_SESSION_STATE_LOSS_PENDING := by
          cases requestedState <;>
            simp [IsStateTransitionValid, hState] at hvalid ⊢
        subst hreq
        have hrt : rt.ChangeSessionState XR_SESSION_STATE_LOSS_PENDING = rt := by
          unfold ChangeSessionState
          rw [if_pos hState]
        rw [Option.getD_some, hrt]
        exact ⟨hState, [], by simp, by simp⟩
  | BeginSession msftResult =>
    have h : (rt.BeginSession msftResult).2 =
        if rt.activeInteractionProfile ≠ none then
          { rt with
            isRunning := true
            eventQueue :=
              rt.eventQueue ++ [XrEventDataBuffer.interactionProfileChanged rt.session] }
        else { rt with isRunning := true } := by
      unfold BeginSession
      dsimp only
      rw [ChangeSessionStateFrom_other { rt with isRunning := true } _ _ _ hState (by decide)]
      dsimp only
      rw [ChangeSessionStateFrom_other { rt with isRunning := true } _ _ _ hState (by decide)]
      dsimp only
      rw [ChangeSessionStateFrom_other { rt with isRunning := true } _ _ _ hState (by decide)]
      dsimp only
      repeat' split
      all_goals rfl
    simp only [UnforcedCall.run]
    rw [h]
    split
    · exact ⟨hState, [_], rfl, by simp [XrEventDataBuffer.sessionState]⟩
    · exact ⟨hState, [], by simp, by simp⟩
  | RequestExitSession =>
    have h : rt.RequestExitSession.2 = rt ∨
        rt.RequestExitSession.2 = { rt with exitSessionRequested := true } := by
      unfold RequestExitSession
      split
      · left; rfl
      · dsimp only
        rw [ChangeSessionStateFrom_other rt _ _ _ hState (by decide)]
        dsimp only
        rw [ChangeSessionStateFrom_other rt _ _ _ hState (by decide)]
        dsimp only
        rw [ChangeSessionStateFrom_other rt _ _ _ hState (by decide)]
        right; rfl
    simp only [UnforcedCall.run]
    rcases h with h | h <;> rw [h] <;> exact ⟨hState, [], by simp, by simp⟩
  | EndSession =>
    have h : rt.EndSession.2 = { rt with isRunning := false } ∨
        rt.EndSession.2 = { rt with isRunning := false, exitSessionRequested := false } := by
      unfold EndSession
      dsimp only
      rw [ChangeSessionStateFrom_other { rt with isRunning := false } _ _ _ hState (by decide)]
      dsimp only
      split
      · rw [ChangeSessionStateFrom_other
          { rt with isRunning := false, exitSessionRequested := false } _ _ _ hState (by decide)]
        right; rfl
      · left; rfl
    simp only [UnforcedCall.run]
    rcases h with h | h <;> rw [h] <;> exact ⟨hState, [], by simp, by simp⟩
  | SyncActions s_ext syncInfo =>
    have h := SyncActions_outside rt s_ext syncInfo
    have hc := congrArg MockRuntime.currentState h
    have hq := congrArg MockRuntime.eventQueue h
    simp only [outsideBindingEngine] at hc hq
    simp only [UnforcedCall.run]
    exact ⟨hc.trans hState, [], by simp [hq], by simp⟩

/-- C39: once the session state is loss-pending, no sequence of unforced
`xrTransitionMockToStateUNITY` requests, whatever their targets and session
handles, and of `BeginSession`, `RequestExitSession`, `EndSession` and
`SyncActions` calls changes the state, and the events it puts behind the
queue hold no session-state-changed event. -/
theorem loss_pending_absorbing (rt : MockRuntime) (calls : List UnforcedCall)
    (hState : rt.currentState = XR_SESSION_STATE_LOSS_PENDING) :
    (runUnforcedCalls rt calls).currentState = XR_SESSION_STATE_LOSS_PENDING ∧
    ∃ extra : List XrEventDataBuffer,
      (runUnforcedCalls rt calls).eventQueue = rt.eventQueue ++ extra ∧
      ∀ event ∈ extra, event.sessionState = none := by
  induction calls generalizing rt with
  | nil => exact ⟨hState, [], by simp [runUnforcedCalls], by simp⟩
  | cons call more ih =>
    obtain ⟨h1, extra1, hq1, he1⟩ := UnforcedCall_run_loss_pending rt call hState
    obtain ⟨h2, extra2, hq2, he2⟩ := ih (call.run rt) h1
    have hrun : runUnforcedCalls rt (call :: more) = runUnforcedCalls (call.run rt) more := rfl
    rw [hrun]
    refine ⟨h2, extra1 ++ extra2, ?_, ?_⟩
    · rw [hq2, hq1, List.append_assoc]
    · intro event hmem
      rcases List.mem_append.mp hmem with h | h
      · exact he1 event h
      · exact he2 event h

/-- C35, evaluated where it fails: after `CreateActionSet` for "gameplay" and
"menu" the handle 2 resolves to "menu"; `DestroyActionSet` of "gameplay"
succeeds and leaves "menu", a live set with the handle 2, at the front of the
collection, and the handle 2 resolves to no set; `CreateActionSet` for "hud"
then returns the handle 2 again, two live sets have the handle 2, and it
resolves to "hud". -/
theorem DestroyActionSet_breaks_handles :
    twoSetsRuntime.actionSets.map (fun s => (s.actionSet, s.name)) =
      [(1, "gameplay".toList), (2, "menu".toList)] ∧
    (twoSetsRuntime.GetMockActionSet 2).map (fun found => found.2.name) = some "menu".toList ∧
    gameplayDestroyed.1 = XR_SUCCESS ∧
    gameplayDestroyed.2.actionSets.map (fun s => (s.actionSet, s.name)) =
      [(2, "menu".toList)] ∧
    gameplayDestroyed.2.GetMockActionSet 2 = none ∧
    hudCreated.1 = XR_SUCCESS ∧ hudCreated.2.1 = some 2 ∧
    hudCreated.2.2.actionSets.map (fun s => (s.actionSet, s.name)) =
      [(2, "menu".toList), (2, "hud".toList)] ∧
    (hudCreated.2.2.GetMockActionSet 2).map (fun found => found.2.name) =
      some "hud".toList := by
  decide

/-- C36, evaluated where it fails: in the set "gameplay", on a runtime on which
no set was destroyed, "fire" and "jump" have the handles `1 + (1 << 32)` and
`1 + (2 << 32)`; after `DestroyAction` of "fire", `CreateAction` for "fire"
succeeds, takes the slot of the destroyed action and returns `1 + (2 << 32)`,
the handle of the live action "jump"; `GetMockAction` resolves the returned
handle to "jump", and the former handle of "fire" to no action. -/
theorem revived_action_takes_handle_of_last :
    twoActionsRuntime.actionSets.map
        (fun s => s.actions.map (fun a => (a.action, a.name, a.isDestroyed))) =
      [[(4294967297, "fire".toList, false), (8589934593, "jump".toList, false)]] ∧
    fireDestroyed.1 = XR_SUCCESS ∧
    fireRevived.1 = XR_SUCCESS ∧ fireRevived.2.1 = some 8589934593 ∧
    fireRevived.2.2.actionSets.map
        (fun s => s.actions.map (fun a => (a.action, a.name, a.isDestroyed))) =
      [[(8589934593, "fire".toList, false), (8589934593, "jump".toList, false)]] ∧
    (fireRevived.2.2.GetMockAction 8589934593).map (fun found => found.2.2.name) =
      some "jump".toList ∧
    fireRevived.2.2.GetMockAction 4294967297 = none := by
  decide

/-- C34, evaluated where it fails: `CreateAction` for "fire" with the one
sub-action path `/user/hand/left` succeeds on the unattached set "gameplay";
after `DestroyAction` of "fire" the same call, whose one path is a valid user
path, takes the slot of the destroyed action and returns path-unsupported,
because the slot still holds the path of the destroyed action. -/
theorem revived_action_rejects_former_path :
    MockRuntime.ctor.IsValidUserPath 1 = true ∧
    leftFireCreated.1 = XR_SUCCESS ∧ leftFireCreated.2.1 = some 4294967297 ∧
    leftFireDestroyed.1 = XR_SUCCESS ∧
    leftFireDestroyed.2.actionSets.map
        (fun s => (s.attached, s.actions.map (fun a => (a.name, a.isDestroyed, a.userPaths)))) =
      [(false, [("fire".toList, true, [1])])] ∧
    leftFireAgain.1 = XR_ERROR_PATH_UNSUPPORTED ∧ leftFireAgain.2.1 = none := by
  decide

/-- C37, evaluated where it fails: after `DestroyAction` has succeeded for the
three actions of `readRuntime`, a second `DestroyAction` of "squeeze" returns
success, and `GetActionStateFloat` on "squeeze", `GetActionStateBoolean` on
"fire", `GetActionStateVector2f` on "move" and `GetActionStatePose` return
success with the values of the bindings; after `DestroyAction` of the pose
action "aim", `CreateActionSpace` on it returns success with a new space; and
after `DestroyAction` of "fire" on `clickRuntime` a suggested binding that
names it returns success and binds it. -/
theorem destroyed_action_still_resolves :
    actionsDestroyed.actionSets.map
        (fun s => s.actions.map (fun a => (a.action, a.name, a.isDestroyed))) =
      [[(4294967297, "squeeze".toList, true), (8589934593, "fire".toList, true),
        (12884901889, "move".toList, true)]] ∧
    (actionsDestroyed.DestroyAction 4294967297).1 = XR_SUCCESS ∧
    actionsDestroyed.GetActionStateFloat (some (leftGetInfo 4294967297))
        (some XR_TYPE_ACTION_STATE_FLOAT) = (XR_SUCCESS, some (-4 / 5)) ∧
    actionsDestroyed.GetActionStateBoolean (some (leftGetInfo 8589934593)) =
      (XR_SUCCESS, some 1) ∧
    actionsDestroyed.GetActionStateVector2f (some (leftGetInfo 12884901889)) =
      (XR_SUCCESS, some { x := 3 / 5, y := 4 / 5 }) ∧
    actionsDestroyed.GetActionStatePose (some (leftGetInfo 4294967297)) =
      (XR_SUCCESS, some 1) ∧
    aimDestroyed.1 = XR_SUCCESS ∧
    (aimDestroyed.2.CreateActionSpace (some aimSpaceInfo) true).1 = XR_SUCCESS ∧
    (aimDestroyed.2.CreateActionSpace (some aimSpaceInfo) true).2.1 = some 3 ∧
    clickFireDestroyed.1 = XR_SUCCESS ∧
    (clickFireDestroyed.2.SuggestInteractionProfileBindings (some clickBindings)).1 =
      XR_SUCCESS ∧
    (clickFireDestroyed.2.SuggestInteractionProfileBindings
        (some clickBindings)).2.actionSets.map
        (fun s => s.actions.map (fun a => (a.name, a.isDestroyed, a.bindings))) =
      [[("fire".toList, true, [0])]] := by
  refine ⟨by decide, by decide, ?_, by decide, ?_, by decide, by decide, by decide, by decide,
    by decide, by decide, by decide⟩
  · decide!
  · decide!

/-- The two halves of a handle packed from a user-path index and a
component-path index that fit 32 bits. -/
theorem handle_halves (u c : Nat) (hu : u < 2 ^ 32) (hc : c < 2 ^ 32) :
    u ||| ((c <<< 32) % 2 ^ 64) = u + c * 2 ^ 32 ∧
    (u ||| ((c <<< 32) % 2 ^ 64)) &&& 0xFFFFFFFF = u ∧
    (u ||| ((c <<< 32) % 2 ^ 64)) >>> 32 = c := by
  have h1 : (c <<< 32) % 2 ^ 64 = 2 ^ 32 * c := by
    rw [Nat.shiftLeft_eq, Nat.mod_eq_of_lt (by omega)]
    omega
  have h2 : u ||| ((c <<< 32) % 2 ^ 64) = u + c * 2 ^ 32 := by
    rw [h1, Nat.or_comm, ← Nat.mul_add_lt_is_or hu]
    omega
  refine ⟨h2, ?_, ?_⟩
  · rw [h2]
    have := Nat.and_pow_two_sub_one_eq_mod (u + c * 2 ^ 32) 32
    have e : (0xFFFFFFFF : Nat) = 2 ^ 32 - 1 := by norm_num
    rw [e, this]
    omega
  · rw [h2, Nat.shiftRight_eq_div_pow]
    omega

/-- What the user loop of `StringToPath` returns: nothing and the string when
no entry of the table is at the start of the string; otherwise the 1-based
index of the first entry that is, and the string behind the entry. -/
theorem StringToPath_userLoop_spec (s : CString) (table : List CString) :
    ∀ i0 : Nat,
      (StringToPath.userLoop s table i0 = (XR_NULL_PATH, s) ∧
        ∀ u ∈ table, u.isPrefixOf s = false) ∨
      ∃ (j : Nat) (u : CString), table[j]? = some u ∧ u.isPrefixOf s = true ∧
        (∀ (k : Nat) (v : CString), k < j → table[k]? = some v → v.isPrefixOf s = false) ∧
        StringToPath.userLoop s table i0 =
          (XR_NULL_PATH ||| ((i0 + j + 1) % 2 ^ 64), s.drop u.length) := by
  induction table with
  | nil => intro i0; left; exact ⟨rfl, by simp⟩
  | cons entry more ih =>
    intro i0
    unfold StringToPath.userLoop
    by_cases he : entry.isPrefixOf s = true
    · right
      refine ⟨0, entry, by simp, he, ?_, ?_⟩
      · intro k v hk; omega
      · rw [if_pos he]
    · rw [if_neg he]
      have he2 : entry.isPrefixOf s = false := Bool.eq_false_iff.mpr he
      rcases ih (i0 + 1) with ⟨h1, h2⟩ | ⟨j, u, hj, hu, hfirst, hres⟩
      · left
        refine ⟨h1, ?_⟩
        intro u hu
        rcases List.mem_cons.mp hu with h | h
        · rw [h]; exact he2
        · exact h2 u h
      · right
        refine ⟨j + 1, u, by simpa using hj, hu, ?_, ?_⟩
        · intro k v hk hv
          cases k with
          | zero =>
            simp only [List.getElem?_cons_zero, Option.some.injEq] at hv
            rw [← hv]; exact he2
          | succ k =>
            simp only [List.getElem?_cons_succ] at hv
            exact hfirst k v (by omega) hv
        · rw [hres]
          congr 3
          omega

/-- The component loop of `StringToPath` finds the first index at which the
table holds the string. -/
theorem StringToPath_componentLoop_spec (r : CString) (table : List CString) :
    ∀ i0 : Nat,
      (StringToPath.componentLoop r table i0 = none ∧ r ∉ table) ∨
      ∃ k : Nat, table[k]? = some r ∧ (∀ j : Nat, j < k → table[j]? ≠ some r) ∧
        StringToPath.componentLoop r table i0 = some (i0 + k) := by
  induction table with
  | nil => intro i0; left; exact ⟨rfl, by simp⟩
  | cons entry more ih =>
    intro i0
    unfold StringToPath.componentLoop
    by_cases he : r = entry
    · right
      refine ⟨0, by simp [he], fun j hj => by omega, ?_⟩
      rw [if_pos he]; rfl
    · rw [if_neg he]
      rcases ih (i0 + 1) with ⟨h1, h2⟩ | ⟨k, hk, hfirst, hres⟩
      · left
        refine ⟨h1, ?_⟩
        intro hm
        rcases List.mem_cons.mp hm with h | h
        · exact he h
        · exact h2 h
      · right
        refine ⟨k + 1, by simpa using hk, ?_, ?_⟩
        · intro j hj hv
          cases j with
          | zero =>
            simp only [List.getElem?_cons_zero, Option.some.injEq] at hv
            exact he hv.symm
          | succ j =>
            simp only [List.getElem?_cons_succ] at hv
            exact hfirst j (by omega) hv
        · rw [hres]
          congr 1
          omega

/-- The first index of a string in a table is its first index in every table
that begins with that table. -/
theorem firstIndex_of_prefix (r : CString) (table longer : List CString) (k k2 : Nat)
    (hPrefix : table <+: longer)
    (hk : table[k]? = some r)
    (hfirst2 : ∀ j : Nat, j < k2 → longer[j]? ≠ some r) : k2 ≤ k := by
  obtain ⟨extra, hextra⟩ := hPrefix
  have hlt : k < table.length := by
    rcases Nat.lt_or_ge k table.length with h | h
    · exact h
    · rw [List.getElem?_eq_none h] at hk
      exact absurd hk (by simp)
  have hk3 : longer[k]? = some r := by
    rw [← hextra, List.getElem?_append_left hlt]
    exact hk
  by_contra hgt
  exact hfirst2 k (by omega) hk3

/-- The handle of a successful `StringToPath`, by its two halves: the user half
is what the user loop returns, and the component half, when the string behind
the user path begins with a slash, is the 1-based first index of that string
in the component-path table the call leaves; it is zero otherwise. -/
theorem StringToPath_handle (rt : MockRuntime) (s : CString)
    (hAccepted : (rt.StringToPath s).1 = XR_SUCCESS) :
    s.head? = some '/' ∧
    ((StringToPath.userLoop s rt.userPathStrings 0).2.head? = some '/' →
      ∃ k : Nat,
        (rt.StringToPath s).2.2.componentPathStrings[k]? =
          some (StringToPath.userLoop s rt.userPathStrings 0).2 ∧
        (∀ j : Nat, j < k →
          (rt.StringToPath s).2.2.componentPathStrings[j]? ≠
            some (StringToPath.userLoop s rt.userPathStrings 0).2) ∧
        (rt.StringToPath s).2.1 =
          some ((StringToPath.userLoop s rt.userPathStrings 0).1 |||
            (((k + 1) <<< 32) % 2 ^ 64))) ∧
    ((StringToPath.userLoop s rt.userPathStrings 0).2.head? ≠ some '/' →
      (rt.StringToPath s).2.1 = some (StringToPath.userLoop s rt.userPathStrings 0).1) := by
  unfold StringToPath at hAccepted ⊢
  by_cases hv : ValidatePath s ≠ XR_SUCCESS
  · rw [if_pos hv] at hAccepted
    exact absurd hAccepted hv
  · rw [if_neg hv] at hAccepted ⊢
    have hhead : s.head? = some '/' := by
      by_contra hne
      apply hv
      unfold ValidatePath
      rw [if_pos hne]
      decide
    by_cases hl : s.length ≥ XR_MAX_PATH_LENGTH
    · rw [if_pos hl] at hAccepted
      simp at hAccepted
    · rw [if_neg hl]
      dsimp only
      refine ⟨hhead, ?_, ?_⟩
      · intro hh
        rw [if_pos hh]
        rcases StringToPath_componentLoop_spec (StringToPath.userLoop s rt.userPathStrings 0).2
            rt.componentPathStrings 0 with ⟨hnone, hm⟩ | ⟨k, hk, hfirst, hres⟩
        · rw [hnone]
          dsimp only
          refine ⟨rt.componentPathStrings.length, by simp, ?_, ?_⟩
          · intro j hj hv2
            rw [List.getElem?_append_left hj] at hv2
            exact hm (List.getElem?_mem hv2)
          · rw [List.length_append, List.length_singleton]
        · rw [hres]
          dsimp only
          exact ⟨k, hk, hfirst, by rw [Nat.zero_add]⟩
      · intro hh
        rw [if_neg hh]

/-- The handle that a successful `StringToPath` issues, by its halves: a user
index within the user-path table and a component index within the
component-path table the call leaves, not both zero. -/
theorem StringToPath_issued (rt rt1 : MockRuntime) (s : CString) (h : Nat)
    (hUser : rt.userPathStrings.length < 2 ^ 32)
    (hComponent : rt1.componentPathStrings.length < 2 ^ 32)
    (hFirst : rt.StringToPath s = (XR_SUCCESS, some h, rt1)) :
    ∃ u c : Nat, h = u + c * 2 ^ 32 ∧ h &&& 0xFFFFFFFF = u ∧ h >>> 32 = c ∧
      u ≤ rt.userPathStrings.length ∧ c ≤ rt1.componentPathStrings.length ∧
      (u ≠ 0 ∨ c ≠ 0) := by
  have hAccepted : (rt.StringToPath s).1 = XR_SUCCESS := by rw [hFirst]
  have hrt1 : (rt.StringToPath s).2.2 = rt1 := by rw [hFirst]
  have hh : (rt.StringToPath s).2.1 = some h := by rw [hFirst]
  obtain ⟨hhead, hslash, hnoslash⟩ := StringToPath_handle rt s hAccepted
  rw [hrt1] at hslash
  rw [hh] at hslash hnoslash
  -- the user half
  have huser : ∃ u : Nat, (StringToPath.userLoop s rt.userPathStrings 0).1 = u ∧
      u ≤ rt.userPathStrings.length ∧
      (u = 0 → (StringToPath.userLoop s rt.userPathStrings 0).2 = s) := by
    rcases StringToPath_userLoop_spec s rt.userPathStrings 0 with ⟨h1, _⟩ |
      ⟨j, u, hj, _, _, hres⟩
    · exact ⟨0, by rw [h1]; rfl, Nat.zero_le _, fun _ => by rw [h1]⟩
    · have hjlt : j < rt.userPathStrings.length := by
        rcases Nat.lt_or_ge j rt.userPathStrings.length with h | h
        · exact h
        · rw [List.getElem?_eq_none h] at hj
          exact absurd hj (by simp)
      refine ⟨j + 1, ?_, by omega, fun h0 => by omega⟩
      rw [hres]
      show XR_NULL_PATH ||| (0 + j + 1) % 2 ^ 64 = j + 1
      have : XR_NULL_PATH = 0 := rfl
      rw [this, Nat.zero_or, Nat.zero_add, Nat.mod_eq_of_lt (by omega)]
  obtain ⟨u, hu, hule, hu0⟩ := huser
  by_cases hsl : (StringToPath.userLoop s rt.userPathStrings 0).2.head? = some '/'
  · obtain ⟨k, hk, _, hval⟩ := hslash hsl
    have hklt : k < rt1.componentPathStrings.length := by
      rcases Nat.lt_or_ge k rt1.componentPathStrings.length with h | h
      · exact h
      · rw [List.getElem?_eq_none h] at hk
        exact absurd hk (by simp)
    have hhv : h = u ||| (((k + 1) <<< 32) % 2 ^ 64) := by
      rw [hu] at hval
      exact Option.some.inj hval
    obtain ⟨e1, e2, e3⟩ := handle_halves u (k + 1) (by omega) (by omega)
    refine ⟨u, k + 1, hhv.trans e1, by rw [hhv]; exact e2, by rw [hhv]; exact e3, hule,
      by omega, Or.inr (by omega)⟩
  · have hval := hnoslash hsl
    have hhv : h = u := by
      rw [hu] at hval
      exact Option.some.inj hval
    have hune : u ≠ 0 := by
      intro h0
      rw [hu0 h0] at hsl
      exact hsl hhead
    obtain ⟨e1, e2, e3⟩ := handle_halves u 0 (by omega) (by omega)
    have e0 : u ||| ((0 <<< 32) % 2 ^ 64) = u := by
      rw [e1]; omega
    rw [e0] at e2 e3
    subst hhv
    exact ⟨h, 0, by omega, e2, e3, hule, Nat.zero_le _, Or.inl hune⟩

/-- A handle whose halves lie within the tables resolves to the same string
after the component-path table has grown. -/
theorem PathToString_of_extension (rt1 rt2 : MockRuntime) (h : Nat)
    (hUser : rt2.userPathStrings = rt1.userPathStrings)
    (hComp : rt1.componentPathStrings <+: rt2.componentPathStrings)
    (hSize : rt2.componentPathStrings.length < 2 ^ 64)
    (hHigh : h >>> 32 ≤ rt1.componentPathStrings.length) :
    rt2.PathToString h = rt1.PathToString h := by
  obtain ⟨extra, hextra⟩ := hComp
  have hlen : rt1.componentPathStrings.length ≤ rt2.componentPathStrings.length := by
    rw [← hextra, List.length_append]; omega
  unfold PathToString
  rw [hUser]
  dsimp only
  generalize h >>> 32 = c at hHigh ⊢
  by_cases hc : (c + (2 ^ 64 - 1)) % 2 ^ 64 < rt1.componentPathStrings.length
  · have hc2 : (c + (2 ^ 64 - 1)) % 2 ^ 64 < rt2.componentPathStrings.length := by
      omega
    have hget : rt2.componentPathStrings.getD ((c + (2 ^ 64 - 1)) % 2 ^ 64) [] =
        rt1.componentPathStrings.getD ((c + (2 ^ 64 - 1)) % 2 ^ 64) [] := by
      rw [List.getD_eq_getElem?_getD, List.getD_eq_getElem?_getD, ← hextra,
        List.getElem?_append_left hc]
    simp only [hc, hc2, and_true, if_true, hget]
  · have hzero : c = 0 := by
      by_contra hne
      apply hc
      have : (c + (2 ^ 64 - 1)) % 2 ^ 64 = c - 1 := by omega
      omega
    have hc2 : ¬ (c + (2 ^ 64 - 1)) % 2 ^ 64 < rt2.componentPathStrings.length := by
      rw [hzero]
      omega
    simp only [hc, hc2, and_false, if_false]

/-- A handle that satisfies `IsValidHandle` satisfies it after the
component-path table has grown. -/
theorem IsValidHandle_of_extension (rt1 rt2 : MockRuntime) (h : Nat)
    (hUser : rt2.userPathStrings = rt1.userPathStrings)
    (hComp : rt1.componentPathStrings <+: rt2.componentPathStrings)
    (hValid : rt1.IsValidHandle h = true) : rt2.IsValidHandle h = true := by
  obtain ⟨extra, hextra⟩ := hComp
  have hlen : rt1.componentPathStrings.length ≤ rt2.componentPathStrings.length := by
    rw [← hextra, List.length_append]; omega
  unfold IsValidHandle at hValid ⊢
  rw [hUser]
  split at hValid
  · exact absurd hValid (by decide)
  · next hne =>
    rw [if_neg hne]
    simp only [Bool.and_eq_true, decide_eq_true_eq] at hValid ⊢
    exact ⟨hValid.1, le_trans hValid.2 hlen⟩

/-- C40: a handle that a successful `StringToPath` returns is not the null path
and satisfies `IsValidHandle`; after any later sequence of `StringToPath` and
`AppendPath` calls it still satisfies `IsValidHandle`, and `PathToString`
returns for it the string it returned when the handle was issued (the sizes
of the two tables below `2 ^ 32`). -/
theorem issued_handle_stays_valid (rt rt1 : MockRuntime) (s : CString) (h : XrPath)
    (calls : List PathCall)
    (hUser : rt.userPathStrings.length < 2 ^ 32)
    (hComponent : (runPathCalls rt1 calls).componentPathStrings.length < 2 ^ 32)
    (hFirst : rt.StringToPath s = (XR_SUCCESS, some h, rt1)) :
    h ≠ XR_NULL_PATH ∧ rt1.IsValidHandle h = true ∧
    (runPathCalls rt1 calls).IsValidHandle h = true ∧
    (runPathCalls rt1 calls).PathToString h = rt1.PathToString h := by
  obtain ⟨hu2, hc2⟩ := runPathCalls_tables calls rt1
  have hlen : rt1.componentPathStrings.length ≤
      (runPathCalls rt1 calls).componentPathStrings.length := by
    obtain ⟨extra, hextra⟩ := hc2
    rw [← hextra, List.length_append]; omega
  obtain ⟨u, c, hval, hlow, hhigh, hule, hcle, hnz⟩ :=
    StringToPath_issued rt rt1 s h hUser (by omega) hFirst
  have hrt1u : rt1.userPathStrings = rt.userPathStrings := by
    have := (StringToPath_tables rt s).1
    rw [hFirst] at this
    exact this
  have hne : h ≠ XR_NULL_PATH := by
    have h0 : ∀ n : Nat, n = u + c * 2 ^ 32 → n ≠ 0 := by
      intro n hn; omega
    exact h0 h hval
  have hvalid : rt1.IsValidHandle h = true := by
    unfold IsValidHandle
    rw [if_neg (fun e => hne e.symm)]
    simp only [Bool.and_eq_true, decide_eq_true_eq]
    rw [hlow, hhigh, hrt1u]
    exact ⟨hule, hcle⟩
  refine ⟨hne, hvalid, IsValidHandle_of_extension rt1 _ h hu2 hc2 hvalid, ?_⟩
  exact PathToString_of_extension rt1 _ h hu2 hc2 (by omega) (by rw [hhigh]; exact hcle)

/-- No entry of the built-in user-path table is at the start of another. -/
theorem ctor_userPathStrings_prefix_free (a b : Nat) (v w : CString)
    (ha : MockRuntime.ctor.userPathStrings[a]? = some v)
    (hb : MockRuntime.ctor.userPathStrings[b]? = some w) (hvw : v <+: w) : a = b := by
  have hla : a < 4 := by
    rcases Nat.lt_or_ge a 4 with h | h
    · exact h
    · rw [List.getElem?_eq_none (by simpa [MockRuntime.ctor] using h)] at ha
      exact absurd ha (by simp)
  have hlb : b < 4 := by
    rcases Nat.lt_or_ge b 4 with h | h
    · exact h
    · rw [List.getElem?_eq_none (by simpa [MockRuntime.ctor] using h)] at hb
      exact absurd hb (by simp)
  have key : ∀ a b : Fin 4,
      (MockRuntime.ctor.userPathStrings.getD a []).isPrefixOf
        (MockRuntime.ctor.userPathStrings.getD b []) = true → a = b := by decide
  have hva : MockRuntime.ctor.userPathStrings.getD a [] = v := by
    rw [List.getD_eq_getElem?_getD, ha]; rfl
  have hwb : MockRuntime.ctor.userPathStrings.getD b [] = w := by
    rw [List.getD_eq_getElem?_getD, hb]; rfl
  have := key ⟨a, hla⟩ ⟨b, hlb⟩ (by
    show (MockRuntime.ctor.userPathStrings.getD a []).isPrefixOf
      (MockRuntime.ctor.userPathStrings.getD b []) = true
    rw [hva, hwb]
    exact List.isPrefixOf_iff_prefix.mpr hvw)
  exact congrArg Fin.val this

/-- On a runtime with the built-in user-path table, the user loop of
`StringToPath` on a string that begins with the entry at index `i` returns
the index `i + 1` and the string behind the entry. -/
theorem StringToPath_userLoop_of_entry (rt : MockRuntime) (u r : CString) (i : Nat)
    (hUser : rt.userPathStrings = MockRuntime.ctor.userPathStrings)
    (hi : rt.userPathStrings[i]? = some u) :
    StringToPath.userLoop (u ++ r) rt.userPathStrings 0 = (i + 1, r) := by
  have hilt : i < 4 := by
    rcases Nat.lt_or_ge i 4 with h | h
    · exact h
    · rw [hUser, List.getElem?_eq_none (by simpa [MockRuntime.ctor] using h)] at hi
      exact absurd hi (by simp)
  rcases StringToPath_userLoop_spec (u ++ r) rt.userPathStrings 0 with ⟨_, hnone⟩ |
    ⟨j, v, hj, hv, hfirst, hres⟩
  · have := hnone u (List.getElem?_mem hi)
    have hp : u.isPrefixOf (u ++ r) = true :=
      List.isPrefixOf_iff_prefix.mpr (List.prefix_append u r)
    rw [hp] at this
    exact absurd this (by decide)
  · have hvp : v <+: u ++ r := List.isPrefixOf_iff_prefix.mp hv
    have hup : u <+: u ++ r := List.prefix_append u r
    have hji : j = i := by
      rcases List.prefix_or_prefix_of_prefix hvp hup with h | h
      · exact ctor_userPathStrings_prefix_free j i v u (hUser ▸ hj) (hUser ▸ hi) h
      · exact (ctor_userPathStrings_prefix_free i j u v (hUser ▸ hi) (hUser ▸ hj) h).symm
    subst hji
    have hvu : v = u := by
      rw [hi] at hj
      exact (Option.some.inj hj).symm
    subst hvu
    rw [hres]
    have e1 : XR_NULL_PATH ||| (0 + j + 1) % 2 ^ 64 = j + 1 := by
      have : XR_NULL_PATH = 0 := rfl
      rw [this, Nat.zero_or, Nat.zero_add, Nat.mod_eq_of_lt (by omega)]
    rw [e1, List.drop_left']
    rfl

/-- The handle of a string that begins with an entry of the built-in user-path
table. -/
theorem StringToPath_packed (rt rt1 : MockRuntime) (u r : CString) (i h : Nat)
    (hUser : rt.userPathStrings = MockRuntime.ctor.userPathStrings)
    (hSize : rt1.componentPathStrings.length < 2 ^ 32)
    (hi : rt.userPathStrings[i]? = some u)
    (hFirst : rt.StringToPath (u ++ r) = (XR_SUCCESS, some h, rt1)) :
    (r.head? = some '/' →
      ∃ k : Nat, rt1.componentPathStrings[k]? = some r ∧
        (∀ j : Nat, j < k → rt1.componentPathStrings[j]? ≠ some r) ∧
        h = (i + 1) + (k + 1) * 2 ^ 32) ∧
    (r.head? ≠ some '/' → h = i + 1) := by
  have hAccepted : (rt.StringToPath (u ++ r)).1 = XR_SUCCESS := by rw [hFirst]
  have hrt1 : (rt.StringToPath (u ++ r)).2.2 = rt1 := by rw [hFirst]
  have hh : (rt.StringToPath (u ++ r)).2.1 = some h := by rw [hFirst]
  have hilt : i < 4 := by
    rcases Nat.lt_or_ge i 4 with h | h
    · exact h
    · rw [hUser, List.getElem?_eq_none (by simpa [MockRuntime.ctor] using h)] at hi
      exact absurd hi (by simp)
  obtain ⟨_, hslash, hnoslash⟩ := StringToPath_handle rt (u ++ r) hAccepted
  rw [StringToPath_userLoop_of_entry rt u r i hUser hi, hh] at hslash hnoslash
  rw [hrt1] at hslash
  dsimp only at hslash hnoslash
  constructor
  · intro hr
    obtain ⟨k, hk, hfirst, hval⟩ := hslash hr
    have hklt : k < rt1.componentPathStrings.length := by
      rcases Nat.lt_or_ge k rt1.componentPathStrings.length with h | h
      · exact h
      · rw [List.getElem?_eq_none h] at hk
        exact absurd hk (by simp)
    refine ⟨k, hk, hfirst, ?_⟩
    rw [(handle_halves (i + 1) (k + 1) (by omega) (by omega)).1] at hval
    exact Option.some.inj hval
  · intro hr
    exact Option.some.inj (hnoslash hr)

/-- The handle of a string that no entry of the user-path table is at the
start of. -/
theorem StringToPath_unprefixed (rt rt1 : MockRuntime) (s : CString) (h : Nat)
    (hSize : rt1.componentPathStrings.length < 2 ^ 32)
    (hNone : ∀ u ∈ rt.userPathStrings, ¬ u <+: s)
    (hFirst : rt.StringToPath s = (XR_SUCCESS, some h, rt1)) :
    ∃ k : Nat, rt1.componentPathStrings[k]? = some s ∧
      (∀ j : Nat, j < k → rt1.componentPathStrings[j]? ≠ some s) ∧
      h = (k + 1) * 2 ^ 32 := by
  have hAccepted : (rt.StringToPath s).1 = XR_SUCCESS := by rw [hFirst]
  have hrt1 : (rt.StringToPath s).2.2 = rt1 := by rw [hFirst]
  have hh : (rt.StringToPath s).2.1 = some h := by rw [hFirst]
  have hloop : StringToPath.userLoop s rt.userPathStrings 0 = (0, s) := by
    rcases StringToPath_userLoop_spec s rt.userPathStrings 0 with ⟨h1, _⟩ |
      ⟨j, v, hj, hv, _, _⟩
    · exact h1
    · exact absurd (List.isPrefixOf_iff_prefix.mp hv) (hNone v (List.getElem?_mem hj))
  obtain ⟨hhead, hslash, _⟩ := StringToPath_handle rt s hAccepted
  rw [hloop, hh, hrt1] at hslash
  dsimp only at hslash
  obtain ⟨k, hk, hfirst, hval⟩ := hslash hhead
  have hklt : k < rt1.componentPathStrings.length := by
    rcases Nat.lt_or_ge k rt1.componentPathStrings.length with h | h
    · exact h
    · rw [List.getElem?_eq_none h] at hk
      exact absurd hk (by simp)
  refine ⟨k, hk, hfirst, ?_⟩
  rw [(handle_halves 0 (k + 1) (by omega) (by omega)).1] at hval
  have := Option.some.inj hval
  omega

/-- The run of a successful `StringToPath`, by its three components. -/
theorem StringToPath_run (rt rt1 : MockRuntime) (s : CString) (h : Nat)
    (hFirst : rt.StringToPath s = (XR_SUCCESS, some h, rt1)) :
    rt1.userPathStrings = rt.userPathStrings ∧
    rt.componentPathStrings <+: rt1.componentPathStrings := by
  have := StringToPath_tables rt s
  rw [hFirst] at this
  exact this

/-- C32, amended: on a runtime with the built-in user-path table and tables
below `2 ^ 32` entries, the handle of an accepted string `u ++ r`, where `u`
is the entry at index `i` of the user-path table and `r` is empty or begins
with a slash, has `i + 1` in its low 32 bits and, in its high 32 bits, zero
when `r` is empty and otherwise the 1-based first index of `r` in the
component-path table; the handle of an accepted string that no user path is
at the start of has zero in its low 32 bits and the 1-based first index of
the string in its high 32 bits. Hence the handles of `/user/hand/left ++ r`
and `/user/hand/right ++ r` have the same component half, and that half is
the handle of `r` alone when no user path is at the start of `r`. -/
theorem StringToPath_packing (rt : MockRuntime)
    (hUser : rt.userPathStrings = MockRuntime.ctor.userPathStrings) :
    (∀ (u r : CString) (i h : Nat) (rt1 : MockRuntime),
      rt1.componentPathStrings.length < 2 ^ 32 →
      rt.userPathStrings[i]? = some u → (r = [] ∨ r.head? = some '/') →
      rt.StringToPath (u ++ r) = (XR_SUCCESS, some h, rt1) →
      h % 2 ^ 32 = i + 1 ∧ (r = [] → h / 2 ^ 32 = 0) ∧
      (r ≠ [] →
        ∃ k : Nat, rt1.componentPathStrings[k]? = some r ∧
          (∀ j : Nat, j < k → rt1.componentPathStrings[j]? ≠ some r) ∧
          h / 2 ^ 32 = k + 1)) ∧
    (∀ (s : CString) (h : Nat) (rt1 : MockRuntime),
      rt1.componentPathStrings.length < 2 ^ 32 →
      (∀ u ∈ rt.userPathStrings, ¬ u <+: s) →
      rt.StringToPath s = (XR_SUCCESS, some h, rt1) →
      h % 2 ^ 32 = 0 ∧
      ∃ k : Nat, rt1.componentPathStrings[k]? = some s ∧
        (∀ j : Nat, j < k → rt1.componentPathStrings[j]? ≠ some s) ∧
        h / 2 ^ 32 = k + 1) ∧
    (∀ (r : CString) (hl hr : Nat) (rt1 rt2 : MockRuntime),
      rt2.componentPathStrings.length < 2 ^ 32 →
      rt.StringToPath ("/user/hand/left".toList ++ r) = (XR_SUCCESS, some hl, rt1) →
      rt1.StringToPath ("/user/hand/right".toList ++ r) = (XR_SUCCESS, some hr, rt2) →
      hl / 2 ^ 32 = hr / 2 ^ 32 ∧
      ∀ (hc : Nat) (rt3 : MockRuntime),
        rt3.componentPathStrings.length < 2 ^ 32 →
        (∀ u ∈ rt.userPathStrings, ¬ u <+: r) →
        rt2.StringToPath r = (XR_SUCCESS, some hc, rt3) →
        hc = hl / 2 ^ 32 * 2 ^ 32) := by
  have hilt : ∀ (i : Nat) (u : CString), rt.userPathStrings[i]? = some u → i < 4 := by
    intro i u hi
    rcases Nat.lt_or_ge i 4 with h | h
    · exact h
    · rw [hUser, List.getElem?_eq_none (by simpa [MockRuntime.ctor] using h)] at hi
      exact absurd hi (by simp)
  have hklt : ∀ (table : List CString) (k : Nat) (r : CString), table[k]? = some r →
      k < table.length := by
    intro table k r hk
    rcases Nat.lt_or_ge k table.length with h | h
    · exact h
    · rw [List.getElem?_eq_none h] at hk
      exact absurd hk (by simp)
  refine ⟨?_, ?_, ?_⟩
  · intro u r i h rt1 hSize hi hr hFirst
    have hi4 := hilt i u hi
    obtain ⟨hslash, hnoslash⟩ := StringToPath_packed rt rt1 u r i h hUser hSize hi hFirst
    rcases hr with hr | hr
    · subst hr
      have hv := hnoslash (by simp)
      subst hv
      exact ⟨by omega, fun _ => by omega, fun hne => absurd rfl hne⟩
    · obtain ⟨k, hk, hfirst, hv⟩ := hslash hr
      have := hklt _ k r hk
      subst hv
      refine ⟨by omega, ?_, fun _ => ⟨k, hk, hfirst, by omega⟩⟩
      intro he
      subst he
      simp at hr
  · intro s h rt1 hSize hNone hFirst
    obtain ⟨k, hk, hfirst, hv⟩ := StringToPath_unprefixed rt rt1 s h hSize hNone hFirst
    have := hklt _ k s hk
    subst hv
    exact ⟨by omega, k, hk, hfirst, by omega⟩
  · intro r hl hr rt1 rt2 hSize hLeft hRight
    obtain ⟨hu1, hp1⟩ := StringToPath_run rt rt1 _ hl hLeft
    obtain ⟨hu2, hp2⟩ := StringToPath_run rt1 rt2 _ hr hRight
    have hlen1 : rt1.componentPathStrings.length ≤ rt2.componentPathStrings.length := by
      obtain ⟨extra, hextra⟩ := hp2
      rw [← hextra, List.length_append]; omega
    have hUser1 : rt1.userPathStrings = MockRuntime.ctor.userPathStrings := hu1.trans hUser
    have hUser2 : rt2.userPathStrings = MockRuntime.ctor.userPathStrings := hu2.trans hUser1
    obtain ⟨hls, hln⟩ := StringToPath_packed rt rt1 _ r 0 hl hUser (by omega)
      (by rw [hUser]; rfl) hLeft
    obtain ⟨hrs, hrn⟩ := StringToPath_packed rt1 rt2 _ r 1 hr hUser1 hSize
      (by rw [hUser1]; rfl) hRight
    by_cases hhead : r.head? = some '/'
    · obtain ⟨k1, hk1, hf1, hv1⟩ := hls hhead
      obtain ⟨k2, hk2, hf2, hv2⟩ := hrs hhead
      have hb1 := hklt _ k1 r hk1
      have hb2 := hklt _ k2 r hk2
      have h21 : k2 ≤ k1 := firstIndex_of_prefix r _ _ k1 k2 hp2 hk1 hf2
      have h12 : k1 ≤ k2 := by
        by_contra hgt
        have hk2' : rt1.componentPathStrings[k2]? = some r := by
          obtain ⟨extra, hextra⟩ := hp2
          rw [← hextra, List.getElem?_append_left (by omega)] at hk2
          exact hk2
        exact hf1 k2 (by omega) hk2'
      have hk : k1 = k2 := by omega
      subst hk
      subst hv1
      subst hv2
      refine ⟨by omega, ?_⟩
      intro hc rt3 hSize3 hNone hAlone
      obtain ⟨_, hp3⟩ := StringToPath_run rt2 rt3 _ hc hAlone
      have hNone2 : ∀ u ∈ rt2.userPathStrings, ¬ u <+: r := by
        rw [hUser2, ← hUser]; exact hNone
      obtain ⟨k3, hk3, hf3, hv3⟩ := StringToPath_unprefixed rt2 rt3 r hc hSize3 hNone2 hAlone
      have hb3 := hklt _ k3 r hk3
      have h31 : k3 ≤ k1 := firstIndex_of_prefix r _ _ k1 k3 (hp2.trans hp3) hk1 hf3
      have h13 : k1 ≤ k3 := by
        by_contra hgt
        have hk3' : rt1.componentPathStrings[k3]? = some r := by
          obtain ⟨extra, hextra⟩ := hp2.trans hp3
          rw [← hextra, List.getElem?_append_left (by omega)] at hk3
          exact hk3
        exact hf1 k3 (by omega) hk3'
      have hk : k3 = k1 := by omega
      subst hk
      subst hv3
      omega
    · have hv1 := hln hhead
      have hv2 := hrn hhead
      subst hv1
      subst hv2
      refine ⟨by omega, ?_⟩
      intro hc rt3 _ _ hAlone
      have hAccepted : (rt2.StringToPath r).1 = XR_SUCCESS := by rw [hAlone]
      exact absurd (StringToPath_handle rt2 r hAccepted).1 hhead

/-- C32, as stated, fails for a string `r` that begins with a user path: the
handles of `/user/hand/left/user/head` and `/user/hand/right/user/head` have
the component half `1 << 32`, the index of the component `/user/head`, and
the handle of `/user/head` alone is 3, the index of the user path, with no
component half. -/
theorem packing_of_user_path_suffix :
    (MockRuntime.ctor.StringToPath ("/user/hand/left".toList ++ "/user/head".toList)).1 =
      XR_SUCCESS ∧
    (MockRuntime.ctor.StringToPath ("/user/hand/left".toList ++ "/user/head".toList)).2.1 =
      some (1 + 1 * 2 ^ 32) ∧
    ((MockRuntime.ctor.StringToPath
        ("/user/hand/left".toList ++ "/user/head".toList)).2.2.StringToPath
        ("/user/hand/right".toList ++ "/user/head".toList)).2.1 = some (2 + 1 * 2 ^ 32) ∧
    (((MockRuntime.ctor.StringToPath
        ("/user/hand/left".toList ++ "/user/head".toList)).2.2.StringToPath
        ("/user/hand/right".toList ++ "/user/head".toList)).2.2.StringToPath
        "/user/head".toList).1 = XR_SUCCESS ∧
    (((MockRuntime.ctor.StringToPath
        ("/user/hand/left".toList ++ "/user/head".toList)).2.2.StringToPath
        ("/user/hand/right".toList ++ "/user/head".toList)).2.2.StringToPath
        "/user/head".toList).2.1 = some 3 ∧
    (3 : Nat) ≠ (1 + 1 * 2 ^ 32) / 2 ^ 32 * 2 ^ 32 := by
  refine ⟨by decide, by decide, by decide, by decide, by decide, by decide⟩

/-- The packing on the runtime of the constructor: the handles of
`/user/hand/left/input/select`, `/user/hand/right/input/select` and
`/input/select`, interned in this order, are `1 + (1 << 32)`, `2 + (1 << 32)`
and `1 << 32`, and the handle of `/user/gamepad` is 4. -/
theorem StringToPath_packing_examples :
    (MockRuntime.ctor.StringToPath "/user/hand/left/input/select".toList).2.1 =
      some (1 + 1 * 2 ^ 32) ∧
    ((MockRuntime.ctor.StringToPath "/user/hand/left/input/select".toList).2.2.StringToPath
        "/user/hand/right/input/select".toList).2.1 = some (2 + 1 * 2 ^ 32) ∧
    (((MockRuntime.ctor.StringToPath "/user/hand/left/input/select".toList).2.2.StringToPath
        "/user/hand/right/input/select".toList).2.2.StringToPath "/input/select".toList).2.1 =
      some (1 * 2 ^ 32) ∧
    (MockRuntime.ctor.StringToPath "/user/gamepad".toList).2.1 = some 4 := by
  refine ⟨by decide, by decide, by decide, by decide⟩

/-- What the loop of `CreateAction` over the sub-action paths accepts: every
path is a valid user path, the paths are pairwise distinct, and none of them
is among the user paths the slot holds. -/
theorem CreateAction_subactionLoop_success (rt : MockRuntime) (paths : List XrPath) :
    ∀ userPaths : List XrPath,
      (CreateAction.subactionLoop rt paths userPaths).1 = XR_SUCCESS ↔
        (∀ p ∈ paths, rt.IsValidUserPath p = true) ∧ paths.Nodup ∧
          ∀ p ∈ paths, p ∉ userPaths := by
  induction paths with
  | nil => intro userPaths; simp [CreateAction.subactionLoop]
  | cons p more ih =>
    intro userPaths
    unfold CreateAction.subactionLoop
    by_cases hv : rt.IsValidUserPath p = true
    · by_cases hm : p ∈ userPaths
      · simp only [hv, Bool.not_true, Bool.false_eq_true, if_false, hm, if_true]
        constructor
        · intro h; exact absurd h (by decide)
        · intro h; exact absurd hm (h.2.2 p (List.mem_cons_self _ _))
      · simp only [hv, Bool.not_true, Bool.false_eq_true, if_false, hm]
        rw [ih]
        constructor
        · rintro ⟨h1, h2, h3⟩
          refine ⟨?_, ?_, ?_⟩
          · intro q hq
            rcases List.mem_cons.mp hq with h | h
            · rw [h]; exact hv
            · exact h1 q h
          · refine List.nodup_cons.mpr ⟨?_, h2⟩
            intro hp
            exact h3 p hp (List.mem_append_right _ (List.mem_singleton_self p))
          · intro q hq
            rcases List.mem_cons.mp hq with h | h
            · rw [h]; exact hm
            · intro hqu
              exact h3 q h (List.mem_append_left _ hqu)
        · rintro ⟨h1, h2, h3⟩
          have hnd := List.nodup_cons.mp h2
          refine ⟨fun q hq => h1 q (List.mem_cons_of_mem _ hq), hnd.2, ?_⟩
          intro q hq hqu
          rcases List.mem_append.mp hqu with h | h
          · exact h3 q (List.mem_cons_of_mem _ hq) h
          · rw [List.mem_singleton] at h
            rw [h] at hq
            exact hnd.1 hq
    · have hv2 : rt.IsValidUserPath p = false := by simpa using hv
      simp only [hv2, Bool.not_false, if_true]
      constructor
      · intro h; exact absurd h (by decide)
      · intro h
        have := h.1 p (List.mem_cons_self _ _)
        rw [hv2] at this
        exact absurd this (by decide)

/-- The sub-action paths of `CreateAction`, for a set that the handle resolves
to and a create info that passes the checks. When no slot is reused the call
succeeds exactly when every supplied path is a valid user path and the
supplied paths are pairwise distinct, as C34 states; when the slot of a
destroyed action is reused it succeeds exactly when, in addition, no supplied
path is among the user paths of the destroyed action, which the slot still
holds. In both cases it returns path-unsupported otherwise. -/
theorem CreateAction_subaction_paths (rt : MockRuntime) (actionSet : XrActionSet)
    (createInfo : XrActionCreateInfo) (si : Nat) (set : MockActionSet) (reused : Option Nat)
    (actionType : XrActionType)
    (hSet : rt.GetMockActionSet actionSet = some (si, set))
    (hCheck : CreateAction.check createInfo set = .ok (reused, actionType)) :
    (reused = none →
      ((rt.CreateAction actionSet createInfo).1 = XR_SUCCESS ↔
        (∀ p ∈ (createInfo.subactionPaths.getD []).take createInfo.countSubactionPaths,
          rt.IsValidUserPath p = true) ∧
        ((createInfo.subactionPaths.getD []).take createInfo.countSubactionPaths).Nodup)) ∧
    (∀ (slot : Nat) (old : MockAction), reused = some slot → set.actions[slot]? = some old →
      ((rt.CreateAction actionSet createInfo).1 = XR_SUCCESS ↔
        (∀ p ∈ (createInfo.subactionPaths.getD []).take createInfo.countSubactionPaths,
          rt.IsValidUserPath p = true) ∧
        ((createInfo.subactionPaths.getD []).take createInfo.countSubactionPaths).Nodup ∧
        ∀ p ∈ (createInfo.subactionPaths.getD []).take createInfo.countSubactionPaths,
          p ∉ old.userPaths)) ∧
    ((rt.CreateAction actionSet createInfo).1 ≠ XR_SUCCESS →
      (rt.CreateAction actionSet createInfo).1 = XR_ERROR_PATH_UNSUPPORTED) := by
  have hrun : rt.CreateAction actionSet createInfo =
      CreateAction.create rt actionSet createInfo si set reused actionType := by
    unfold CreateAction
    rw [hSet]
    dsimp only
    rw [hCheck]
  rw [hrun]
  refine ⟨?_, ?_, ?_⟩
  · intro hnone
    subst hnone
    unfold CreateAction.create CreateAction.fill
    dsimp only
    rw [CreateAction_subactionLoop_success]
    simp
  · intro slot old hsome hold
    subst hsome
    unfold CreateAction.create CreateAction.fill
    dsimp only
    rw [CreateAction_subactionLoop_success]
    rw [List.getD_eq_getElem?_getD, hold]
    rfl
  · intro hne
    rcases CreateAction_create_result rt actionSet createInfo si set reused actionType with h | h
    · exact absurd h hne
    · exact h

/-- The limit check of `CreateAction` has passed when the checks pass. -/
theorem CreateAction_check_limit (createInfo : XrActionCreateInfo) (mockActionSet : MockActionSet)
    (reused : Option Nat) (actionType : XrActionType)
    (h : CreateAction.check createInfo mockActionSet = .ok (reused, actionType)) :
    mockActionSet.actions.length < 0xFFFE := by
  by_contra hge
  have hge2 : mockActionSet.actions.length ≥ 0xFFFE := by omega
  unfold CreateAction.check at h
  repeat' (first | split at h | dsimp only at h)
  all_goals contradiction

/-- The handle that `CreateAction` computes for a slot, as a sum. -/
theorem CreateAction_handle (actionSet size : Nat) (hSet : actionSet ≤ 0xFFFE)
    (hSize : size ≤ 0xFFFE) :
    (actionSet + (size <<< 32) % 2 ^ 64) % 2 ^ 64 = actionSet + size * 2 ^ 32 ∧
    (actionSet + size * 2 ^ 32) &&& 0xFFFF = actionSet ∧
    (actionSet + size * 2 ^ 32) >>> 32 = size := by
  refine ⟨?_, ?_, ?_⟩
  · rw [Nat.shiftLeft_eq]
    omega
  · have e : (0xFFFF : Nat) = 2 ^ 16 - 1 := by norm_num
    rw [e, Nat.and_pow_two_sub_one_eq_mod]
    omega
  · rw [Nat.shiftRight_eq_div_pow]
    omega

/-- C36 for a fresh slot: when `CreateAction` succeeds without reusing a slot,
on a set whose handle is within the limit of `CreateActionSet`, the returned
handle is the handle of the set plus the new size of the collection in the
high 32 bits, `GetMockAction` resolves it to the action just created, at the
end of the collection of the set, with the name and the type of the create
info, and it differs from the handle of every action of the set whose high
half is within the former size of the collection. -/
theorem CreateAction_fresh_round_trip (rt rt1 : MockRuntime) (actionSet : XrActionSet)
    (createInfo : XrActionCreateInfo) (si : Nat) (set : MockActionSet)
    (actionType : XrActionType) (handle : Nat)
    (hSet : rt.GetMockActionSet actionSet = some (si, set))
    (hLimit : actionSet ≤ 0xFFFE)
    (hCheck : CreateAction.check createInfo set = .ok (none, actionType))
    (hCreated : rt.CreateAction actionSet createInfo = (XR_SUCCESS, some handle, rt1)) :
    handle = actionSet + (set.actions.length + 1) * 2 ^ 32 ∧
    (∃ created : MockAction,
      rt1.GetMockAction handle = some (si, set.actions.length, created) ∧
      created.action = handle ∧ created.name = createInfo.actionName ∧
      created.type = actionType ∧ created.isDestroyed = false) ∧
    ∀ other ∈ set.actions, other.action / 2 ^ 32 ≤ set.actions.length →
      other.action ≠ handle := by
  have hlen := CreateAction_check_limit createInfo set none actionType hCheck
  obtain ⟨hget, hhandle⟩ := GetMockActionSet_some rt actionSet si set hSet
  have hsi := GetMockActionSet_index rt actionSet si set hSet
  have hsilt : si < rt.actionSets.length := by
    rcases Nat.lt_or_ge si rt.actionSets.length with h | h
    · exact h
    · rw [List.getElem?_eq_none h] at hget
      exact absurd hget (by simp)
  obtain ⟨e1, e2, e3⟩ := CreateAction_handle actionSet (set.actions.length + 1) hLimit (by omega)
  have hrun : rt.CreateAction actionSet createInfo =
      CreateAction.create rt actionSet createInfo si set none actionType := by
    unfold CreateAction
    rw [hSet]
    dsimp only
    rw [hCheck]
  rw [hrun] at hCreated
  unfold CreateAction.create CreateAction.fill at hCreated
  dsimp only at hCreated
  injection hCreated with hres hrest
  injection hrest with hopt hrt
  rw [hres] at hopt
  rw [if_pos rfl, e1] at hopt
  have hh : handle = actionSet + (set.actions.length + 1) * 2 ^ 32 :=
    (Option.some.inj hopt).symm
  rw [e1] at hrt
  refine ⟨hh, ?_, ?_⟩
  · let created : MockAction :=
      { action := actionSet + (set.actions.length + 1) * 2 ^ 32
        path := 0
        name := createInfo.actionName
        localizedName := createInfo.localizedActionName
        type := actionType
        bindings := []
        userPaths :=
          (CreateAction.subactionLoop rt
            ((createInfo.subactionPaths.getD []).take createInfo.countSubactionPaths) []).2
        isDestroyed := false }
    refine ⟨created, ?_, hh.symm, rfl, rfl, rfl⟩
    rw [← hrt, hh]
    unfold GetMockAction GetMockActionSetOfAction
    dsimp only
    rw [e2, ← hsi, List.getElem?_set_self hsilt]
    dsimp only
    rw [e3]
    have hidx : (set.actions.length + 1 + (2 ^ 64 - 1)) % 2 ^ 64 = set.actions.length := by
      omega
    rw [hidx, List.getElem?_append_right (le_refl _), Nat.sub_self]
    simp only [List.getElem?_cons_zero]
    rw [if_neg (by simp)]
  · intro other _ hle heq
    have h0 : ∀ n : Nat, n = actionSet + (set.actions.length + 1) * 2 ^ 32 →
        n / 2 ^ 32 ≤ set.actions.length → False := by
      intro n hn hle
      omega
    exact h0 other.action (heq.trans hh) hle

/-- The indices at which `GetMockAction` finds an action are the two halves of
the handle, each less one. -/
theorem GetMockAction_indices (rt : MockRuntime) (action : XrAction) (si ai : Nat)
    (mockAction : MockAction) (h : rt.GetMockAction action = some (si, ai, mockAction)) :
    si = ((action &&& 0xFFFF) + (2 ^ 64 - 1)) % 2 ^ 64 ∧
    ai = ((action >>> 32) + (2 ^ 64 - 1)) % 2 ^ 64 := by
  unfold GetMockAction GetMockActionSetOfAction at h
  dsimp only at h
  cases hs : rt.actionSets[((action &&& 0xFFFF) + (2 ^ 64 - 1)) % 2 ^ 64]? with
  | none => rw [hs] at h; simp at h
  | some set =>
    rw [hs] at h
    dsimp only at h
    cases ha : set.actions[((action >>> 32) + (2 ^ 64 - 1)) % 2 ^ 64]? with
    | none => rw [ha] at h; simp at h
    | some found =>
      rw [ha] at h
      dsimp only at h
      by_cases hne : found.action ≠ action
      · rw [if_pos hne] at h; simp at h
      · rw [if_neg hne] at h
        simp only [Option.some.injEq, Prod.mk.injEq] at h
        exact ⟨h.1.symm, h.2.1.symm⟩

/-- The run of `DestroyAction` for a handle that resolves. -/
theorem DestroyAction_of_get (rt : MockRuntime) (action : XrAction) (si ai : Nat)
    (mockAction : MockAction) (set : MockActionSet)
    (hget : rt.GetMockAction action = some (si, ai, mockAction))
    (hset : rt.actionSets[si]? = some set) :
    rt.DestroyAction action =
      (XR_SUCCESS,
        { rt with
          actionSets :=
            rt.actionSets.set si
              { set with
                actions := set.actions.set ai { mockAction with isDestroyed := true } } }) := by
  unfold DestroyAction
  rw [hget]
  dsimp only
  rw [List.modify_eq_set_get?, List.get?_eq_getElem?, hset]
  rfl

/-- C37 in general: after `DestroyAction` has succeeded for a handle,
`GetMockAction` resolves the handle to the same slot, which holds the action
with its destroyed flag set, and a second `DestroyAction` for the handle
returns success and leaves the runtime as it is. -/
theorem DestroyAction_keeps_handle (rt : MockRuntime) (action : XrAction)
    (hDestroy : (rt.DestroyAction action).1 = XR_SUCCESS) :
    ∃ (si ai : Nat) (mockAction : MockAction),
      rt.GetMockAction action = some (si, ai, mockAction) ∧
      (rt.DestroyAction action).2.GetMockAction action =
        some (si, ai, { mockAction with isDestroyed := true }) ∧
      (rt.DestroyAction action).2.DestroyAction action =
        (XR_SUCCESS, (rt.DestroyAction action).2) := by
  cases hget : rt.GetMockAction action with
  | none =>
    unfold DestroyAction at hDestroy
    rw [hget] at hDestroy
    simp at hDestroy
  | some found =>
    obtain ⟨si, ai, mockAction⟩ := found
    obtain ⟨set, hset, hsetOf, hact, hhandle⟩ := GetMockAction_some rt action si ai mockAction hget
    obtain ⟨hsi, hai⟩ := GetMockAction_indices rt action si ai mockAction hget
    have hsilt : si < rt.actionSets.length := by
      rcases Nat.lt_or_ge si rt.actionSets.length with h | h
      · exact h
      · rw [List.getElem?_eq_none h] at hset
        exact absurd hset (by simp)
    have hailt : ai < set.actions.length := by
      rcases Nat.lt_or_ge ai set.actions.length with h | h
      · exact h
      · rw [List.getElem?_eq_none h] at hact
        exact absurd hact (by simp)
    have hrun := DestroyAction_of_get rt action si ai mockAction set hget hset
    have hset2 : (rt.DestroyAction action).2.actionSets[si]? =
        some { set with
          actions := set.actions.set ai { mockAction with isDestroyed := true } } := by
      rw [hrun]
      exact List.getElem?_set_self hsilt
    have hget2 : (rt.DestroyAction action).2.GetMockAction action =
        some (si, ai, { mockAction with isDestroyed := true }) := by
      unfold GetMockAction GetMockActionSetOfAction
      dsimp only
      rw [← hsi, hset2]
      dsimp only
      rw [← hai, List.getElem?_set_self hailt]
      dsimp only
      rw [if_neg (by simpa using hhandle)]
    refine ⟨si, ai, mockAction, rfl, hget2, ?_⟩
    rw [DestroyAction_of_get _ action si ai _ _ hget2 hset2]
    congr 1
    rw [hrun]
    dsimp only
    rw [List.set_set, List.set_set]

/-- The lookup `GetMockAction` reads the action sets alone. -/
theorem GetMockAction_of_actionSets (rt1 rt2 : MockRuntime) (action : XrAction)
    (h : rt1.actionSets = rt2.actionSets) : rt1.GetMockAction action = rt2.GetMockAction action := by
  unfold GetMockAction GetMockActionSetOfAction
  rw [h]

/-- No use of a handle that `GetMockAction` resolves returns handle-invalid:
the four `GetActionState` calls and `CreateActionSpace` for the handle, and a
`SuggestInteractionProfileBindings` call whose one suggested binding names
it. -/
theorem resolved_handle_accepted (rt : MockRuntime) (action : XrAction)
    (found : Nat × Nat × MockAction) (hget : rt.GetMockAction action = some found) :
    (∀ (getInfo : XrActionStateGetInfo) (state : Option XrStructureType),
      getInfo.action = action →
      (rt.GetActionStateFloat (some getInfo) state).1 ≠ XR_ERROR_HANDLE_INVALID) ∧
    (∀ getInfo : XrActionStateGetInfo, getInfo.action = action →
      (rt.GetActionStateBoolean (some getInfo)).1 ≠ XR_ERROR_HANDLE_INVALID ∧
      (rt.GetActionStateVector2f (some getInfo)).1 ≠ XR_ERROR_HANDLE_INVALID ∧
      (rt.GetActionStatePose (some getInfo)).1 ≠ XR_ERROR_HANDLE_INVALID) ∧
    (∀ (createInfo : XrActionSpaceCreateInfo) (space : Bool), createInfo.action = action →
      (rt.CreateActionSpace (some createInfo) space).1 ≠ XR_ERROR_HANDLE_INVALID) ∧
    (∀ (suggested : XrInteractionProfileSuggestedBinding) (binding : XrActionSuggestedBinding),
      suggested.suggestedBindings = some [binding] → binding.action = action →
      (rt.SuggestInteractionProfileBindings (some suggested)).1 ≠ XR_ERROR_HANDLE_INVALID) := by
  obtain ⟨si, ai, mockAction⟩ := found
  refine ⟨?_, ?_, ?_, ?_⟩
  · intro getInfo state hact
    subst hact
    unfold GetActionStateFloat
    dsimp only
    rw [hget]
    repeat' (first | split | dsimp only)
    all_goals first | (simp; done) | simp_all
  · intro getInfo hact
    refine ⟨?_, ?_, ?_⟩
    · subst hact
      unfold GetActionStateBoolean
      dsimp only
      rw [hget]
      repeat' (first | split | dsimp only)
      all_goals first | (simp; done) | simp_all
    · subst hact
      unfold GetActionStateVector2f
      dsimp only
      rw [hget]
      repeat' (first | split | dsimp only)
      all_goals first | (simp; done) | simp_all
    · subst hact
      unfold GetActionStatePose
      dsimp only
      rw [hget]
      repeat' (first | split | dsimp only)
      all_goals first | (simp; done) | simp_all
  · intro createInfo space hact
    subst hact
    unfold CreateActionSpace
    dsimp only
    rw [hget]
    repeat' (first | split | dsimp only)
    all_goals first | (simp; done) | simp_all
  · intro suggested binding hbindings hact
    have hloop : ∀ (mockProfile : MockInteractionProfile) (rt1 : MockRuntime) (n : Nat),
        rt1.actionSets = rt.actionSets →
        (SuggestInteractionProfileBindings.loop mockProfile ([binding].take n) rt1).1 ≠
          XR_ERROR_HANDLE_INVALID := by
      intro mockProfile rt1 n hsets
      cases n with
      | zero => simp [SuggestInteractionProfileBindings.loop]
      | succ n =>
        rw [List.take_succ_cons, List.take_nil]
        unfold SuggestInteractionProfileBindings.loop
        rw [hact, GetMockAction_of_actionSets rt1 rt action hsets, hget]
        dsimp only
        split
        · simp
        · split
          · simp
          · simp [SuggestInteractionProfileBindings.loop]
    have htail : ∀ activated : Bool × MockRuntime, activated.2.actionSets = rt.actionSets →
        (if !activated.1 then (XR_ERROR_PATH_UNSUPPORTED, activated.2)
          else
            match activated.2.GetMockInteractionProfile suggested.interactionProfile with
            | none => (XR_ERROR_PATH_UNSUPPORTED, activated.2)
            | some (_, mockProfile) =>
              SuggestInteractionProfileBindings.loop mockProfile
                ([binding].take suggested.countSuggestedBindings) activated.2).1 ≠
          XR_ERROR_HANDLE_INVALID := by
      intro activated hsets
      split
      · simp
      · split
        · simp
        · exact hloop _ _ _ hsets
    have hactive : ∀ p : XrPath,
        (rt.SetActiveInteractionProfile p).2.actionSets = rt.actionSets := by
      intro p
      unfold SetActiveInteractionProfile
      split <;> rfl
    unfold SuggestInteractionProfileBindings
    dsimp only
    rw [hbindings]
    dsimp only
    by_cases h1 : suggested.type ≠ XR_TYPE_INTERACTION_PROFILE_SUGGESTED_BINDING ∨
        suggested.countSuggestedBindings = 0
    · rw [if_pos h1]; simp
    · rw [if_neg h1]
      by_cases h2 : suggested.countSuggestedBindings = 0
      · rw [if_pos h2]; simp
      · rw [if_neg h2]
        by_cases h3 : rt.actionSetsAttached = true
        · rw [if_pos h3]; simp
        · rw [if_neg h3]
          apply htail
          by_cases h4 : rt.activeInteractionProfile = none
          · rw [if_pos h4]; exact hactive _
          · rw [if_neg h4]

/-- The scan of `DestroyActionSet` ends at an index that holds a set with the
handle. -/
theorem DestroyActionSet_scan_spec (actionSet : XrActionSet) (sets : List MockActionSet) :
    ∀ (i0 k : Nat), DestroyActionSet.scan actionSet sets i0 = some k →
      ∃ set, i0 ≤ k ∧ sets[k - i0]? = some set ∧ set.actionSet = actionSet := by
  induction sets with
  | nil => intro i0 k h; simp [DestroyActionSet.scan] at h
  | cons entry more ih =>
    intro i0 k h
    unfold DestroyActionSet.scan at h
    by_cases he : entry.actionSet = actionSet
    · rw [if_pos he] at h
      have hk : i0 = k := Option.some.inj h
      subst hk
      exact ⟨entry, le_refl _, by simp, he⟩
    · rw [if_neg he] at h
      obtain ⟨set, hle, hget, hset⟩ := ih (i0 + 1) k h
      refine ⟨set, by omega, ?_, hset⟩
      have hk : k - i0 = (k - (i0 + 1)) + 1 := by omega
      rw [hk, List.getElem?_cons_succ]
      exact hget

/-- C35 in general, on a runtime in which every action set has the handle that
`CreateActionSet` gave it, its index plus one: after `DestroyActionSet` has
succeeded for a handle, the smaller handles resolve as before, and no greater
handle resolves to a set, though the sets that had these handles are still in
the collection. -/
theorem DestroyActionSet_shifts (rt : MockRuntime) (a : Nat)
    (hIndexed : ∀ (i : Nat) (set : MockActionSet),
      rt.actionSets[i]? = some set → set.actionSet = i + 1)
    (hDestroy : (rt.DestroyActionSet a).1 = XR_SUCCESS) :
    (rt.DestroyActionSet a).2.actionSets = rt.actionSets.eraseIdx (a - 1) ∧
    ∀ (b : Nat) (found : Nat × MockActionSet), rt.GetMockActionSet b = some found →
      (b < a → (rt.DestroyActionSet a).2.GetMockActionSet b = some found) ∧
      (a < b → (rt.DestroyActionSet a).2.GetMockActionSet b = none ∧
        found.2 ∈ (rt.DestroyActionSet a).2.actionSets) := by
  have hlt : ∀ (sets : List MockActionSet) (k : Nat) (set : MockActionSet),
      sets[k]? = some set → k < sets.length := by
    intro sets k set hk
    rcases Nat.lt_or_ge k sets.length with h | h
    · exact h
    · rw [List.getElem?_eq_none h] at hk
      exact absurd hk (by simp)
  cases hscan : DestroyActionSet.scan a rt.actionSets 0 with
  | none =>
    unfold DestroyActionSet at hDestroy
    rw [hscan] at hDestroy
    simp at hDestroy
  | some k =>
    obtain ⟨set, _, hget, hset⟩ := DestroyActionSet_scan_spec a rt.actionSets 0 k hscan
    rw [Nat.sub_zero] at hget
    have hk : a = k + 1 := hset.symm.trans (hIndexed k set hget)
    have hklt := hlt _ k set hget
    have hrun : rt.DestroyActionSet a =
        (XR_SUCCESS, { rt with actionSets := rt.actionSets.eraseIdx k }) := by
      unfold DestroyActionSet
      rw [hscan]
    have hk1 : a - 1 = k := by omega
    rw [hrun, hk1]
    refine ⟨rfl, ?_⟩
    intro b found hb
    obtain ⟨bi, bset⟩ := found
    obtain ⟨hbget, hbset⟩ := GetMockActionSet_some rt b bi bset hb
    have hbi := GetMockActionSet_index rt b bi bset hb
    have hbilt := hlt _ bi bset hbget
    have hb1 : b = bi + 1 := hbset.symm.trans (hIndexed bi bset hbget)
    constructor
    · intro hba
      have hbk : bi < k := by omega
      unfold GetMockActionSet
      dsimp only
      rw [← hbi, List.getElem?_eraseIdx, if_pos hbk, hbget]
      dsimp only
      rw [if_neg (by simpa using hbset)]
    · intro hab
      have hkb : k < bi := by omega
      constructor
      · unfold GetMockActionSet
        dsimp only
        rw [← hbi, List.getElem?_eraseIdx, if_neg (by omega)]
        cases hnext : rt.actionSets[bi + 1]? with
        | none => rfl
        | some next =>
          dsimp only
          have hn := hIndexed (bi + 1) next hnext
          have hne : next.actionSet ≠ b := by
            intro e
            have e2 : bi + 1 + 1 = bi + 1 := hn.symm.trans (e.trans hb1)
            omega
          rw [if_pos hne]
      · dsimp only
        have hprev : (rt.actionSets.eraseIdx k)[bi - 1]? = some bset := by
          rw [List.getElem?_eraseIdx, if_neg (by omega)]
          have : bi - 1 + 1 = bi := by omega
          rw [this]
          exact hbget
        exact List.getElem?_mem hprev

/-- Witness of `StringToPath_packing`: the runtime of the constructor. -/
theorem StringToPath_packing_witness :
    (∀ (u r : CString) (i h : Nat) (rt1 : MockRuntime),
      rt1.componentPathStrings.length < 2 ^ 32 →
      MockRuntime.ctor.userPathStrings[i]? = some u → (r = [] ∨ r.head? = some '/') →
      MockRuntime.ctor.StringToPath (u ++ r) = (XR_SUCCESS, some h, rt1) →
      h % 2 ^ 32 = i + 1 ∧ (r = [] → h / 2 ^ 32 = 0) ∧
      (r ≠ [] →
        ∃ k : Nat, rt1.componentPathStrings[k]? = some r ∧
          (∀ j : Nat, j < k → rt1.componentPathStrings[j]? ≠ some r) ∧
          h / 2 ^ 32 = k + 1)) ∧
    (∀ (s : CString) (h : Nat) (rt1 : MockRuntime),
      rt1.componentPathStrings.length < 2 ^ 32 →
      (∀ u ∈ MockRuntime.ctor.userPathStrings, ¬ u <+: s) →
      MockRuntime.ctor.StringToPath s = (XR_SUCCESS, some h, rt1) →
      h % 2 ^ 32 = 0 ∧
      ∃ k : Nat, rt1.componentPathStrings[k]? = some s ∧
        (∀ j : Nat, j < k → rt1.componentPathStrings[j]? ≠ some s) ∧
        h / 2 ^ 32 = k + 1) ∧
    (∀ (r : CString) (hl hr : Nat) (rt1 rt2 : MockRuntime),
      rt2.componentPathStrings.length < 2 ^ 32 →
      MockRuntime.ctor.StringToPath ("/user/hand/left".toList ++ r) = (XR_SUCCESS, some hl, rt1) →
      rt1.StringToPath ("/user/hand/right".toList ++ r) = (XR_SUCCESS, some hr, rt2) →
      hl / 2 ^ 32 = hr / 2 ^ 32 ∧
      ∀ (hc : Nat) (rt3 : MockRuntime),
        rt3.componentPathStrings.length < 2 ^ 32 →
        (∀ u ∈ MockRuntime.ctor.userPathStrings, ¬ u <+: r) →
        rt2.StringToPath r = (XR_SUCCESS, some hc, rt3) →
        hc = hl / 2 ^ 32 * 2 ^ 32) :=
  StringToPath_packing MockRuntime.ctor rfl

/-- Witness of `loss_pending_absorbing`: a running session in the loss-pending
state, with requests for the ready and the loss-pending state and the four
session operations. -/
theorem loss_pending_absorbing_witness :
    (runUnforcedCalls lossPendingRuntime lossPendingCalls).currentState =
      XR_SESSION_STATE_LOSS_PENDING ∧
    ∃ extra : List XrEventDataBuffer,
      (runUnforcedCalls lossPendingRuntime lossPendingCalls).eventQueue =
        lossPendingRuntime.eventQueue ++ extra ∧
      ∀ event ∈ extra, event.sessionState = none :=
  loss_pending_absorbing lossPendingRuntime lossPendingCalls rfl

/-- The calls of the witness of C39 leave the state loss-pending and put the
interaction-profile-changed event of `BeginSession` into the queue; the
unforced request for the idle state is refused, and the forced one is
made. -/
theorem loss_pending_examples :
    (runUnforcedCalls lossPendingRuntime lossPendingCalls).currentState =
      XR_SESSION_STATE_LOSS_PENDING ∧
    (runUnforcedCalls lossPendingRuntime lossPendingCalls).eventQueue =
      [XrEventDataBuffer.interactionProfileChanged 3] ∧
    (xrTransitionMockToStateUNITY (some lossPendingRuntime) 3 XR_SESSION_STATE_IDLE false).1 =
      XR_ERROR_VALIDATION_FAILURE ∧
    (xrTransitionMockToStateUNITY (some lossPendingRuntime) 3 XR_SESSION_STATE_IDLE true).2.map
        (fun rt => (rt.currentState, rt.eventQueue)) =
      some (XR_SESSION_STATE_IDLE,
        [XrEventDataBuffer.sessionStateChanged 3 XR_SESSION_STATE_IDLE]) := by
  refine ⟨by decide, by decide, by decide, by decide⟩

/-- Witness of `issued_handle_stays_valid`: the handle of
`/user/hand/left/input/select`, issued by the runtime of the constructor, and
three later interner calls. -/
theorem issued_handle_stays_valid_witness :
    (4294967297 : Nat) ≠ XR_NULL_PATH ∧ internedRuntime.IsValidHandle 4294967297 = true ∧
    (runPathCalls internedRuntime laterPathCalls).IsValidHandle 4294967297 = true ∧
    (runPathCalls internedRuntime laterPathCalls).PathToString 4294967297 =
      internedRuntime.PathToString 4294967297 :=
  issued_handle_stays_valid MockRuntime.ctor internedRuntime
    "/user/hand/left/input/select".toList 4294967297 laterPathCalls (by decide) (by decide) rfl

/-- The tables and the string of the witness of C40. -/
theorem issued_handle_examples :
    (runPathCalls internedRuntime laterPathCalls).componentPathStrings =
      ["/input/select".toList, "/input/pose".toList, "/input/select/click".toList] ∧
    (runPathCalls internedRuntime laterPathCalls).PathToString 4294967297 =
      "/user/hand/left/input/select".toList ∧
    MockRuntime.ctor.IsValidHandle 4294967297 = false ∧
    MockRuntime.ctor.IsValidHandle XR_NULL_PATH = false := by
  refine ⟨by decide, by decide, by decide, by decide⟩

/-- The one-shot override on the runtime of the constructor: a result set for
`xrBeginSession` and overwritten is returned once, then success is returned,
and a result set for `xrEndSession` is not touched by the get for
`xrBeginSession`. -/
theorem expected_result_examples :
    ((((MockRuntime.ctor.SetExpectedResultForFunction "xrBeginSession".toList
        XR_ERROR_VALIDATION_FAILURE).SetExpectedResultForFunction "xrEndSession".toList
        XR_ERROR_HANDLE_INVALID).SetExpectedResultForFunction "xrBeginSession".toList
        XR_ERROR_LIMIT_REACHED).GetExpectedResultForFunction "xrBeginSession".toList).1 =
      XR_ERROR_LIMIT_REACHED ∧
    (((((MockRuntime.ctor.SetExpectedResultForFunction "xrBeginSession".toList
        XR_ERROR_VALIDATION_FAILURE).SetExpectedResultForFunction "xrEndSession".toList
        XR_ERROR_HANDLE_INVALID).SetExpectedResultForFunction "xrBeginSession".toList
        XR_ERROR_LIMIT_REACHED).GetExpectedResultForFunction
        "xrBeginSession".toList).2.GetExpectedResultForFunction "xrBeginSession".toList).1 =
      XR_SUCCESS ∧
    (((((MockRuntime.ctor.SetExpectedResultForFunction "xrBeginSession".toList
        XR_ERROR_VALIDATION_FAILURE).SetExpectedResultForFunction "xrEndSession".toList
        XR_ERROR_HANDLE_INVALID).SetExpectedResultForFunction "xrBeginSession".toList
        XR_ERROR_LIMIT_REACHED).GetExpectedResultForFunction
        "xrBeginSession".toList).2.GetExpectedResultForFunction "xrEndSession".toList).1 =
      XR_ERROR_HANDLE_INVALID := by
  refine ⟨by decide, by decide, by decide⟩

/-- An application of `CreateAction_fresh_round_trip` and of
`CreateAction_subaction_paths`: the first action of the set "gameplay", with
the left hand as its one sub-action path. -/
theorem CreateAction_fresh_examples :
    (4294967297 = 1 + ((gameplaySet.actions.length + 1) * 2 ^ 32) ∧
      (∃ created : MockAction,
        leftFireCreated.2.2.GetMockAction 4294967297 =
          some (0, gameplaySet.actions.length, created) ∧
        created.action = 4294967297 ∧
        created.name = (booleanInfo "fire" "Fire" [1]).actionName ∧
        created.type = XR_ACTION_TYPE_BOOLEAN_INPUT ∧ created.isDestroyed = false) ∧
      ∀ other ∈ gameplaySet.actions, other.action / 2 ^ 32 ≤ gameplaySet.actions.length →
        other.action ≠ 4294967297) ∧
    ((gameplayRuntime.CreateAction 1 (booleanInfo "fire" "Fire" [1])).1 = XR_SUCCESS ↔
      (∀ p ∈ ((booleanInfo "fire" "Fire" [1]).subactionPaths.getD []).take
          (booleanInfo "fire" "Fire" [1]).countSubactionPaths,
        gameplayRuntime.IsValidUserPath p = true) ∧
      (((booleanInfo "fire" "Fire" [1]).subactionPaths.getD []).take
        (booleanInfo "fire" "Fire" [1]).countSubactionPaths).Nodup) :=
  ⟨CreateAction_fresh_round_trip gameplayRuntime leftFireCreated.2.2 1
      (booleanInfo "fire" "Fire" [1]) 0 gameplaySet XR_ACTION_TYPE_BOOLEAN_INPUT 4294967297
      rfl (by decide) rfl rfl,
    (CreateAction_subaction_paths gameplayRuntime 1 (booleanInfo "fire" "Fire" [1]) 0
      gameplaySet none XR_ACTION_TYPE_BOOLEAN_INPUT rfl rfl).1 rfl⟩

/-- An application of `DestroyAction_keeps_handle` and of
`resolved_handle_accepted`: the action "fire" of `clickRuntime`. -/
theorem DestroyAction_keeps_handle_examples :
    (∃ (si ai : Nat) (mockAction : MockAction),
      clickRuntime.GetMockAction 4294967297 = some (si, ai, mockAction) ∧
      (clickRuntime.DestroyAction 4294967297).2.GetMockAction 4294967297 =
        some (si, ai, { mockAction with isDestroyed := true }) ∧
      (clickRuntime.DestroyAction 4294967297).2.DestroyAction 4294967297 =
        (XR_SUCCESS, (clickRuntime.DestroyAction 4294967297).2)) ∧
    (clickFireDestroyed.2.SuggestInteractionProfileBindings (some clickBindings)).1 ≠
      XR_ERROR_HANDLE_INVALID :=
  ⟨DestroyAction_keeps_handle clickRuntime 4294967297 (by decide),
    (resolved_handle_accepted clickFireDestroyed.2 4294967297
      (0, 0, { fireAction with isDestroyed := true }) (by decide)).2.2.2 clickBindings
      { action := 4294967297, binding := 8589934593 } rfl rfl⟩

/-- An application of `DestroyActionSet_shifts`: the sets "gameplay" and "menu",
and the handle of "menu" after "gameplay" was destroyed. -/
theorem DestroyActionSet_shifts_examples :
    (twoSetsRuntime.DestroyActionSet 1).2.actionSets = twoSetsRuntime.actionSets.eraseIdx (1 - 1) ∧
    ∀ (b : Nat) (found : Nat × MockActionSet), twoSetsRuntime.GetMockActionSet b = some found →
      (b < 1 → (twoSetsRuntime.DestroyActionSet 1).2.GetMockActionSet b = some found) ∧
      (1 < b → (twoSetsRuntime.DestroyActionSet 1).2.GetMockActionSet b = none ∧
        found.2 ∈ (twoSetsRuntime.DestroyActionSet 1).2.actionSets) :=
  DestroyActionSet_shifts twoSetsRuntime 1
    (by
      intro i set h
      have hsets : twoSetsRuntime.actionSets =
          [{ actionSet := 1, attached := false, name := "gameplay".toList,
             localizedName := "Gameplay".toList, isDestroyed := false, actions := [] },
           { actionSet := 2, attached := false, name := "menu".toList,
             localizedName := "Menu".toList, isDestroyed := false, actions := [] }] := by
        decide
      rw [hsets] at h
      rcases i with _ | _ | i
      · simp only [List.getElem?_cons_zero, Option.some.injEq] at h
        rw [← h]
      · simp only [List.getElem?_cons_succ, List.getElem?_cons_zero, Option.some.injEq] at h
        rw [← h]
      · simp at h)
    (by decide)

/-! ## Failed calls of the binding engine: what stays applied -/

/-- The lookup of a set after the set at an index was marked attached: the
same index, and the set with the mark when it is the marked one. -/
theorem GetMockActionSet_marked (rt : MockRuntime) (j : Nat) (sj : MockActionSet)
    (hj : rt.actionSets[j]? = some sj) (handle : XrActionSet) :
    ({ rt with actionSets := rt.actionSets.set j { sj with attached := true } } :
        MockRuntime).GetMockActionSet handle =
      (rt.GetMockActionSet handle).map
        (fun found => (found.1, if found.1 = j then { found.2 with attached := true } else found.2)) := by
  have hlt : j < rt.actionSets.length := by
    by_contra hc
    rw [List.getElem?_eq_none (by omega)] at hj
    exact Option.noConfusion hj
  unfold GetMockActionSet
  dsimp only
  by_cases hidx : (handle + (2 ^ 64 - 1)) % 2 ^ 64 = j
  · rw [hidx, List.getElem?_set_self hlt, hj]
    dsimp only
    by_cases hne : sj.actionSet ≠ handle
    · rw [if_pos hne, if_pos hne]; rfl
    · rw [if_neg hne, if_neg hne]; simp
  · rw [List.getElem?_set_ne (Ne.symm hidx)]
    cases hget : rt.actionSets[(handle + (2 ^ 64 - 1)) % 2 ^ 64]? with
    | none => rfl
    | some s =>
      dsimp only
      by_cases hne : s.actionSet ≠ handle
      · rw [if_pos hne]; rfl
      · rw [if_neg hne]
        simp only [Option.map_some']
        rw [if_neg hidx]

/-- When the loop of `AttachSessionActionSets` fails, the handles before the
first one that names no set all name a set, and the sets they name are marked
attached; every other set is as it was. -/
theorem AttachSessionActionSets_loop_exact (handles : List XrActionSet) :
    ∀ rt : MockRuntime,
      (AttachSessionActionSets.loop handles rt).1 = XR_ERROR_HANDLE_INVALID →
      ∃ (done : List XrActionSet) (unknown : XrActionSet) (rest : List XrActionSet),
        handles = done ++ unknown :: rest ∧
        rt.GetMockActionSet unknown = none ∧
        (∀ handle ∈ done, ∃ found, rt.GetMockActionSet handle = some found) ∧
        (AttachSessionActionSets.loop handles rt).2.actionSets.length = rt.actionSets.length ∧
        ∀ (i : Nat) (set : MockActionSet), rt.actionSets[i]? = some set →
          (AttachSessionActionSets.loop handles rt).2.actionSets[i]? =
            some (if done.any (fun handle => decide (rt.GetMockActionSet handle = some (i, set)))
              then { set with attached := true } else set) := by
  induction handles with
  | nil =>
    intro rt h
    simp [AttachSessionActionSets.loop] at h
  | cons handle more ih =>
    intro rt h
    rw [AttachSessionActionSets.loop] at h ⊢
    cases hget : rt.GetMockActionSet handle with
    | none =>
      refine ⟨[], handle, more, rfl, hget, fun _ hm => absurd hm (List.not_mem_nil _), rfl, ?_⟩
      intro i set hi
      simpa using hi
    | some found =>
      obtain ⟨j, sj⟩ := found
      rw [hget] at h
      dsimp only at h ⊢
      obtain ⟨hj, hhandle⟩ := GetMockActionSet_some rt handle j sj hget
      have hlt : j < rt.actionSets.length := by
        by_contra hc
        rw [List.getElem?_eq_none (by omega)] at hj
        exact Option.noConfusion hj
      obtain ⟨done, unknown, rest, hsplit, hunknown, hdone, hlen, hsets⟩ := ih _ h
      have hmark := GetMockActionSet_marked rt j sj hj
      refine ⟨handle :: done, unknown, rest, by rw [hsplit]; rfl, ?_, ?_, ?_, ?_⟩
      · have := hmark unknown
        rw [hunknown] at this
        cases hu : rt.GetMockActionSet unknown with
        | none => rfl
        | some f => rw [hu] at this; simp at this
      · intro handle1 hm
        rcases List.mem_cons.mp hm with rfl | hm
        · exact ⟨_, hget⟩
        · obtain ⟨f, hf⟩ := hdone handle1 hm
          have := hmark handle1
          rw [hf] at this
          cases hu : rt.GetMockActionSet handle1 with
          | none => rw [hu] at this; simp at this
          | some f1 => exact ⟨f1, rfl⟩
      · rw [hlen]
        simp
      · intro i set hi
        have hany : ∀ (s1 s2 : MockActionSet), s2.actionSet = s1.actionSet →
            rt.actionSets[i]? = some s1 →
            ({ rt with actionSets := rt.actionSets.set j { sj with attached := true } } :
              MockRuntime).actionSets[i]? = some s2 →
            done.any (fun handle1 => decide
              (({ rt with actionSets := rt.actionSets.set j { sj with attached := true } } :
                MockRuntime).GetMockActionSet handle1 = some (i, s2))) =
            done.any (fun handle1 => decide (rt.GetMockActionSet handle1 = some (i, s1))) := by
          intro s1 s2 hsame h1 h2
          apply congrArg (fun p => done.any p)
          funext handle1
          rw [hmark handle1]
          cases hu : rt.GetMockActionSet handle1 with
          | none => simp
          | some f1 =>
            obtain ⟨k, sk⟩ := f1
            obtain ⟨hk, hkh⟩ := GetMockActionSet_some rt handle1 k sk hu
            by_cases hki : k = i
            · subst hki
              rw [hk] at h1
              simp only [Option.some.injEq] at h1
              subst h1
              have h2a : ({ rt with actionSets := rt.actionSets.set j { sj with attached := true } } :
                  MockRuntime).GetMockActionSet handle1 = some (k, s2) := by
                have hidx := GetMockActionSet_index rt handle1 k sk hu
                have := GetMockActionSet_of_getElem
                  ({ rt with actionSets := rt.actionSets.set j { sj with attached := true } } :
                    MockRuntime) handle1 s2 (by rw [← hidx]; exact h2) (by rw [hsame, hkh])
                rw [← hidx] at this
                exact this
              rw [hmark handle1, hu] at h2a
              simp only [Option.map_some'] at h2a ⊢
              rw [h2a]
              simp
            · simp [hki]
        by_cases hij : i = j
        · subst hij
          rw [hj] at hi
          simp only [Option.some.injEq] at hi
          subst hi
          have hnew : ({ rt with actionSets := rt.actionSets.set i { sj with attached := true } } :
              MockRuntime).actionSets[i]? = some { sj with attached := true } := by
            dsimp only
            rw [List.getElem?_set_self hlt]
          rw [hsets i _ hnew]
          have hfirst : decide (rt.GetMockActionSet handle = some (i, sj)) = true :=
            decide_eq_true hget
          simp only [List.any_cons, hfirst, Bool.true_or, if_true]
          split <;> rfl
        · have hnew : ({ rt with actionSets := rt.actionSets.set j { sj with attached := true } } :
              MockRuntime).actionSets[i]? = some set := by
            dsimp only
            rw [List.getElem?_set_ne (Ne.symm hij)]
            exact hi
          rw [hsets i _ hnew, hany set set rfl hi hnew]
          have hfirst : decide (rt.GetMockActionSet handle = some (i, set)) = false := by
            apply decide_eq_false
            rw [hget]
            intro e
            simp only [Option.some.injEq, Prod.mk.injEq] at e
            exact hij e.1.symm
          simp only [List.any_cons, hfirst, Bool.false_or]

/-- C23, amended: when `AttachSessionActionSets` returns an error, the
session-wide attached flag and every member of the runtime other than the
action sets are as they were, every set is at its place with its flag as it
was or set, and no flag is cleared. When the error is other than
handle-invalid the runtime is as it was. When it is handle-invalid, the array
holds a first handle that names no set; the handles before it all name a set,
each of these sets is attached after the call, and every other set is as it
was, its flag included. -/
theorem AttachSessionActionSets_failure (rt : MockRuntime)
    (attachInfo : Option XrSessionActionSetsAttachInfo)
    (hError : (rt.AttachSessionActionSets attachInfo).1 ≠ XR_SUCCESS) :
    (rt.AttachSessionActionSets attachInfo).2 =
      { rt with actionSets := (rt.AttachSessionActionSets attachInfo).2.actionSets } ∧
    ((rt.AttachSessionActionSets attachInfo).1 ≠ XR_ERROR_HANDLE_INVALID →
      (rt.AttachSessionActionSets attachInfo).2 = rt) ∧
    ((rt.AttachSessionActionSets attachInfo).2.setFlags.length = rt.setFlags.length ∧
      ∀ (i : Nat) (ident : XrActionSet × CString × CString) (flag : Bool),
        rt.setFlags[i]? = some (ident, flag) →
        (rt.AttachSessionActionSets attachInfo).2.setFlags[i]? = some (ident, flag) ∨
          (rt.AttachSessionActionSets attachInfo).2.setFlags[i]? = some (ident, true)) ∧
    ((rt.AttachSessionActionSets attachInfo).1 = XR_ERROR_HANDLE_INVALID →
      ∃ (info : XrSessionActionSetsAttachInfo) (handles done : List XrActionSet)
        (unknown : XrActionSet) (rest : List XrActionSet),
        attachInfo = some info ∧ info.actionSets = some handles ∧
        handles.take info.countActionSets = done ++ unknown :: rest ∧
        (rt.AttachSessionActionSets attachInfo).2.GetMockActionSet unknown = none ∧
        ∀ handle ∈ done, ∃ found,
          (rt.AttachSessionActionSets attachInfo).2.GetMockActionSet handle = some found ∧
            found.2.attached = true) ∧
    ((rt.AttachSessionActionSets attachInfo).1 = XR_ERROR_HANDLE_INVALID →
      ∃ (info : XrSessionActionSetsAttachInfo) (handles done : List XrActionSet)
        (unknown : XrActionSet) (rest : List XrActionSet),
        attachInfo = some info ∧ info.actionSets = some handles ∧
        handles.take info.countActionSets = done ++ unknown :: rest ∧
        rt.GetMockActionSet unknown = none ∧
        (∀ handle ∈ done, ∃ found, rt.GetMockActionSet handle = some found) ∧
        (rt.AttachSessionActionSets attachInfo).2.actionSets.length = rt.actionSets.length ∧
        ∀ (i : Nat) (set : MockActionSet), rt.actionSets[i]? = some set →
          (rt.AttachSessionActionSets attachInfo).2.actionSets[i]? =
            some (if done.any
                (fun handle => decide (rt.GetMockActionSet handle = some (i, set)))
              then { set with attached := true } else set)) := by
  obtain ⟨h1, h2, h3, h4⟩ := AttachSessionActionSets_error_flags rt attachInfo hError
  refine ⟨h1, h2, h3, h4, ?_⟩
  intro hinv
  unfold AttachSessionActionSets at hinv ⊢
  cases attachInfo with
  | none => simp at hinv
  | some info =>
    dsimp only at hinv ⊢
    by_cases hty : info.type ≠ XR_TYPE_SESSION_ACTION_SETS_ATTACH_INFO
    · rw [if_pos hty] at hinv; simp at hinv
    · rw [if_neg hty] at hinv ⊢
      cases hsets : info.actionSets with
      | none => rw [hsets] at hinv; simp at hinv
      | some handles =>
        rw [hsets] at hinv
        dsimp only at hinv ⊢
        by_cases hcount : info.countActionSets = 0
        · rw [if_pos hcount] at hinv; simp at hinv
        · rw [if_neg hcount] at hinv ⊢
          by_cases hatt : rt.actionSetsAttached = true
          · rw [if_pos hatt] at hinv; simp at hinv
          · rw [if_neg hatt] at hinv ⊢
            by_cases hloop :
                (AttachSessionActionSets.loop (handles.take info.countActionSets) rt).1 ≠
                  XR_SUCCESS
            · rw [if_pos hloop] at hinv ⊢
              obtain ⟨done, unknown, rest, hsplit, hunknown, hdone, hlen, hexact⟩ :=
                AttachSessionActionSets_loop_exact _ rt hinv
              exact ⟨info, handles, done, unknown, rest, rfl, hsets, hsplit, hunknown, hdone,
                hlen, hexact⟩
            · rw [if_neg hloop] at hinv; simp at hinv

/-- Witness of `AttachSessionActionSets_failure`: the failing call with
`brokenAttachInfo`. -/
theorem AttachSessionActionSets_failure_witness :
    (gameplayRuntime.AttachSessionActionSets (some brokenAttachInfo)).2 =
      { gameplayRuntime with actionSets := (gameplayRuntime.AttachSessionActionSets (some brokenAttachInfo)).2.actionSets } ∧
    ((gameplayRuntime.AttachSessionActionSets (some brokenAttachInfo)).1 ≠ XR_ERROR_HANDLE_INVALID →
      (gameplayRuntime.AttachSessionActionSets (some brokenAttachInfo)).2 = gameplayRuntime) ∧
    ((gameplayRuntime.AttachSessionActionSets (some brokenAttachInfo)).2.setFlags.length = gameplayRuntime.setFlags.length ∧
      ∀ (i : Nat) (ident : XrActionSet × CString × CString) (flag : Bool),
        gameplayRuntime.setFlags[i]? = some (ident, flag) →
        (gameplayRuntime.AttachSessionActionSets (some brokenAttachInfo)).2.setFlags[i]? = some (ident, flag) ∨
          (gameplayRuntime.AttachSessionActionSets (some brokenAttachInfo)).2.setFlags[i]? = some (ident, true)) ∧
    ((gameplayRuntime.AttachSessionActionSets (some brokenAttachInfo)).1 = XR_ERROR_HANDLE_INVALID →
      ∃ (info : XrSessionActionSetsAttachInfo) (handles done : List XrActionSet)
        (unknown : XrActionSet) (rest : List XrActionSet),
        (some brokenAttachInfo) = some info ∧ info.actionSets = some handles ∧
        handles.take info.countActionSets = done ++ unknown :: rest ∧
        (gameplayRuntime.AttachSessionActionSets (some brokenAttachInfo)).2.GetMockActionSet unknown = none ∧
        ∀ handle ∈ done, ∃ found,
          (gameplayRuntime.AttachSessionActionSets (some brokenAttachInfo)).2.GetMockActionSet handle = some found ∧
            found.2.attached = true) ∧
    ((gameplayRuntime.AttachSessionActionSets (some brokenAttachInfo)).1 = XR_ERROR_HANDLE_INVALID →
      ∃ (info : XrSessionActionSetsAttachInfo) (handles done : List XrActionSet)
        (unknown : XrActionSet) (rest : List XrActionSet),
        (some brokenAttachInfo) = some info ∧ info.actionSets = some handles ∧
        handles.take info.countActionSets = done ++ unknown :: rest ∧
        gameplayRuntime.GetMockActionSet unknown = none ∧
        (∀ handle ∈ done, ∃ found, gameplayRuntime.GetMockActionSet handle = some found) ∧
        (gameplayRuntime.AttachSessionActionSets (some brokenAttachInfo)).2.actionSets.length = gameplayRuntime.actionSets.length ∧
        ∀ (i : Nat) (set : MockActionSet), gameplayRuntime.actionSets[i]? = some set →
          (gameplayRuntime.AttachSessionActionSets (some brokenAttachInfo)).2.actionSets[i]? =
            some (if done.any
                (fun handle => decide (gameplayRuntime.GetMockActionSet handle = some (i, set)))
              then { set with attached := true } else set)) :=
  AttachSessionActionSets_failure gameplayRuntime (some brokenAttachInfo) (by decide)

/-- When the loop over the suggested bindings fails, the suggestions before
the failing one have all been applied, and the loop ends as the failing
suggestion alone does on the runtime they leave. -/
theorem SuggestInteractionProfileBindings_loop_split (mockProfile : MockInteractionProfile)
    (bindingArray : List XrActionSuggestedBinding) :
    ∀ rt : MockRuntime,
      (SuggestInteractionProfileBindings.loop mockProfile bindingArray rt).1 ≠ XR_SUCCESS →
      ∃ (done : List XrActionSuggestedBinding) (failing : XrActionSuggestedBinding)
        (rest : List XrActionSuggestedBinding) (applied : MockRuntime),
        bindingArray = done ++ failing :: rest ∧
        SuggestInteractionProfileBindings.loop mockProfile done rt = (XR_SUCCESS, applied) ∧
        SuggestInteractionProfileBindings.loop mockProfile bindingArray rt =
          SuggestInteractionProfileBindings.loop mockProfile [failing] applied ∧
        (SuggestInteractionProfileBindings.loop mockProfile [failing] applied).2.actionSets =
          applied.actionSets ∧
        (SuggestInteractionProfileBindings.loop mockProfile [failing]
          applied).2.activeInteractionProfile = applied.activeInteractionProfile := by
  induction bindingArray with
  | nil =>
    intro rt h
    simp [SuggestInteractionProfileBindings.loop] at h
  | cons sb more ih =>
    intro rt h
    have hhere : ∀ applied : MockRuntime,
        (SuggestInteractionProfileBindings.loop mockProfile [sb] applied).1 ≠ XR_SUCCESS →
        (SuggestInteractionProfileBindings.loop mockProfile [sb] applied).2.actionSets =
          applied.actionSets ∧
        (SuggestInteractionProfileBindings.loop mockProfile [sb]
          applied).2.activeInteractionProfile = applied.activeInteractionProfile := by
      intro applied hne
      rw [SuggestInteractionProfileBindings.loop] at hne ⊢
      cases hact : applied.GetMockAction sb.action with
      | none => exact ⟨rfl, rfl⟩
      | some triple =>
        obtain ⟨sj, aj, mockAction⟩ := triple
        rw [hact] at hne
        dsimp only at hne ⊢
        obtain ⟨_, hsets, _, hactive⟩ := GetMockInputState_frame applied mockProfile
          sb.binding mockAction.type true
        by_cases hu : applied.GetUserPath sb.binding = XR_NULL_PATH
        · rw [if_pos hu]; exact ⟨rfl, rfl⟩
        · rw [if_neg hu] at hne ⊢
          cases hfound : (applied.GetMockInputState mockProfile sb.binding
              mockAction.type true).1 with
          | none => exact ⟨hsets, hactive⟩
          | some inputState =>
            rw [hfound] at hne
            simp [SuggestInteractionProfileBindings.loop] at hne
    rw [SuggestInteractionProfileBindings.loop] at h
    cases hact : rt.GetMockAction sb.action with
    | none =>
      have hfail : (SuggestInteractionProfileBindings.loop mockProfile [sb] rt).1 ≠
          XR_SUCCESS := by
        rw [SuggestInteractionProfileBindings.loop, hact]
        simp
      refine ⟨[], sb, more, rt, rfl, rfl, ?_, (hhere rt hfail).1, (hhere rt hfail).2⟩
      rw [SuggestInteractionProfileBindings.loop, SuggestInteractionProfileBindings.loop, hact]
    | some triple =>
      obtain ⟨sj, aj, mockAction⟩ := triple
      rw [hact] at h
      dsimp only at h
      by_cases hu : rt.GetUserPath sb.binding = XR_NULL_PATH
      · have hfail : (SuggestInteractionProfileBindings.loop mockProfile [sb] rt).1 ≠
            XR_SUCCESS := by
          rw [SuggestInteractionProfileBindings.loop, hact]
          dsimp only
          rw [if_pos hu]
          simp
        refine ⟨[], sb, more, rt, rfl, rfl, ?_, (hhere rt hfail).1, (hhere rt hfail).2⟩
        rw [SuggestInteractionProfileBindings.loop, SuggestInteractionProfileBindings.loop,
          hact]
        dsimp only
        rw [if_pos hu, if_pos hu]
      · rw [if_neg hu] at h
        cases hfound : (rt.GetMockInputState mockProfile sb.binding mockAction.type true).1 with
        | none =>
          have hfail : (SuggestInteractionProfileBindings.loop mockProfile [sb] rt).1 ≠
              XR_SUCCESS := by
            rw [SuggestInteractionProfileBindings.loop, hact]
            dsimp only
            rw [if_neg hu, hfound]
            simp
          refine ⟨[], sb, more, rt, rfl, rfl, ?_, (hhere rt hfail).1, (hhere rt hfail).2⟩
          rw [SuggestInteractionProfileBindings.loop, SuggestInteractionProfileBindings.loop,
            hact]
          dsimp only
          rw [if_neg hu, if_neg hu, hfound]
        | some inputState =>
          rw [hfound] at h
          dsimp only at h
          obtain ⟨done, failing, rest, applied, hsplit, hdone, hsame, hsets, hactive⟩ := ih _ h
          refine ⟨sb :: done, failing, rest, applied, by rw [hsplit]; rfl, ?_, ?_, hsets,
            hactive⟩
          · rw [SuggestInteractionProfileBindings.loop, hact]
            dsimp only
            rw [if_neg hu, hfound]
            exact hdone
          · rw [SuggestInteractionProfileBindings.loop, hact]
            dsimp only
            rw [if_neg hu, hfound]
            exact hsame

/-- The loop over the suggested bindings, when it succeeds, leaves the active
profile as it was, and every action has its former bindings followed by one
state of the profile that was passed in for each suggestion whose handle
points at the action. -/
theorem SuggestInteractionProfileBindings_loop_count (mockProfile : MockInteractionProfile)
    (bindingArray : List XrActionSuggestedBinding) :
    ∀ rt rt1 : MockRuntime,
      SuggestInteractionProfileBindings.loop mockProfile bindingArray rt = (XR_SUCCESS, rt1) →
      rt1.inputStates = rt.inputStates ∧
      rt1.activeInteractionProfile = rt.activeInteractionProfile ∧
      ∀ (si ai : Nat) (before : List Nat), rt.actionBindings si ai = some before →
        ∃ appended, rt1.actionBindings si ai = some (before ++ appended) ∧
          appended.length =
            bindingArray.countP (fun sb => decide (actionIndices sb.action = (si, ai))) ∧
          ∀ i ∈ appended, ∃ st, rt.inputStates[i]? = some st ∧
            st.interactionProfile = mockProfile.path := by
  induction bindingArray with
  | nil =>
    intro rt rt1 h
    simp only [SuggestInteractionProfileBindings.loop, Prod.mk.injEq, true_and] at h
    subst h
    refine ⟨rfl, rfl, ?_⟩
    intro si ai before hb
    exact ⟨[], by simpa using hb, by simp, by simp⟩
  | cons suggestedBinding more ih =>
    intro rt rt1 h
    rw [SuggestInteractionProfileBindings.loop] at h
    cases hact : rt.GetMockAction suggestedBinding.action with
    | none => simp [hact] at h
    | some triple =>
      obtain ⟨sj, aj, mockAction⟩ := triple
      simp only [hact] at h
      have hidx : actionIndices suggestedBinding.action = (sj, aj) := by
        obtain ⟨h1, h2⟩ := GetMockAction_indices rt _ _ _ _ hact
        unfold actionIndices
        rw [← h1, ← h2]
      split_ifs at h with hu
      · simp at h
      · cases hfound : (rt.GetMockInputState mockProfile suggestedBinding.binding
            mockAction.type true).1 with
        | none => simp [hfound] at h
        | some inputState =>
          simp only [hfound] at h
          obtain ⟨hst, hsets, hprofs, hactive⟩ := GetMockInputState_frame rt mockProfile
            suggestedBinding.binding mockAction.type true
          obtain ⟨hpst, hpprofs, hpactive⟩ := pushBinding_frame
            (rt.GetMockInputState mockProfile suggestedBinding.binding mockAction.type true).2
            sj aj inputState
          obtain ⟨h1, h3, h4⟩ := ih _ _ h
          have hbind := GetMockAction_actionBindings rt _ _ _ _ hact
          have hbind2 : (rt.GetMockInputState mockProfile suggestedBinding.binding
              mockAction.type true).2.actionBindings sj aj = some mockAction.bindings := by
            unfold actionBindings at hbind ⊢
            rw [hsets]
            exact hbind
          refine ⟨by rw [h1, hpst, hst], by rw [h3, hpactive, hactive], ?_⟩
          intro si ai before hb
          have hpush := pushBinding_actionBindings _ sj aj inputState _ hbind2 si ai
          have hsame : (rt.GetMockInputState mockProfile suggestedBinding.binding
              mockAction.type true).2.actionBindings si ai = some before := by
            unfold actionBindings at hb ⊢
            rw [hsets]
            exact hb
          have hnew := GetMockInputState_some rt mockProfile _ _ _ _ hfound
          by_cases hij : si = sj ∧ ai = aj
          · obtain ⟨rfl, rfl⟩ := hij
            rw [if_pos ⟨rfl, rfl⟩] at hpush
            rw [hbind2] at hsame
            simp only [Option.some.injEq] at hsame
            subst hsame
            obtain ⟨appended, happ, hlen, hall⟩ := h4 _ _ _ hpush
            refine ⟨inputState :: appended, ?_, ?_, ?_⟩
            · rw [happ]; simp
            · rw [List.countP_cons_of_pos _ _ (by simp [hidx]), List.length_cons, hlen]
            · intro i hi
              rcases List.mem_cons.mp hi with rfl | hi
              · exact hnew
              · have := hall i hi
                rwa [hpst, hst] at this
          · rw [if_neg hij, hsame] at hpush
            obtain ⟨appended, happ, hlen, hall⟩ := h4 _ _ _ hpush
            refine ⟨appended, happ, ?_, ?_⟩
            · rw [List.countP_cons_of_neg _ _ (by
                simp only [hidx, decide_eq_true_eq, Prod.mk.injEq]
                intro e
                exact hij ⟨e.1.symm, e.2.symm⟩), hlen]
            · intro i hi
              have := hall i hi
              rwa [hpst, hst] at this

/-- A single failing suggestion returns handle-invalid exactly when its handle
names no action. -/
theorem SuggestInteractionProfileBindings_loop_single (mockProfile : MockInteractionProfile)
    (failing : XrActionSuggestedBinding) (applied : MockRuntime)
    (h : (SuggestInteractionProfileBindings.loop mockProfile [failing] applied).1 ≠ XR_SUCCESS) :
    ((SuggestInteractionProfileBindings.loop mockProfile [failing] applied).1 =
        XR_ERROR_HANDLE_INVALID ∨
      (SuggestInteractionProfileBindings.loop mockProfile [failing] applied).1 =
        XR_ERROR_PATH_UNSUPPORTED) ∧
    ((SuggestInteractionProfileBindings.loop mockProfile [failing] applied).1 =
        XR_ERROR_HANDLE_INVALID ↔ applied.GetMockAction failing.action = none) := by
  rw [SuggestInteractionProfileBindings.loop] at h ⊢
  cases hact : applied.GetMockAction failing.action with
  | none => exact ⟨Or.inl rfl, fun _ => rfl, fun _ => rfl⟩
  | some triple =>
    obtain ⟨sj, aj, mockAction⟩ := triple
    rw [hact] at h
    dsimp only at h ⊢
    by_cases hu : applied.GetUserPath failing.binding = XR_NULL_PATH
    · rw [if_pos hu]
      exact ⟨Or.inr rfl, fun e => by simp at e, fun e => by simp at e⟩
    · rw [if_neg hu] at h ⊢
      cases hfound : (applied.GetMockInputState mockProfile failing.binding
          mockAction.type true).1 with
      | none => exact ⟨Or.inr rfl, fun e => by simp at e, fun e => by simp at e⟩
      | some inputState =>
        rw [hfound] at h
        simp [SuggestInteractionProfileBindings.loop] at h

/-- The run of `SuggestInteractionProfileBindings` behind its checks, for a
call that passes them and names a profile the runtime knows. -/
theorem SuggestInteractionProfileBindings_run (rt : MockRuntime)
    (suggested : XrInteractionProfileSuggestedBinding) (k : Nat)
    (mockProfile : MockInteractionProfile)
    (hProfile : rt.GetMockInteractionProfile suggested.interactionProfile = some (k, mockProfile))
    (hValid : (rt.SuggestInteractionProfileBindings (some suggested)).1 ≠
      XR_ERROR_VALIDATION_FAILURE)
    (hAttached : (rt.SuggestInteractionProfileBindings (some suggested)).1 ≠
      XR_ERROR_ACTIONSETS_ALREADY_ATTACHED) :
    ∃ bindingArray, suggested.suggestedBindings = some bindingArray ∧
      rt.SuggestInteractionProfileBindings (some suggested) =
        SuggestInteractionProfileBindings.loop mockProfile
          (bindingArray.take suggested.countSuggestedBindings)
          { rt with
            activeInteractionProfile :=
              if rt.activeInteractionProfile = none then some k
              else rt.activeInteractionProfile } := by
  unfold SuggestInteractionProfileBindings at hValid hAttached ⊢
  dsimp only at hValid hAttached ⊢
  by_cases hty : suggested.type ≠ XR_TYPE_INTERACTION_PROFILE_SUGGESTED_BINDING ∨
      suggested.countSuggestedBindings = 0
  · rw [if_pos hty] at hValid; exact absurd rfl hValid
  · rw [if_neg hty] at hValid hAttached ⊢
    by_cases hcount : suggested.countSuggestedBindings = 0
    · rw [if_pos hcount] at hValid; exact absurd rfl hValid
    · rw [if_neg hcount] at hValid hAttached ⊢
      cases harr : suggested.suggestedBindings with
      | none => rw [harr] at hValid; exact absurd rfl hValid
      | some bindingArray =>
        rw [harr] at hValid hAttached
        dsimp only at hValid hAttached ⊢
        by_cases hatt : rt.actionSetsAttached = true
        · rw [if_pos hatt] at hAttached; exact absurd rfl hAttached
        · rw [if_neg hatt]
          refine ⟨bindingArray, rfl, ?_⟩
          by_cases hnone : rt.activeInteractionProfile = none
          · have hprof1 : ({ rt with activeInteractionProfile := some k } :
                MockRuntime).GetMockInteractionProfile suggested.interactionProfile =
                  some (k, mockProfile) := hProfile
            simp only [hnone, if_true, SetActiveInteractionProfile, hProfile, Bool.not_true,
              Bool.false_eq_true, if_false, hprof1]
          · simp only [hnone, if_false, Bool.not_true, Bool.false_eq_true, hProfile]

/-- C22, amended: when `SuggestInteractionProfileBindings` returns
validation-failure or actionsets-already-attached, or names a profile the
runtime does not know, the runtime is as it was. A profile that was active
before the call is the active one after it. In every other case of an error
the profile the call names is known and the call returns handle-invalid or
path-unsupported for a first suggestion that fails: the profile the call
names is the active one afterwards when none was active, the suggestions
before the failing one have all been applied, the call ends as the failing
suggestion alone does on the runtime they leave, with handle-invalid exactly
when its handle names no action, and every action has its former bindings
followed by one source of the named profile for each suggestion before the
failing one whose handle points at the action. -/
theorem SuggestInteractionProfileBindings_failure (rt : MockRuntime)
    (arg : Option XrInteractionProfileSuggestedBinding)
    (hError : (rt.SuggestInteractionProfileBindings arg).1 ≠ XR_SUCCESS) :
    ((rt.SuggestInteractionProfileBindings arg).1 = XR_ERROR_VALIDATION_FAILURE ∨
        (rt.SuggestInteractionProfileBindings arg).1 = XR_ERROR_ACTIONSETS_ALREADY_ATTACHED →
      (rt.SuggestInteractionProfileBindings arg).2 = rt) ∧
    (∀ suggested, arg = some suggested →
      rt.GetMockInteractionProfile suggested.interactionProfile = none →
      (rt.SuggestInteractionProfileBindings arg).2 = rt) ∧
    (rt.activeInteractionProfile ≠ none →
      (rt.SuggestInteractionProfileBindings arg).2.activeInteractionProfile =
        rt.activeInteractionProfile) ∧
    (∀ (suggested : XrInteractionProfileSuggestedBinding) (k : Nat)
        (mockProfile : MockInteractionProfile),
      arg = some suggested →
      rt.GetMockInteractionProfile suggested.interactionProfile = some (k, mockProfile) →
      (rt.SuggestInteractionProfileBindings arg).1 ≠ XR_ERROR_VALIDATION_FAILURE →
      (rt.SuggestInteractionProfileBindings arg).1 ≠ XR_ERROR_ACTIONSETS_ALREADY_ATTACHED →
      ((rt.SuggestInteractionProfileBindings arg).1 = XR_ERROR_HANDLE_INVALID ∨
        (rt.SuggestInteractionProfileBindings arg).1 = XR_ERROR_PATH_UNSUPPORTED) ∧
      (rt.SuggestInteractionProfileBindings arg).2.activeInteractionProfile =
        (if rt.activeInteractionProfile = none then some k
          else rt.activeInteractionProfile) ∧
      ∃ (bindingArray done : List XrActionSuggestedBinding) (failing : XrActionSuggestedBinding)
        (rest : List XrActionSuggestedBinding) (applied : MockRuntime),
        suggested.suggestedBindings = some bindingArray ∧
        bindingArray.take suggested.countSuggestedBindings = done ++ failing :: rest ∧
        SuggestInteractionProfileBindings.loop mockProfile done
            { rt with
              activeInteractionProfile :=
                if rt.activeInteractionProfile = none then some k
                else rt.activeInteractionProfile } = (XR_SUCCESS, applied) ∧
        rt.SuggestInteractionProfileBindings arg =
          SuggestInteractionProfileBindings.loop mockProfile [failing] applied ∧
        (rt.SuggestInteractionProfileBindings arg).2.actionSets = applied.actionSets ∧
        ((rt.SuggestInteractionProfileBindings arg).1 = XR_ERROR_HANDLE_INVALID ↔
          applied.GetMockAction failing.action = none) ∧
        ∀ (si ai : Nat) (before : List Nat), rt.actionBindings si ai = some before →
          ∃ appended,
            (rt.SuggestInteractionProfileBindings arg).2.actionBindings si ai =
              some (before ++ appended) ∧
            appended.length =
              done.countP (fun sb => decide (actionIndices sb.action = (si, ai))) ∧
            ∀ i ∈ appended, ∃ st, rt.inputStates[i]? = some st ∧
              st.interactionProfile = suggested.interactionProfile) := by
  obtain ⟨h1, h2, h3, _⟩ := SuggestInteractionProfileBindings_error_frame rt arg hError
  refine ⟨h1, h2, h3, ?_⟩
  intro suggested k mockProfile harg hProfile hValid hAttached
  subst harg
  obtain ⟨bindingArray, harr, hrun⟩ :=
    SuggestInteractionProfileBindings_run rt suggested k mockProfile hProfile hValid hAttached
  rw [hrun] at hError ⊢
  obtain ⟨done, failing, rest, applied, hsplit, hdone, hsame, hsets, hactive⟩ :=
    SuggestInteractionProfileBindings_loop_split mockProfile _ _ hError
  rw [hsame] at hError ⊢
  obtain ⟨hwhich, hinvalid⟩ :=
    SuggestInteractionProfileBindings_loop_single mockProfile failing applied hError
  obtain ⟨hst, hact, hbind⟩ := SuggestInteractionProfileBindings_loop_count mockProfile done _ _
    hdone
  obtain ⟨_, _, hpath⟩ := GetMockInteractionProfile_loop_some _ _ _ _ _ hProfile
  refine ⟨hwhich, by rw [hactive, hact], bindingArray, done, failing, rest, applied, harr,
    hsplit, hdone, rfl, hsets, hinvalid, ?_⟩
  intro si ai before hb
  obtain ⟨appended, happ, hlen, hall⟩ := hbind si ai before hb
  refine ⟨appended, ?_, hlen, fun i hi => hpath ▸ hall i hi⟩
  unfold actionBindings at happ ⊢
  rw [hsets]
  exact happ

/-- Witness of `SuggestInteractionProfileBindings_failure`: the failing call
with `brokenBindings`. -/
theorem SuggestInteractionProfileBindings_failure_witness :
    ((motionControllerPath.2.SuggestInteractionProfileBindings (some brokenBindings)).1 = XR_ERROR_VALIDATION_FAILURE ∨
        (motionControllerPath.2.SuggestInteractionProfileBindings (some brokenBindings)).1 = XR_ERROR_ACTIONSETS_ALREADY_ATTACHED →
      (motionControllerPath.2.SuggestInteractionProfileBindings (some brokenBindings)).2 = motionControllerPath.2) ∧
    (∀ suggested, (some brokenBindings) = some suggested →
      motionControllerPath.2.GetMockInteractionProfile suggested.interactionProfile = none →
      (motionControllerPath.2.SuggestInteractionProfileBindings (some brokenBindings)).2 = motionControllerPath.2) ∧
    (motionControllerPath.2.activeInteractionProfile ≠ none →
      (motionControllerPath.2.SuggestInteractionProfileBindings (some brokenBindings)).2.activeInteractionProfile =
        motionControllerPath.2.activeInteractionProfile) ∧
    (∀ (suggested : XrInteractionProfileSuggestedBinding) (k : Nat)
        (mockProfile : MockInteractionProfile),
      (some brokenBindings) = some suggested →
      motionControllerPath.2.GetMockInteractionProfile suggested.interactionProfile = some (k, mockProfile) →
      (motionControllerPath.2.SuggestInteractionProfileBindings (some brokenBindings)).1 ≠ XR_ERROR_VALIDATION_FAILURE →
      (motionControllerPath.2.SuggestInteractionProfileBindings (some brokenBindings)).1 ≠ XR_ERROR_ACTIONSETS_ALREADY_ATTACHED →
      ((motionControllerPath.2.SuggestInteractionProfileBindings (some brokenBindings)).1 = XR_ERROR_HANDLE_INVALID ∨
        (motionControllerPath.2.SuggestInteractionProfileBindings (some brokenBindings)).1 = XR_ERROR_PATH_UNSUPPORTED) ∧
      (motionControllerPath.2.SuggestInteractionProfileBindings (some brokenBindings)).2.activeInteractionProfile =
        (if motionControllerPath.2.activeInteractionProfile = none then some k
          else motionControllerPath.2.activeInteractionProfile) ∧
      ∃ (bindingArray done : List XrActionSuggestedBinding) (failing : XrActionSuggestedBinding)
        (rest : List XrActionSuggestedBinding) (applied : MockRuntime),
        suggested.suggestedBindings = some bindingArray ∧
        bindingArray.take suggested.countSuggestedBindings = done ++ failing :: rest ∧
        SuggestInteractionProfileBindings.loop mockProfile done
            { motionControllerPath.2 with
              activeInteractionProfile :=
                if motionControllerPath.2.activeInteractionProfile = none then some k
                else motionControllerPath.2.activeInteractionProfile } = (XR_SUCCESS, applied) ∧
        motionControllerPath.2.SuggestInteractionProfileBindings (some brokenBindings) =
          SuggestInteractionProfileBindings.loop mockProfile [failing] applied ∧
        (motionControllerPath.2.SuggestInteractionProfileBindings (some brokenBindings)).2.actionSets = applied.actionSets ∧
        ((motionControllerPath.2.SuggestInteractionProfileBindings (some brokenBindings)).1 = XR_ERROR_HANDLE_INVALID ↔
          applied.GetMockAction failing.action = none) ∧
        ∀ (si ai : Nat) (before : List Nat), motionControllerPath.2.actionBindings si ai = some before →
          ∃ appended,
            (motionControllerPath.2.SuggestInteractionProfileBindings (some brokenBindings)).2.actionBindings si ai =
              some (before ++ appended) ∧
            appended.length =
              done.countP (fun sb => decide (actionIndices sb.action = (si, ai))) ∧
            ∀ i ∈ appended, ∃ st, motionControllerPath.2.inputStates[i]? = some st ∧
              st.interactionProfile = suggested.interactionProfile) :=
  SuggestInteractionProfileBindings_failure motionControllerPath.2 (some brokenBindings)
    (ne_of_eq_of_ne brokenSuggestion_eval.1 (by decide))

end OpenXRMock
